import Mathlib

/-!
# chttp2 transport: control-plane model

A shallow embedding of `src/core/ext/transport/chttp2/transport/chttp2_transport.cc`.

* The transport and the stream objects are records; a stream pointer is a
  natural number indexing `grpc_chttp2_transport.streams`.
* Every handler that runs under the combiner is a function on the transport
  record.  A handler that can hit a `CHECK` returns `Option`: `none` is the
  abort.
* Closures handed to `ExecCtx::Run`, to the combiner or to the endpoint are not
  run in place: they are recorded (`exec_ctx`, `finally_write_action_begin`,
  `endpoint_writes_in_flight`, `ping_on_ack`, `tarpit_timers`) and run as
  later steps of the transition system, as in the source.
* `remove_stream` and the functions that reach it call each other; the cycle
  is cut at `remove_stream`, which the other functions take as a parameter
  and which is closed by `remove_stream_fuel`.
-/

namespace Chttp2

/-! ## Statuses (`grpc_error_handle`) -/

/-- Modelled from the spec: `absl::Status` as used for `grpc_error_handle`
(status.h and error.cc are not in src/): either OK, or an error carrying a
message, the optional integer properties `kRpcStatus` and `kHttp2Error`, and
the child errors attached to it. -/
inductive Status where
  | OkStatus
  | Error (msg : String) (rpc_status : Option Nat) (http2_error : Option Nat)
      (children : List Status)

namespace Status

/-- Transcription of `error.ok()`. -/
def ok : Status → Bool
  | OkStatus => true
  | Error _ _ _ _ => false

/-- The message of a status, empty for OK. -/
def message : Status → String
  | OkStatus => ""
  | Error m _ _ _ => m

/-- The `kRpcStatus` property, when set. -/
def rpc : Status → Option Nat
  | OkStatus => none
  | Error _ r _ _ => r

/-- The `kHttp2Error` property, when set. -/
def http2 : Status → Option Nat
  | OkStatus => none
  | Error _ _ h _ => h

/-- The child errors. -/
def children : Status → List Status
  | OkStatus => []
  | Error _ _ _ c => c

mutual
/-- Equality test of two statuses (`absl::Status::operator==`). -/
def beq : Status → Status → Bool
  | OkStatus, OkStatus => true
  | Error m r h cs, Error m2 r2 h2 cs2 =>
      decide (m = m2) && decide (r = r2) && decide (h = h2) && beqList cs cs2
  | _, _ => false
/-- Equality test of two lists of statuses. -/
def beqList : List Status → List Status → Bool
  | [], [] => true
  | a :: as, b :: bs => beq a b && beqList as bs
  | _, _ => false
end

mutual
/-- Modelled from the spec: `grpc_error_has_clear_grpc_status` (error_utils.cc
is not in src/): the status or one of its descendants carries `kRpcStatus`. -/
def has_clear_grpc_status : Status → Bool
  | OkStatus => false
  | Error _ r _ cs => r.isSome || has_clear_grpc_status_list cs
/-- The same test over a list of children. -/
def has_clear_grpc_status_list : List Status → Bool
  | [] => false
  | c :: cs => has_clear_grpc_status c || has_clear_grpc_status_list cs
end

end Status

/-- gRPC status code UNAVAILABLE. -/
def GRPC_STATUS_UNAVAILABLE : Nat := 14
/-- gRPC status code OK. -/
def GRPC_STATUS_OK : Nat := 0
/-- gRPC status code UNKNOWN. -/
def GRPC_STATUS_UNKNOWN : Nat := 2
/-- HTTP/2 error code NO_ERROR. -/
def GRPC_HTTP2_NO_ERROR : Nat := 0
/-- HTTP/2 error code INTERNAL_ERROR. -/
def GRPC_HTTP2_INTERNAL_ERROR : Nat := 2
/-- HTTP/2 error code SETTINGS_TIMEOUT. -/
def GRPC_HTTP2_SETTINGS_TIMEOUT : Nat := 4
/-- HTTP/2 error code REFUSED_STREAM. -/
def GRPC_HTTP2_REFUSED_STREAM : Nat := 7
/-- HTTP/2 error code CANCEL. -/
def GRPC_HTTP2_CANCEL : Nat := 8
/-- HTTP/2 error code ENHANCE_YOUR_CALM. -/
def GRPC_HTTP2_ENHANCE_YOUR_CALM : Nat := 11
/-- HTTP/2 error code INADEQUATE_SECURITY. -/
def GRPC_HTTP2_INADEQUATE_SECURITY : Nat := 12

/-- Transcription of the macro `MAX_CLIENT_STREAM_ID` (0x7fffffff). -/
def MAX_CLIENT_STREAM_ID : Nat := 0x7fffffff

/-- Modelled from the spec: `GRPC_ERROR_CREATE` makes a non-OK status carrying
only its message. -/
def GRPC_ERROR_CREATE (msg : String) : Status := .Error msg none none []

/-- Modelled from the spec: `GRPC_ERROR_CREATE_REFERENCING` makes a non-OK
status whose children are the non-OK referenced errors. -/
def GRPC_ERROR_CREATE_REFERENCING (msg : String) (refs : List Status) : Status :=
  .Error msg none none (refs.filter (fun e => !e.ok))

/-- Modelled from the spec: `grpc_error_set_int(e, kRpcStatus, v)` attaches the
gRPC status to a non-OK status. -/
def grpc_error_set_rpc_status (e : Status) (v : Nat) : Status :=
  match e with
  | .OkStatus => .OkStatus
  | .Error m _ h c => .Error m (some v) h c

/-- Modelled from the spec: `grpc_error_set_int(e, kHttp2Error, v)` attaches the
HTTP/2 error code to a non-OK status. -/
def grpc_error_set_http2_error (e : Status) (v : Nat) : Status :=
  match e with
  | .OkStatus => .OkStatus
  | .Error m r _ c => .Error m r (some v) c

/-- Modelled from the spec: `grpc_error_add_child` (error.cc is not in src/). -/
def grpc_error_add_child (src child : Status) : Status :=
  match src with
  | .OkStatus => child
  | .Error m r h c => if child.ok then src else .Error m r h (c ++ [child])

/-- Modelled from the spec: the table `grpc_status_to_http2_error`. -/
def grpc_status_to_http2_error (status : Nat) : Nat :=
  if status = 0 then GRPC_HTTP2_NO_ERROR
  else if status = 1 then GRPC_HTTP2_CANCEL
  else if status = 4 then GRPC_HTTP2_CANCEL
  else if status = 8 then GRPC_HTTP2_ENHANCE_YOUR_CALM
  else if status = 7 then GRPC_HTTP2_INADEQUATE_SECURITY
  else if status = 14 then GRPC_HTTP2_REFUSED_STREAM
  else GRPC_HTTP2_INTERNAL_ERROR

/-- Modelled from the spec: the table `grpc_http2_error_to_grpc_status`. -/
def grpc_http2_error_to_grpc_status (err : Nat) : Nat :=
  if err = 0 then GRPC_STATUS_OK
  else if err = 8 then 1
  else if err = 11 then 8
  else if err = 12 then 7
  else if err = 7 then GRPC_STATUS_UNAVAILABLE
  else 13

/-- Modelled from the spec: the gRPC status that `grpc_error_get_status`
reports (error_utils.cc is not in src/). -/
def grpc_error_get_grpc_status (e : Status) : Nat :=
  match e with
  | .OkStatus => GRPC_STATUS_OK
  | .Error _ (some r) _ _ => r
  | .Error _ none (some h) _ => grpc_http2_error_to_grpc_status h
  | .Error _ none none _ => GRPC_STATUS_UNKNOWN

/-- Modelled from the spec: the HTTP/2 error code that `grpc_error_get_status`
reports. -/
def grpc_error_get_http2_error (e : Status) : Nat :=
  match e with
  | .OkStatus => GRPC_HTTP2_NO_ERROR
  | .Error _ _ (some h) _ => h
  | .Error _ (some r) none _ => grpc_status_to_http2_error r
  | .Error _ none none _ => GRPC_HTTP2_INTERNAL_ERROR

/-! ## Enumerations -/

/-- Transcription of `grpc_chttp2_write_state`. -/
inductive grpc_chttp2_write_state where
  | IDLE
  | WRITING
  | WRITING_WITH_MORE
  deriving DecidableEq

/-- Transcription of `grpc_chttp2_sent_goaway_state`. -/
inductive grpc_chttp2_sent_goaway_state where
  | NO_GOAWAY_SEND
  | GRACEFUL_GOAWAY
  | FINAL_GOAWAY_SEND_SCHEDULED
  | FINAL_GOAWAY_SENT
  deriving DecidableEq

/-- Transcription of `grpc_published_metadata_method`. -/
inductive grpc_published_metadata_method where
  | NOT_PUBLISHED
  | SYNTHESIZED_FROM_FAKE
  | PUBLISHED_FROM_WIRE
  | PUBLISHED_AT_CLOSE
  deriving DecidableEq

/-- Values of `GrpcStreamNetworkState`. -/
inductive GrpcStreamNetworkState where
  | kNotSentOnWire
  | kNotSeenByServer
  deriving DecidableEq

/-- Transcription of `grpc_chttp2_keepalive_state`. -/
inductive grpc_chttp2_keepalive_state where
  | WAITING
  | PINGING
  | DYING
  | DISABLED
  deriving DecidableEq

/-- Values of `grpc_connectivity_state` used by the transport. -/
inductive grpc_connectivity_state where
  | READY
  | TRANSIENT_FAILURE
  | SHUTDOWN
  deriving DecidableEq

/-- Transcription of `grpc_chttp2_initiate_write_reason`. -/
inductive grpc_chttp2_initiate_write_reason where
  | INITIAL_WRITE
  | START_NEW_STREAM
  | SEND_MESSAGE
  | SEND_INITIAL_METADATA
  | SEND_TRAILING_METADATA
  | RETRY_SEND_PING
  | CONTINUE_PINGS
  | GOAWAY_SENT
  | RST_STREAM
  | CLOSE_FROM_API
  | STREAM_FLOW_CONTROL
  | TRANSPORT_FLOW_CONTROL
  | SEND_SETTINGS
  | SETTINGS_ACK
  | FLOW_CONTROL_UNSTALLED_BY_SETTING
  | FLOW_CONTROL_UNSTALLED_BY_UPDATE
  | APPLICATION_PING
  | BDP_PING
  | KEEPALIVE_PING
  | TRANSPORT_FLOW_CONTROL_UNSTALLED
  | PING_RESPONSE
  | FORCE_RST_STREAM
  deriving DecidableEq

/-- Values of `FlowControlAction::Urgency`. -/
inductive Urgency where
  | NO_ACTION_NEEDED
  | UPDATE_IMMEDIATELY
  | QUEUE_UPDATE
  deriving DecidableEq

/-- Modelled from the spec: the `FlowControlAction` record produced by the
flow-control component (flow_control.cc is not in src/). -/
structure FlowControlAction where
  send_stream_update : Urgency := .NO_ACTION_NEEDED
  send_transport_update : Urgency := .NO_ACTION_NEEDED
  send_initial_window_update : Urgency := .NO_ACTION_NEEDED
  send_max_frame_size_update : Urgency := .NO_ACTION_NEEDED
  preferred_rx_crypto_frame_size_update : Urgency := .NO_ACTION_NEEDED
  initial_window_size : Nat := 0
  max_frame_size : Nat := 0
  preferred_rx_crypto_frame_size : Nat := 0

/-- Modelled from the spec: what `grpc_deframe_unprocessed_incoming_frames`
(frame_data.cc is not in src/) answers for a stream: pending, or ready with a
status and the number of bytes it leaves in `frame_storage`. -/
inductive DeframeResult where
  | pending
  | ready (status : Status) (remaining : Nat)

/-- The closures the transport hands to `ExecCtx::Run`: closures of the
layer above, named by a number, and the ack callback of `GracefulGoaway`. -/
inductive Closure where
  | app (c : Nat)
  | graceful_goaway_on_ping_ack
  | finish_keepalive_ping
  deriving DecidableEq

/-- A slice of an outgoing buffer: literal bytes, or the bytes of a string. -/
inductive Slice where
  | bytes (b : List Nat)
  | str (s : String)
  deriving DecidableEq

/-- Length in bytes of a slice. -/
def Slice.length : Slice → Nat
  | .bytes b => b.length
  | .str s => s.utf8ByteSize

/-- What is queued on `qbuf`: frames made by the absent frame encoders are
kept symbolic, hand-built slices are kept as bytes. -/
inductive QItem where
  | goaway (last_stream_id : Nat) (error_code : Nat) (debug_data : String)
  | rst_stream (id : Nat) (error_code : Nat)
  | slice (s : Slice)
  deriving DecidableEq

/-- The work `MaybeTarpit` may defer: the two lambdas of
`grpc_chttp2_cancel_stream` and `close_from_api` with their captures. -/
inductive TarpitFn where
  | rst_stream (id : Nat) (http_error : Nat)
  | close_from_api (sent_initial_metadata : Bool) (id : Nat) (grpc_status : Nat)
      (message : String)
  deriving DecidableEq

/-- A metadata batch, reduced to its key/value pairs. -/
abbrev Metadata := List (String × String)

/-! ## The stream and the transport -/

/-- The fields of `grpc_chttp2_stream` the control plane reads or writes. -/
structure grpc_chttp2_stream where
  id : Nat := 0
  read_closed : Bool := false
  write_closed : Bool := false
  read_closed_error : Status := .OkStatus
  write_closed_error : Status := .OkStatus
  seen_error : Bool := false
  sent_initial_metadata : Bool := false
  sent_trailing_metadata : Bool := false
  eos_received : Bool := false
  eos_sent : Bool := false
  /-- The entry `GrpcStreamNetworkState` of `trailing_metadata_buffer`. -/
  trailing_network_state : Option GrpcStreamNetworkState := none
  /-- The entry `GrpcStatusMetadata` of `trailing_metadata_buffer`. -/
  trailing_grpc_status : Option Nat := none
  /-- The entry `GrpcMessageMetadata` of `trailing_metadata_buffer`. -/
  trailing_grpc_message : Option String := none
  initial_metadata_buffer : Metadata := []
  published_metadata_0 : grpc_published_metadata_method := .NOT_PUBLISHED
  published_metadata_1 : grpc_published_metadata_method := .NOT_PUBLISHED
  recv_initial_metadata_ready : Option Nat := none
  /-- The slot `*recv_initial_metadata` of the layer above. -/
  recv_initial_metadata : Option Metadata := none
  /-- The pointer `trailing_metadata_available` is non-null. -/
  trailing_metadata_available : Bool := false
  /-- The boolean `trailing_metadata_available` points to. -/
  trailing_metadata_available_value : Bool := false
  parsed_trailers_only : Bool := false
  recv_message_ready : Option Nat := none
  /-- The slot `*recv_message` holds a value. -/
  recv_message_has_value : Bool := false
  /-- The pointer `call_failed_before_recv_message` is non-null. -/
  call_failed_before_recv_message : Bool := false
  /-- The boolean `call_failed_before_recv_message` points to. -/
  call_failed_before_recv_message_value : Bool := false
  recv_trailing_metadata_finished : Option Nat := none
  /-- The slot `*recv_trailing_metadata` received the trailing metadata. -/
  recv_trailing_metadata_moved : Bool := false
  /-- The pointer `collecting_stats` is non-null. -/
  collecting_stats : Bool := false
  final_metadata_requested : Bool := false
  /-- The field `frame_storage.length`. -/
  frame_storage : Nat := 0
  send_initial_metadata : Bool := false
  send_initial_metadata_finished : Option Nat := none
  send_trailing_metadata : Bool := false
  send_trailing_metadata_finished : Option Nat := none
  send_message_finished : Option Nat := none
  /-- The list `on_write_finished_cbs`: pairs (call_at_byte, closure). -/
  on_write_finished_cbs : List (Int × Nat) := []
  /-- The list `on_flow_controlled_cbs`: pairs (call_at_byte, closure). -/
  on_flow_controlled_cbs : List (Int × Nat) := []
  flow_controlled_buffer : List Slice := []
  flow_controlled_bytes_written : Int := 0
  next_message_end_offset : Int := 0
  write_buffering : Bool := false
  /-- Answer of the deframer for this stream (absent collaborator). -/
  deframe : DeframeResult := .pending
  /-- Answer of `IncomingUpdateContext::MakeAction` for this stream (absent
  collaborator). -/
  flowctl : FlowControlAction := {}

/-- The fields of `grpc_chttp2_transport` the control plane reads or writes. -/
structure grpc_chttp2_transport where
  is_client : Bool
  destroying : Bool := false
  write_state : grpc_chttp2_write_state := .IDLE
  closed_with_error : Status := .OkStatus
  close_transport_on_writes_finished : Status := .OkStatus
  goaway_error : Status := .OkStatus
  sent_goaway_state : grpc_chttp2_sent_goaway_state := .NO_GOAWAY_SEND
  next_stream_id : Nat
  last_new_stream_id : Nat := 0
  /-- The map id -> stream, as its list of entries. -/
  stream_map : List (Nat × Nat) := []
  /-- The stream list `GRPC_CHTTP2_LIST_WAITING_FOR_CONCURRENCY`, head first. -/
  waiting_for_concurrency : List Nat := []
  /-- The stream list `GRPC_CHTTP2_LIST_WRITABLE`. -/
  writable : List Nat := []
  /-- The stream list `GRPC_CHTTP2_LIST_STALLED_BY_STREAM`. -/
  stalled_by_stream : List Nat := []
  /-- The stream list `GRPC_CHTTP2_LIST_STALLED_BY_TRANSPORT`. -/
  stalled_by_transport : List Nat := []
  qbuf : List QItem := []
  num_pending_induced_frames : Nat := 0
  /-- The value `settings.peer().max_concurrent_streams()`. -/
  peer_max_concurrent_streams : Nat := 4294967295
  /-- The value `settings.local().initial_window_size()`. -/
  local_initial_window_size : Nat := 65535
  /-- The value `settings.local().max_frame_size()`. -/
  local_max_frame_size : Nat := 16384
  /-- The value `settings.local().preferred_receive_crypto_message_size()`. -/
  local_preferred_receive_crypto_message_size : Nat := 0
  enable_preferred_rx_crypto_frame_advertisement : Bool := false
  /-- Number of `write_action_begin_locked` closures queued by
  `combiner->FinallyRun`. -/
  finally_write_action_begin : Nat := 0
  /-- Number of `grpc_endpoint_write` calls whose completion has not run. -/
  endpoint_writes_in_flight : Nat := 0
  /-- The flag `ping_callbacks.ping_requested()`. -/
  ping_requested : Bool := false
  /-- The initiate closures held by `ping_callbacks`. -/
  ping_on_initiate : List Closure := []
  /-- The ack closures held by `ping_callbacks`. -/
  ping_on_ack : List Closure := []
  /-- The timeout `keepalive_timeout` in ms, `none` for infinity. -/
  keepalive_timeout : Option Nat := none
  /-- The timeout `ping_timeout` in ms, `none` for infinity. -/
  ping_timeout : Option Nat := none
  write_buffer_size : Nat := 65535
  run_after_write : List Nat := []
  /-- Closures handed to `ExecCtx::Run`, with the error they will get. -/
  exec_ctx : List (Closure × Status) := []
  /-- The field `next_data.scratch` of each closure of the layer above. -/
  closure_scratch : Nat → Nat := fun _ => 0
  /-- The field `error_data.error` of each closure of the layer above. -/
  closure_error : Nat → Status := fun _ => .OkStatus
  closure_barrier_may_cover_write : Nat := 1
  connectivity_state : grpc_connectivity_state := .READY
  /-- The endpoint was destroyed (`ep == nullptr`). -/
  ep_destroyed : Bool := false
  benign_reclaimer_registered : Bool := false
  destructive_reclaimer_registered : Bool := false
  keepalive_state : grpc_chttp2_keepalive_state := .DISABLED
  keepalive_permit_without_calls : Bool := false
  /-- The keepalive timer is armed (`keepalive_ping_timer_handle` valid). -/
  keepalive_ping_timer_armed : Bool := false
  allow_tarpit : Bool := true
  /-- Work deferred by `MaybeTarpit` whose timer has not fired. -/
  tarpit_timers : List TarpitFn := []
  reading_paused_on_pending_induced_frames : Bool := false
  /-- Number of `grpc_endpoint_read` calls whose completion has not run. -/
  endpoint_reads_in_flight : Nat := 0
  initial_window_update : Int := 0
  /-- The parser is in the middle of a frame of this stream. -/
  incoming_stream : Option Nat := none
  notify_on_receive_settings : Option Nat := none
  notify_on_close : Option Nat := none
  /-- The stream objects, by pointer. -/
  streams : Nat → grpc_chttp2_stream := fun _ => {}
  /-- Number of stream objects constructed so far: the next fresh pointer. -/
  streams_allocated : Nat := 0

/-- Short names for the two records. -/
abbrev T := grpc_chttp2_transport

/-- Writes the stream object at pointer `s`. -/
def set_stream (t : T) (s : Nat) (st : grpc_chttp2_stream) : T :=
  { t with streams := Function.update t.streams s st }

/-! ## Constants of internal.h and of the surface API -/

/-- Transcription of `CLOSURE_BARRIER_MAY_COVER_WRITE` (1 << 0). -/
def CLOSURE_BARRIER_MAY_COVER_WRITE : Nat := 1
/-- Transcription of `CLOSURE_BARRIER_FIRST_REF_BIT` (1 << 16). -/
def CLOSURE_BARRIER_FIRST_REF_BIT : Nat := 65536
/-- Transcription of `GRPC_HEADER_SIZE_IN_BYTES`. -/
def GRPC_HEADER_SIZE_IN_BYTES : Nat := 5
/-- Transcription of `GRPC_WRITE_BUFFER_HINT`. -/
def GRPC_WRITE_BUFFER_HINT : Nat := 1
/-- Transcription of `GRPC_WRITE_THROUGH`. -/
def GRPC_WRITE_THROUGH : Nat := 4
/-- Transcription of `GRPC_WRITE_INTERNAL_COMPRESS`. -/
def GRPC_WRITE_INTERNAL_COMPRESS : Nat := 0x80000000
/-- Transcription of `DEFAULT_MAX_PENDING_INDUCED_FRAMES`. -/
def DEFAULT_MAX_PENDING_INDUCED_FRAMES : Nat := 10000
/-- Transcription of `GRPC_CHTTP2_FRAME_HEADER`. -/
def GRPC_CHTTP2_FRAME_HEADER : Nat := 1
/-- Transcription of `GRPC_CHTTP2_DATA_FLAG_END_STREAM`. -/
def GRPC_CHTTP2_DATA_FLAG_END_STREAM : Nat := 1
/-- Transcription of `GRPC_CHTTP2_DATA_FLAG_END_HEADERS`. -/
def GRPC_CHTTP2_DATA_FLAG_END_HEADERS : Nat := 4
/-- Transcription of `KEEPALIVE_TIME_BACKOFF_MULTIPLIER`. -/
def KEEPALIVE_TIME_BACKOFF_MULTIPLIER : Nat := 2
/-- Two to the power 64: the modulus of `uintptr_t` arithmetic. -/
def UINTPTR_MODULUS : Nat := 18446744073709551616
/-- Two to the power 32: the modulus of `uint32_t` arithmetic. -/
def UINT32_MODULUS : Nat := 4294967296
/-- The C constant `INT_MAX`. -/
def INT_MAX : Nat := 2147483647

/-! ## Stream lists (stream_lists.cc is not in src/) -/

/-- Modelled from the spec: adding to an intrusive stream list appends at the
tail unless the stream is already on the list; answers whether it was added. -/
def stream_list_add (l : List Nat) (s : Nat) : List Nat × Bool :=
  if s ∈ l then (l, false) else (l ++ [s], true)

/-- Modelled from the spec: removing a stream from an intrusive stream list. -/
def stream_list_remove (l : List Nat) (s : Nat) : List Nat :=
  l.filter (fun r => r ≠ s)

/-- Modelled from the spec: `grpc_chttp2_list_add_waiting_for_concurrency`. -/
def grpc_chttp2_list_add_waiting_for_concurrency (t : T) (s : Nat) : T :=
  { t with waiting_for_concurrency := (stream_list_add t.waiting_for_concurrency s).1 }

/-- Modelled from the spec: `grpc_chttp2_list_remove_waiting_for_concurrency`. -/
def grpc_chttp2_list_remove_waiting_for_concurrency (t : T) (s : Nat) : T :=
  { t with waiting_for_concurrency := stream_list_remove t.waiting_for_concurrency s }

/-! ## Write state: `grpc_chttp2_initiate_write` -/

/-- Transcription of `grpc_chttp2_initiate_write`.  Its two calls of
`set_write_state` have a target other than IDLE, so only the assignment of
`set_write_state` runs (see `set_write_state_of_ne_IDLE`). -/
def grpc_chttp2_initiate_write (t : T) (_reason : grpc_chttp2_initiate_write_reason) : T :=
  match t.write_state with
  | .IDLE =>
      { t with write_state := .WRITING,
               finally_write_action_begin := t.finally_write_action_begin + 1 }
  | .WRITING => { t with write_state := .WRITING_WITH_MORE }
  | .WRITING_WITH_MORE => t

/-- Transcription of `grpc_chttp2_mark_stream_writable`. -/
def grpc_chttp2_mark_stream_writable (t : T) (s : Nat) : T :=
  if t.closed_with_error.ok && (stream_list_add t.writable s).2 then
    { t with writable := (stream_list_add t.writable s).1 }
  else t

/-- Transcription of `post_benign_reclaimer`. -/
def post_benign_reclaimer (t : T) : T :=
  if !t.benign_reclaimer_registered then { t with benign_reclaimer_registered := true } else t

/-- Transcription of `post_destructive_reclaimer`. -/
def post_destructive_reclaimer (t : T) : T :=
  if !t.destructive_reclaimer_registered then
    { t with destructive_reclaimer_registered := true }
  else t

/-- Transcription of `connectivity_state_set`. -/
def connectivity_state_set (t : T) (state : grpc_connectivity_state) : T :=
  { t with connectivity_state := state }

/-! ## Closure barrier -/

/-- Hands a closure to `ExecCtx::Run`, which ignores a null closure. -/
def exec_ctx_run (t : T) (c : Option Closure) (error : Status) : T :=
  match c with
  | none => t
  | some c => { t with exec_ctx := t.exec_ctx ++ [(c, error)] }

/-- Transcription of `null_then_sched_closure`; the caller clears the slot. -/
def null_then_sched_closure (t : T) (c : Nat) : T :=
  { t with exec_ctx := t.exec_ctx ++ [(.app c, .OkStatus)] }

/-- The block `if (!error.ok())` of `grpc_chttp2_complete_closure_step`: the
error is added as a child of the error the closure has accumulated. -/
def closure_step_record_error (t : T) (c : Nat) (error : Status) (desc : String) : T :=
  if !error.ok then
    let cl_err := t.closure_error c
    let cl_err :=
      if cl_err.ok then
        GRPC_ERROR_CREATE ("Error in HTTP transport completing operation: " ++ desc)
      else cl_err
    { t with closure_error :=
               Function.update t.closure_error c (grpc_error_add_child cl_err error) }
  else t

/-- The block `if (closure->next_data.scratch < CLOSURE_BARRIER_FIRST_REF_BIT)`
of `grpc_chttp2_complete_closure_step`: the last reference is gone, the
closure is run, or queued on `run_after_write`. -/
def closure_step_finish (t : T) (c : Nat) : T :=
  if t.closure_scratch c < CLOSURE_BARRIER_FIRST_REF_BIT then
    if t.write_state = grpc_chttp2_write_state.IDLE || t.closure_scratch c % 2 == 0 then
      { t with exec_ctx := t.exec_ctx ++ [(.app c, t.closure_error c)],
               closure_error := Function.update t.closure_error c .OkStatus }
    else { t with run_after_write := t.run_after_write ++ [c] }
  else t

/-- Transcription of `grpc_chttp2_complete_closure_step`; the caller clears the
slot `*pclosure`.  `scratch` is a `uintptr_t`. -/
def grpc_chttp2_complete_closure_step (t : T) (closure : Option Nat) (error : Status)
    (desc : String) : T :=
  match closure with
  | none => t
  | some c =>
    let scratch : Nat :=
      (t.closure_scratch c + UINTPTR_MODULUS - CLOSURE_BARRIER_FIRST_REF_BIT) % UINTPTR_MODULUS
    let t := { t with closure_scratch := Function.update t.closure_scratch c scratch }
    closure_step_finish (closure_step_record_error t c error desc) c

/-! ## Flow-control actions -/

/-- Transcription of `WithUrgency`. -/
def WithUrgency (t : T) (urgency : Urgency) (reason : grpc_chttp2_initiate_write_reason)
    (action : T → T) : T :=
  match urgency with
  | .NO_ACTION_NEEDED => t
  | .UPDATE_IMMEDIATELY => action (grpc_chttp2_initiate_write t reason)
  | .QUEUE_UPDATE => action t

/-- Transcription of `grpc_chttp2_act_on_flowctl_action`; `s` is `none` for a
null stream pointer. -/
def grpc_chttp2_act_on_flowctl_action (action : FlowControlAction) (t : T)
    (s : Option Nat) : T :=
  let t := WithUrgency t action.send_stream_update .STREAM_FLOW_CONTROL (fun t =>
    match s with
    | some s =>
        if (t.streams s).id ≠ 0 ∧ (t.streams s).read_closed = false then
          grpc_chttp2_mark_stream_writable t s
        else t
    | none => t)
  let t := WithUrgency t action.send_transport_update .TRANSPORT_FLOW_CONTROL (fun t => t)
  let t := WithUrgency t action.send_initial_window_update .SEND_SETTINGS (fun t =>
    { t with local_initial_window_size := action.initial_window_size })
  let t := WithUrgency t action.send_max_frame_size_update .SEND_SETTINGS (fun t =>
    { t with local_max_frame_size := action.max_frame_size })
  if t.enable_preferred_rx_crypto_frame_advertisement then
    WithUrgency t action.preferred_rx_crypto_frame_size_update .SEND_SETTINGS (fun t =>
      { t with local_preferred_receive_crypto_message_size :=
                 action.preferred_rx_crypto_frame_size })
  else t

/-! ## Receive completion gates -/

/-- Transcription of `grpc_chttp2_maybe_complete_recv_initial_metadata`. -/
def grpc_chttp2_maybe_complete_recv_initial_metadata (t : T) (s : Nat) : T :=
  let st := t.streams s
  match st.recv_initial_metadata_ready with
  | none => t
  | some c =>
    if st.published_metadata_0 ≠ .NOT_PUBLISHED then
      let st := if st.seen_error then { st with frame_storage := 0 } else st
      let st := { st with recv_initial_metadata := some st.initial_metadata_buffer,
                          initial_metadata_buffer := [] }
      let st :=
        if st.trailing_metadata_available
            ∧ st.published_metadata_0 ≠ .PUBLISHED_FROM_WIRE
            ∧ st.published_metadata_1 = .SYNTHESIZED_FROM_FAKE then
          { st with trailing_metadata_available_value := true,
                    trailing_metadata_available := false }
        else st
      null_then_sched_closure (set_stream t s { st with recv_initial_metadata_ready := none }) c
    else t

/-- The scoped lambda of `grpc_chttp2_maybe_complete_recv_message` up to the
completion decision: the new state, whether the lambda reached the decision
(it returns early otherwise), and the deframing error. -/
def recv_message_drain (t : T) (s : Nat) : T × Bool × Status :=
  let st := t.streams s
  if st.final_metadata_requested ∧ st.seen_error then
    (set_stream t s { st with frame_storage := 0, recv_message_has_value := false },
      true, .OkStatus)
  else if st.frame_storage ≠ 0 then
    match st.deframe with
    | .pending =>
        if st.read_closed then
          (set_stream t s { st with frame_storage := 0, recv_message_has_value := false },
            true, .OkStatus)
        else (t, false, .OkStatus)
    | .ready e remaining =>
        if !e.ok then
          (set_stream t s { st with seen_error := true, frame_storage := 0 }, true, e)
        else (set_stream t s { st with frame_storage := remaining }, true, e)
  else if st.read_closed then
    (set_stream t s { st with recv_message_has_value := false }, true, .OkStatus)
  else (t, false, .OkStatus)

/-- Transcription of `grpc_chttp2_maybe_complete_recv_message`. -/
def grpc_chttp2_maybe_complete_recv_message (t : T) (s : Nat) : T :=
  match (t.streams s).recv_message_ready with
  | none => t
  | some c =>
    let r := recv_message_drain t s
    let t1 := r.1
    let st1 := t1.streams s
    let t2 :=
      if r.2.1 then
        if r.2.2.ok ∧ st1.recv_message_has_value then
          null_then_sched_closure (set_stream t1 s { st1 with recv_message_ready := none }) c
        else if st1.published_metadata_1 ≠ .NOT_PUBLISHED then
          let st2 :=
            if st1.call_failed_before_recv_message then
              { st1 with call_failed_before_recv_message_value :=
                           decide (st1.published_metadata_1 ≠ .PUBLISHED_AT_CLOSE) }
            else st1
          null_then_sched_closure (set_stream t1 s { st2 with recv_message_ready := none }) c
        else t1
      else t1
    grpc_chttp2_act_on_flowctl_action (t2.streams s).flowctl t2 (some s)

/-- Transcription of `grpc_chttp2_maybe_complete_recv_trailing_metadata`. -/
def grpc_chttp2_maybe_complete_recv_trailing_metadata (t : T) (s : Nat) : T :=
  let t := grpc_chttp2_maybe_complete_recv_message t s
  let st := t.streams s
  if st.recv_trailing_metadata_finished.isSome ∧ st.read_closed ∧ st.write_closed then
    let st := if st.seen_error ∨ t.is_client = false then { st with frame_storage := 0 } else st
    match st.recv_trailing_metadata_finished with
    | some c =>
        if st.read_closed ∧ st.frame_storage = 0 then
          null_then_sched_closure
            (set_stream t s { st with collecting_stats := false,
                                      recv_trailing_metadata_moved := true,
                                      recv_trailing_metadata_finished := none }) c
        else set_stream t s st
    | none => set_stream t s st
  else t

/-- Transcription of `grpc_chttp2_fake_status`. -/
def grpc_chttp2_fake_status (t : T) (s : Nat) (error : Status) : T :=
  let st := t.streams s
  let status := grpc_error_get_grpc_status error
  let message := error.message
  let st := if status ≠ GRPC_STATUS_OK then { st with seen_error := true } else st
  if st.published_metadata_1 = .NOT_PUBLISHED ∨ st.recv_trailing_metadata_finished.isSome
      ∨ st.final_metadata_requested = false then
    let st := { st with trailing_grpc_status := some status }
    let st := if message ≠ "" then { st with trailing_grpc_message := some message } else st
    let st := { st with published_metadata_1 := .SYNTHESIZED_FROM_FAKE }
    grpc_chttp2_maybe_complete_recv_trailing_metadata (set_stream t s st) s
  else set_stream t s st

/-! ## Failing pending writes -/

/-- Transcription of `add_error`. -/
def add_error (error : Status) (refs : List Status) : List Status :=
  if error.ok then refs
  else if refs.any (fun r => Status.beq error r) then refs
  else refs ++ [error]

/-- Transcription of `removal_error`. -/
def removal_error (extra_error : Status) (s : grpc_chttp2_stream) (main_error_msg : String) :
    Status :=
  let refs := add_error s.read_closed_error []
  let refs := add_error s.write_closed_error refs
  let refs := add_error extra_error refs
  if refs.length > 0 then GRPC_ERROR_CREATE_REFERENCING main_error_msg refs else .OkStatus

/-- Transcription of `flush_write_list`; the stream keeps the emptied list. -/
def flush_write_list (t : T) (list : List (Int × Nat)) (error : Status) : T :=
  list.foldl (fun t cb => grpc_chttp2_complete_closure_step t (some cb.2) error
    "on_write_finished_cb") t

/-- Transcription of `grpc_chttp2_fail_pending_writes`. -/
def grpc_chttp2_fail_pending_writes (t : T) (s : Nat) (error : Status) : T :=
  let st := t.streams s
  let error := removal_error error st "Pending writes failed due to stream closure"
  let t := set_stream t s { st with send_initial_metadata := false,
                                    send_initial_metadata_finished := none }
  let t := grpc_chttp2_complete_closure_step t st.send_initial_metadata_finished error
    "send_initial_metadata_finished"
  let t := set_stream t s { (t.streams s) with send_trailing_metadata := false,
                                               send_trailing_metadata_finished := none }
  let t := grpc_chttp2_complete_closure_step t st.send_trailing_metadata_finished error
    "send_trailing_metadata_finished"
  let t := set_stream t s { (t.streams s) with send_message_finished := none }
  let t := grpc_chttp2_complete_closure_step t st.send_message_finished error
    "fetching_send_message_finished"
  let t := set_stream t s { (t.streams s) with on_write_finished_cbs := [] }
  let t := flush_write_list t st.on_write_finished_cbs error
  let t := set_stream t s { (t.streams s) with on_flow_controlled_cbs := [] }
  flush_write_list t st.on_flow_controlled_cbs error

/-! ## Frames queued on `qbuf` -/

/-- Modelled from the spec: `grpc_chttp2_goaway_append` (frame_goaway.cc is not
in src/) queues one GOAWAY frame. -/
def grpc_chttp2_goaway_append (last_stream_id error_code : Nat) (debug_data : String)
    (qbuf : List QItem) : List QItem :=
  qbuf ++ [.goaway last_stream_id error_code debug_data]

/-- Modelled from the spec: `grpc_chttp2_add_rst_stream_to_next_write`
(frame_rst_stream.cc is not in src/) queues one RST_STREAM frame and counts it
as a pending induced frame. -/
def grpc_chttp2_add_rst_stream_to_next_write (t : T) (id code : Nat) : T :=
  { t with num_pending_induced_frames := t.num_pending_induced_frames + 1,
           qbuf := t.qbuf ++ [.rst_stream id code] }

/-- Modelled from the spec: `VarintLength` of varint.h (not in src/), the size of
an HPACK integer whose value does not fit the prefix. -/
def VarintLength (tail_value : Nat) : Nat :=
  if tail_value < 128 then 2
  else if tail_value < 16384 then 3
  else if tail_value < 2097152 then 4
  else if tail_value < 268435456 then 5
  else 6

/-- Modelled from the spec: `VarintWriter<1>::length()`. -/
def VarintWriter_length (value : Nat) : Nat :=
  if value < 127 then 1 else VarintLength (value - 127)

/-- Modelled from the spec: `VarintWriteTail`, the continuation bytes of an
HPACK integer, seven bits each, low group first. -/
def VarintWriteTail (tail_value tail_length : Nat) : List Nat :=
  (List.range tail_length).map (fun i =>
    if i + 1 = tail_length then (tail_value / 128 ^ i) % 128
    else (tail_value / 128 ^ i) % 128 + 128)

/-- Modelled from the spec: `VarintWriter<1>::Write(0, p)`. -/
def VarintWriter_write (value : Nat) : List Nat :=
  if VarintWriter_length value = 1 then [value]
  else 127 :: VarintWriteTail (value - 127) (VarintWriter_length value - 1)

/-- The bytes of an ASCII string literal. -/
def ascii (s : String) : List Nat := s.toList.map Char.toNat

/-- A slice of `alloc` bytes filled with `written`; the `CHECK` that the write
pointer reached the end of the slice. -/
def slice_filled (alloc : Nat) (written : List Nat) : Option Slice :=
  if written.length = alloc then some (.bytes written) else none

/-- The lambda of `close_from_api`: hand-rolled trailers, then RST_STREAM. -/
def close_from_api_emit (t : T) (sent_initial_metadata : Bool) (id grpc_status : Nat)
    (message : String) : Option T := do
  let len : Nat := 0
  let http_status_hdr ← slice_filled 13 ([0x00, 7] ++ ascii ":status" ++ [3] ++ ascii "200")
  let content_type_hdr ← slice_filled 31
    ([0x00, 12] ++ ascii "content-type" ++ [16] ++ ascii "application/grpc")
  let len := if !sent_initial_metadata
    then (len + http_status_hdr.length % UINT32_MODULUS) % UINT32_MODULUS else len
  let len := if !sent_initial_metadata
    then (len + content_type_hdr.length % UINT32_MODULUS) % UINT32_MODULUS else len
  let status_hdr ← slice_filled (15 + (if grpc_status ≥ 10 then 1 else 0))
    ([0x00, 11] ++ ascii "grpc-status" ++
      (if grpc_status < 10 then [1, (48 + grpc_status) % 256]
       else [2, (48 + grpc_status / 10) % 256, (48 + grpc_status % 10) % 256]))
  let len := (len + status_hdr.length % UINT32_MODULUS) % UINT32_MODULUS
  let msg_len := message.utf8ByteSize
  if msg_len ≤ UINT32_MODULUS - 1 then
    let message_pfx ← slice_filled (14 + VarintWriter_length msg_len)
      ([0x00, 12] ++ ascii "grpc-message" ++ VarintWriter_write msg_len)
    let len := (len + message_pfx.length % UINT32_MODULUS) % UINT32_MODULUS
    let len := (len + msg_len % UINT32_MODULUS) % UINT32_MODULUS
    let hdr ← slice_filled 9
      [(len / 65536) % 256, (len / 256) % 256, len % 256, GRPC_CHTTP2_FRAME_HEADER,
       GRPC_CHTTP2_DATA_FLAG_END_STREAM ||| GRPC_CHTTP2_DATA_FLAG_END_HEADERS,
       (id / 16777216) % 256, (id / 65536) % 256, (id / 256) % 256, id % 256]
    let t := { t with qbuf := t.qbuf ++ [QItem.slice hdr] }
    let t := if !sent_initial_metadata
      then { t with qbuf := t.qbuf ++ [QItem.slice http_status_hdr,
                                         QItem.slice content_type_hdr] } else t
    let t := { t with qbuf := t.qbuf ++ [QItem.slice status_hdr, QItem.slice message_pfx,
                                          QItem.slice (Slice.str message)] }
    let t := grpc_chttp2_add_rst_stream_to_next_write t id GRPC_HTTP2_NO_ERROR
    some (grpc_chttp2_initiate_write t .CLOSE_FROM_API)
  else none

/-- Runs one of the two lambdas handed to `MaybeTarpit`. -/
def run_tarpit_fn (t : T) (fn : TarpitFn) : Option T :=
  match fn with
  | .rst_stream id http_error =>
      some (grpc_chttp2_initiate_write
        (grpc_chttp2_add_rst_stream_to_next_write t id http_error) .RST_STREAM)
  | .close_from_api sent_initial_metadata id grpc_status message =>
      close_from_api_emit t sent_initial_metadata id grpc_status message

/-- Transcription of `MaybeTarpit`: run now, or leave to the tarpit timer. -/
def MaybeTarpit (t : T) (tarpit : Bool) (fn : TarpitFn) : Option T :=
  if !tarpit || !t.allow_tarpit || t.is_client then run_tarpit_fn t fn
  else some { t with tarpit_timers := t.tarpit_timers ++ [fn] }

/-! ## Closing streams and the transport

The functions below reach `remove_stream`, which reaches them back; they take
it as the parameter `remove`. -/

/-- Type of `remove_stream`. -/
abbrev RemoveStream := T → Nat → Status → Option T

/-- The block `if (close_reads && !s->read_closed)` of
`grpc_chttp2_mark_stream_closed`. -/
def mark_stream_closed_reads (t : T) (s : Nat) (close_reads : Bool) (error : Status) : T :=
  if close_reads ∧ (t.streams s).read_closed = false then
    set_stream t s { (t.streams s) with read_closed_error := error, read_closed := true }
  else t

/-- The block `if (close_writes && !s->write_closed)` of
`grpc_chttp2_mark_stream_closed`. -/
def mark_stream_closed_writes (t : T) (s : Nat) (close_writes : Bool) (error : Status) : T :=
  if close_writes ∧ (t.streams s).write_closed = false then
    grpc_chttp2_fail_pending_writes
      (set_stream t s { (t.streams s) with write_closed_error := error,
                                           write_closed := true }) s error
  else t

/-- The body of the block `if (closed_read)` of `grpc_chttp2_mark_stream_closed`. -/
def mark_stream_closed_publish (t : T) (s : Nat) : T :=
  let st := t.streams s
  let st := if st.published_metadata_0 = .NOT_PUBLISHED
    then { st with published_metadata_0 := .PUBLISHED_AT_CLOSE } else st
  let st := if st.published_metadata_1 = .NOT_PUBLISHED
    then { st with published_metadata_1 := .PUBLISHED_AT_CLOSE } else st
  let t := grpc_chttp2_maybe_complete_recv_initial_metadata (set_stream t s st) s
  grpc_chttp2_maybe_complete_recv_message t s

/-- Transcription of `grpc_chttp2_mark_stream_closed`. -/
def grpc_chttp2_mark_stream_closed (remove : RemoveStream) (t : T) (s : Nat)
    (close_reads close_writes : Bool) (error : Status) : Option T :=
  if (t.streams s).read_closed ∧ (t.streams s).write_closed then
    let overall_error := removal_error error (t.streams s) "Stream removed"
    let t := if !overall_error.ok then grpc_chttp2_fake_status t s overall_error else t
    some (grpc_chttp2_maybe_complete_recv_trailing_metadata t s)
  else
    let closed_read : Bool := close_reads && !(t.streams s).read_closed
    let t := mark_stream_closed_writes (mark_stream_closed_reads t s close_reads error) s
      close_writes error
    let became_closed : Bool := (t.streams s).read_closed && (t.streams s).write_closed
    let removed : Option T :=
      if became_closed then
        let overall_error := removal_error error (t.streams s) "Stream removed"
        (if (t.streams s).id ≠ 0 then remove t (t.streams s).id overall_error
         else some (grpc_chttp2_list_remove_waiting_for_concurrency t s)).map
          (fun t => if !overall_error.ok then grpc_chttp2_fake_status t s overall_error else t)
      else some t
    removed.map (fun t =>
      let t := if closed_read then mark_stream_closed_publish t s else t
      if became_closed then grpc_chttp2_maybe_complete_recv_trailing_metadata t s else t)

/-- Transcription of `close_from_api`. -/
def close_from_api (remove : RemoveStream) (t : T) (s : Nat) (error : Status)
    (tarpit : Bool) : Option T :=
  let grpc_status := grpc_error_get_grpc_status error
  let message := error.message
  if grpc_status < 100 then
    (grpc_chttp2_mark_stream_closed remove t s true true error).bind (fun t =>
      MaybeTarpit t tarpit
        (.close_from_api (t.streams s).sent_initial_metadata (t.streams s).id grpc_status
          message))
  else none

/-- Transcription of `grpc_chttp2_cancel_stream`. -/
def grpc_chttp2_cancel_stream (remove : RemoveStream) (t : T) (s : Nat)
    (due_to_error : Status) (tarpit : Bool) : Option T :=
  if t.is_client = false ∧ (t.streams s).sent_trailing_metadata = false
      ∧ due_to_error.has_clear_grpc_status = true
      ∧ ¬ ((t.streams s).read_closed = true ∧ (t.streams s).write_closed = true) then
    close_from_api remove t s due_to_error tarpit
  else
    let t :=
      if due_to_error.ok = false ∧ (t.streams s).seen_error = false then
        set_stream t s { (t.streams s) with seen_error := true }
      else t
    if ((t.streams s).read_closed = false ∨ (t.streams s).write_closed = false)
        ∧ (t.streams s).id ≠ 0 then
      let id := (t.streams s).id
      let http_error := grpc_error_get_http2_error due_to_error
      (grpc_chttp2_mark_stream_closed remove t s true true due_to_error).bind (fun t =>
        MaybeTarpit t tarpit (.rst_stream id http_error))
    else grpc_chttp2_mark_stream_closed remove t s true true due_to_error

/-- The loop `while (grpc_chttp2_list_pop_waiting_for_concurrency(t, &s))` that
tags the popped stream kNotSentOnWire and cancels it; `n` bounds the number of
iterations. -/
def cancel_waiting_loop (remove : RemoveStream) (error : Status) (tarpit : Bool) :
    Nat → T → Option T
  | 0, t => if t.waiting_for_concurrency = [] then some t else none
  | n + 1, t =>
    match t.waiting_for_concurrency with
    | [] => some t
    | s :: rest =>
      let t := { t with waiting_for_concurrency := rest }
      let t := set_stream t s
        { (t.streams s) with trailing_network_state := some .kNotSentOnWire }
      (grpc_chttp2_cancel_stream remove t s error tarpit).bind
        (cancel_waiting_loop remove error tarpit n)

/-- Transcription of `cancel_unstarted_streams`. -/
def cancel_unstarted_streams (remove : RemoveStream) (t : T) (error : Status)
    (tarpit : Bool) : Option T :=
  cancel_waiting_loop remove error tarpit t.waiting_for_concurrency.length t

/-- Modelled from the spec: `stream_map.emplace(id, s)` inserts unless the key
is present. -/
def stream_map_emplace (m : List (Nat × Nat)) (id s : Nat) : List (Nat × Nat) :=
  if (m.lookup id).isSome then m else m ++ [(id, s)]

/-- The head of the body of the admission loop of `maybe_start_some_streams`:
the stream takes the next id and enters the map. -/
def assign_stream_id (t : T) (s : Nat) : T :=
  let id := t.next_stream_id
  let next := (t.next_stream_id + 2) % UINT32_MODULUS
  { t with streams := Function.update t.streams s { (t.streams s) with id := id },
           next_stream_id := next,
           connectivity_state := if next ≥ MAX_CLIENT_STREAM_ID then .TRANSIENT_FAILURE
                                 else t.connectivity_state,
           stream_map := stream_map_emplace t.stream_map id s }

/-- The body of the admission loop of `maybe_start_some_streams`, after the
stream was popped. -/
def start_stream (t : T) (s : Nat) : T :=
  let t := assign_stream_id t s
  let t := post_destructive_reclaimer t
  let t := grpc_chttp2_mark_stream_writable t s
  grpc_chttp2_initiate_write t .START_NEW_STREAM

/-- The admission loop of `maybe_start_some_streams`; `n` bounds the number of
iterations. -/
def start_streams_loop : Nat → T → Option T
  | 0, t =>
    if t.next_stream_id ≤ MAX_CLIENT_STREAM_ID
        ∧ t.stream_map.length < t.peer_max_concurrent_streams
        ∧ t.waiting_for_concurrency ≠ [] then none
    else some t
  | n + 1, t =>
    if t.next_stream_id ≤ MAX_CLIENT_STREAM_ID
        ∧ t.stream_map.length < t.peer_max_concurrent_streams then
      match t.waiting_for_concurrency with
      | [] => some t
      | s :: rest =>
        if (t.streams s).id = 0 then
          start_streams_loop n (start_stream { t with waiting_for_concurrency := rest } s)
        else none
    else some t

/-- Transcription of `maybe_start_some_streams`. -/
def maybe_start_some_streams (remove : RemoveStream) (t : T) : Option T :=
  if t.goaway_error.ok = false then
    cancel_unstarted_streams remove t t.goaway_error false
  else
    (start_streams_loop t.waiting_for_concurrency.length t).bind (fun t =>
      if t.next_stream_id ≥ MAX_CLIENT_STREAM_ID then
        cancel_waiting_loop remove
          (grpc_error_set_rpc_status (GRPC_ERROR_CREATE "Stream IDs exhausted")
            GRPC_STATUS_UNAVAILABLE)
          false t.waiting_for_concurrency.length t
      else some t)

/-- The loop `for (auto s : to_cancel)` of `end_all_the_calls`. -/
def cancel_streams_loop (remove : RemoveStream) (error : Status) : List Nat → T → Option T
  | [], t => some t
  | s :: to_cancel, t =>
    (grpc_chttp2_cancel_stream remove t s error false).bind
      (cancel_streams_loop remove error to_cancel)

/-- Transcription of `end_all_the_calls`. -/
def end_all_the_calls (remove : RemoveStream) (t : T) (error : Status) : Option T :=
  let error :=
    if t.is_client = false ∧ error.has_clear_grpc_status = false ∧ error.http2 = none then
      grpc_error_set_rpc_status error GRPC_STATUS_UNAVAILABLE
    else error
  (cancel_unstarted_streams remove t error false).bind (fun t =>
    cancel_streams_loop remove error (t.stream_map.map (fun id_stream => id_stream.2)) t)

/-- The status `absl::CancelledError()`. -/
def CancelledError : Status := .Error "CANCELLED" none none []

/-- Transcription of `cancel_pings`.  Modelled from the spec:
`ping_callbacks.CancelAll` delivers Cancelled to the pending initiate and ack
closures. -/
def cancel_pings (t : T) (_error : Status) : T :=
  { t with exec_ctx := t.exec_ctx ++ t.ping_on_initiate.map (fun c => (c, CancelledError))
                        ++ t.ping_on_ack.map (fun c => (c, CancelledError)),
           ping_on_initiate := [],
           ping_on_ack := [],
           ping_requested := false }

/-- The tail of `close_transport_locked`: the closures `notify_on_receive_settings`
and `notify_on_close` are run with the error. -/
def close_transport_notify (t : T) (error : Status) : T :=
  let t := exec_ctx_run { t with notify_on_receive_settings := none }
    (t.notify_on_receive_settings.map Closure.app) error
  exec_ctx_run { t with notify_on_close := none } (t.notify_on_close.map Closure.app) error

/-- The branch of `close_transport_locked` that closes the transport now:
timers are cancelled, the writable list is flushed, the endpoint destroyed. -/
def close_transport_now (t : T) (error : Status) : T :=
  let t := { t with closed_with_error := error }
  let t := connectivity_state_set t .SHUTDOWN
  let t := { t with keepalive_ping_timer_armed :=
                      match t.keepalive_state with
                      | .WAITING => false
                      | .PINGING => false
                      | .DYING => t.keepalive_ping_timer_armed
                      | .DISABLED => t.keepalive_ping_timer_armed }
  let t := { t with writable := [] }
  { t with ep_destroyed := true }

/-- The branch of `close_transport_locked` that defers the close behind the
write in progress. -/
def close_transport_defer (t : T) (error : Status) : T :=
  let pending :=
    if t.close_transport_on_writes_finished.ok then
      GRPC_ERROR_CREATE "Delayed close due to in-progress write"
    else t.close_transport_on_writes_finished
  { t with close_transport_on_writes_finished := grpc_error_add_child pending error }

/-- Transcription of `close_transport_locked`. -/
def close_transport_locked (remove : RemoveStream) (t : T) (error : Status) : Option T :=
  (end_all_the_calls remove t error).bind (fun t =>
    let t := cancel_pings t error
    if t.closed_with_error.ok then
      let error :=
        if !error.has_clear_grpc_status then
          grpc_error_set_rpc_status error GRPC_STATUS_UNAVAILABLE
        else error
      if t.write_state ≠ .IDLE then some (close_transport_defer t error)
      else if error.ok then none
      else some (close_transport_notify (close_transport_now t error) error)
    else some (close_transport_notify t error))

/-- The call `ExecCtx::RunList(&t->run_after_write)`. -/
def run_closure_list (t : T) : T :=
  { t with exec_ctx := t.exec_ctx ++
             t.run_after_write.map (fun c => (Closure.app c, t.closure_error c)),
           run_after_write := [] }

/-- Transcription of `set_write_state`. -/
def set_write_state (remove : RemoveStream) (t : T) (st : grpc_chttp2_write_state) :
    Option T :=
  let t := { t with write_state := st }
  if st = .IDLE then
    let t := run_closure_list t
    if t.close_transport_on_writes_finished.ok = false then
      let err := t.close_transport_on_writes_finished
      close_transport_locked remove { t with close_transport_on_writes_finished := .OkStatus } err
    else some t
  else some t

/-- The stream leaves the writable and the two stalled lists, in `remove_stream`. -/
def remove_stream_from_lists (t : T) (s : Nat) : T :=
  { t with writable := stream_list_remove t.writable s,
           stalled_by_stream := stream_list_remove t.stalled_by_stream s,
           stalled_by_transport := stream_list_remove t.stalled_by_transport s }

/-- The block `if (t->stream_map.empty())` of `remove_stream`. -/
def remove_stream_maybe_close (remove : RemoveStream) (t : T) (error : Status) : Option T :=
  if t.stream_map.isEmpty then
    let t := post_benign_reclaimer t
    if t.sent_goaway_state = .FINAL_GOAWAY_SENT then
      close_transport_locked remove t
        (GRPC_ERROR_CREATE_REFERENCING "Last stream closed after sending GOAWAY" [error])
    else some t
  else some t

/-- Transcription of `remove_stream`, the recursive calls going to `remove`. -/
def remove_stream_body (remove : RemoveStream) (t : T) (id : Nat) (error : Status) :
    Option T :=
  match t.stream_map.lookup id with
  | none => none
  | some s =>
    let t := { t with stream_map := t.stream_map.filter (fun e => e.1 ≠ id),
                      incoming_stream := if t.incoming_stream = some s then none
                                         else t.incoming_stream }
    (remove_stream_maybe_close remove t error).bind (fun t =>
      maybe_start_some_streams remove (remove_stream_from_lists t s))

/-- Transcription of `remove_stream`: `remove_stream_body` closed on itself,
`n` bounding the depth of the nested calls. -/
def remove_stream_fuel : Nat → RemoveStream
  | 0 => fun _ _ _ => none
  | n + 1 => remove_stream_body (remove_stream_fuel n)

/-! ## The write path -/

/-- Transcription of `grpc_chttp2_begin_write_result`. -/
structure grpc_chttp2_begin_write_result where
  writing : Bool
  partial_write : Bool

/-- Modelled from the spec: `grpc_chttp2_begin_write` (writing.cc is not in
src/): the gather routine moves `qbuf` into the output buffer and consumes the
writable-stream list; `gathered` says whether it gathered anything else and
`partial_write` whether more is left.  Something is written when the output is
not empty. -/
def grpc_chttp2_begin_write (t : T) (gathered partial_write : Bool) :
    T × grpc_chttp2_begin_write_result :=
  ({ t with qbuf := [], num_pending_induced_frames := 0, writable := [] },
   { writing := !t.qbuf.isEmpty || gathered, partial_write := partial_write })

/-- Transcription of `write_action`: one `grpc_endpoint_write`. -/
def write_action (t : T) : T :=
  { t with endpoint_writes_in_flight := t.endpoint_writes_in_flight + 1 }

/-- Transcription of `continue_read_action_locked`: one `grpc_endpoint_read`. -/
def continue_read_action_locked (t : T) : T :=
  { t with endpoint_reads_in_flight := t.endpoint_reads_in_flight + 1 }

/-- The tail of `write_action_begin_locked` after `write_action`: reading
resumes if it was paused on pending induced frames. -/
def write_action_begin_resume_read (t : T) : Option T :=
  if t.reading_paused_on_pending_induced_frames then
    if t.num_pending_induced_frames = 0 then
      some (continue_read_action_locked
        { t with reading_paused_on_pending_induced_frames := false })
    else none
  else some t

/-- The gather step of `write_action_begin_locked`: a closed transport writes
nothing, an open one calls `grpc_chttp2_begin_write`. -/
def write_action_begin_gather (t : T) (gathered partial_write : Bool) :
    T × grpc_chttp2_begin_write_result :=
  if t.closed_with_error.ok = false then (t, { writing := false, partial_write := false })
  else grpc_chttp2_begin_write t gathered partial_write

/-- The body of `write_action_begin_locked` after its `CHECK` of the write
state. -/
def write_action_begin_write (remove : RemoveStream) (t : T) (gathered partial_write : Bool) :
    Option T :=
  let tr := write_action_begin_gather t gathered partial_write
  if tr.2.writing then
    (set_write_state remove tr.1
      (if tr.2.partial_write then .WRITING_WITH_MORE else .WRITING)).bind
      (fun t => write_action_begin_resume_read (write_action t))
  else set_write_state remove tr.1 .IDLE

/-- Transcription of `write_action_begin_locked`, run from the finally queue of
the combiner; `gathered` and `partial_write` are the answers of the gather
routine. -/
def write_action_begin_locked (remove : RemoveStream) (t : T) (gathered partial_write : Bool) :
    Option T :=
  let t := { t with finally_write_action_begin := t.finally_write_action_begin - 1 }
  if t.write_state = .IDLE then none
  else write_action_begin_write remove t gathered partial_write

/-- The head of `write_action_end_locked`: a failed write closes the
transport; the answer carries the local `closed`. -/
def write_action_end_error (remove : RemoveStream) (t : T) (error : Status) :
    Option (T × Bool) :=
  if error.ok = false then (close_transport_locked remove t error).map (fun t => (t, true))
  else some (t, false)

/-- The block `if (t->sent_goaway_state == GRPC_CHTTP2_FINAL_GOAWAY_SEND_SCHEDULED)`
of `write_action_end_locked`. -/
def write_action_end_goaway (remove : RemoveStream) (t : T) (closed : Bool) :
    Option (T × Bool) :=
  if t.sent_goaway_state = .FINAL_GOAWAY_SEND_SCHEDULED then
    let t := { t with sent_goaway_state := .FINAL_GOAWAY_SENT }
    if t.stream_map.isEmpty then
      (close_transport_locked remove t (GRPC_ERROR_CREATE "goaway sent")).map
        (fun t => (t, true))
    else some (t, true)
  else some (t, closed)

/-- The `switch (t->write_state)` of `write_action_end_locked`. -/
def write_action_end_switch (remove : RemoveStream) (t : T) (closed : Bool) : Option T :=
  match t.write_state with
  | .IDLE => none
  | .WRITING => set_write_state remove t .IDLE
  | .WRITING_WITH_MORE =>
    (set_write_state remove t .WRITING).map (fun t =>
      let t := if !closed then run_closure_list t else t
      { t with finally_write_action_begin := t.finally_write_action_begin + 1 })

/-- The body of `write_action_end_locked`, the endpoint write being over. -/
def write_action_end_body (remove : RemoveStream) (t : T) (error : Status) : Option T :=
  (write_action_end_error remove t error).bind (fun tc =>
    (write_action_end_goaway remove tc.1 tc.2).bind (fun tc =>
      write_action_end_switch remove tc.1 tc.2))

/-- Transcription of `write_action_end_locked`, the completion of the endpoint
write.  The closing call `grpc_chttp2_end_write` (writing.cc, not in src/)
reports to the streams through `grpc_chttp2_mark_stream_closed`, a step of its
own here. -/
def write_action_end_locked (remove : RemoveStream) (t : T) (error : Status) : Option T :=
  write_action_end_body remove
    { t with endpoint_writes_in_flight := t.endpoint_writes_in_flight - 1 } error

/-! ## Pings and GOAWAY -/

/-- Transcription of `send_ping_locked`.  Modelled from the spec:
`ping_callbacks.OnPing` records the closures and requests a ping. -/
def send_ping_locked (t : T) (on_initiate on_ack : Option Closure) : T :=
  if t.closed_with_error.ok = false then
    exec_ctx_run (exec_ctx_run t on_initiate t.closed_with_error) on_ack t.closed_with_error
  else
    { t with ping_requested := true,
             ping_on_initiate := t.ping_on_initiate ++ on_initiate.toList,
             ping_on_ack := t.ping_on_ack ++ on_ack.toList }

/-- The smaller of a duration and twenty seconds. -/
def cap_20s (d : Option Nat) : Option Nat :=
  match d with
  | none => some 20000
  | some ms => some (min ms 20000)

/-- Transcription of the constructor of `GracefulGoaway` (`GracefulGoaway::Start`). -/
def GracefulGoaway_Start (t : T) : T :=
  let t := { t with sent_goaway_state := .GRACEFUL_GOAWAY }
  let t := { t with qbuf := grpc_chttp2_goaway_append (2 ^ 31 - 1) 0 "" t.qbuf }
  let t := { t with keepalive_timeout := cap_20s t.keepalive_timeout }
  let t := { t with ping_timeout := cap_20s t.ping_timeout }
  let t := send_ping_locked t none (some .graceful_goaway_on_ping_ack)
  grpc_chttp2_initiate_write t .GOAWAY_SENT

/-- Transcription of `GracefulGoaway::MaybeSendFinalGoawayLocked`, which is all
that `OnPingAckLocked` runs. -/
def GracefulGoaway_MaybeSendFinalGoawayLocked (t : T) : T :=
  if t.sent_goaway_state ≠ .GRACEFUL_GOAWAY then t
  else if t.destroying ∨ t.closed_with_error.ok = false then t
  else
    let t := { t with sent_goaway_state := .FINAL_GOAWAY_SEND_SCHEDULED }
    let t := { t with qbuf := grpc_chttp2_goaway_append t.last_new_stream_id 0 "" t.qbuf }
    grpc_chttp2_initiate_write t .GOAWAY_SENT

/-- Transcription of `send_goaway`. -/
def send_goaway (t : T) (error : Status) (immediate_disconnect_hint : Bool) : T :=
  let http_error := grpc_error_get_http2_error error
  let message := error.message
  let t :=
    if t.is_client = false ∧ http_error = GRPC_HTTP2_NO_ERROR
        ∧ immediate_disconnect_hint = false then
      if t.sent_goaway_state = .NO_GOAWAY_SEND then GracefulGoaway_Start t else t
    else if t.sent_goaway_state = .NO_GOAWAY_SEND
        ∨ t.sent_goaway_state = .GRACEFUL_GOAWAY then
      let t := { t with sent_goaway_state := .FINAL_GOAWAY_SEND_SCHEDULED }
      { t with qbuf := grpc_chttp2_goaway_append t.last_new_stream_id
                         (http_error % UINT32_MODULUS) message t.qbuf }
    else t
  grpc_chttp2_initiate_write t .GOAWAY_SENT

/-- Transcription of `grpc_chttp2_exceeded_ping_strikes`. -/
def grpc_chttp2_exceeded_ping_strikes (remove : RemoveStream) (t : T) : Option T :=
  let t := send_goaway t
    (grpc_error_set_http2_error (GRPC_ERROR_CREATE "too_many_pings") GRPC_HTTP2_ENHANCE_YOUR_CALM)
    true
  close_transport_locked remove t
    (grpc_error_set_rpc_status (GRPC_ERROR_CREATE "Too many pings") GRPC_STATUS_UNAVAILABLE)

/-- Transcription of the closure of `grpc_chttp2_keepalive_timeout`. -/
def grpc_chttp2_keepalive_timeout (remove : RemoveStream) (t : T) : Option T :=
  let t := send_goaway t
    (grpc_error_set_http2_error (GRPC_ERROR_CREATE "keepalive_timeout")
      GRPC_HTTP2_ENHANCE_YOUR_CALM) true
  close_transport_locked remove t
    (grpc_error_set_rpc_status (GRPC_ERROR_CREATE "keepalive timeout") GRPC_STATUS_UNAVAILABLE)

/-- Transcription of the closure of `grpc_chttp2_ping_timeout`. -/
def grpc_chttp2_ping_timeout (remove : RemoveStream) (t : T) : Option T :=
  let t := send_goaway t
    (grpc_error_set_http2_error (GRPC_ERROR_CREATE "ping_timeout")
      GRPC_HTTP2_ENHANCE_YOUR_CALM) true
  close_transport_locked remove t
    (grpc_error_set_rpc_status (GRPC_ERROR_CREATE "ping timeout") GRPC_STATUS_UNAVAILABLE)

/-- Transcription of the closure of `grpc_chttp2_settings_timeout`. -/
def grpc_chttp2_settings_timeout (remove : RemoveStream) (t : T) : Option T :=
  let t := send_goaway t
    (grpc_error_set_http2_error (GRPC_ERROR_CREATE "settings_timeout")
      GRPC_HTTP2_SETTINGS_TIMEOUT) true
  close_transport_locked remove t
    (grpc_error_set_rpc_status (GRPC_ERROR_CREATE "settings timeout") GRPC_STATUS_UNAVAILABLE)

/-- Transcription of `destroy_transport_locked`. -/
def destroy_transport_locked (remove : RemoveStream) (t : T) : Option T :=
  close_transport_locked remove { t with destroying := true }
    (GRPC_ERROR_CREATE "Transport destroyed")

/-- The fields of `grpc_transport_op` that `perform_transport_op_locked` acts on. -/
structure grpc_transport_op where
  goaway_error : Status := .OkStatus
  send_ping_on_initiate : Option Nat := none
  send_ping_on_ack : Option Nat := none
  disconnect_with_error : Status := .OkStatus
  on_consumed : Option Nat := none

/-- Transcription of `perform_transport_op_locked`. -/
def perform_transport_op_locked (remove : RemoveStream) (t : T) (op : grpc_transport_op) :
    Option T :=
  let t := if op.goaway_error.ok = false then send_goaway t op.goaway_error false else t
  let t :=
    if op.send_ping_on_initiate.isSome ∨ op.send_ping_on_ack.isSome then
      grpc_chttp2_initiate_write
        (send_ping_locked t (op.send_ping_on_initiate.map Closure.app)
          (op.send_ping_on_ack.map Closure.app)) .APPLICATION_PING
    else t
  let disconnected : Option T :=
    if op.disconnect_with_error.ok = false then
      close_transport_locked remove (send_goaway t op.disconnect_with_error true)
        op.disconnect_with_error
    else some t
  disconnected.map (fun t => exec_ctx_run t (op.on_consumed.map Closure.app) .OkStatus)

/-- The loop `for (auto s : to_cancel)` of `grpc_chttp2_add_incoming_goaway`. -/
def cancel_unseen_loop (remove : RemoveStream) : List Nat → T → Option T
  | [], t => some t
  | s :: to_cancel, t =>
    (grpc_chttp2_cancel_stream remove
      (set_stream t s { (t.streams s) with trailing_network_state := some .kNotSeenByServer })
      s t.goaway_error false).bind (cancel_unseen_loop remove to_cancel)

/-- The keepalive-throttling payload that `grpc_chttp2_add_incoming_goaway`
attaches to the status it reports, if any. -/
def goaway_keepalive_throttling (t : T) (goaway_error : Nat) (goaway_text : String)
    (keepalive_time_millis : Nat) : Option String :=
  if t.is_client ∧ goaway_error = GRPC_HTTP2_ENHANCE_YOUR_CALM
      ∧ goaway_text = "too_many_pings" then
    let max_keepalive_time_millis := INT_MAX / KEEPALIVE_TIME_BACKOFF_MULTIPLIER
    let throttled_keepalive_time :=
      if keepalive_time_millis > max_keepalive_time_millis then INT_MAX
      else keepalive_time_millis * KEEPALIVE_TIME_BACKOFF_MULTIPLIER
    some (toString throttled_keepalive_time)
  else none

/-- Transcription of `grpc_chttp2_add_incoming_goaway`; the payload of the
reported status is `goaway_keepalive_throttling`. -/
def grpc_chttp2_add_incoming_goaway (remove : RemoveStream) (t : T) (goaway_error : Nat)
    (last_stream_id : Nat) (goaway_text : String)
    (disable_transient_failure_state_notification : Bool) : Option T :=
  let status : Status :=
    grpc_error_set_rpc_status
      (grpc_error_set_http2_error
        (.Error ("GOAWAY received; Error code: " ++ toString goaway_error ++ "; Debug Text: "
          ++ goaway_text) none none [])
        goaway_error)
      GRPC_STATUS_UNAVAILABLE
  let t := { t with goaway_error := status }
  let cancelled : Option T :=
    if t.is_client then
      (cancel_unstarted_streams remove t t.goaway_error false).bind (fun t =>
        cancel_unseen_loop remove
          ((t.stream_map.filter (fun id_stream => id_stream.1 > last_stream_id)).map
            (fun id_stream => id_stream.2)) t)
    else some t
  cancelled.map (fun t =>
    if !disable_transient_failure_state_notification
    then connectivity_state_set t .TRANSIENT_FAILURE else t)

/-! ## Stream operations -/

/-- The fields of `grpc_transport_stream_op_batch` and of its payload. -/
structure grpc_transport_stream_op_batch where
  on_complete : Option Nat := none
  cancel_stream : Bool := false
  cancel_error : Status := .OkStatus
  cancel_tarpit : Bool := false
  send_initial_metadata : Bool := false
  /-- The initial metadata carries a non-OK grpc-status. -/
  send_initial_metadata_non_ok_status : Bool := false
  send_message : Bool := false
  send_message_flags : Nat := 0
  send_message_slices : List Slice := []
  send_trailing_metadata : Bool := false
  /-- The trailing metadata carries a non-OK grpc-status. -/
  send_trailing_metadata_non_ok_status : Bool := false
  send_trailing_metadata_empty : Bool := true
  recv_initial_metadata : Bool := false
  recv_initial_metadata_ready : Nat := 0
  /-- The pointer `trailing_metadata_available` of the payload is non-null. -/
  trailing_metadata_available : Bool := false
  recv_message : Bool := false
  recv_message_ready : Nat := 0
  /-- The pointer `call_failed_before_recv_message` of the payload is non-null. -/
  call_failed_before_recv_message : Bool := false
  recv_trailing_metadata : Bool := false
  recv_trailing_metadata_ready : Nat := 0

/-- Transcription of `add_closure_barrier`. -/
def add_closure_barrier (t : T) (closure : Nat) : T :=
  let scratch := (t.closure_scratch closure + CLOSURE_BARRIER_FIRST_REF_BIT) % UINTPTR_MODULUS
  { t with closure_scratch := Function.update t.closure_scratch closure scratch }

/-- The assignment `on_complete->next_data.scratch |= t->closure_barrier_may_cover_write`. -/
def or_may_cover_write (t : T) (closure : Nat) : T :=
  let scratch := t.closure_scratch closure ||| t.closure_barrier_may_cover_write
  { t with closure_scratch := Function.update t.closure_scratch closure scratch }

/-- The head of the block `if (op->send_initial_metadata)` of
`perform_stream_op_locked`: the closure and the metadata are recorded. -/
def send_initial_metadata_record (t : T) (s : Nat) (op : grpc_transport_stream_op_batch)
    (on_complete : Nat) : T :=
  let t := or_may_cover_write t on_complete
  let t := add_closure_barrier t on_complete
  let t := set_stream t s { (t.streams s) with send_initial_metadata_finished := some on_complete,
                                               send_initial_metadata := true }
  if op.send_initial_metadata_non_ok_status then
    set_stream t s { (t.streams s) with seen_error := true }
  else t

/-- The branch `if (!s->write_closed)` of the block `if (op->send_initial_metadata)`
of `perform_stream_op_locked`. -/
def send_initial_metadata_start (remove : RemoveStream) (t : T) (s : Nat)
    (op : grpc_transport_stream_op_batch) : Option T :=
  if t.is_client then
    if t.closed_with_error.ok then
      if (t.streams s).id = 0 then
        maybe_start_some_streams remove (grpc_chttp2_list_add_waiting_for_concurrency t s)
      else none
    else
      let t := set_stream t s
        { (t.streams s) with trailing_network_state := some .kNotSentOnWire }
      grpc_chttp2_cancel_stream remove t s
        (grpc_error_set_rpc_status
          (GRPC_ERROR_CREATE_REFERENCING "Transport closed" [t.closed_with_error])
          GRPC_STATUS_UNAVAILABLE)
        false
  else if (t.streams s).id ≠ 0 then
    let t := grpc_chttp2_mark_stream_writable t s
    if ¬ (op.send_message ∧ op.send_message_flags &&& GRPC_WRITE_BUFFER_HINT ≠ 0) then
      some (grpc_chttp2_initiate_write t .SEND_INITIAL_METADATA)
    else some t
  else none

/-- The branch of the block `if (op->send_initial_metadata)` of
`perform_stream_op_locked` for a stream closed for writes. -/
def send_initial_metadata_after_close (t : T) (s : Nat) : T :=
  let closure := (t.streams s).send_initial_metadata_finished
  let t := set_stream t s { (t.streams s) with send_initial_metadata := false,
                                               send_initial_metadata_finished := none }
  grpc_chttp2_complete_closure_step t closure
    (GRPC_ERROR_CREATE_REFERENCING
      "Attempt to send initial metadata after stream was closed"
      [(t.streams s).write_closed_error])
    "send_initial_metadata_finished"

/-- The block `if (op->send_initial_metadata)` of `perform_stream_op_locked`. -/
def perform_stream_op_send_initial_metadata (remove : RemoveStream) (t : T) (s : Nat)
    (op : grpc_transport_stream_op_batch) : Option T :=
  match op.on_complete with
  | none => none
  | some on_complete =>
    if (t.streams s).send_initial_metadata_finished.isSome then none
    else
      let t := send_initial_metadata_record t s op on_complete
      if (t.streams s).write_closed = false then send_initial_metadata_start remove t s op
      else some (send_initial_metadata_after_close t s)

/-- The head of the block `if (op->send_message)` of `perform_stream_op_locked`:
the closure is recorded. -/
def send_message_record (t : T) (s : Nat) (on_complete : Nat) : T :=
  let t := or_may_cover_write t on_complete
  let t := add_closure_barrier t on_complete
  set_stream t s { (t.streams s) with send_message_finished := some on_complete }

/-- The branch `if (s->write_closed)` of the block `if (op->send_message)`. -/
def send_message_after_close (t : T) (s : Nat) (on_complete : Nat) : T :=
  let t := set_stream t s { (t.streams s) with send_message_finished := none }
  grpc_chttp2_complete_closure_step t (some on_complete) .OkStatus
    "fetching_send_message_finished"

/-- The frame header and the slices of the message go to the flow-controlled
buffer of the stream, in the block `if (op->send_message)`. -/
def send_message_buffer (t : T) (s : Nat) (op : grpc_transport_stream_op_batch) : T :=
  let flags := op.send_message_flags
  let len := (op.send_message_slices.map Slice.length).sum
  let frame_hdr : List Nat :=
    [if flags &&& GRPC_WRITE_INTERNAL_COMPRESS ≠ 0 then 1 else 0,
     (len / 16777216) % 256, (len / 65536) % 256, (len / 256) % 256, len % 256]
  let st0 := t.streams s
  let st := { st0 with flow_controlled_buffer :=
                         st0.flow_controlled_buffer ++ [Slice.bytes frame_hdr] }
  let offset : Int := st.flow_controlled_bytes_written
    + ((st.flow_controlled_buffer.map Slice.length).sum : Nat) + (len : Nat)
  let next_message_end_offset : Int :=
    if flags &&& GRPC_WRITE_BUFFER_HINT ≠ 0 then offset - (t.write_buffer_size : Nat)
    else offset
  let write_buffering : Bool := decide (flags &&& GRPC_WRITE_BUFFER_HINT ≠ 0)
  set_stream t s
    { st with next_message_end_offset := next_message_end_offset,
              write_buffering := write_buffering,
              flow_controlled_buffer := st.flow_controlled_buffer ++ op.send_message_slices }

/-- The closure of the message is run at once or parked on a write callback
list, in the block `if (op->send_message)`. -/
def send_message_notify (t : T) (s : Nat) (op : grpc_transport_stream_op_batch)
    (on_complete : Nat) : T :=
  let notify_offset := (t.streams s).next_message_end_offset
  if notify_offset ≤ (t.streams s).flow_controlled_bytes_written then
    let t := set_stream t s { (t.streams s) with send_message_finished := none }
    grpc_chttp2_complete_closure_step t (some on_complete) .OkStatus
      "fetching_send_message_finished"
  else if op.send_message_flags &&& GRPC_WRITE_THROUGH ≠ 0 then
    let cbs := (notify_offset, on_complete) :: (t.streams s).on_write_finished_cbs
    set_stream t s { (t.streams s) with send_message_finished := none,
                                         on_write_finished_cbs := cbs }
  else
    let cbs := (notify_offset, on_complete) :: (t.streams s).on_flow_controlled_cbs
    set_stream t s { (t.streams s) with send_message_finished := none,
                                         on_flow_controlled_cbs := cbs }

/-- The tail of the block `if (op->send_message)`: a started stream with
something to write becomes writable. -/
def send_message_kick (t : T) (s : Nat) : T :=
  if (t.streams s).id ≠ 0
      ∧ ((t.streams s).write_buffering = false
        ∨ ((t.streams s).flow_controlled_buffer.map Slice.length).sum
            > t.write_buffer_size) then
    grpc_chttp2_initiate_write (grpc_chttp2_mark_stream_writable t s) .SEND_MESSAGE
  else t

/-- The block `if (op->send_message)` of `perform_stream_op_locked`. -/
def perform_stream_op_send_message (t : T) (s : Nat) (op : grpc_transport_stream_op_batch) :
    Option T :=
  match op.on_complete with
  | none => none
  | some on_complete =>
    let t := send_message_record t s on_complete
    if (t.streams s).write_closed then some (send_message_after_close t s on_complete)
    else
      some (send_message_kick
        (send_message_notify (send_message_buffer t s op) s op on_complete) s)

/-- The block `if (op->send_trailing_metadata)` of `perform_stream_op_locked`. -/
def perform_stream_op_send_trailing_metadata (t : T) (s : Nat)
    (op : grpc_transport_stream_op_batch) : Option T :=
  match op.on_complete with
  | none => none
  | some on_complete =>
    if (t.streams s).send_trailing_metadata_finished.isSome then none
    else
      let t := or_may_cover_write t on_complete
      let t := add_closure_barrier t on_complete
      let st0 := t.streams s
      let t := set_stream t s { st0 with send_trailing_metadata_finished := some on_complete,
                                         send_trailing_metadata := true,
                                         write_buffering := false }
      let t :=
        if op.send_trailing_metadata_non_ok_status then
          set_stream t s { (t.streams s) with seen_error := true }
        else t
      if (t.streams s).write_closed then
        let t := set_stream t s { (t.streams s) with send_trailing_metadata := false, send_trailing_metadata_finished := none }
        some (grpc_chttp2_complete_closure_step t (some on_complete)
          (if op.send_trailing_metadata_empty then .OkStatus
           else GRPC_ERROR_CREATE "Attempt to send trailing metadata after stream was closed")
          "send_trailing_metadata_finished")
      else if (t.streams s).id ≠ 0 then
        some (grpc_chttp2_initiate_write (grpc_chttp2_mark_stream_writable t s)
          .SEND_TRAILING_METADATA)
      else some t

/-- The block `if (op->recv_initial_metadata)` of `perform_stream_op_locked`. -/
def perform_stream_op_recv_initial_metadata (t : T) (s : Nat)
    (op : grpc_transport_stream_op_batch) : Option T :=
  if (t.streams s).recv_initial_metadata_ready.isSome then none
  else
    let st0 := t.streams s
    let st := { st0 with recv_initial_metadata_ready := some op.recv_initial_metadata_ready,
                         trailing_metadata_available := op.trailing_metadata_available }
    let st :=
      if st.parsed_trailers_only ∧ st.trailing_metadata_available then
        { st with trailing_metadata_available_value := true }
      else st
    some (grpc_chttp2_maybe_complete_recv_initial_metadata (set_stream t s st) s)

/-- The block `if (op->recv_message)` of `perform_stream_op_locked`. -/
def perform_stream_op_recv_message (t : T) (s : Nat) (op : grpc_transport_stream_op_batch) :
    Option T :=
  if (t.streams s).recv_message_ready.isSome then none
  else
    let st0 := t.streams s
    let st := { st0 with recv_message_ready := some op.recv_message_ready,
                         recv_message_has_value := true,
                         call_failed_before_recv_message := op.call_failed_before_recv_message }
    some (grpc_chttp2_maybe_complete_recv_trailing_metadata (set_stream t s st) s)

/-- The block `if (op->recv_trailing_metadata)` of `perform_stream_op_locked`. -/
def perform_stream_op_recv_trailing_metadata (t : T) (s : Nat)
    (op : grpc_transport_stream_op_batch) : Option T :=
  if (t.streams s).collecting_stats then none
  else if (t.streams s).recv_trailing_metadata_finished.isSome then none
  else
    let st0 := t.streams s
    let st := { st0 with collecting_stats := true,
                         recv_trailing_metadata_finished := some op.recv_trailing_metadata_ready,
                         final_metadata_requested := true }
    some (grpc_chttp2_maybe_complete_recv_trailing_metadata (set_stream t s st) s)

/-- The head of `perform_stream_op_locked`: the barrier of `on_complete` starts
with one reference and no error. -/
def perform_stream_op_init_barrier (t : T) (op : grpc_transport_stream_op_batch) : T :=
  match op.on_complete with
  | some on_complete =>
      { t with closure_scratch :=
                 Function.update t.closure_scratch on_complete CLOSURE_BARRIER_FIRST_REF_BIT,
               closure_error := Function.update t.closure_error on_complete .OkStatus }
  | none => t

/-- Transcription of `perform_stream_op_locked`. -/
def perform_stream_op_locked (remove : RemoveStream) (t : T) (s : Nat)
    (op : grpc_transport_stream_op_batch) : Option T :=
  let t := perform_stream_op_init_barrier t op
  (if op.cancel_stream
    then grpc_chttp2_cancel_stream remove t s op.cancel_error op.cancel_tarpit
    else some t).bind (fun t =>
  (if op.send_initial_metadata
    then perform_stream_op_send_initial_metadata remove t s op else some t).bind (fun t =>
  (if op.send_message then perform_stream_op_send_message t s op else some t).bind (fun t =>
  (if op.send_trailing_metadata
    then perform_stream_op_send_trailing_metadata t s op else some t).bind (fun t =>
  (if op.recv_initial_metadata
    then perform_stream_op_recv_initial_metadata t s op else some t).bind (fun t =>
  (if op.recv_message then perform_stream_op_recv_message t s op else some t).bind (fun t =>
  (if op.recv_trailing_metadata
    then perform_stream_op_recv_trailing_metadata t s op else some t).map (fun t =>
  grpc_chttp2_complete_closure_step t op.on_complete .OkStatus "op->on_complete")))))))

/-! ## Reclaimers, keepalive, tarpit timer -/

/-- Transcription of `benign_reclaimer_locked`. -/
def benign_reclaimer_locked (t : T) (error : Status) : T :=
  let t :=
    if error.ok ∧ t.stream_map.isEmpty then
      send_goaway t
        (grpc_error_set_http2_error (GRPC_ERROR_CREATE "Buffers full")
          GRPC_HTTP2_ENHANCE_YOUR_CALM) true
    else t
  { t with benign_reclaimer_registered := false }

/-- Transcription of `destructive_reclaimer_locked`. -/
def destructive_reclaimer_locked (remove : RemoveStream) (t : T) (error : Status) :
    Option T :=
  let t := { t with destructive_reclaimer_registered := false }
  match t.stream_map with
  | [] => some t
  | id_stream :: _ =>
    if error.ok then
      (grpc_chttp2_cancel_stream remove t id_stream.2
        (grpc_error_set_http2_error (GRPC_ERROR_CREATE "Buffers full")
          GRPC_HTTP2_ENHANCE_YOUR_CALM) false).map
        (fun t => if !t.stream_map.isEmpty then post_destructive_reclaimer t else t)
    else some t

/-- Transcription of `send_keepalive_ping_locked`.  Modelled from the spec:
`ping_callbacks.OnPingAck` records the ack closure and requests a ping. -/
def send_keepalive_ping_locked (t : T) : T :=
  if t.closed_with_error.ok = false then
    exec_ctx_run t (some .finish_keepalive_ping) t.closed_with_error
  else
    { t with ping_requested := true,
             ping_on_ack := t.ping_on_ack ++ [.finish_keepalive_ping] }

/-- Transcription of `init_keepalive_ping_locked`. -/
def init_keepalive_ping_locked (t : T) : Option T :=
  if t.keepalive_state ≠ .WAITING then none
  else if t.keepalive_ping_timer_armed = false then none
  else
    let t := { t with keepalive_ping_timer_armed := false }
    if t.destroying ∨ t.closed_with_error.ok = false then
      some { t with keepalive_state := .DYING }
    else if t.keepalive_permit_without_calls ∨ t.stream_map.isEmpty = false then
      let t := { t with keepalive_state := .PINGING }
      let t := send_keepalive_ping_locked t
      some (grpc_chttp2_initiate_write t .KEEPALIVE_PING)
    else some { t with keepalive_ping_timer_armed := true }

/-- Transcription of `finish_keepalive_ping_locked`. -/
def finish_keepalive_ping_locked (t : T) (error : Status) : Option T :=
  if t.keepalive_state = .PINGING then
    if error.ok then
      let t := { t with keepalive_state := .WAITING }
      if t.keepalive_ping_timer_armed then none
      else some { t with keepalive_ping_timer_armed := true }
    else some t
  else some t

/-- The closure `MaybeTarpit` hands to the combiner when its timer fires, for
the `i`-th deferred piece of work. -/
def tarpit_timer_fired (t : T) (i : Nat) : Option T :=
  match t.tarpit_timers.get? i with
  | none => none
  | some fn =>
    let t := { t with tarpit_timers := t.tarpit_timers.eraseIdx i }
    if t.closed_with_error.ok = false then some t else run_tarpit_fn t fn

/-! ## Construction -/

/-- The channel args read by the model of `read_channel_args`. -/
structure ChannelArgs where
  /-- The arg `GRPC_ARG_HTTP2_INITIAL_SEQUENCE_NUMBER`, a C `int`. -/
  http2_initial_sequence_number : Option Int := none
  /-- The arg `GRPC_ARG_HTTP2_WRITE_BUFFER_SIZE`, a C `int`. -/
  http2_write_buffer_size : Option Int := none
  /-- The arg `GRPC_ARG_KEEPALIVE_PERMIT_WITHOUT_CALLS`. -/
  keepalive_permit_without_calls : Option Bool := none
  /-- The keepalive time is finite. -/
  keepalive_enabled : Bool := false
  /-- The arg `GRPC_ARG_HTTP_ALLOW_TARPIT`. -/
  http_allow_tarpit : Option Bool := none

/-- Transcription of `read_channel_args`, for the args of `ChannelArgs`. -/
def read_channel_args (t : T) (channel_args : ChannelArgs) (_is_client : Bool) : T :=
  let initial_sequence_number : Int := channel_args.http2_initial_sequence_number.getD (-1)
  let t :=
    if initial_sequence_number > 0 then
      if t.next_stream_id % 2 ≠ (initial_sequence_number % 2).toNat then t
      else { t with next_stream_id := (initial_sequence_number % (UINT32_MODULUS : Int)).toNat }
    else t
  let t := { t with write_buffer_size :=
                      (max 0 (channel_args.http2_write_buffer_size.getD 65535)).toNat }
  let t := { t with keepalive_permit_without_calls :=
                      channel_args.keepalive_permit_without_calls.getD false }
  { t with allow_tarpit := channel_args.http_allow_tarpit.getD true }

/-- Transcription of `init_keepalive_pings_if_enabled_locked`. -/
def init_keepalive_pings_if_enabled_locked (t : T) (keepalive_enabled : Bool) : T :=
  if keepalive_enabled then { t with keepalive_state := .WAITING, keepalive_ping_timer_armed := true }
  else { t with keepalive_state := .DISABLED }

/-- Transcription of the constructor of `grpc_chttp2_transport`
(`grpc_create_chttp2_transport`). -/
def grpc_create_chttp2_transport (channel_args : ChannelArgs) (is_client : Bool) : T :=
  let t : T := { is_client := is_client, next_stream_id := if is_client then 1 else 2 }
  let t := read_channel_args t channel_args is_client
  let t := init_keepalive_pings_if_enabled_locked t channel_args.keepalive_enabled
  let t := grpc_chttp2_initiate_write t .INITIAL_WRITE
  post_benign_reclaimer t

/-- Transcription of the constructor of `grpc_chttp2_stream` (`InitStream`):
the new object takes the next fresh pointer; `server_data` is the id of an
accepted stream. -/
def InitStream (t : T) (server_data : Option Nat) : T :=
  let s := t.streams_allocated
  let t := { t with streams_allocated := s + 1 }
  let t := set_stream t s {}
  match server_data with
  | some id =>
    let t := set_stream t s { (t.streams s) with id := id % UINT32_MODULUS }
    let t := { t with stream_map := stream_map_emplace t.stream_map (t.streams s).id s }
    post_destructive_reclaimer t
  | none => t

/-- Modelled from the spec: the parser (parsing.cc is not in src/) accepts an
inbound HEADERS frame as a new stream only on a server, for a client-parity
id above every id seen so far; it records the id in `last_new_stream_id` and
calls `grpc_chttp2_parsing_accept_stream`, which constructs the stream. -/
def parsing_accept_stream (t : T) (id : Nat) : Option T :=
  if t.is_client = false ∧ id % 2 = 1 ∧ t.last_new_stream_id < id ∧ id < UINT32_MODULUS then
    some (InitStream { t with last_new_stream_id := id } (some id))
  else none

/-- Modelled from the spec: what the parser and the flow-control component
(not in src/) may change on a stream between two handlers: the buffered
bytes, the answers of the deframer and of flow control, end-of-stream flags. -/
def parser_stream_input (t : T) (s : Nat) (frame_storage : Nat) (deframe : DeframeResult)
    (flowctl : FlowControlAction) : T :=
  set_stream t s { (t.streams s) with frame_storage := frame_storage,
                                      deframe := deframe,
                                      flowctl := flowctl }

/-! ## The transition system -/

/-- The handlers that run under the combiner, with their arguments. -/
inductive Op where
  | init_stream
  | accept_stream (id : Nat)
  | perform_stream_op (s : Nat) (op : grpc_transport_stream_op_batch)
  | perform_transport_op (op : grpc_transport_op)
  | initiate_write (reason : grpc_chttp2_initiate_write_reason)
  | write_action_begin (gathered partial_write : Bool)
  | write_action_end (error : Status)
  | graceful_goaway_ping_ack
  | mark_stream_closed (s : Nat) (close_reads close_writes : Bool) (error : Status)
  | cancel_stream (s : Nat) (error : Status) (tarpit : Bool)
  | add_incoming_goaway (goaway_error last_stream_id : Nat) (goaway_text : String)
      (disable_notification : Bool)
  | peer_settings (max_concurrent_streams : Nat)
  | close_transport (error : Status)
  | send_goaway (error : Status) (immediate_disconnect_hint : Bool)
  | keepalive_timeout
  | ping_timeout
  | settings_timeout
  | exceeded_ping_strikes
  | destroy_transport
  | tarpit_timer (i : Nat)
  | stream_input (s : Nat) (frame_storage : Nat) (deframe : DeframeResult)
      (flowctl : FlowControlAction)
  | benign_reclaimer (error : Status)
  | destructive_reclaimer (error : Status)
  | init_keepalive_ping
  | finish_keepalive_ping (error : Status)

/-- One step of the transport: the handler of `op` run on `t`; `none` when the
handler is not enabled (nothing scheduled it, or the stream pointer is not a
constructed stream) or aborts.  `fuel` bounds the nesting of `remove_stream`. -/
def step (fuel : Nat) (op : Op) (t : T) : Option T :=
  match op with
  | .init_stream => some (InitStream t none)
  | .accept_stream id => parsing_accept_stream t id
  | .perform_stream_op s op =>
      if s < t.streams_allocated then perform_stream_op_locked (remove_stream_fuel fuel) t s op
      else none
  | .perform_transport_op op => perform_transport_op_locked (remove_stream_fuel fuel) t op
  | .initiate_write reason => some (grpc_chttp2_initiate_write t reason)
  | .write_action_begin gathered partial_write =>
      if 0 < t.finally_write_action_begin then
        write_action_begin_locked (remove_stream_fuel fuel) t gathered partial_write
      else none
  | .write_action_end error =>
      if 0 < t.endpoint_writes_in_flight then
        write_action_end_locked (remove_stream_fuel fuel) t error
      else none
  | .graceful_goaway_ping_ack => some (GracefulGoaway_MaybeSendFinalGoawayLocked t)
  | .mark_stream_closed s close_reads close_writes error =>
      if s < t.streams_allocated then
        grpc_chttp2_mark_stream_closed (remove_stream_fuel fuel) t s close_reads close_writes error
      else none
  | .cancel_stream s error tarpit =>
      if s < t.streams_allocated then
        grpc_chttp2_cancel_stream (remove_stream_fuel fuel) t s error tarpit
      else none
  | .add_incoming_goaway goaway_error last_stream_id goaway_text disable_notification =>
      grpc_chttp2_add_incoming_goaway (remove_stream_fuel fuel) t goaway_error last_stream_id
        goaway_text disable_notification
  | .peer_settings max_concurrent_streams =>
      some { t with peer_max_concurrent_streams := max_concurrent_streams }
  | .close_transport error => close_transport_locked (remove_stream_fuel fuel) t error
  | .send_goaway error immediate_disconnect_hint =>
      some (send_goaway t error immediate_disconnect_hint)
  | .keepalive_timeout => grpc_chttp2_keepalive_timeout (remove_stream_fuel fuel) t
  | .ping_timeout => grpc_chttp2_ping_timeout (remove_stream_fuel fuel) t
  | .settings_timeout => grpc_chttp2_settings_timeout (remove_stream_fuel fuel) t
  | .exceeded_ping_strikes => grpc_chttp2_exceeded_ping_strikes (remove_stream_fuel fuel) t
  | .destroy_transport => destroy_transport_locked (remove_stream_fuel fuel) t
  | .tarpit_timer i => tarpit_timer_fired t i
  | .stream_input s frame_storage deframe flowctl =>
      if s < t.streams_allocated then some (parser_stream_input t s frame_storage deframe flowctl)
      else none
  | .benign_reclaimer error => some (benign_reclaimer_locked t error)
  | .destructive_reclaimer error =>
      destructive_reclaimer_locked (remove_stream_fuel fuel) t error
  | .init_keepalive_ping => init_keepalive_ping_locked t
  | .finish_keepalive_ping error => finish_keepalive_ping_locked t error

/-- Runs a sequence of handlers; the answer lists the states after each one. -/
def run (fuel : Nat) : List Op → T → Option (List T)
  | [], _ => some []
  | op :: ops, t =>
    match step fuel op t with
    | none => none
    | some t1 => (run fuel ops t1).map (fun l => t1 :: l)

/-- The states a transport created with `channel_args` can be in. -/
inductive Reachable (fuel : Nat) (channel_args : ChannelArgs) (is_client : Bool) : T → Prop where
  | init : Reachable fuel channel_args is_client
      (grpc_create_chttp2_transport channel_args is_client)
  | step (t t1 : T) (op : Op) : Reachable fuel channel_args is_client t →
      step fuel op t = some t1 → Reachable fuel channel_args is_client t1

/-! ## Invariants and frame relations -/

/-- A stream is closed in both directions. -/
def grpc_chttp2_stream.closed (st : grpc_chttp2_stream) : Prop :=
  st.read_closed = true ∧ st.write_closed = true

/-- The well-formedness invariant of the transport; the stream under key `ex`
of the map, if any, is exempt from being open (it is about to be removed). -/
structure WFx (ex : Option Nat) (t : T) : Prop where
  idle : t.write_state = .IDLE →
    t.finally_write_action_begin = 0 ∧ t.endpoint_writes_in_flight = 0
  busy : t.write_state ≠ .IDLE →
    t.finally_write_action_begin + t.endpoint_writes_in_flight ≤ 1
  map_id : ∀ i r, (i, r) ∈ t.stream_map → (t.streams r).id = i ∧ i ≠ 0
  map_nodup : (t.stream_map.map Prod.fst).Nodup
  map_open : ∀ i r, (i, r) ∈ t.stream_map → some i ≠ ex → ¬ (t.streams r).closed
  map_conv : ∀ r, (t.streams r).id ≠ 0 → ¬ (t.streams r).closed →
    ((t.streams r).id, r) ∈ t.stream_map
  wait_id : ∀ r, r ∈ t.waiting_for_concurrency →
    (t.streams r).id = 0 ∧ ¬ (t.streams r).closed
  wait_nodup : t.waiting_for_concurrency.Nodup
  wait_client : t.is_client = false → t.waiting_for_concurrency = []
  closed_wait : t.closed_with_error.ok = false → t.waiting_for_concurrency = []
  pending : t.close_transport_on_writes_finished.ok = false →
    t.write_state ≠ .IDLE ∧ t.closed_with_error.ok = true
  ids_client : t.is_client = true → ∀ r, (t.streams r).id ≠ 0 →
    (t.streams r).id < t.next_stream_id ∧ (t.streams r).id % 2 = 1
  ids_server : t.is_client = false → ∀ r, (t.streams r).id ≠ 0 →
    (t.streams r).id ≤ t.last_new_stream_id
  next_parity : t.next_stream_id % 2 = if t.is_client then 1 else 0
  map_refs : ∀ i r, (i, r) ∈ t.stream_map → r < t.streams_allocated
  wait_refs : ∀ r, r ∈ t.waiting_for_concurrency → r < t.streams_allocated

/-- The well-formedness invariant, no stream exempt. -/
abbrev WFb (t : T) : Prop := WFx none t

/-- Once the final GOAWAY is sent and no stream is left, the transport is
closed or its close is pending behind a write. -/
def FinalSentClosed (t : T) : Prop :=
  t.sent_goaway_state = .FINAL_GOAWAY_SENT → t.stream_map = [] →
    t.closed_with_error.ok = false ∨ t.close_transport_on_writes_finished.ok = false

/-- What `grpc_chttp2_initiate_write` may do to the write state, any number
of times: nothing, or leave it not IDLE with `write_action_begin_locked`
scheduled if it was IDLE. -/
def Kick (t t1 : T) : Prop :=
  (t1.write_state = t.write_state ∧ t1.finally_write_action_begin = t.finally_write_action_begin)
  ∨ (t1.write_state ≠ .IDLE ∧ t1.finally_write_action_begin =
      if t.write_state = .IDLE then t.finally_write_action_begin + 1
      else t.finally_write_action_begin)

/-- The part of a stream that the invariant and the close path depend on. -/
structure StreamCore where
  id : Nat
  read_closed : Bool
  write_closed : Bool
  read_closed_error : Status
  write_closed_error : Status
  trailing_network_state : Option GrpcStreamNetworkState

/-- Projection of a stream on its core. -/
def grpc_chttp2_stream.core (st : grpc_chttp2_stream) : StreamCore :=
  { id := st.id, read_closed := st.read_closed, write_closed := st.write_closed,
    read_closed_error := st.read_closed_error, write_closed_error := st.write_closed_error,
    trailing_network_state := st.trailing_network_state }

/-- Frame of the handlers that neither close nor admit a stream: they leave
the fields below alone and may only kick the write state. -/
structure SoftRel (t t1 : T) : Prop where
  is_client : t1.is_client = t.is_client
  destroying : t1.destroying = t.destroying
  closed_with_error : t1.closed_with_error = t.closed_with_error
  close_pending : t1.close_transport_on_writes_finished = t.close_transport_on_writes_finished
  goaway_error : t1.goaway_error = t.goaway_error
  sent_goaway_state : t1.sent_goaway_state = t.sent_goaway_state
  next_stream_id : t1.next_stream_id = t.next_stream_id
  last_new_stream_id : t1.last_new_stream_id = t.last_new_stream_id
  stream_map : t1.stream_map = t.stream_map
  waiting : t1.waiting_for_concurrency = t.waiting_for_concurrency
  peer_max : t1.peer_max_concurrent_streams = t.peer_max_concurrent_streams
  in_flight : t1.endpoint_writes_in_flight = t.endpoint_writes_in_flight
  allocated : t1.streams_allocated = t.streams_allocated
  allow_tarpit : t1.allow_tarpit = t.allow_tarpit
  kick : Kick t t1
  streams : ∀ r, (t1.streams r).core = (t.streams r).core

/-- Frame of the handlers of the close path. -/
structure Rel (t t1 : T) : Prop where
  is_client : t1.is_client = t.is_client
  destroying : t1.destroying = t.destroying
  goaway_error : t1.goaway_error = t.goaway_error
  sent_goaway_state : t1.sent_goaway_state = t.sent_goaway_state
  last_new_stream_id : t1.last_new_stream_id = t.last_new_stream_id
  peer_max : t1.peer_max_concurrent_streams = t.peer_max_concurrent_streams
  in_flight : t1.endpoint_writes_in_flight = t.endpoint_writes_in_flight
  allocated : t1.streams_allocated = t.streams_allocated
  allow_tarpit : t1.allow_tarpit = t.allow_tarpit
  kick : Kick t t1
  closed_mono : t.closed_with_error.ok = false → t1.closed_with_error = t.closed_with_error
  closed_set : t1.closed_with_error = t.closed_with_error ∨ t1.closed_with_error.ok = false
  pending_mono : t.close_transport_on_writes_finished.ok = false →
    t1.close_transport_on_writes_finished.ok = false
  next_le : t.next_stream_id ≤ t1.next_stream_id
  waiting : List.Sublist t1.waiting_for_concurrency t.waiting_for_concurrency
  id_once : ∀ r, (t.streams r).id ≠ 0 → (t1.streams r).id = (t.streams r).id
  read_closed_mono : ∀ r, (t.streams r).read_closed = true → (t1.streams r).read_closed = true
  write_closed_mono : ∀ r, (t.streams r).write_closed = true →
    (t1.streams r).write_closed = true

/-- What a handler of the close path guarantees from a well-formed state. -/
structure Post (t t1 : T) : Prop where
  wf : WFb t1
  rel : Rel t t1
  fsc : FinalSentClosed t → FinalSentClosed t1

/-- What the close path relies on from its parameter `remove`: called on the
key of a closed stream of the map, it restores the invariant. -/
def RemoveOK (remove : RemoveStream) : Prop :=
  ∀ t id error t1, remove t id error = some t1 → WFx (some id) t →
    (∀ s, (id, s) ∈ t.stream_map → (t.streams s).closed) →
    WFb t1 ∧ Rel t t1 ∧ FinalSentClosed t1

/-- Frame of the steps that work on the one stream `s` without admitting or
removing it: they may close its halves and retag it, take streams off the
waiting list, and kick the write state. -/
structure StreamRel (s : Nat) (t t1 : T) : Prop where
  is_client : t1.is_client = t.is_client
  destroying : t1.destroying = t.destroying
  closed_with_error : t1.closed_with_error = t.closed_with_error
  close_pending : t1.close_transport_on_writes_finished = t.close_transport_on_writes_finished
  goaway_error : t1.goaway_error = t.goaway_error
  sent_goaway_state : t1.sent_goaway_state = t.sent_goaway_state
  next_stream_id : t1.next_stream_id = t.next_stream_id
  last_new_stream_id : t1.last_new_stream_id = t.last_new_stream_id
  stream_map : t1.stream_map = t.stream_map
  waiting : List.Sublist t1.waiting_for_concurrency t.waiting_for_concurrency
  peer_max : t1.peer_max_concurrent_streams = t.peer_max_concurrent_streams
  in_flight : t1.endpoint_writes_in_flight = t.endpoint_writes_in_flight
  allocated : t1.streams_allocated = t.streams_allocated
  allow_tarpit : t1.allow_tarpit = t.allow_tarpit
  kick : Kick t t1
  others : ∀ r, r ≠ s → (t1.streams r).core = (t.streams r).core
  id_eq : (t1.streams s).id = (t.streams s).id
  read_closed_mono : (t.streams s).read_closed = true → (t1.streams s).read_closed = true
  write_closed_mono : (t.streams s).write_closed = true → (t1.streams s).write_closed = true

/-- Position of a GOAWAY state in the order of the shutdown. -/
def grpc_chttp2_sent_goaway_state.rank : grpc_chttp2_sent_goaway_state → Nat
  | .NO_GOAWAY_SEND => 0
  | .GRACEFUL_GOAWAY => 1
  | .FINAL_GOAWAY_SEND_SCHEDULED => 2
  | .FINAL_GOAWAY_SENT => 3

/-- What sending a GOAWAY may do to `sent_goaway_state`: nothing, or move it
forward to a state before FINAL_GOAWAY_SENT. -/
def SendStep (a b : grpc_chttp2_sent_goaway_state) : Prop :=
  a = b ∨ (a.rank < b.rank ∧ b ≠ .FINAL_GOAWAY_SENT)

/-- What one handler may do to `sent_goaway_state`: a `SendStep`, or the move
from FINAL_GOAWAY_SEND_SCHEDULED to FINAL_GOAWAY_SENT. -/
def GoStep (a b : grpc_chttp2_sent_goaway_state) : Prop :=
  SendStep a b ∨ (a = .FINAL_GOAWAY_SEND_SCHEDULED ∧ b = .FINAL_GOAWAY_SENT)

/-- What any handler does to `closed_with_error`: a non-OK value stays, and a
new value is non-OK. -/
structure ClosedRel (t t1 : T) : Prop where
  is_client : t1.is_client = t.is_client
  closed_mono : t.closed_with_error.ok = false → t1.closed_with_error = t.closed_with_error
  closed_set : t1.closed_with_error = t.closed_with_error ∨ t1.closed_with_error.ok = false

/-- Frame of the handlers of the transport that neither close nor touch a
stream: besides what `SoftRel` allows they may send a GOAWAY and change the
settings of the transport. -/
structure TopRel (t t1 : T) : Prop where
  is_client : t1.is_client = t.is_client
  closed_with_error : t1.closed_with_error = t.closed_with_error
  close_pending : t1.close_transport_on_writes_finished = t.close_transport_on_writes_finished
  next_stream_id : t1.next_stream_id = t.next_stream_id
  last_new_stream_id : t1.last_new_stream_id = t.last_new_stream_id
  stream_map : t1.stream_map = t.stream_map
  waiting : t1.waiting_for_concurrency = t.waiting_for_concurrency
  in_flight : t1.endpoint_writes_in_flight = t.endpoint_writes_in_flight
  allocated : t1.streams_allocated = t.streams_allocated
  kick : Kick t t1
  streams : ∀ r, (t1.streams r).core = (t.streams r).core
  send : SendStep t.sent_goaway_state t1.sent_goaway_state

/-- The invariant of the reachable states. -/
def Inv (t : T) : Prop := WFb t ∧ FinalSentClosed t

/-- What one handler does to the fields that only move forward. -/
structure StepRel (t t1 : T) : Prop where
  closed : ClosedRel t t1
  go : GoStep t.sent_goaway_state t1.sent_goaway_state

/-- The transport is writing and nothing is scheduled or in flight: the state
inside `write_action_begin_locked` and `write_action_end_locked`. -/
def Busy0 (t : T) : Prop :=
  t.write_state ≠ .IDLE ∧ t.finally_write_action_begin = 0 ∧ t.endpoint_writes_in_flight = 0

/-- What a handler made of GOAWAY sends and steps of the close path
guarantees. -/
structure MidRel (t t1 : T) : Prop where
  inv : Inv t → Inv t1
  closed : ClosedRel t t1
  send : SendStep t.sent_goaway_state t1.sent_goaway_state

/-- A fallible handler is soft when each of its results is. -/
def OptSoft (t : T) (o : Option T) : Prop := ∀ t1, o = some t1 → SoftRel t t1

/-- The core of a stream closed in both directions with `e`: a half already
closed keeps its error. -/
def closed_core (st : grpc_chttp2_stream) (e : Status) : StreamCore :=
  { id := st.id, read_closed := true, write_closed := true,
    read_closed_error := if st.read_closed then st.read_closed_error else e,
    write_closed_error := if st.write_closed then st.write_closed_error else e,
    trailing_network_state := st.trailing_network_state }

/-- The outcome of cancelling the unstarted stream `s` with `e`: the stream is
closed with `e` and off the waiting list, nothing else of the core state
moves. -/
structure Cancelled (s : Nat) (e : Status) (t t1 : T) : Prop where
  rel : StreamRel s t t1
  core : (t1.streams s).core = closed_core (t.streams s) e
  waiting : t1.waiting_for_concurrency = stream_list_remove t.waiting_for_concurrency s

/-- The core of a stream of the waiting list after it was tagged
kNotSentOnWire and cancelled with `e`. -/
def cancelled_core (st : grpc_chttp2_stream) (e : Status) : StreamCore :=
  { id := st.id, read_closed := true, write_closed := true,
    read_closed_error := if st.read_closed then st.read_closed_error else e,
    write_closed_error := if st.write_closed then st.write_closed_error else e,
    trailing_network_state := some .kNotSentOnWire }

/-- The streams of the waiting list are distinct, unstarted and open. -/
structure WaitingOK (t : T) : Prop where
  nodup : t.waiting_for_concurrency.Nodup
  fresh : ∀ r, r ∈ t.waiting_for_concurrency → (t.streams r).id = 0
    ∧ ¬ ((t.streams r).read_closed = true ∧ (t.streams r).write_closed = true)

/-- The effect of cancelling every stream of the waiting list with `e`. -/
structure AllCancelled (e : Status) (t t1 : T) : Prop where
  waiting : t1.waiting_for_concurrency = []
  stream_map : t1.stream_map = t.stream_map
  next_stream_id : t1.next_stream_id = t.next_stream_id
  others : ∀ r, r ∉ t.waiting_for_concurrency → (t1.streams r).core = (t.streams r).core
  cancelled : ∀ r, r ∈ t.waiting_for_concurrency →
    (t1.streams r).core = cancelled_core (t.streams r) e

/-- Runs a sequence of handlers; the answer is the last state. -/
def exec (fuel : Nat) : List Op → T → Option T
  | [], t => some t
  | op :: ops, t => (step fuel op t).bind (exec fuel ops)

/-- The entries the admission loop adds to the map for the streams it
admits, in order, the first one with id `next`. -/
def admitted_entries (next : Nat) : List Nat → List (Nat × Nat)
  | [] => []
  | s :: l => (next, s) :: admitted_entries (next + 2) l

/-- The effect of admitting the first `k` streams of the waiting list. -/
structure Admitted (k : Nat) (t t1 : T) : Prop where
  waiting : t1.waiting_for_concurrency = t.waiting_for_concurrency.drop k
  stream_map : t1.stream_map
    = t.stream_map ++ admitted_entries t.next_stream_id (t.waiting_for_concurrency.take k)
  next_stream_id : t1.next_stream_id = t.next_stream_id + 2 * k
  ids : ∀ e, e ∈ admitted_entries t.next_stream_id (t.waiting_for_concurrency.take k) →
    (t1.streams e.2).id = e.1
  others : ∀ r, r ∉ t.waiting_for_concurrency.take k → (t1.streams r).core = (t.streams r).core
  peer_max : t1.peer_max_concurrent_streams = t.peer_max_concurrent_streams
  is_client : t1.is_client = t.is_client

/-- Runs a sequence of handlers and stops at the first one that is not enabled
or aborts; the answer is the state reached. -/
def exec_state (fuel : Nat) : List Op → T → T
  | [], t => t
  | op :: ops, t =>
    match step fuel op t with
    | none => t
    | some t1 => exec_state fuel ops t1

/-- The values of `sent_goaway_state` along a run that starts in `t`. -/
def sent_goaway_trace (t : T) (l : List T) : List grpc_chttp2_sent_goaway_state :=
  (t :: l).map (fun x => x.sent_goaway_state)

/-- The sequence of distinct values of a trace: a value is kept when it
differs from the next one. -/
def distinct_values : List grpc_chttp2_sent_goaway_state → List grpc_chttp2_sent_goaway_state
  | [] => []
  | [a] => [a]
  | a :: b :: l => if a = b then distinct_values (b :: l) else a :: distinct_values (b :: l)

/-- The sequences of distinct values that a trace starting in a given GOAWAY
state can show. -/
def allowed_traces :
    grpc_chttp2_sent_goaway_state → List (List grpc_chttp2_sent_goaway_state)
  | .NO_GOAWAY_SEND =>
    [[.NO_GOAWAY_SEND], [.NO_GOAWAY_SEND, .GRACEFUL_GOAWAY],
     [.NO_GOAWAY_SEND, .GRACEFUL_GOAWAY, .FINAL_GOAWAY_SEND_SCHEDULED],
     [.NO_GOAWAY_SEND, .GRACEFUL_GOAWAY, .FINAL_GOAWAY_SEND_SCHEDULED, .FINAL_GOAWAY_SENT],
     [.NO_GOAWAY_SEND, .FINAL_GOAWAY_SEND_SCHEDULED],
     [.NO_GOAWAY_SEND, .FINAL_GOAWAY_SEND_SCHEDULED, .FINAL_GOAWAY_SENT]]
  | .GRACEFUL_GOAWAY =>
    [[.GRACEFUL_GOAWAY], [.GRACEFUL_GOAWAY, .FINAL_GOAWAY_SEND_SCHEDULED],
     [.GRACEFUL_GOAWAY, .FINAL_GOAWAY_SEND_SCHEDULED, .FINAL_GOAWAY_SENT]]
  | .FINAL_GOAWAY_SEND_SCHEDULED =>
    [[.FINAL_GOAWAY_SEND_SCHEDULED], [.FINAL_GOAWAY_SEND_SCHEDULED, .FINAL_GOAWAY_SENT]]
  | .FINAL_GOAWAY_SENT => [[.FINAL_GOAWAY_SENT]]

/-! ## Example runs -/

/-- A new client transport whose first write has begun. -/
def writing_client : T :=
  exec_state 1 [.write_action_begin true false] (grpc_create_chttp2_transport {} true)

/-- A client transport closed with the error "a" while idle. -/
def closed_client : T :=
  exec_state 1 [.write_action_begin false false, .close_transport (GRPC_ERROR_CREATE "a")]
    (grpc_create_chttp2_transport {} true)

/-- The closed client transport, closed once more with the error "b". -/
def closed_twice_client : T :=
  exec_state 1 [.close_transport (GRPC_ERROR_CREATE "b")] closed_client

/-- A client transport created with an initial sequence number of the wrong
parity, with one stream admitted. -/
def one_stream_client : T :=
  exec_state 1
    [.init_stream,
     .perform_stream_op 0 { on_complete := some 1, send_initial_metadata := true }]
    (grpc_create_chttp2_transport { http2_initial_sequence_number := some 4 } true)

/-- A client transport that sent its final GOAWAY with no stream open. -/
def goaway_sent_client : T :=
  exec_state 1
    [.send_goaway (GRPC_ERROR_CREATE "bye") true, .write_action_begin false false,
     .write_action_end .OkStatus]
    (grpc_create_chttp2_transport {} true)

/-- The run of a client transport that sends a GOAWAY with the immediate
disconnect hint and completes the write that carries it. -/
def goaway_run : List T :=
  (run 1
    [.send_goaway (GRPC_ERROR_CREATE "bye") true, .write_action_begin false false,
     .write_action_end .OkStatus]
    (grpc_create_chttp2_transport {} true)).getD []

/-- A server transport closed with the error "x" while idle. -/
def closed_server : T :=
  exec_state 1 [.write_action_begin false false, .close_transport (GRPC_ERROR_CREATE "x")]
    (grpc_create_chttp2_transport {} false)

/-- An error whose HTTP/2 code is NO_ERROR. -/
def no_error_goaway : Status := grpc_error_set_http2_error (GRPC_ERROR_CREATE "bye") 0

/-- A closed client transport with a stream that the application cancelled
before starting it. -/
def closed_client_cancelled_stream : T :=
  exec_state 1
    [.write_action_begin false false, .close_transport (GRPC_ERROR_CREATE "a"), .init_stream,
     .perform_stream_op 0
       { cancel_stream := true,
         cancel_error := GRPC_ERROR_CREATE "cancelled by the application" }]
    (grpc_create_chttp2_transport {} true)

/-- A closed client transport with a new stream. -/
def closed_client_new_stream : T :=
  exec_state 1
    [.write_action_begin false false, .close_transport (GRPC_ERROR_CREATE "a"), .init_stream]
    (grpc_create_chttp2_transport {} true)

/-- The error with which a closed transport cancels a stream that sends its
initial metadata. -/
def transport_closed_error (t : T) : Status :=
  grpc_error_set_rpc_status
    (GRPC_ERROR_CREATE_REFERENCING "Transport closed" [t.closed_with_error])
    GRPC_STATUS_UNAVAILABLE

/-- The error with which a client out of stream ids cancels a stream. -/
def stream_ids_exhausted_error : Status :=
  grpc_error_set_rpc_status (GRPC_ERROR_CREATE "Stream IDs exhausted") GRPC_STATUS_UNAVAILABLE

/-- A client transport created with the initial sequence number 2^31-1, with
a new stream. -/
def last_id_client : T :=
  exec_state 1 [.init_stream]
    (grpc_create_chttp2_transport { http2_initial_sequence_number := some 2147483647 } true)

/-- The client transport created with the initial sequence number 2^31-1
after it admitted a first stream, with a second new stream. -/
def exhausted_client : T :=
  exec_state 1
    [.perform_stream_op 0 { on_complete := some 1, send_initial_metadata := true },
     .init_stream]
    last_id_client

/-- A client transport whose peer allows one stream, with one stream open
and a second one waiting. -/
def one_waiting_client : T :=
  exec_state 1
    [.peer_settings 1, .init_stream,
     .perform_stream_op 0 { on_complete := some 1, send_initial_metadata := true },
     .init_stream,
     .perform_stream_op 1 { on_complete := some 2, send_initial_metadata := true }]
    (grpc_create_chttp2_transport {} true)

/-- The same client after the peer raised its limit to two streams. -/
def one_waiting_client_raised : T := exec_state 1 [.peer_settings 2] one_waiting_client

/-- A client transport whose peer allows one stream, which sent its final
GOAWAY with one stream open; a second stream waits. -/
def goaway_sent_one_waiting_client : T :=
  exec_state 1
    [.peer_settings 1, .init_stream,
     .perform_stream_op 0 { on_complete := some 1, send_initial_metadata := true },
     .send_goaway (GRPC_ERROR_CREATE "bye") false, .write_action_begin false false,
     .write_action_end .OkStatus, .init_stream,
     .perform_stream_op 1 { on_complete := some 2, send_initial_metadata := true }]
    (grpc_create_chttp2_transport {} true)

/-! ## Example states, views and runs of the later claims -/

/-- A client transport with a stream on which the closure 7 is latched as
`recv_initial_metadata_ready`, no initial metadata being published. -/
def recv_initial_metadata_latched : T :=
  exec_state 1
    [.init_stream,
     .perform_stream_op 0 { recv_initial_metadata := true, recv_initial_metadata_ready := 7 }]
    (grpc_create_chttp2_transport {} true)

/-- The same transport at the point where `grpc_chttp2_mark_stream_closed` has
marked the initial metadata of the stream PUBLISHED_AT_CLOSE. -/
def recv_initial_metadata_at_close : T :=
  set_stream recv_initial_metadata_latched 0
    { (recv_initial_metadata_latched.streams 0) with
        published_metadata_0 := .PUBLISHED_AT_CLOSE }

/-- The same transport after the reads of the stream were closed. -/
def recv_initial_metadata_reads_closed : T :=
  exec_state 1 [.mark_stream_closed 0 true false (GRPC_ERROR_CREATE "end of stream")]
    recv_initial_metadata_latched

/-- The fields of a stream that decide and record the completion of
`recv_trailing_metadata`, apart from `frame_storage` and `seen_error`. -/
def grpc_chttp2_stream.trailing_view (st : grpc_chttp2_stream) :
    Option Nat × Bool × Bool × Bool × Bool :=
  (st.recv_trailing_metadata_finished, st.read_closed, st.write_closed, st.collecting_stats,
    st.recv_trailing_metadata_moved)

/-- A client transport with a stream closed in both directions that holds five
undelivered bytes in `frame_storage`, on which the closure 9 is latched as
`recv_trailing_metadata_finished`. -/
def trailing_latched_with_bytes : T :=
  exec_state 1
    [.init_stream,
     .perform_stream_op 0 { cancel_stream := true, cancel_error := .OkStatus },
     .stream_input 0 5 .pending {},
     .perform_stream_op 0 { recv_trailing_metadata := true, recv_trailing_metadata_ready := 9 }]
    (grpc_create_chttp2_transport {} true)

/-- The unsigned integer that a sequence of bytes encodes, most significant
byte first. -/
def big_endian (bytes : List Nat) : Nat :=
  bytes.foldl (fun acc b => acc * 256 + b) 0

/-- The field `length` of a slice buffer: the bytes held by its slices. -/
def slices_length (l : List Slice) : Nat :=
  (l.map Slice.length).sum

/-- A client transport with one stream admitted. -/
def started_stream_client : T :=
  exec_state 1
    [.init_stream,
     .perform_stream_op 0 { on_complete := some 1, send_initial_metadata := true }]
    (grpc_create_chttp2_transport {} true)

/-- A batch that sends the eight-byte message "hello" "abc". -/
def send_hello_op : grpc_transport_stream_op_batch :=
  { on_complete := some 3, send_message := true,
    send_message_slices := [.str "hello", .bytes [97, 98, 99]] }

/-- A batch that sends a message of 2^32 bytes, in one slice. -/
def send_huge_op : grpc_transport_stream_op_batch :=
  { on_complete := some 3, send_message := true,
    send_message_slices := [.bytes (List.replicate 4294967296 0)] }

/-- What happens to the barrier of the closure `on_complete` of a batch, in the
order of the run. -/
inductive BarrierEvent where
  /-- A send op of `perform_stream_op_locked` takes its reference:
  `on_complete->next_data.scratch |= t->closure_barrier_may_cover_write`, then
  `add_closure_barrier(on_complete)`. -/
  | ref
  /-- A call of `grpc_chttp2_complete_closure_step` for the closure, with its
  error and description. -/
  | step (error : Status) (desc : String)
  /-- Any other code of the transport that runs in between. -/
  | other (g : T → T)

/-- One event on the barrier of the closure `c`. -/
def barrier_event (c : Nat) (t : T) : BarrierEvent → T
  | .ref => add_closure_barrier (or_may_cover_write t c) c
  | .step error desc => grpc_chttp2_complete_closure_step t (some c) error desc
  | .other g => g t

/-- The events of a run, one after the other. -/
def barrier_trace (c : Nat) (evs : List BarrierEvent) (t : T) : T :=
  evs.foldl (barrier_event c) t

/-- The number of references that the send ops take in a run. -/
def barrier_refs : List BarrierEvent → Nat
  | [] => 0
  | .ref :: l => barrier_refs l + 1
  | .step _ _ :: l => barrier_refs l
  | .other _ :: l => barrier_refs l

/-- The errors of the calls of `grpc_chttp2_complete_closure_step` of a run, in
their order; there are as many as calls. -/
def barrier_errors : List BarrierEvent → List Status
  | [] => []
  | .ref :: l => barrier_errors l
  | .step error _ :: l => error :: barrier_errors l
  | .other _ :: l => barrier_errors l

/-- What the code that runs between two events of the barrier of `c` leaves
alone, on the state `t` it starts from: the scratch word and the error of the
closure `c`; the flag `closure_barrier_may_cover_write` of the transport stays 0
or CLOSURE_BARRIER_MAY_COVER_WRITE.  The write state, the closures handed to
`ExecCtx::Run` and the list `run_after_write` may change. -/
def BarrierKept (c : Nat) (t t1 : T) : Prop :=
  t1.closure_scratch c = t.closure_scratch c
    ∧ t1.closure_error c = t.closure_error c
    ∧ (t.closure_barrier_may_cover_write ≤ 1 → t1.closure_barrier_may_cover_write ≤ 1)

/-- A run of the barrier of a batch with two send ops: the first send op takes
its reference and completes at once, the second takes its reference and a write
is initiated, `perform_stream_op_locked` drops the initial reference, the write
ends (the write state falls back to IDLE and `run_after_write` is run), and the
second send op fails with "boom". -/
def two_send_events : List BarrierEvent :=
  [.ref, .step .OkStatus "send_initial_metadata_finished", .ref,
   .other (fun t => grpc_chttp2_initiate_write t .SEND_MESSAGE),
   .step .OkStatus "op->on_complete",
   .other (fun t => run_closure_list { t with write_state := .IDLE }),
   .step (GRPC_ERROR_CREATE "boom") "send_message_finished"]

/-- What the errors of the steps seen so far have made of the error of the
closure. -/
def ErrAcc (e : Status) (seen : List Status) : Prop :=
  (e.ok = true ↔ ∀ x, x ∈ seen → x.ok = true)
    ∧ (∀ x, x ∈ seen → x.ok = false → x ∈ e.children)

/-! ## Reading back a header block -/

/-- The UTF-8 bytes of a string. -/
def utf8_bytes (s : String) : List Nat :=
  s.toUTF8.data.toList.map UInt8.toNat

/-- The bytes of a slice. -/
def Slice.toBytes : Slice → List Nat
  | .bytes b => b
  | .str s => utf8_bytes s

/-- Specification side (RFC 7541, section 5.1): the continuation octets of an
HPACK integer.  Each octet adds its low seven bits, shifted by `m`, to the
value `i`; an octet whose high bit is clear is the last one. -/
def hpack_decode_integer_tail : Nat → Nat → List Nat → Option (Nat × List Nat)
  | _, _, [] => none
  | m, i, b :: rest =>
    if 128 ≤ b then hpack_decode_integer_tail (m + 7) (i + (b % 128) * 2 ^ m) rest
    else some (i + (b % 128) * 2 ^ m, rest)

/-- Specification side (RFC 7541, section 5.2): a string literal that is not
Huffman coded: its length as an integer with a 7-bit prefix, then its octets.
The answer is the string and the input left. -/
def hpack_decode_string : List Nat → Option (List Nat × List Nat)
  | [] => none
  | b :: rest =>
    if 128 ≤ b then none
    else
      match (if b < 127 then some (b, rest) else hpack_decode_integer_tail 0 127 rest) with
      | none => none
      | some (n, rest) => if n ≤ rest.length then some (rest.take n, rest.drop n) else none

/-- Specification side (RFC 7541, section 6.2.2): a header block made of
literal header fields without indexing whose names are literal; `fuel` bounds
the number of fields. -/
def hpack_decode_literal_headers : Nat → List Nat → Option (List (List Nat × List Nat))
  | _, [] => some []
  | 0, _ :: _ => none
  | fuel + 1, b :: rest =>
    if b = 0 then
      match hpack_decode_string rest with
      | none => none
      | some (name, rest) =>
        match hpack_decode_string rest with
        | none => none
        | some (value, rest) =>
          (hpack_decode_literal_headers fuel rest).map (fun l => (name, value) :: l)
    else none

/-- The header fields that `close_from_api` sends for the status `g` and the
message `m`, as pairs of byte strings. -/
def close_from_api_headers (sent_initial_metadata : Bool) (g : Nat) (m : String) :
    List (List Nat × List Nat) :=
  (if sent_initial_metadata then []
   else [(ascii ":status", ascii "200"), (ascii "content-type", ascii "application/grpc")])
    ++ [(ascii "grpc-status", ascii (toString g)), (ascii "grpc-message", utf8_bytes m)]

/-- A message of 2^24 bytes. -/
def message_16M : String := String.mk (List.replicate 16777216 'a')

/-! ## Outcomes of the close path -/

/-- Frame of the steps that touch neither a stream nor the map nor the
waiting list. -/
structure SameStreams (t t1 : T) : Prop where
  is_client : t1.is_client = t.is_client
  goaway_error : t1.goaway_error = t.goaway_error
  streams : t1.streams = t.streams
  stream_map : t1.stream_map = t.stream_map
  waiting : t1.waiting_for_concurrency = t.waiting_for_concurrency

/-- Frame of what `remove_stream` runs once the stream is out of the map: the
streams that are not on the waiting list keep their core, the waiting list
only loses streams, and with nothing waiting the map stays. -/
structure Quiet (t t1 : T) : Prop where
  is_client : t1.is_client = t.is_client
  goaway_error : t1.goaway_error = t.goaway_error
  waiting : ∀ r, r ∈ t1.waiting_for_concurrency → r ∈ t.waiting_for_concurrency
  others : ∀ r, r ∉ t.waiting_for_concurrency → (t1.streams r).core = (t.streams r).core
  idle : t.waiting_for_concurrency = [] → t1.stream_map = t.stream_map

/-- The outcome of `remove_stream` for the key `id`: the streams that are not
on the waiting list keep their core, and with nothing waiting the map loses
the key and nothing else changes in it. -/
structure Removed (id : Nat) (t t1 : T) : Prop where
  is_client : t1.is_client = t.is_client
  goaway_error : t1.goaway_error = t.goaway_error
  waiting : ∀ r, r ∈ t1.waiting_for_concurrency → r ∈ t.waiting_for_concurrency
  others : ∀ r, r ∉ t.waiting_for_concurrency → (t1.streams r).core = (t.streams r).core
  idle : t.waiting_for_concurrency = [] →
    t1.stream_map = t.stream_map.filter (fun x => x.1 ≠ id)

/-- The outcome of closing the stream `s` in both directions with `e`: a half
already closed keeps its error, the other streams that do not wait keep their
core, and with nothing waiting the map loses the stream if it was open and
started, and nothing else. -/
structure StreamClosed (s : Nat) (e : Status) (t t1 : T) : Prop where
  is_client : t1.is_client = t.is_client
  goaway_error : t1.goaway_error = t.goaway_error
  core : (t1.streams s).core = closed_core (t.streams s) e
  others : ∀ r, r ≠ s → r ∉ t.waiting_for_concurrency →
    (t1.streams r).core = (t.streams r).core
  waiting : ∀ r, r ∈ t1.waiting_for_concurrency → r ∈ t.waiting_for_concurrency
  idle : t.waiting_for_concurrency = [] → (t.streams s).id ≠ 0 → ¬ (t.streams s).closed →
    t1.stream_map = t.stream_map.filter (fun x => x.1 ≠ (t.streams s).id)

/-- The outcome of cancelling with `e`, one after the other, the streams `l`
of the map while nothing waits: they are closed and out of the map, a half
that was closed keeps its error, and the other streams keep their core. -/
structure StreamsClosed (e : Status) (l : List Nat) (t t1 : T) : Prop where
  is_client : t1.is_client = t.is_client
  goaway_error : t1.goaway_error = t.goaway_error
  waiting : t1.waiting_for_concurrency = []
  stream_map : t1.stream_map = t.stream_map.filter (fun x => decide (x.2 ∉ l))
  others : ∀ r, r ∉ l → (t1.streams r).core = (t.streams r).core
  closed : ∀ r, r ∈ l → ∃ tag, (t1.streams r).core
    = { closed_core (t.streams r) e with trailing_network_state := tag }

/-! ## The read loop -/

/-- The loop `while (grpc_chttp2_list_pop_stalled_by_stream(t.get(), &s))` of
`read_action_parse_loop_locked`, run on the list it pops from: each stream
popped is marked writable and a write is initiated.  Modelled from the spec:
`grpc_chttp2_list_pop_stalled_by_stream` (stream_lists.cc is not in src/) takes
the head of the list; the body of the loop does not touch the list. -/
def unstall_streams : List Nat → T → T
  | [], t => t
  | s :: rest, t =>
    unstall_streams rest
      (grpc_chttp2_initiate_write
        (grpc_chttp2_mark_stream_writable { t with stalled_by_stream := rest } s)
        .FLOW_CONTROL_UNSTALLED_BY_SETTING)

/-- The block `if (t->initial_window_update != 0)` of
`read_action_parse_loop_locked`. -/
def read_action_window_update (t : T) : T :=
  if t.initial_window_update ≠ 0 then
    let t := if t.initial_window_update > 0 then unstall_streams t.stalled_by_stream t else t
    { t with initial_window_update := 0 }
  else t

/-- Transcription of `maybe_reset_keepalive_ping_timer_locked`; `cancelled` is
the answer of `event_engine->Cancel`. -/
def maybe_reset_keepalive_ping_timer_locked (t : T) (cancelled : Bool) : T :=
  if t.keepalive_ping_timer_armed ∧ cancelled then
    { t with keepalive_ping_timer_armed := true }
  else t

/-- What the parse loop of `read_action_parse_loop_locked` answers.  Modelled
from the spec: `grpc_chttp2_perform_read` (parsing.cc) and `try_http_parsing`
(the HTTP/1 parser) are not in src/. -/
structure ParseTurn where
  /-- The parser stopped in the middle of the buffer: the turn is queued again. -/
  partial_read : Bool := false
  /-- The element `errors[1]`: the error of the parser. -/
  parse_error : Status := .OkStatus
  /-- The answer of `try_http_parsing`. -/
  http_error : Status := .OkStatus
  /-- The answer of `event_engine->Cancel` for the keepalive timer. -/
  timer_cancelled : Bool := false

/-- The end of `read_action_parse_loop_locked`, from `bool keep_reading = false;`
on: the transport is closed on an error, and otherwise reading goes on unless
too many induced frames wait to be written. -/
def read_action_end (remove : RemoveStream) (t : T) (error : Status) (cancelled : Bool) :
    Option T :=
  let error :=
    if error.ok ∧ t.closed_with_error.ok = false then
      GRPC_ERROR_CREATE_REFERENCING "Transport closed" [t.closed_with_error]
    else error
  if error.ok = false then
    let error :=
      if t.goaway_error.ok = false then grpc_error_add_child error t.goaway_error else error
    close_transport_locked remove t error
  else if t.closed_with_error.ok then
    let t :=
      if t.keepalive_state = .WAITING then maybe_reset_keepalive_ping_timer_locked t cancelled
      else t
    if t.num_pending_induced_frames ≥ DEFAULT_MAX_PENDING_INDUCED_FRAMES then
      some { t with reading_paused_on_pending_induced_frames := true }
    else some (continue_read_action_locked t)
  else some t

/-- Transcription of `read_action_parse_loop_locked`, on the state the parser
left: the frames of the buffer were handed to `grpc_chttp2_perform_read`, whose
effects on the streams are steps of their own here. -/
def read_action_parse_loop_locked (remove : RemoveStream) (t : T) (error : Status)
    (turn : ParseTurn) : Option T :=
  if t.closed_with_error.ok then
    if turn.partial_read then some t
    else
      let error :=
        if turn.parse_error.ok = false then
          GRPC_ERROR_CREATE_REFERENCING "Failed parsing HTTP/2"
            [error, turn.parse_error, turn.http_error]
        else error
      read_action_end remove (read_action_window_update t) error turn.timer_cancelled
  else read_action_end remove t error turn.timer_cancelled

/-! ## Example states of the GOAWAY and keepalive handlers -/

/-- A client transport whose first write found nothing to send. -/
def idle_client : T :=
  exec_state 1 [.write_action_begin false false] (grpc_create_chttp2_transport {} true)

/-- A server transport that started a graceful shutdown. -/
def graceful_server : T :=
  exec_state 1 [.send_goaway no_error_goaway false] (grpc_create_chttp2_transport {} false)

/-- A client transport that scheduled its final GOAWAY, with no stream. -/
def goaway_scheduled_client : T :=
  exec_state 1 [.send_goaway (GRPC_ERROR_CREATE "bye") true]
    (grpc_create_chttp2_transport {} true)

/-- A client transport with keepalive pings enabled and no stream. -/
def keepalive_client : T := grpc_create_chttp2_transport { keepalive_enabled := true } true

/-- A client transport with keepalive pings enabled, also without calls. -/
def keepalive_permit_client : T :=
  grpc_create_chttp2_transport
    { keepalive_enabled := true, keepalive_permit_without_calls := some true } true

/-! ## Frames of the read loop and of the published metadata -/

/-- Both slots of `published_metadata` of a stream are past NOT_PUBLISHED. -/
def grpc_chttp2_stream.published (st : grpc_chttp2_stream) : Prop :=
  st.published_metadata_0 ≠ .NOT_PUBLISHED ∧ st.published_metadata_1 ≠ .NOT_PUBLISHED

/-- What a handler may do to a stream, as far as the publication of its
metadata goes: a slot past NOT_PUBLISHED stays so, and the reads are not closed
without both slots being past NOT_PUBLISHED. -/
structure PubStep (a b : grpc_chttp2_stream) : Prop where
  pub0 : a.published_metadata_0 ≠ .NOT_PUBLISHED → b.published_metadata_0 ≠ .NOT_PUBLISHED
  pub1 : a.published_metadata_1 ≠ .NOT_PUBLISHED → b.published_metadata_1 ≠ .NOT_PUBLISHED
  closed : b.read_closed = true → a.read_closed = true ∨ b.published

/-- Frame of every handler that constructs no stream, apart from
`set_write_state` and the two write actions that call it.  The read loop is
neither paused nor resumed and no endpoint read is issued; while a write is in
progress the write state does not fall back to IDLE and the transport is not
closed; the streams keep their published slots, and the reads of a stream other
than `ex` are not closed without its slots being published. -/
structure KeepX (ex : Option Nat) (t t1 : T) : Prop where
  paused : t1.reading_paused_on_pending_induced_frames
    = t.reading_paused_on_pending_induced_frames
  reads : t1.endpoint_reads_in_flight = t.endpoint_reads_in_flight
  busy : t.write_state ≠ .IDLE →
    t1.write_state ≠ .IDLE ∧ t1.closed_with_error = t.closed_with_error
      ∧ t1.ep_destroyed = t.ep_destroyed
  allocated : t1.streams_allocated = t.streams_allocated
  pub0 : ∀ r, (t.streams r).published_metadata_0 ≠ .NOT_PUBLISHED →
    (t1.streams r).published_metadata_0 ≠ .NOT_PUBLISHED
  pub1 : ∀ r, (t.streams r).published_metadata_1 ≠ .NOT_PUBLISHED →
    (t1.streams r).published_metadata_1 ≠ .NOT_PUBLISHED
  closed : ∀ r, some r ≠ ex → (t1.streams r).read_closed = true →
    (t.streams r).read_closed = true ∨ (t1.streams r).published

/-- What the frames ask of the parameter `remove` of the close path. -/
def RemoveKeep (remove : RemoveStream) : Prop :=
  ∀ t id error t1, remove t id error = some t1 → KeepX none t t1

/-- The invariant of the published slots: a stream object whose reads are
closed has both slots past NOT_PUBLISHED. -/
def PubInv (t : T) : Prop :=
  ∀ r, r < t.streams_allocated → (t.streams r).read_closed = true → (t.streams r).published

/-- Frame of `set_write_state` and of the write actions, which do move the
write state to IDLE and may close the transport there: the part of `KeepX`
they keep. -/
structure KeepW (t t1 : T) : Prop where
  paused : t1.reading_paused_on_pending_induced_frames
    = t.reading_paused_on_pending_induced_frames
  reads : t1.endpoint_reads_in_flight = t.endpoint_reads_in_flight
  allocated : t1.streams_allocated = t.streams_allocated
  pub0 : ∀ r, (t.streams r).published_metadata_0 ≠ .NOT_PUBLISHED →
    (t1.streams r).published_metadata_0 ≠ .NOT_PUBLISHED
  pub1 : ∀ r, (t.streams r).published_metadata_1 ≠ .NOT_PUBLISHED →
    (t1.streams r).published_metadata_1 ≠ .NOT_PUBLISHED
  closed : ∀ r, (t1.streams r).read_closed = true →
    (t.streams r).read_closed = true ∨ (t1.streams r).published

/-! ## Example states of the write path and of the read loop -/

/-- A client transport with one stream admitted, whose write is in flight. -/
def writing_stream_client : T :=
  exec_state 1 [.write_action_begin true false] started_stream_client

/-- A client transport whose close was requested while its first write was in
flight, and deferred; a stream was admitted afterwards and a second write is in
flight. -/
def deferred_close_client : T :=
  exec_state 1
    [.write_action_begin true false, .close_transport (GRPC_ERROR_CREATE "x"), .init_stream,
     .perform_stream_op 0 { on_complete := some 1, send_initial_metadata := true },
     .write_action_end .OkStatus, .write_action_begin true false]
    (grpc_create_chttp2_transport {} true)

/-- A client transport with no stream whose close was requested while its first
write was in flight, and deferred. -/
def deferred_close_no_stream_client : T :=
  exec_state 1 [.close_transport (GRPC_ERROR_CREATE "x")] writing_client

/-- An idle client transport on which 10000 induced frames wait to be written;
only the counter is set. -/
def flooded_client : T :=
  { idle_client with num_pending_induced_frames := DEFAULT_MAX_PENDING_INDUCED_FRAMES }

/-- The flooded client after a read turn paused its read loop and a write was
initiated. -/
def paused_client : T :=
  grpc_chttp2_initiate_write
    ((read_action_parse_loop_locked (remove_stream_fuel 1) flooded_client .OkStatus {}).getD
      flooded_client) .RST_STREAM

/-- A client transport with one stream admitted, a write in flight, the stream
being stalled by stream flow control and the peer having lowered its initial
window by one byte. -/
def stalled_window_lowered_client : T :=
  { writing_stream_client with stalled_by_stream := [0], initial_window_update := -1 }

/-- The same client, the peer having raised its initial window by one byte. -/
def stalled_window_raised_client : T :=
  { writing_stream_client with stalled_by_stream := [0], initial_window_update := 1 }

/-! ## The completion of a read, and the close after the final GOAWAY -/

/-- Transcription of `read_action_locked`, the completion of an endpoint read,
run in the combiner by `read_action`: the error of a failed read is wrapped and
the parse loop runs.  The keepalive timeout handle that it cancels and
`keepalive_incoming_data_wanted` are not part of the state here, nor is the
property kOccurredDuringWrite of the wrapped error. -/
def read_action_locked (remove : RemoveStream) (t : T) (error : Status) (turn : ParseTurn) :
    Option T :=
  let err :=
    if error.ok = false then GRPC_ERROR_CREATE_REFERENCING "Endpoint read failed" [error]
    else error
  read_action_parse_loop_locked remove t err turn

/-- The states a transport created with `channel_args` can be in when the
completions of its reads are counted among its handlers: a read completes in
`read_action_locked`, and a parse loop that stopped in the middle of the buffer
is run again as `read_action_parse_loop_locked`. -/
inductive ReachableWithReads (fuel : Nat) (channel_args : ChannelArgs) (is_client : Bool) :
    T → Prop where
  | init : ReachableWithReads fuel channel_args is_client
      (grpc_create_chttp2_transport channel_args is_client)
  | step (t t1 : T) (op : Op) : ReachableWithReads fuel channel_args is_client t →
      step fuel op t = some t1 → ReachableWithReads fuel channel_args is_client t1
  | read (t t1 : T) (error : Status) (turn : ParseTurn) :
      ReachableWithReads fuel channel_args is_client t →
      read_action_parse_loop_locked (remove_stream_fuel fuel) t error turn = some t1 →
      ReachableWithReads fuel channel_args is_client t1

/-- The closed client transport after a read completed on it. -/
def closed_read_client : T :=
  (read_action_locked (remove_stream_fuel 1) closed_client .OkStatus {}).getD closed_client

/-- A client transport with no stream that scheduled its final GOAWAY and whose
first write, in flight, left more to write. -/
def goaway_writing_more_client : T :=
  exec_state 1 [.send_goaway (GRPC_ERROR_CREATE "bye") true, .write_action_begin true true]
    (grpc_create_chttp2_transport {} true)

/-- The same client after that write completed: the final GOAWAY is sent with no
stream open, and the write goes on. -/
def final_sent_writing_client : T :=
  exec_state 1 [.write_action_end .OkStatus] goaway_writing_more_client

/-- The same client after it admitted two streams while the write goes on. -/
def final_sent_streams_client : T :=
  exec_state 1
    [.init_stream, .perform_stream_op 0 { on_complete := some 1, send_initial_metadata := true },
     .init_stream, .perform_stream_op 1 { on_complete := some 2, send_initial_metadata := true }]
    final_sent_writing_client

/-! # Theorems -/

set_option maxHeartbeats 400000

/-! ## Frame lemmas -/

theorem Kick.kick_refl (t : T) : Kick t t := Or.inl ⟨rfl, rfl⟩

theorem Kick.kick_trans {a b c : T} (h1 : Kick a b) (h2 : Kick b c) : Kick a c := by
  unfold Kick at *
  rcases h1 with ⟨h1a, h1b⟩ | ⟨h1a, h1b⟩ <;> rcases h2 with ⟨h2a, h2b⟩ | ⟨h2a, h2b⟩
  · left; exact ⟨h2a.trans h1a, h2b.trans h1b⟩
  · right; refine ⟨h2a, ?_⟩; rw [h2b, h1a, h1b]
  · right; refine ⟨by rw [h2a]; exact h1a, ?_⟩; rw [h2b, h1b]
  · right; refine ⟨h2a, ?_⟩; rw [h2b, if_neg h1a, h1b]

theorem kick_initiate_write (t : T) (reason : grpc_chttp2_initiate_write_reason) :
    Kick t (grpc_chttp2_initiate_write t reason) := by
  unfold Kick grpc_chttp2_initiate_write
  cases h : t.write_state <;> simp [h]

theorem initiate_write_ne_IDLE (t : T) (reason : grpc_chttp2_initiate_write_reason) :
    (grpc_chttp2_initiate_write t reason).write_state ≠ .IDLE := by
  unfold grpc_chttp2_initiate_write
  cases h : t.write_state <;> simp [h]

theorem SoftRel.softrel_refl (t : T) : SoftRel t t :=
  ⟨rfl, rfl, rfl, rfl, rfl, rfl, rfl, rfl, rfl, rfl, rfl, rfl, rfl, rfl, Kick.kick_refl t,
    fun _ => rfl⟩

theorem SoftRel.softrel_trans {a b c : T} (h1 : SoftRel a b) (h2 : SoftRel b c) : SoftRel a c where
  is_client := h2.is_client.trans h1.is_client
  destroying := h2.destroying.trans h1.destroying
  closed_with_error := h2.closed_with_error.trans h1.closed_with_error
  close_pending := h2.close_pending.trans h1.close_pending
  goaway_error := h2.goaway_error.trans h1.goaway_error
  sent_goaway_state := h2.sent_goaway_state.trans h1.sent_goaway_state
  next_stream_id := h2.next_stream_id.trans h1.next_stream_id
  last_new_stream_id := h2.last_new_stream_id.trans h1.last_new_stream_id
  stream_map := h2.stream_map.trans h1.stream_map
  waiting := h2.waiting.trans h1.waiting
  peer_max := h2.peer_max.trans h1.peer_max
  in_flight := h2.in_flight.trans h1.in_flight
  allocated := h2.allocated.trans h1.allocated
  allow_tarpit := h2.allow_tarpit.trans h1.allow_tarpit
  kick := h1.kick.kick_trans h2.kick
  streams := fun r => (h2.streams r).trans (h1.streams r)

@[simp] theorem set_stream_streams_same (t : T) (s : Nat) (st : grpc_chttp2_stream) :
    (set_stream t s st).streams s = st := by
  simp [set_stream]

theorem set_stream_streams (t : T) (s r : Nat) (st : grpc_chttp2_stream) :
    (set_stream t s st).streams r = if r = s then st else t.streams r := by
  simp [set_stream, Function.update_apply]

theorem set_stream_streams_ne (t : T) {s r : Nat} (st : grpc_chttp2_stream) (h : r ≠ s) :
    (set_stream t s st).streams r = t.streams r := by
  simp [set_stream, Function.update_apply, h]

theorem softrel_set_stream (t : T) (s : Nat) (st : grpc_chttp2_stream)
    (h : st.core = (t.streams s).core) : SoftRel t (set_stream t s st) where
  is_client := rfl
  destroying := rfl
  closed_with_error := rfl
  close_pending := rfl
  goaway_error := rfl
  sent_goaway_state := rfl
  next_stream_id := rfl
  last_new_stream_id := rfl
  stream_map := rfl
  waiting := rfl
  peer_max := rfl
  in_flight := rfl
  allocated := rfl
  allow_tarpit := rfl
  kick := Kick.kick_refl _
  streams := fun r => by
    rw [set_stream_streams]
    split
    · next h1 => subst h1; exact h
    · rfl

theorem softrel_initiate_write (t : T) (reason : grpc_chttp2_initiate_write_reason) :
    SoftRel t (grpc_chttp2_initiate_write t reason) where
  is_client := by unfold grpc_chttp2_initiate_write; cases t.write_state <;> rfl
  destroying := by unfold grpc_chttp2_initiate_write; cases t.write_state <;> rfl
  closed_with_error := by unfold grpc_chttp2_initiate_write; cases t.write_state <;> rfl
  close_pending := by unfold grpc_chttp2_initiate_write; cases t.write_state <;> rfl
  goaway_error := by unfold grpc_chttp2_initiate_write; cases t.write_state <;> rfl
  sent_goaway_state := by unfold grpc_chttp2_initiate_write; cases t.write_state <;> rfl
  next_stream_id := by unfold grpc_chttp2_initiate_write; cases t.write_state <;> rfl
  last_new_stream_id := by unfold grpc_chttp2_initiate_write; cases t.write_state <;> rfl
  stream_map := by unfold grpc_chttp2_initiate_write; cases t.write_state <;> rfl
  waiting := by unfold grpc_chttp2_initiate_write; cases t.write_state <;> rfl
  peer_max := by unfold grpc_chttp2_initiate_write; cases t.write_state <;> rfl
  in_flight := by unfold grpc_chttp2_initiate_write; cases t.write_state <;> rfl
  allocated := by unfold grpc_chttp2_initiate_write; cases t.write_state <;> rfl
  allow_tarpit := by unfold grpc_chttp2_initiate_write; cases t.write_state <;> rfl
  kick := kick_initiate_write t reason
  streams := fun r => by unfold grpc_chttp2_initiate_write; cases t.write_state <;> rfl

/-- A state that agrees with `t` on every field of the frame. -/
theorem softrel_of_eq {t t1 : T}
    (h1 : t1.is_client = t.is_client) (h2 : t1.destroying = t.destroying)
    (h3 : t1.closed_with_error = t.closed_with_error)
    (h4 : t1.close_transport_on_writes_finished = t.close_transport_on_writes_finished)
    (h5 : t1.goaway_error = t.goaway_error) (h6 : t1.sent_goaway_state = t.sent_goaway_state)
    (h7 : t1.next_stream_id = t.next_stream_id)
    (h8 : t1.last_new_stream_id = t.last_new_stream_id)
    (h9 : t1.stream_map = t.stream_map)
    (h10 : t1.waiting_for_concurrency = t.waiting_for_concurrency)
    (h11 : t1.peer_max_concurrent_streams = t.peer_max_concurrent_streams)
    (h12 : t1.endpoint_writes_in_flight = t.endpoint_writes_in_flight)
    (h13 : t1.streams_allocated = t.streams_allocated)
    (h14 : t1.allow_tarpit = t.allow_tarpit)
    (h15 : t1.write_state = t.write_state)
    (h16 : t1.finally_write_action_begin = t.finally_write_action_begin)
    (h17 : t1.streams = t.streams) : SoftRel t t1 :=
  ⟨h1, h2, h3, h4, h5, h6, h7, h8, h9, h10, h11, h12, h13, h14, Or.inl ⟨h15, h16⟩,
    fun r => by rw [h17]⟩

theorem softrel_mark_stream_writable (t : T) (s : Nat) :
    SoftRel t (grpc_chttp2_mark_stream_writable t s) := by
  unfold grpc_chttp2_mark_stream_writable
  split
  · apply softrel_of_eq <;> rfl
  · exact SoftRel.softrel_refl t

theorem softrel_post_benign_reclaimer (t : T) : SoftRel t (post_benign_reclaimer t) := by
  unfold post_benign_reclaimer
  split
  · apply softrel_of_eq <;> rfl
  · exact SoftRel.softrel_refl t

theorem softrel_post_destructive_reclaimer (t : T) :
    SoftRel t (post_destructive_reclaimer t) := by
  unfold post_destructive_reclaimer
  split
  · apply softrel_of_eq <;> rfl
  · exact SoftRel.softrel_refl t

theorem softrel_connectivity_state_set (t : T) (st : grpc_connectivity_state) :
    SoftRel t (connectivity_state_set t st) := by
  apply softrel_of_eq <;> rfl

theorem softrel_null_then_sched_closure (t : T) (c : Nat) :
    SoftRel t (null_then_sched_closure t c) := by
  apply softrel_of_eq <;> rfl

theorem softrel_closure_step_record_error (t : T) (c : Nat) (e : Status) (d : String) :
    SoftRel t (closure_step_record_error t c e d) := by
  unfold closure_step_record_error
  split
  · apply softrel_of_eq <;> rfl
  · exact SoftRel.softrel_refl t

theorem softrel_closure_step_finish (t : T) (c : Nat) :
    SoftRel t (closure_step_finish t c) := by
  unfold closure_step_finish
  repeat' split
  all_goals first
    | exact SoftRel.softrel_refl t
    | (apply softrel_of_eq <;> rfl)

theorem softrel_complete_closure_step (t : T) (c : Option Nat) (e : Status) (d : String) :
    SoftRel t (grpc_chttp2_complete_closure_step t c e d) := by
  cases c with
  | none => exact SoftRel.softrel_refl t
  | some c =>
    simp only [grpc_chttp2_complete_closure_step]
    refine SoftRel.softrel_trans ?_ (softrel_closure_step_finish _ _)
    refine SoftRel.softrel_trans ?_ (softrel_closure_step_record_error _ _ _ _)
    apply softrel_of_eq <;> rfl

theorem softrel_WithUrgency (t : T) (u : Urgency) (reason : grpc_chttp2_initiate_write_reason)
    (action : T → T) (h : ∀ x, SoftRel x (action x)) : SoftRel t (WithUrgency t u reason action) := by
  unfold WithUrgency
  cases u
  · exact SoftRel.softrel_refl t
  · exact (softrel_initiate_write t reason).softrel_trans (h _)
  · exact h t

theorem softrel_act_on_flowctl_action (a : FlowControlAction) (t : T) (s : Option Nat) :
    SoftRel t (grpc_chttp2_act_on_flowctl_action a t s) := by
  unfold grpc_chttp2_act_on_flowctl_action
  simp only
  have h1 : ∀ x : T, SoftRel x (match s with
    | some s =>
        if (x.streams s).id ≠ 0 ∧ (x.streams s).read_closed = false then
          grpc_chttp2_mark_stream_writable x s
        else x
    | none => x) := by
    intro x
    cases s with
    | none => exact SoftRel.softrel_refl x
    | some s =>
      simp only
      split
      · exact softrel_mark_stream_writable x s
      · exact SoftRel.softrel_refl x
  have r1 := softrel_WithUrgency t a.send_stream_update .STREAM_FLOW_CONTROL _ h1
  have r2 := fun x => softrel_WithUrgency x a.send_transport_update .TRANSPORT_FLOW_CONTROL
    (fun t => t) (fun y => SoftRel.softrel_refl y)
  have r3 := fun x => softrel_WithUrgency x a.send_initial_window_update .SEND_SETTINGS
    (fun t => { t with local_initial_window_size := a.initial_window_size })
    (fun y => by apply softrel_of_eq <;> rfl)
  have r4 := fun x => softrel_WithUrgency x a.send_max_frame_size_update .SEND_SETTINGS
    (fun t => { t with local_max_frame_size := a.max_frame_size })
    (fun y => by apply softrel_of_eq <;> rfl)
  have r5 := fun x => softrel_WithUrgency x a.preferred_rx_crypto_frame_size_update .SEND_SETTINGS
    (fun t => { t with local_preferred_receive_crypto_message_size :=
                 a.preferred_rx_crypto_frame_size })
    (fun y => by apply softrel_of_eq <;> rfl)
  split
  · exact ((r1.softrel_trans (r2 _)).softrel_trans (r3 _)).softrel_trans ((r4 _).softrel_trans (r5 _))
  · exact ((r1.softrel_trans (r2 _)).softrel_trans (r3 _)).softrel_trans (r4 _)

theorem softrel_set_stream_sched (t : T) (s : Nat) (st : grpc_chttp2_stream) (c : Nat)
    (h : st.core = (t.streams s).core) :
    SoftRel t (null_then_sched_closure (set_stream t s st) c) :=
  (softrel_set_stream t s st h).softrel_trans (softrel_null_then_sched_closure _ _)

theorem softrel_maybe_complete_recv_initial_metadata (t : T) (s : Nat) :
    SoftRel t (grpc_chttp2_maybe_complete_recv_initial_metadata t s) := by
  simp only [grpc_chttp2_maybe_complete_recv_initial_metadata]
  repeat' split
  all_goals first
    | exact SoftRel.softrel_refl t
    | (refine softrel_set_stream_sched _ s _ _ ?_; rfl)

theorem softrel_recv_message_drain (t : T) (s : Nat) :
    SoftRel t (recv_message_drain t s).1 := by
  simp only [recv_message_drain]
  repeat' split
  all_goals first
    | exact SoftRel.softrel_refl t
    | (refine softrel_set_stream t s _ ?_; rfl)

theorem softrel_maybe_complete_recv_message (t : T) (s : Nat) :
    SoftRel t (grpc_chttp2_maybe_complete_recv_message t s) := by
  simp only [grpc_chttp2_maybe_complete_recv_message]
  split
  · exact SoftRel.softrel_refl t
  · refine SoftRel.softrel_trans ?_ (softrel_act_on_flowctl_action _ _ _)
    refine (softrel_recv_message_drain t s).softrel_trans ?_
    repeat' split
    all_goals first
      | exact SoftRel.softrel_refl _
      | (refine softrel_set_stream_sched _ s _ _ ?_; rfl)

theorem softrel_maybe_complete_recv_trailing_metadata (t : T) (s : Nat) :
    SoftRel t (grpc_chttp2_maybe_complete_recv_trailing_metadata t s) := by
  simp only [grpc_chttp2_maybe_complete_recv_trailing_metadata]
  refine (softrel_maybe_complete_recv_message t s).softrel_trans ?_
  repeat' split
  all_goals first
    | exact SoftRel.softrel_refl _
    | (refine softrel_set_stream _ s _ ?_; rfl)
    | (refine softrel_set_stream_sched _ s _ _ ?_; rfl)

theorem softrel_fake_status (t : T) (s : Nat) (e : Status) :
    SoftRel t (grpc_chttp2_fake_status t s e) := by
  simp only [grpc_chttp2_fake_status]
  repeat' split
  all_goals first
    | (refine softrel_set_stream _ s _ ?_; rfl)
    | (refine SoftRel.softrel_trans ?_ (softrel_maybe_complete_recv_trailing_metadata _ _)
       refine softrel_set_stream _ s _ ?_
       rfl)

theorem softrel_flush_write_list (l : List (Int × Nat)) (e : Status) (t : T) :
    SoftRel t (flush_write_list t l e) := by
  unfold flush_write_list
  induction l generalizing t with
  | nil => exact SoftRel.softrel_refl t
  | cons cb l ih =>
    simp only [List.foldl_cons]
    exact (softrel_complete_closure_step t _ e _).softrel_trans (ih _)

theorem softrel_fail_pending_writes (t : T) (s : Nat) (e : Status) :
    SoftRel t (grpc_chttp2_fail_pending_writes t s e) := by
  simp only [grpc_chttp2_fail_pending_writes]
  refine SoftRel.softrel_trans ?_ (softrel_flush_write_list _ _ _)
  refine SoftRel.softrel_trans ?_ (softrel_set_stream _ s _ ?_)
  rotate_left
  · rfl
  refine SoftRel.softrel_trans ?_ (softrel_flush_write_list _ _ _)
  refine SoftRel.softrel_trans ?_ (softrel_set_stream _ s _ ?_)
  rotate_left
  · rfl
  refine SoftRel.softrel_trans ?_ (softrel_complete_closure_step _ _ _ _)
  refine SoftRel.softrel_trans ?_ (softrel_set_stream _ s _ ?_)
  rotate_left
  · rfl
  refine SoftRel.softrel_trans ?_ (softrel_complete_closure_step _ _ _ _)
  refine SoftRel.softrel_trans ?_ (softrel_set_stream _ s _ ?_)
  rotate_left
  · rfl
  refine SoftRel.softrel_trans ?_ (softrel_complete_closure_step _ _ _ _)
  refine softrel_set_stream _ s _ ?_
  rfl

/-! ## Consequences of the frames -/

theorem SoftRel.id_eq {t t1 : T} (h : SoftRel t t1) (r : Nat) :
    (t1.streams r).id = (t.streams r).id :=
  congrArg StreamCore.id (h.streams r)

theorem SoftRel.read_closed_eq {t t1 : T} (h : SoftRel t t1) (r : Nat) :
    (t1.streams r).read_closed = (t.streams r).read_closed :=
  congrArg StreamCore.read_closed (h.streams r)

theorem SoftRel.write_closed_eq {t t1 : T} (h : SoftRel t t1) (r : Nat) :
    (t1.streams r).write_closed = (t.streams r).write_closed :=
  congrArg StreamCore.write_closed (h.streams r)

theorem SoftRel.softrel_closed_iff {t t1 : T} (h : SoftRel t t1) (r : Nat) :
    (t1.streams r).closed ↔ (t.streams r).closed := by
  unfold grpc_chttp2_stream.closed
  rw [h.read_closed_eq, h.write_closed_eq]

theorem Kick.idle {t t1 : T} (h : Kick t t1) (h1 : t1.write_state = .IDLE) :
    t.write_state = .IDLE ∧ t1.finally_write_action_begin = t.finally_write_action_begin := by
  rcases h with ⟨ha, hb⟩ | ⟨ha, _⟩
  · exact ⟨ha ▸ h1, hb⟩
  · exact absurd h1 ha

theorem Kick.busy {t t1 : T} (h : Kick t t1) (h0 : t.write_state ≠ .IDLE) :
    t1.write_state ≠ .IDLE ∧ t1.finally_write_action_begin = t.finally_write_action_begin := by
  rcases h with ⟨ha, hb⟩ | ⟨ha, hb⟩
  · exact ⟨ha ▸ h0, hb⟩
  · exact ⟨ha, by rw [hb, if_neg h0]⟩

/-- The write-state part of the invariant survives a kick. -/
theorem Kick.wf_write {t t1 : T} (h : Kick t t1)
    (hf : t1.endpoint_writes_in_flight = t.endpoint_writes_in_flight)
    (hi : t.write_state = .IDLE →
      t.finally_write_action_begin = 0 ∧ t.endpoint_writes_in_flight = 0)
    (hb : t.write_state ≠ .IDLE →
      t.finally_write_action_begin + t.endpoint_writes_in_flight ≤ 1) :
    (t1.write_state = .IDLE →
      t1.finally_write_action_begin = 0 ∧ t1.endpoint_writes_in_flight = 0) ∧
    (t1.write_state ≠ .IDLE →
      t1.finally_write_action_begin + t1.endpoint_writes_in_flight ≤ 1) := by
  constructor
  · intro h1
    obtain ⟨h2, h3⟩ := h.idle h1
    rw [h3, hf]
    exact hi h2
  · intro h1
    rcases h with ⟨ha, hb1⟩ | ⟨_, hb1⟩
    · rw [hb1, hf]
      exact hb (ha ▸ h1)
    · rw [hb1, hf]
      by_cases h0 : t.write_state = .IDLE
      · rw [if_pos h0]
        obtain ⟨h2, h3⟩ := hi h0
        omega
      · rw [if_neg h0]
        exact hb h0

theorem SoftRel.softrel_wfx {ex : Option Nat} {t t1 : T} (h : SoftRel t t1) (hw : WFx ex t) :
    WFx ex t1 where
  idle := (h.kick.wf_write h.in_flight hw.idle hw.busy).1
  busy := (h.kick.wf_write h.in_flight hw.idle hw.busy).2
  map_id := fun i r hm => by
    rw [h.id_eq]
    exact hw.map_id i r (h.stream_map ▸ hm)
  map_nodup := h.stream_map ▸ hw.map_nodup
  map_open := fun i r hm he => by
    rw [h.softrel_closed_iff]
    exact hw.map_open i r (h.stream_map ▸ hm) he
  map_conv := fun r h1 h2 => by
    rw [h.id_eq] at h1 ⊢
    rw [h.softrel_closed_iff] at h2
    rw [h.stream_map]
    exact hw.map_conv r h1 h2
  wait_id := fun r hr => by
    rw [h.id_eq, h.softrel_closed_iff]
    exact hw.wait_id r (h.waiting ▸ hr)
  wait_nodup := h.waiting ▸ hw.wait_nodup
  wait_client := fun hc => by
    rw [h.waiting]
    exact hw.wait_client (h.is_client ▸ hc)
  closed_wait := fun hc => by
    rw [h.waiting]
    exact hw.closed_wait (h.closed_with_error ▸ hc)
  pending := fun hp => by
    rw [h.close_pending] at hp
    obtain ⟨h1, h2⟩ := hw.pending hp
    exact ⟨(h.kick.busy h1).1, h.closed_with_error ▸ h2⟩
  ids_client := fun hc r hr => by
    rw [h.id_eq] at hr ⊢
    rw [h.next_stream_id]
    exact hw.ids_client (h.is_client ▸ hc) r hr
  ids_server := fun hc r hr => by
    rw [h.id_eq] at hr ⊢
    rw [h.last_new_stream_id]
    exact hw.ids_server (h.is_client ▸ hc) r hr
  next_parity := by
    rw [h.next_stream_id, h.is_client]
    exact hw.next_parity
  map_refs := fun i r hm => by
    rw [h.allocated]
    exact hw.map_refs i r (h.stream_map ▸ hm)
  wait_refs := fun r hr => by
    rw [h.allocated]
    exact hw.wait_refs r (h.waiting ▸ hr)

theorem SoftRel.softrel_fsc {t t1 : T} (h : SoftRel t t1) (hf : FinalSentClosed t) :
    FinalSentClosed t1 := by
  unfold FinalSentClosed at *
  rw [h.sent_goaway_state, h.stream_map, h.closed_with_error, h.close_pending]
  exact hf

theorem SoftRel.softrel_toRel {t t1 : T} (h : SoftRel t t1) : Rel t t1 where
  is_client := h.is_client
  destroying := h.destroying
  goaway_error := h.goaway_error
  sent_goaway_state := h.sent_goaway_state
  last_new_stream_id := h.last_new_stream_id
  peer_max := h.peer_max
  in_flight := h.in_flight
  allocated := h.allocated
  allow_tarpit := h.allow_tarpit
  kick := h.kick
  closed_mono := fun _ => h.closed_with_error
  closed_set := Or.inl h.closed_with_error
  pending_mono := fun hp => h.close_pending ▸ hp
  next_le := le_of_eq h.next_stream_id.symm
  waiting := h.waiting ▸ List.Sublist.refl _
  id_once := fun r _ => h.id_eq r
  read_closed_mono := fun r hr => (h.read_closed_eq r).trans hr
  write_closed_mono := fun r hr => (h.write_closed_eq r).trans hr

theorem Rel.rel_refl (t : T) : Rel t t := (SoftRel.softrel_refl t).softrel_toRel

theorem Rel.rel_trans {a b c : T} (h1 : Rel a b) (h2 : Rel b c) : Rel a c where
  is_client := h2.is_client.trans h1.is_client
  destroying := h2.destroying.trans h1.destroying
  goaway_error := h2.goaway_error.trans h1.goaway_error
  sent_goaway_state := h2.sent_goaway_state.trans h1.sent_goaway_state
  last_new_stream_id := h2.last_new_stream_id.trans h1.last_new_stream_id
  peer_max := h2.peer_max.trans h1.peer_max
  in_flight := h2.in_flight.trans h1.in_flight
  allocated := h2.allocated.trans h1.allocated
  allow_tarpit := h2.allow_tarpit.trans h1.allow_tarpit
  kick := h1.kick.kick_trans h2.kick
  closed_mono := fun h => by
    have h3 := h1.closed_mono h
    rw [h2.closed_mono (h3 ▸ h), h3]
  closed_set := by
    rcases h2.closed_set with h3 | h3
    · rcases h1.closed_set with h4 | h4
      · exact Or.inl (h3.trans h4)
      · exact Or.inr (h3 ▸ h4)
    · exact Or.inr h3
  pending_mono := fun h => h2.pending_mono (h1.pending_mono h)
  next_le := le_trans h1.next_le h2.next_le
  waiting := h2.waiting.trans h1.waiting
  id_once := fun r h => by
    have h3 := h1.id_once r h
    rw [h2.id_once r (h3 ▸ h), h3]
  read_closed_mono := fun r h => h2.read_closed_mono r (h1.read_closed_mono r h)
  write_closed_mono := fun r h => h2.write_closed_mono r (h1.write_closed_mono r h)

theorem Post.post_refl {t : T} (hw : WFb t) : Post t t := ⟨hw, Rel.rel_refl t, id⟩

theorem Post.post_trans {a b c : T} (h1 : Post a b) (h2 : Post b c) : Post a c :=
  ⟨h2.wf, h1.rel.rel_trans h2.rel, fun h => h2.fsc (h1.fsc h)⟩

theorem SoftRel.post {t t1 : T} (h : SoftRel t t1) (hw : WFb t) : Post t t1 :=
  ⟨h.softrel_wfx hw, h.softrel_toRel, h.softrel_fsc⟩

/-- A handler of the close path followed by a soft handler. -/
theorem Post.post_soft {a b c : T} (h1 : Post a b) (h2 : SoftRel b c) : Post a c :=
  h1.post_trans (h2.post h1.wf)

/-! ## Steps on one stream -/

theorem SoftRel.toStreamRel {t t1 : T} (h : SoftRel t t1) (s : Nat) : StreamRel s t t1 where
  is_client := h.is_client
  destroying := h.destroying
  closed_with_error := h.closed_with_error
  close_pending := h.close_pending
  goaway_error := h.goaway_error
  sent_goaway_state := h.sent_goaway_state
  next_stream_id := h.next_stream_id
  last_new_stream_id := h.last_new_stream_id
  stream_map := h.stream_map
  waiting := h.waiting ▸ List.Sublist.refl _
  peer_max := h.peer_max
  in_flight := h.in_flight
  allocated := h.allocated
  allow_tarpit := h.allow_tarpit
  kick := h.kick
  others := fun r _ => h.streams r
  id_eq := h.id_eq s
  read_closed_mono := fun hr => (h.read_closed_eq s).trans hr
  write_closed_mono := fun hr => (h.write_closed_eq s).trans hr

theorem StreamRel.streamrel_refl (s : Nat) (t : T) : StreamRel s t t := (SoftRel.softrel_refl t).toStreamRel s

theorem StreamRel.streamrel_trans {s : Nat} {a b c : T} (h1 : StreamRel s a b) (h2 : StreamRel s b c) :
    StreamRel s a c where
  is_client := h2.is_client.trans h1.is_client
  destroying := h2.destroying.trans h1.destroying
  closed_with_error := h2.closed_with_error.trans h1.closed_with_error
  close_pending := h2.close_pending.trans h1.close_pending
  goaway_error := h2.goaway_error.trans h1.goaway_error
  sent_goaway_state := h2.sent_goaway_state.trans h1.sent_goaway_state
  next_stream_id := h2.next_stream_id.trans h1.next_stream_id
  last_new_stream_id := h2.last_new_stream_id.trans h1.last_new_stream_id
  stream_map := h2.stream_map.trans h1.stream_map
  waiting := h2.waiting.trans h1.waiting
  peer_max := h2.peer_max.trans h1.peer_max
  in_flight := h2.in_flight.trans h1.in_flight
  allocated := h2.allocated.trans h1.allocated
  allow_tarpit := h2.allow_tarpit.trans h1.allow_tarpit
  kick := h1.kick.kick_trans h2.kick
  others := fun r hr => (h2.others r hr).trans (h1.others r hr)
  id_eq := h2.id_eq.trans h1.id_eq
  read_closed_mono := fun h => h2.read_closed_mono (h1.read_closed_mono h)
  write_closed_mono := fun h => h2.write_closed_mono (h1.write_closed_mono h)

theorem StreamRel.streamrel_soft {s : Nat} {a b c : T} (h1 : StreamRel s a b) (h2 : SoftRel b c) :
    StreamRel s a c := h1.streamrel_trans (h2.toStreamRel s)

/-- Writing the object of `s`, keeping its id and not reopening it. -/
theorem streamrel_set_stream (t : T) (s : Nat) (st : grpc_chttp2_stream)
    (h1 : st.id = (t.streams s).id)
    (h2 : (t.streams s).read_closed = true → st.read_closed = true)
    (h3 : (t.streams s).write_closed = true → st.write_closed = true) :
    StreamRel s t (set_stream t s st) where
  is_client := rfl
  destroying := rfl
  closed_with_error := rfl
  close_pending := rfl
  goaway_error := rfl
  sent_goaway_state := rfl
  next_stream_id := rfl
  last_new_stream_id := rfl
  stream_map := rfl
  waiting := List.Sublist.refl _
  peer_max := rfl
  in_flight := rfl
  allocated := rfl
  allow_tarpit := rfl
  kick := Kick.kick_refl _
  others := fun r hr => by rw [set_stream_streams_ne _ _ hr]
  id_eq := by rw [set_stream_streams_same]; exact h1
  read_closed_mono := by rw [set_stream_streams_same]; exact h2
  write_closed_mono := by rw [set_stream_streams_same]; exact h3

/-- Shrinking the waiting list. -/
theorem streamrel_waiting (t : T) (s : Nat) (l : List Nat)
    (h : List.Sublist l t.waiting_for_concurrency) :
    StreamRel s t { t with waiting_for_concurrency := l } where
  is_client := rfl
  destroying := rfl
  closed_with_error := rfl
  close_pending := rfl
  goaway_error := rfl
  sent_goaway_state := rfl
  next_stream_id := rfl
  last_new_stream_id := rfl
  stream_map := rfl
  waiting := h
  peer_max := rfl
  in_flight := rfl
  allocated := rfl
  allow_tarpit := rfl
  kick := Kick.kick_refl _
  others := fun _ _ => rfl
  id_eq := rfl
  read_closed_mono := id
  write_closed_mono := id

theorem StreamRel.id_eq_all {s : Nat} {t t1 : T} (h : StreamRel s t t1) (r : Nat) :
    (t1.streams r).id = (t.streams r).id := by
  by_cases hr : r = s
  · subst hr; exact h.id_eq
  · exact congrArg StreamCore.id (h.others r hr)

theorem StreamRel.streamrel_closed_iff {s : Nat} {t t1 : T} (h : StreamRel s t t1) {r : Nat}
    (hr : r ≠ s) : (t1.streams r).closed ↔ (t.streams r).closed := by
  unfold grpc_chttp2_stream.closed
  have h1 : (t1.streams r).read_closed = (t.streams r).read_closed :=
    congrArg StreamCore.read_closed (h.others r hr)
  have h2 : (t1.streams r).write_closed = (t.streams r).write_closed :=
    congrArg StreamCore.write_closed (h.others r hr)
  rw [h1, h2]

theorem StreamRel.streamrel_toRel {s : Nat} {t t1 : T} (h : StreamRel s t t1) : Rel t t1 where
  is_client := h.is_client
  destroying := h.destroying
  goaway_error := h.goaway_error
  sent_goaway_state := h.sent_goaway_state
  last_new_stream_id := h.last_new_stream_id
  peer_max := h.peer_max
  in_flight := h.in_flight
  allocated := h.allocated
  allow_tarpit := h.allow_tarpit
  kick := h.kick
  closed_mono := fun _ => h.closed_with_error
  closed_set := Or.inl h.closed_with_error
  pending_mono := fun hp => h.close_pending ▸ hp
  next_le := le_of_eq h.next_stream_id.symm
  waiting := h.waiting
  id_once := fun r _ => h.id_eq_all r
  read_closed_mono := fun r hr => by
    by_cases h1 : r = s
    · subst h1; exact h.read_closed_mono hr
    · exact (congrArg StreamCore.read_closed (h.others r h1)).trans hr
  write_closed_mono := fun r hr => by
    by_cases h1 : r = s
    · subst h1; exact h.write_closed_mono hr
    · exact (congrArg StreamCore.write_closed (h.others r h1)).trans hr

theorem StreamRel.streamrel_fsc {s : Nat} {t t1 : T} (h : StreamRel s t t1) (hf : FinalSentClosed t) :
    FinalSentClosed t1 := by
  unfold FinalSentClosed at *
  rw [h.sent_goaway_state, h.stream_map, h.closed_with_error, h.close_pending]
  exact hf

/-- The invariant after a step on `s`, given what is left to check about `s`:
it is open if it is in the map under a key that is not exempt, it has an id
only if it is open or in the map, and it is not waiting unless it is open. -/
theorem StreamRel.streamrel_wfx {s : Nat} {ex ex1 : Option Nat} {t t1 : T} (h : StreamRel s t t1)
    (hw : WFx ex t)
    (hex : ∀ i r, (i, r) ∈ t.stream_map → r ≠ s → some i ≠ ex1 → some i ≠ ex)
    (h1 : ∀ i, (i, s) ∈ t.stream_map → some i ≠ ex1 → ¬ (t1.streams s).closed)
    (h2 : (t.streams s).id ≠ 0 → ¬ (t1.streams s).closed →
      ((t.streams s).id, s) ∈ t.stream_map)
    (h3 : s ∈ t1.waiting_for_concurrency → ¬ (t1.streams s).closed) :
    WFx ex1 t1 where
  idle := (h.kick.wf_write h.in_flight hw.idle hw.busy).1
  busy := (h.kick.wf_write h.in_flight hw.idle hw.busy).2
  map_id := fun i r hm => by
    rw [h.id_eq_all]
    exact hw.map_id i r (h.stream_map ▸ hm)
  map_nodup := h.stream_map ▸ hw.map_nodup
  map_open := fun i r hm he => by
    rw [h.stream_map] at hm
    by_cases hr : r = s
    · subst hr; exact h1 i hm he
    · rw [h.streamrel_closed_iff hr]
      exact hw.map_open i r hm (hex i r hm hr he)
  map_conv := fun r ha hb => by
    rw [h.stream_map, h.id_eq_all]
    rw [h.id_eq_all] at ha
    by_cases hr : r = s
    · subst hr; exact h2 ha hb
    · exact hw.map_conv r ha ((h.streamrel_closed_iff hr).not.mp hb)
  wait_id := fun r hr => by
    rw [h.id_eq_all]
    have h4 := hw.wait_id r (h.waiting.subset hr)
    refine ⟨h4.1, ?_⟩
    by_cases hs : r = s
    · subst hs; exact h3 hr
    · rw [h.streamrel_closed_iff hs]; exact h4.2
  wait_nodup := hw.wait_nodup.sublist h.waiting
  wait_client := fun hc => by
    have h4 := hw.wait_client (h.is_client ▸ hc)
    have h5 := h.waiting
    rw [h4] at h5
    exact List.eq_nil_of_sublist_nil h5
  closed_wait := fun hc => by
    have h4 := hw.closed_wait (h.closed_with_error ▸ hc)
    have h5 := h.waiting
    rw [h4] at h5
    exact List.eq_nil_of_sublist_nil h5
  pending := fun hp => by
    rw [h.close_pending] at hp
    obtain ⟨h4, h5⟩ := hw.pending hp
    exact ⟨(h.kick.busy h4).1, h.closed_with_error ▸ h5⟩
  ids_client := fun hc r hr => by
    rw [h.id_eq_all] at hr ⊢
    rw [h.next_stream_id]
    exact hw.ids_client (h.is_client ▸ hc) r hr
  ids_server := fun hc r hr => by
    rw [h.id_eq_all] at hr ⊢
    rw [h.last_new_stream_id]
    exact hw.ids_server (h.is_client ▸ hc) r hr
  next_parity := by
    rw [h.next_stream_id, h.is_client]
    exact hw.next_parity
  map_refs := fun i r hm => by
    rw [h.allocated]
    exact hw.map_refs i r (h.stream_map ▸ hm)
  wait_refs := fun r hr => by
    rw [h.allocated]
    exact hw.wait_refs r (h.waiting.subset hr)

theorem softrel_add_rst_stream (t : T) (id code : Nat) :
    SoftRel t (grpc_chttp2_add_rst_stream_to_next_write t id code) := by
  apply softrel_of_eq <;> rfl

theorem softrel_close_from_api_emit {t t1 : T} {a : Bool} {b c : Nat} {d : String}
    (h : close_from_api_emit t a b c d = some t1) : SoftRel t t1 := by
  unfold close_from_api_emit at h
  simp only [Option.bind_eq_bind, Option.bind_eq_some, Option.pure_def] at h
  obtain ⟨x1, -, x2, -, x3, -, h⟩ := h
  split at h
  · simp only [Option.bind_eq_some] at h
    obtain ⟨x4, -, x5, -, h⟩ := h
    simp only [Option.some.injEq] at h
    subst h
    refine SoftRel.softrel_trans ?_ (softrel_initiate_write _ _)
    refine SoftRel.softrel_trans ?_ (softrel_add_rst_stream _ _ _)
    split <;> (apply softrel_of_eq <;> rfl)
  · exact absurd h (by simp)

theorem softrel_run_tarpit_fn {t t1 : T} {fn : TarpitFn} (h : run_tarpit_fn t fn = some t1) :
    SoftRel t t1 := by
  cases fn with
  | rst_stream id e =>
    simp only [run_tarpit_fn, Option.some.injEq] at h
    subst h
    exact (softrel_add_rst_stream _ _ _).softrel_trans (softrel_initiate_write _ _)
  | close_from_api a b c d => exact softrel_close_from_api_emit h

theorem softrel_MaybeTarpit {t t1 : T} {tarpit : Bool} {fn : TarpitFn}
    (h : MaybeTarpit t tarpit fn = some t1) : SoftRel t t1 := by
  unfold MaybeTarpit at h
  split at h
  · exact softrel_run_tarpit_fn h
  · simp only [Option.some.injEq] at h
    subst h
    apply softrel_of_eq <;> rfl

theorem streamrel_mark_stream_closed_reads (t : T) (s : Nat) (cr : Bool) (e : Status) :
    StreamRel s t (mark_stream_closed_reads t s cr e) := by
  unfold mark_stream_closed_reads
  split
  · refine streamrel_set_stream t s _ ?_ ?_ ?_
    · rfl
    · intro _; rfl
    · exact id
  · exact StreamRel.streamrel_refl s t

theorem streamrel_mark_stream_closed_writes (t : T) (s : Nat) (cw : Bool) (e : Status) :
    StreamRel s t (mark_stream_closed_writes t s cw e) := by
  unfold mark_stream_closed_writes
  split
  · refine StreamRel.streamrel_soft ?_ (softrel_fail_pending_writes _ _ _)
    refine streamrel_set_stream t s _ ?_ ?_ ?_
    · rfl
    · exact id
    · intro _; rfl
  · exact StreamRel.streamrel_refl s t

theorem softrel_mark_stream_closed_publish (t : T) (s : Nat) :
    SoftRel t (mark_stream_closed_publish t s) := by
  simp only [mark_stream_closed_publish]
  refine SoftRel.softrel_trans ?_ (softrel_maybe_complete_recv_message _ _)
  refine SoftRel.softrel_trans ?_ (softrel_maybe_complete_recv_initial_metadata _ _)
  refine softrel_set_stream _ s _ ?_
  repeat' split
  all_goals rfl

theorem softrel_list_remove_waiting_streamrel (t : T) (s : Nat) :
    StreamRel s t (grpc_chttp2_list_remove_waiting_for_concurrency t s) :=
  streamrel_waiting t s _ (List.filter_sublist _)

theorem mem_of_lookup {l : List (Nat × Nat)} {k v : Nat} (h : l.lookup k = some v) :
    (k, v) ∈ l := by
  induction l with
  | nil => simp at h
  | cons a l ih =>
    obtain ⟨a1, a2⟩ := a
    by_cases hk : k = a1
    · subst hk
      simp only [List.lookup_cons, beq_self_eq_true, Option.some.injEq] at h
      subst h
      exact List.mem_cons_self _ _
    · have : (k == a1) = false := by simpa using hk
      simp only [List.lookup_cons, this] at h
      exact List.mem_cons_of_mem _ (ih h)

theorem lookup_of_mem {l : List (Nat × Nat)} {k v : Nat} (hn : (l.map Prod.fst).Nodup)
    (h : (k, v) ∈ l) : l.lookup k = some v := by
  induction l with
  | nil => simp at h
  | cons a l ih =>
    obtain ⟨a1, a2⟩ := a
    simp only [List.map_cons, List.nodup_cons, List.mem_map, Prod.exists, exists_and_right,
      exists_eq_right, not_exists] at hn
    rcases List.mem_cons.mp h with h1 | h1
    · simp only [Prod.mk.injEq] at h1
      obtain ⟨rfl, rfl⟩ := h1
      simp
    · have hk : k ≠ a1 := fun hk => hn.1 v (hk ▸ h1)
      have : (k == a1) = false := by simpa using hk
      simp only [List.lookup_cons, this]
      exact ih hn.2 h1

theorem eq_of_mem_of_nodup_keys {l : List (Nat × Nat)} {k v w : Nat}
    (hn : (l.map Prod.fst).Nodup) (h1 : (k, v) ∈ l) (h2 : (k, w) ∈ l) : v = w := by
  have a := lookup_of_mem hn h1
  have b := lookup_of_mem hn h2
  rw [a] at b
  exact Option.some.inj b

theorem mark_stream_closed_pc {remove : RemoveStream} (hr : RemoveOK remove) {t t1 : T}
    {s : Nat} {cr cw : Bool} {e : Status} (hw : WFb t)
    (h : grpc_chttp2_mark_stream_closed remove t s cr cw e = some t1) : Post t t1 := by
  unfold grpc_chttp2_mark_stream_closed at h
  split at h
  · simp only [Option.some.injEq] at h
    subst h
    apply SoftRel.post _ hw
    refine SoftRel.softrel_trans ?_ (softrel_maybe_complete_recv_trailing_metadata _ _)
    split
    · exact softrel_fake_status _ _ _
    · exact SoftRel.softrel_refl _
  · next hopen =>
    simp only [Option.map_eq_some'] at h
    obtain ⟨t3, h3, h⟩ := h
    have h2 : StreamRel s t (mark_stream_closed_writes (mark_stream_closed_reads t s cr e) s cw e) :=
      (streamrel_mark_stream_closed_reads t s cr e).streamrel_trans
        (streamrel_mark_stream_closed_writes _ s cw e)
    generalize mark_stream_closed_writes (mark_stream_closed_reads t s cr e) s cw e = t2
      at h2 h3 h
    have hsoft : SoftRel t3 t1 := by
      subst h
      repeat' split
      all_goals first
        | exact SoftRel.softrel_refl _
        | exact softrel_mark_stream_closed_publish _ _
        | exact softrel_maybe_complete_recv_trailing_metadata _ _
        | exact (softrel_mark_stream_closed_publish _ _).softrel_trans
            (softrel_maybe_complete_recv_trailing_metadata _ _)
    refine Post.post_soft ?_ hsoft
    clear h hsoft
    split at h3
    · next hb =>
      simp only [Bool.and_eq_true] at hb
      have hcl : (t2.streams s).closed := hb
      simp only [Option.map_eq_some'] at h3
      obtain ⟨t4, h4, h3⟩ := h3
      have hsoft2 : SoftRel t4 t3 := by
        subst h3
        split
        · exact softrel_fake_status _ _ _
        · exact SoftRel.softrel_refl _
      refine Post.post_soft ?_ hsoft2
      clear h3 hsoft2
      split at h4
      · next hid =>
        have hid0 : (t.streams s).id ≠ 0 := h2.id_eq ▸ hid
        have hmem : ((t.streams s).id, s) ∈ t.stream_map := hw.map_conv s hid0 hopen
        have hwx : WFx (some (t2.streams s).id) t2 := by
          refine h2.streamrel_wfx hw ?_ ?_ ?_ ?_
          · intro i r _ _ _; simp
          · intro i hm he
            exact absurd (congrArg some ((hw.map_id i s hm).1.symm.trans h2.id_eq.symm)) he
          · intro _ _; exact hmem
          · intro hs
            exact absurd (hw.wait_id s (h2.waiting.subset hs)).1 hid0
        have hcl2 : ∀ r, ((t2.streams s).id, r) ∈ t2.stream_map → (t2.streams r).closed := by
          intro r hm
          rw [h2.stream_map, h2.id_eq] at hm
          have := eq_of_mem_of_nodup_keys hw.map_nodup hm hmem
          subst this
          exact hcl
        obtain ⟨hw4, hr4, hf4⟩ := hr t2 _ _ t4 h4 hwx hcl2
        exact ⟨hw4, h2.streamrel_toRel.rel_trans hr4, fun _ => hf4⟩
      · next hid =>
        simp only [ne_eq, not_not] at hid
        simp only [Option.some.injEq] at h4
        have h5 : StreamRel s t t4 := by
          subst h4
          exact h2.streamrel_trans (softrel_list_remove_waiting_streamrel _ _)
        have hid0 : (t.streams s).id = 0 := h2.id_eq ▸ hid
        have hnw : s ∉ t4.waiting_for_concurrency := by
          subst h4
          simp [grpc_chttp2_list_remove_waiting_for_concurrency, stream_list_remove]
        refine ⟨?_, h5.streamrel_toRel, h5.streamrel_fsc⟩
        refine h5.streamrel_wfx hw ?_ ?_ ?_ ?_
        · intro i r _ _ he; exact he
        · intro i hm _
          exact absurd hid0 ((hw.map_id i s hm).1 ▸ (hw.map_id i s hm).2)
        · intro h6; exact absurd hid0 h6
        · intro h6; exact absurd h6 hnw
    · next hb =>
      simp only [Option.some.injEq] at h3
      subst h3
      have hncl : ¬ (t2.streams s).closed := by
        intro hc
        exact hb (by simp only [Bool.and_eq_true]; exact hc)
      refine ⟨?_, h2.streamrel_toRel, h2.streamrel_fsc⟩
      refine h2.streamrel_wfx hw ?_ ?_ ?_ ?_
      · intro i r _ _ he; exact he
      · intro i _ _; exact hncl
      · intro h6 _; exact hw.map_conv s h6 hopen
      · intro _; exact hncl

/-! ## Cancelling streams -/

theorem close_from_api_pc {remove : RemoveStream} (hr : RemoveOK remove) {t t1 : T}
    {s : Nat} {e : Status} {tarpit : Bool} (hw : WFb t)
    (h : close_from_api remove t s e tarpit = some t1) : Post t t1 := by
  unfold close_from_api at h
  simp only at h
  split at h
  · simp only [Option.bind_eq_some] at h
    obtain ⟨t2, h2, h3⟩ := h
    exact (mark_stream_closed_pc hr hw h2).post_soft (softrel_MaybeTarpit h3)
  · exact absurd h (by simp)

theorem cancel_stream_pc {remove : RemoveStream} (hr : RemoveOK remove) {t t1 : T}
    {s : Nat} {e : Status} {tarpit : Bool} (hw : WFb t)
    (h : grpc_chttp2_cancel_stream remove t s e tarpit = some t1) : Post t t1 := by
  unfold grpc_chttp2_cancel_stream at h
  split at h
  · exact close_from_api_pc hr hw h
  · have h0 : SoftRel t (if e.ok = false ∧ (t.streams s).seen_error = false then
        set_stream t s { (t.streams s) with seen_error := true } else t) := by
      split
      · refine softrel_set_stream t s _ ?_
        rfl
      · exact SoftRel.softrel_refl t
    simp only at h
    generalize (if e.ok = false ∧ (t.streams s).seen_error = false then
        set_stream t s { (t.streams s) with seen_error := true } else t) = t0 at h h0
    have hw0 := h0.softrel_wfx hw
    refine (h0.post hw).post_trans ?_
    split at h
    · simp only [Option.bind_eq_some] at h
      obtain ⟨t2, h2, h3⟩ := h
      exact (mark_stream_closed_pc hr hw0 h2).post_soft (softrel_MaybeTarpit h3)
    · exact mark_stream_closed_pc hr hw0 h

/-- Popping the head of the waiting list and tagging it. -/
theorem pop_waiting_post {t : T} {s : Nat} {rest : List Nat} (hw : WFb t)
    (hl : t.waiting_for_concurrency = s :: rest) (st : grpc_chttp2_stream)
    (h1 : st.id = (t.streams s).id) (h2 : st.read_closed = (t.streams s).read_closed)
    (h3 : st.write_closed = (t.streams s).write_closed) :
    Post t (set_stream { t with waiting_for_concurrency := rest } s st) := by
  have hs : StreamRel s t (set_stream { t with waiting_for_concurrency := rest } s st) := by
    refine (streamrel_waiting t s rest ?_).streamrel_trans ?_
    · rw [hl]; exact List.sublist_cons_self s rest
    · refine streamrel_set_stream _ s st h1 ?_ ?_
      · intro h; rw [h2]; exact h
      · intro h; rw [h3]; exact h
  have hmem : s ∈ t.waiting_for_concurrency := by rw [hl]; exact List.mem_cons_self _ _
  have hid := (hw.wait_id s hmem).1
  have hop := (hw.wait_id s hmem).2
  have hopen : ¬ ((set_stream { t with waiting_for_concurrency := rest } s st).streams s).closed := by
    rw [set_stream_streams_same]
    unfold grpc_chttp2_stream.closed at hop ⊢
    rw [h2, h3]
    exact hop
  refine ⟨?_, hs.streamrel_toRel, hs.streamrel_fsc⟩
  refine hs.streamrel_wfx hw ?_ ?_ ?_ ?_
  · intro i r _ _ he; exact he
  · intro i _ _; exact hopen
  · intro h6; exact absurd hid h6
  · intro _; exact hopen

theorem cancel_waiting_loop_nil {remove : RemoveStream} {e : Status} {tarpit : Bool} :
    ∀ (n : Nat) (t t1 : T), cancel_waiting_loop remove e tarpit n t = some t1 →
      t1.waiting_for_concurrency = []
  | 0, t, t1, h => by
    unfold cancel_waiting_loop at h
    split at h
    · next h0 => simp only [Option.some.injEq] at h; subst h; exact h0
    · exact absurd h (by simp)
  | n + 1, t, t1, h => by
    unfold cancel_waiting_loop at h
    split at h
    · next h0 => simp only [Option.some.injEq] at h; subst h; exact h0
    · simp only [Option.bind_eq_some] at h
      obtain ⟨t2, _, h3⟩ := h
      exact cancel_waiting_loop_nil n t2 t1 h3

theorem cancel_waiting_loop_pc {remove : RemoveStream} (hr : RemoveOK remove) {e : Status}
    {tarpit : Bool} : ∀ (n : Nat) (t t1 : T), WFb t →
      cancel_waiting_loop remove e tarpit n t = some t1 → Post t t1
  | 0, t, t1, hw, h => by
    unfold cancel_waiting_loop at h
    split at h
    · simp only [Option.some.injEq] at h; subst h; exact Post.post_refl hw
    · exact absurd h (by simp)
  | n + 1, t, t1, hw, h => by
    unfold cancel_waiting_loop at h
    split at h
    · simp only [Option.some.injEq] at h; subst h; exact Post.post_refl hw
    · next s rest hl =>
      simp only [Option.bind_eq_some] at h
      obtain ⟨t2, h2, h3⟩ := h
      have p1 := pop_waiting_post hw hl
        { (t.streams s) with trailing_network_state := some .kNotSentOnWire } rfl rfl rfl
      have p2 := cancel_stream_pc hr p1.wf h2
      exact (p1.post_trans p2).post_trans (cancel_waiting_loop_pc hr n t2 t1 p2.wf h3)

theorem cancel_unstarted_streams_pc {remove : RemoveStream} (hr : RemoveOK remove) {t t1 : T}
    {e : Status} {tarpit : Bool} (hw : WFb t)
    (h : cancel_unstarted_streams remove t e tarpit = some t1) :
    Post t t1 ∧ t1.waiting_for_concurrency = [] :=
  ⟨cancel_waiting_loop_pc hr _ t t1 hw h, cancel_waiting_loop_nil _ t t1 h⟩

theorem cancel_streams_loop_pc {remove : RemoveStream} (hr : RemoveOK remove) {e : Status} :
    ∀ (l : List Nat) (t t1 : T), WFb t →
      cancel_streams_loop remove e l t = some t1 → Post t t1
  | [], t, t1, hw, h => by
    simp only [cancel_streams_loop, Option.some.injEq] at h
    subst h
    exact Post.post_refl hw
  | s :: l, t, t1, hw, h => by
    simp only [cancel_streams_loop, Option.bind_eq_some] at h
    obtain ⟨t2, h2, h3⟩ := h
    have p2 := cancel_stream_pc hr hw h2
    exact p2.post_trans (cancel_streams_loop_pc hr l t2 t1 p2.wf h3)

theorem end_all_the_calls_pc {remove : RemoveStream} (hr : RemoveOK remove) {t t1 : T}
    {e : Status} (hw : WFb t) (h : end_all_the_calls remove t e = some t1) :
    Post t t1 ∧ t1.waiting_for_concurrency = [] := by
  unfold end_all_the_calls at h
  simp only [Option.bind_eq_some] at h
  obtain ⟨t2, h2, h3⟩ := h
  obtain ⟨p2, hn⟩ := cancel_unstarted_streams_pc hr hw h2
  have p3 := cancel_streams_loop_pc hr _ t2 t1 p2.wf h3
  refine ⟨p2.post_trans p3, ?_⟩
  have := p3.rel.waiting
  rw [hn] at this
  exact List.eq_nil_of_sublist_nil this

/-! ## Admitting streams -/

theorem lookup_none_of_lt {l : List (Nat × Nat)} {k : Nat}
    (h : ∀ i r, (i, r) ∈ l → i < k) : l.lookup k = none := by
  cases hl : l.lookup k with
  | none => rfl
  | some v => exact absurd (h k v (mem_of_lookup hl)) (lt_irrefl k)

/-- Admission of the head of the waiting list. -/
theorem assign_stream_id_post {t : T} {s : Nat} {rest : List Nat} (hw : WFb t)
    (hl : t.waiting_for_concurrency = s :: rest)
    (hn : t.next_stream_id ≤ MAX_CLIENT_STREAM_ID) :
    Post t (assign_stream_id { t with waiting_for_concurrency := rest } s) := by
  have hmem : s ∈ t.waiting_for_concurrency := by rw [hl]; exact List.mem_cons_self _ _
  have hid := (hw.wait_id s hmem).1
  have hop := (hw.wait_id s hmem).2
  have hc : t.is_client = true := by
    cases hcl : t.is_client with
    | true => rfl
    | false => rw [hw.wait_client hcl] at hl; exact absurd hl (by simp)
  have hpar : t.next_stream_id % 2 = 1 := by
    have := hw.next_parity; rw [hc] at this; simpa using this
  have hnext : (t.next_stream_id + 2) % UINT32_MODULUS = t.next_stream_id + 2 := by
    apply Nat.mod_eq_of_lt
    unfold MAX_CLIENT_STREAM_ID at hn
    unfold UINT32_MODULUS
    omega
  have hlt : ∀ i r, (i, r) ∈ t.stream_map → i < t.next_stream_id := by
    intro i r hm
    obtain ⟨h1, h2⟩ := hw.map_id i r hm
    have := (hw.ids_client hc r (h1 ▸ h2)).1
    rw [h1] at this; exact this
  have hmap : stream_map_emplace t.stream_map t.next_stream_id s
      = t.stream_map ++ [(t.next_stream_id, s)] := by
    unfold stream_map_emplace
    rw [lookup_none_of_lt hlt]; rfl
  have hnodup : rest.Nodup ∧ s ∉ rest := by
    have := hw.wait_nodup; rw [hl] at this
    exact ⟨(List.nodup_cons.mp this).2, (List.nodup_cons.mp this).1⟩
  have hstr : ∀ r, ((assign_stream_id { t with waiting_for_concurrency := rest } s).streams r)
      = if r = s then { (t.streams s) with id := t.next_stream_id } else t.streams r := by
    intro r
    simp only [assign_stream_id, Function.update_apply]
  have hstr_ne : ∀ r, r ≠ s →
      ((assign_stream_id { t with waiting_for_concurrency := rest } s).streams r)
        = t.streams r := by
    intro r hr; rw [hstr, if_neg hr]
  have hstr_s : ((assign_stream_id { t with waiting_for_concurrency := rest } s).streams s)
      = { (t.streams s) with id := t.next_stream_id } := by
    rw [hstr, if_pos rfl]
  have hmap2 : (assign_stream_id { t with waiting_for_concurrency := rest } s).stream_map
      = t.stream_map ++ [(t.next_stream_id, s)] := hmap
  have hnx : (assign_stream_id { t with waiting_for_concurrency := rest } s).next_stream_id
      = t.next_stream_id + 2 := hnext
  have hwt : (assign_stream_id { t with waiting_for_concurrency := rest } s).waiting_for_concurrency
      = rest := rfl
  have hne_of_map : ∀ i r, (i, r) ∈ t.stream_map → r ≠ s := by
    intro i r hm hrs
    subst hrs
    exact (hw.map_id i r hm).2 ((hw.map_id i r hm).1 ▸ hid)
  have hne_of_rest : ∀ r, r ∈ rest → r ≠ s := fun r hr hrs => hnodup.2 (hrs ▸ hr)
  refine ⟨?_, ?_, ?_⟩
  · refine
      { idle := hw.idle, busy := hw.busy, map_id := ?_, map_nodup := ?_, map_open := ?_,
        map_conv := ?_, wait_id := ?_, wait_nodup := hnodup.1, wait_client := ?_,
        closed_wait := ?_, pending := hw.pending, ids_client := ?_, ids_server := ?_,
        next_parity := ?_, map_refs := ?_, wait_refs := ?_ }
    · intro i r hm
      rw [hmap2] at hm
      rcases List.mem_append.mp hm with h1 | h1
      · rw [hstr_ne r (hne_of_map i r h1)]; exact hw.map_id i r h1
      · simp only [List.mem_singleton, Prod.mk.injEq] at h1
        obtain ⟨rfl, rfl⟩ := h1
        rw [hstr_s]
        exact ⟨rfl, fun h0 => by rw [h0] at hpar; exact absurd hpar (by decide)⟩
    · rw [hmap2, List.map_append, List.nodup_append]
      refine ⟨hw.map_nodup, by simp, ?_⟩
      intro a ha hb
      simp only [List.map_cons, List.map_nil, List.mem_singleton] at hb
      obtain ⟨⟨i, r⟩, hm, rfl⟩ := List.mem_map.mp ha
      have hi : i = t.next_stream_id := hb
      exact absurd (hlt i r hm) (by omega)
    · intro i r hm he
      rw [hmap2] at hm
      rcases List.mem_append.mp hm with h1 | h1
      · rw [hstr_ne r (hne_of_map i r h1)]; exact hw.map_open i r h1 he
      · simp only [List.mem_singleton, Prod.mk.injEq] at h1
        obtain ⟨rfl, rfl⟩ := h1
        rw [hstr_s]; exact hop
    · intro r h1 h2
      rw [hmap2]
      by_cases hr : r = s
      · subst hr
        rw [hstr_s]
        exact List.mem_append_right _ (List.mem_singleton_self _)
      · rw [hstr_ne r hr] at h1 h2 ⊢
        exact List.mem_append_left _ (hw.map_conv r h1 h2)
    · intro r hr
      rw [hwt] at hr
      rw [hstr_ne r (hne_of_rest r hr)]
      exact hw.wait_id r (hl ▸ List.mem_cons_of_mem _ hr)
    · intro hcl
      exact absurd hc (by
        have : (assign_stream_id { t with waiting_for_concurrency := rest } s).is_client
          = t.is_client := rfl
        rw [this] at hcl; rw [hcl]; decide)
    · intro hcl
      have : t.closed_with_error.ok = false := hcl
      rw [hw.closed_wait this] at hl
      exact absurd hl (by simp)
    · intro _ r hr
      rw [hnx]
      by_cases hrs : r = s
      · subst hrs
        rw [hstr_s]
        exact ⟨Nat.lt_add_of_pos_right (by decide), hpar⟩
      · rw [hstr_ne r hrs] at hr ⊢
        have := hw.ids_client hc r hr
        exact ⟨Nat.lt_add_right 2 this.1, this.2⟩
    · intro hcl
      exact absurd hc (by
        have : (assign_stream_id { t with waiting_for_concurrency := rest } s).is_client
          = t.is_client := rfl
        rw [this] at hcl; rw [hcl]; decide)
    · rw [hnx]
      have : (assign_stream_id { t with waiting_for_concurrency := rest } s).is_client
          = t.is_client := rfl
      rw [this, hc]
      simp only [if_true]
      omega
    · intro i r hm
      rw [hmap2] at hm
      rcases List.mem_append.mp hm with h1 | h1
      · exact hw.map_refs i r h1
      · simp only [List.mem_singleton, Prod.mk.injEq] at h1
        obtain ⟨rfl, rfl⟩ := h1
        exact hw.wait_refs r hmem
    · intro r hr
      exact hw.wait_refs r (hl ▸ List.mem_cons_of_mem _ hr)
  · refine
      { is_client := rfl, destroying := rfl, goaway_error := rfl, sent_goaway_state := rfl,
        last_new_stream_id := rfl, peer_max := rfl, in_flight := rfl, allocated := rfl,
        allow_tarpit := rfl, kick := Kick.kick_refl _, closed_mono := fun _ => rfl,
        closed_set := Or.inl rfl, pending_mono := id, next_le := ?_, waiting := ?_,
        id_once := ?_, read_closed_mono := ?_, write_closed_mono := ?_ }
    · rw [hnx]; exact Nat.le_add_right _ _
    · rw [hwt, hl]; exact List.sublist_cons_self s rest
    · intro r hr
      by_cases hrs : r = s
      · subst hrs; exact absurd hid hr
      · rw [hstr_ne r hrs]
    · intro r hr
      by_cases hrs : r = s
      · subst hrs; rw [hstr_s]; exact hr
      · rw [hstr_ne r hrs]; exact hr
    · intro r hr
      by_cases hrs : r = s
      · subst hrs; rw [hstr_s]; exact hr
      · rw [hstr_ne r hrs]; exact hr
  · intro _ _ hm
    rw [hmap2] at hm
    exact absurd hm (by simp)

theorem softrel_start_stream_tail (t : T) (s : Nat) :
    SoftRel (assign_stream_id t s) (start_stream t s) := by
  unfold start_stream
  simp only
  exact ((softrel_post_destructive_reclaimer _).softrel_trans (softrel_mark_stream_writable _ _)).softrel_trans
    (softrel_initiate_write _ _)

theorem start_streams_loop_pc : ∀ (n : Nat) (t t1 : T), WFb t →
    start_streams_loop n t = some t1 → Post t t1
  | 0, t, t1, hw, h => by
    unfold start_streams_loop at h
    split at h
    · exact absurd h (by simp)
    · simp only [Option.some.injEq] at h; subst h; exact Post.post_refl hw
  | n + 1, t, t1, hw, h => by
    unfold start_streams_loop at h
    split at h
    · next hc =>
      split at h
      · simp only [Option.some.injEq] at h; subst h; exact Post.post_refl hw
      · next s rest hl =>
        split at h
        · have p1 := (assign_stream_id_post hw hl hc.1).post_soft (softrel_start_stream_tail _ s)
          exact p1.post_trans (start_streams_loop_pc n _ t1 p1.wf h)
        · exact absurd h (by simp)
    · simp only [Option.some.injEq] at h; subst h; exact Post.post_refl hw

theorem maybe_start_some_streams_pc {remove : RemoveStream} (hr : RemoveOK remove) {t t1 : T}
    (hw : WFb t) (h : maybe_start_some_streams remove t = some t1) : Post t t1 := by
  unfold maybe_start_some_streams at h
  split at h
  · exact (cancel_unstarted_streams_pc hr hw h).1
  · simp only [Option.bind_eq_some] at h
    obtain ⟨t2, h2, h3⟩ := h
    have p2 := start_streams_loop_pc _ t t2 hw h2
    split at h3
    · exact p2.post_trans (cancel_waiting_loop_pc hr _ t2 t1 p2.wf h3)
    · simp only [Option.some.injEq] at h3; subst h3; exact p2

/-! ## Closing the transport -/

/-- A step that touches only `closed_with_error`, the pending close and
fields outside the invariant. -/
theorem post_close {t t1 : T} (hw : WFb t)
    (h1 : t1.is_client = t.is_client) (h2 : t1.destroying = t.destroying)
    (h5 : t1.goaway_error = t.goaway_error) (h6 : t1.sent_goaway_state = t.sent_goaway_state)
    (h7 : t1.next_stream_id = t.next_stream_id)
    (h8 : t1.last_new_stream_id = t.last_new_stream_id)
    (h9 : t1.stream_map = t.stream_map)
    (h10 : t1.waiting_for_concurrency = t.waiting_for_concurrency)
    (h11 : t1.peer_max_concurrent_streams = t.peer_max_concurrent_streams)
    (h12 : t1.endpoint_writes_in_flight = t.endpoint_writes_in_flight)
    (h13 : t1.streams_allocated = t.streams_allocated)
    (h14 : t1.allow_tarpit = t.allow_tarpit)
    (h15 : t1.write_state = t.write_state)
    (h16 : t1.finally_write_action_begin = t.finally_write_action_begin)
    (h17 : t1.streams = t.streams)
    (hcm : t.closed_with_error.ok = false → t1.closed_with_error = t.closed_with_error)
    (hcs : t1.closed_with_error = t.closed_with_error ∨ t1.closed_with_error.ok = false)
    (hpm : t.close_transport_on_writes_finished.ok = false →
      t1.close_transport_on_writes_finished.ok = false)
    (hcw : t1.closed_with_error.ok = false → t1.waiting_for_concurrency = [])
    (hp : t1.close_transport_on_writes_finished.ok = false →
      t1.write_state ≠ .IDLE ∧ t1.closed_with_error.ok = true)
    (hf : FinalSentClosed t → FinalSentClosed t1) : Post t t1 where
  wf :=
    { idle := by rw [h15, h16, h12]; exact hw.idle
      busy := by rw [h15, h16, h12]; exact hw.busy
      map_id := by rw [h9, h17]; exact hw.map_id
      map_nodup := by rw [h9]; exact hw.map_nodup
      map_open := by rw [h9, h17]; exact hw.map_open
      map_conv := by rw [h9, h17]; exact hw.map_conv
      wait_id := by rw [h10, h17]; exact hw.wait_id
      wait_nodup := by rw [h10]; exact hw.wait_nodup
      wait_client := by rw [h10, h1]; exact hw.wait_client
      closed_wait := hcw
      pending := hp
      ids_client := by rw [h1, h7, h17]; exact hw.ids_client
      ids_server := by rw [h1, h8, h17]; exact hw.ids_server
      next_parity := by rw [h1, h7]; exact hw.next_parity
      map_refs := by rw [h9, h13]; exact hw.map_refs
      wait_refs := by rw [h10, h13]; exact hw.wait_refs }
  rel :=
    { is_client := h1, destroying := h2, goaway_error := h5, sent_goaway_state := h6,
      last_new_stream_id := h8, peer_max := h11, in_flight := h12, allocated := h13,
      allow_tarpit := h14, kick := Or.inl ⟨h15, h16⟩, closed_mono := hcm, closed_set := hcs,
      pending_mono := hpm, next_le := by rw [h7], waiting := by rw [h10],
      id_once := fun r _ => by rw [h17],
      read_closed_mono := fun r h => by rw [h17]; exact h,
      write_closed_mono := fun r h => by rw [h17]; exact h }
  fsc := hf

theorem softrel_cancel_pings (t : T) (e : Status) : SoftRel t (cancel_pings t e) := by
  apply softrel_of_eq <;> rfl

theorem softrel_exec_ctx_run (t : T) (c : Option Closure) (e : Status) :
    SoftRel t (exec_ctx_run t c e) := by
  unfold exec_ctx_run
  split
  · exact SoftRel.softrel_refl t
  · apply softrel_of_eq <;> rfl

theorem softrel_clear_notify_on_receive_settings (t : T) :
    SoftRel t { t with notify_on_receive_settings := none } := by
  apply softrel_of_eq <;> rfl

theorem softrel_clear_notify_on_close (t : T) :
    SoftRel t { t with notify_on_close := none } := by
  apply softrel_of_eq <;> rfl

theorem softrel_close_transport_notify (t : T) (e : Status) :
    SoftRel t (close_transport_notify t e) :=
  (((softrel_clear_notify_on_receive_settings t).softrel_trans (softrel_exec_ctx_run _ _ _)).softrel_trans
    (softrel_clear_notify_on_close _)).softrel_trans (softrel_exec_ctx_run _ _ _)

theorem add_child_not_ok (p e : Status) (h : p.ok = false) :
    (grpc_error_add_child p e).ok = false := by
  cases p with
  | OkStatus => exact absurd h (by simp [Status.ok])
  | Error m r hh c =>
    unfold grpc_error_add_child
    simp only
    split <;> rfl

theorem set_rpc_status_ok (e : Status) (v : Nat) :
    (grpc_error_set_rpc_status e v).ok = e.ok := by
  cases e <;> rfl

theorem close_transport_defer_post {t : T} (e : Status) (hw : WFb t)
    (hs : t.write_state ≠ .IDLE) (hc : t.closed_with_error.ok = true) :
    Post t (close_transport_defer t e)
      ∧ (close_transport_defer t e).close_transport_on_writes_finished.ok = false := by
  have hne : (close_transport_defer t e).close_transport_on_writes_finished.ok = false := by
    unfold close_transport_defer
    simp only
    apply add_child_not_ok
    split
    · rfl
    · next h => simpa using h
  refine ⟨?_, hne⟩
  apply post_close hw <;> try rfl
  · intro _; rfl
  · exact Or.inl rfl
  · intro _; exact hne
  · intro h
    have : t.closed_with_error.ok = false := h
    rw [hc] at this; exact absurd this (by decide)
  · intro _; exact ⟨hs, hc⟩
  · intro _ _ _; exact Or.inr hne

theorem close_transport_now_post {t : T} (e : Status) (hw : WFb t)
    (hs : t.write_state = .IDLE) (he : e.ok = false)
    (hc : t.closed_with_error.ok = true) (hn : t.waiting_for_concurrency = []) :
    Post t (close_transport_now t e)
      ∧ (close_transport_now t e).closed_with_error.ok = false := by
  refine ⟨?_, he⟩
  apply post_close hw <;> try rfl
  · intro h; rw [hc] at h; exact absurd h (by decide)
  · exact Or.inr he
  · intro h; exact absurd hs (hw.pending h).1
  · intro _; exact hn
  · intro h; exact absurd hs (hw.pending h).1
  · intro _ _ _; exact Or.inl he

theorem close_transport_locked_pc {remove : RemoveStream} (hr : RemoveOK remove) {t t1 : T}
    {e : Status} (hw : WFb t) (h : close_transport_locked remove t e = some t1) :
    Post t t1 ∧ (t1.closed_with_error.ok = false
      ∨ t1.close_transport_on_writes_finished.ok = false) := by
  unfold close_transport_locked at h
  simp only [Option.bind_eq_some] at h
  obtain ⟨t2, h2, h3⟩ := h
  obtain ⟨p2, hn⟩ := end_all_the_calls_pc hr hw h2
  have s3 := softrel_cancel_pings t2 e
  have p3 := p2.post_soft s3
  have hn3 : (cancel_pings t2 e).waiting_for_concurrency = [] := hn
  split at h3
  · next hc =>
    generalize (if (!e.has_clear_grpc_status) = true then
      grpc_error_set_rpc_status e GRPC_STATUS_UNAVAILABLE else e) = e2 at h3
    split at h3
    · next hs =>
      simp only [Option.some.injEq] at h3; subst h3
      obtain ⟨p4, h4⟩ := close_transport_defer_post _ p3.wf hs hc
      exact ⟨p3.post_trans p4, Or.inr h4⟩
    · next hs =>
      split at h3
      · exact absurd h3 (by simp)
      · next he =>
        simp only [Option.some.injEq] at h3; subst h3
        have hs1 : (cancel_pings t2 e).write_state = .IDLE := by
          by_contra hx; exact hs hx
        have he1 := Bool.eq_false_iff.mpr he
        obtain ⟨p4, h4⟩ := close_transport_now_post _ p3.wf hs1 he1 hc hn3
        have s5 := softrel_close_transport_notify (close_transport_now (cancel_pings t2 e) e2) e2
        refine ⟨(p3.post_trans p4).post_soft s5, Or.inl ?_⟩
        rw [s5.closed_with_error]; exact h4
  · next hc =>
    simp only [Option.some.injEq] at h3; subst h3
    have s5 := softrel_close_transport_notify (cancel_pings t2 e) e
    refine ⟨p3.post_soft s5, Or.inl ?_⟩
    rw [s5.closed_with_error]
    simpa using hc

/-! ## Removing a stream -/

theorem softrel_remove_stream_from_lists (t : T) (s : Nat) :
    SoftRel t (remove_stream_from_lists t s) := by
  apply softrel_of_eq <;> rfl

/-- Taking the key of a closed stream out of the map restores the invariant. -/
theorem extract_wf {t : T} {id : Nat} (inc : Option Nat) (hw : WFx (some id) t)
    (hc : ∀ s, (id, s) ∈ t.stream_map → (t.streams s).closed) :
    WFb { t with stream_map := t.stream_map.filter (fun e => e.1 ≠ id),
                 incoming_stream := inc } := by
  have hsub : ∀ i r, (i, r) ∈ t.stream_map.filter (fun e => e.1 ≠ id) →
      (i, r) ∈ t.stream_map ∧ i ≠ id := by
    intro i r hm
    have := List.mem_filter.mp hm
    exact ⟨this.1, by simpa using this.2⟩
  exact
    { idle := hw.idle
      busy := hw.busy
      map_id := fun i r hm => hw.map_id i r (hsub i r hm).1
      map_nodup := (List.filter_sublist _).map Prod.fst |>.nodup hw.map_nodup
      map_open := fun i r hm _ =>
        hw.map_open i r (hsub i r hm).1 (fun h => (hsub i r hm).2 (Option.some.inj h))
      map_conv := fun r h1 h2 => by
        have hm := hw.map_conv r h1 h2
        refine List.mem_filter.mpr ⟨hm, ?_⟩
        have : (t.streams r).id ≠ id := fun he => h2 (hc r (he ▸ hm))
        simpa using this
      wait_id := hw.wait_id
      wait_nodup := hw.wait_nodup
      wait_client := hw.wait_client
      closed_wait := hw.closed_wait
      pending := hw.pending
      ids_client := hw.ids_client
      ids_server := hw.ids_server
      next_parity := hw.next_parity
      map_refs := fun i r hm => hw.map_refs i r (hsub i r hm).1
      wait_refs := hw.wait_refs }

theorem extract_rel (t : T) (m : List (Nat × Nat)) (inc : Option Nat) :
    Rel t { t with stream_map := m, incoming_stream := inc } :=
  { is_client := rfl, destroying := rfl, goaway_error := rfl, sent_goaway_state := rfl,
    last_new_stream_id := rfl, peer_max := rfl, in_flight := rfl, allocated := rfl,
    allow_tarpit := rfl, kick := Kick.kick_refl _, closed_mono := fun _ => rfl,
    closed_set := Or.inl rfl, pending_mono := id, next_le := le_refl _,
    waiting := List.Sublist.refl _, id_once := fun _ _ => rfl,
    read_closed_mono := fun _ h => h, write_closed_mono := fun _ h => h }

theorem fsc_of_map_ne {t : T} (h : t.stream_map ≠ []) : FinalSentClosed t :=
  fun _ hm => absurd hm h

theorem fsc_of_state_ne {t : T} (h : t.sent_goaway_state ≠ .FINAL_GOAWAY_SENT) :
    FinalSentClosed t :=
  fun hs _ => absurd hs h

theorem remove_stream_maybe_close_pc {remove : RemoveStream} (hr : RemoveOK remove)
    {t t1 : T} {e : Status} (hw : WFb t) (h : remove_stream_maybe_close remove t e = some t1) :
    WFb t1 ∧ Rel t t1 ∧ FinalSentClosed t1 := by
  unfold remove_stream_maybe_close at h
  split at h
  · have s1 := softrel_post_benign_reclaimer t
    simp only at h
    split at h
    · obtain ⟨p, hcl⟩ := close_transport_locked_pc hr (s1.softrel_wfx hw) h
      exact ⟨p.wf, s1.softrel_toRel.rel_trans p.rel, fun _ _ => hcl⟩
    · next hs =>
      simp only [Option.some.injEq] at h; subst h
      exact ⟨s1.softrel_wfx hw, s1.softrel_toRel, fsc_of_state_ne hs⟩
  · next he =>
    simp only [Option.some.injEq] at h; subst h
    refine ⟨hw, Rel.rel_refl _, fsc_of_map_ne ?_⟩
    intro hm
    exact he (by rw [hm]; rfl)

theorem remove_stream_body_ok {remove : RemoveStream} (hr : RemoveOK remove) :
    RemoveOK (remove_stream_body remove) := by
  intro t id error t1 h hw hc
  unfold remove_stream_body at h
  split at h
  · exact absurd h (by simp)
  · next s hl =>
    simp only [Option.bind_eq_some] at h
    obtain ⟨t3, h3, h4⟩ := h
    have w2 := extract_wf (if t.incoming_stream = some s then none else t.incoming_stream) hw hc
    have r2 := extract_rel t (t.stream_map.filter (fun e => e.1 ≠ id))
      (if t.incoming_stream = some s then none else t.incoming_stream)
    obtain ⟨w3, r3, f3⟩ := remove_stream_maybe_close_pc hr w2 h3
    have s4 := softrel_remove_stream_from_lists t3 s
    have p5 := maybe_start_some_streams_pc hr (s4.softrel_wfx w3) h4
    exact ⟨p5.wf, ((r2.rel_trans r3).rel_trans s4.softrel_toRel).rel_trans p5.rel, p5.fsc (s4.softrel_fsc f3)⟩

theorem remove_stream_fuel_ok : ∀ n : Nat, RemoveOK (remove_stream_fuel n)
  | 0 => by
    intro t id error t1 h
    exact absurd h (by simp [remove_stream_fuel])
  | n + 1 => remove_stream_body_ok (remove_stream_fuel_ok n)

/-! ## Handlers of the transport -/

theorem SendStep.sendstep_refl (a : grpc_chttp2_sent_goaway_state) : SendStep a a := Or.inl rfl

theorem SendStep.sendstep_trans {a b c : grpc_chttp2_sent_goaway_state} (h1 : SendStep a b)
    (h2 : SendStep b c) : SendStep a c := by
  rcases h1 with rfl | ⟨h1, _⟩
  · exact h2
  · rcases h2 with rfl | ⟨h2, h3⟩
    · exact Or.inr ⟨h1, by assumption⟩
    · exact Or.inr ⟨lt_trans h1 h2, h3⟩

theorem sendstep_none_graceful : SendStep .NO_GOAWAY_SEND .GRACEFUL_GOAWAY :=
  Or.inr ⟨by decide, by decide⟩

theorem sendstep_none_scheduled : SendStep .NO_GOAWAY_SEND .FINAL_GOAWAY_SEND_SCHEDULED :=
  Or.inr ⟨by decide, by decide⟩

theorem sendstep_graceful_scheduled :
    SendStep .GRACEFUL_GOAWAY .FINAL_GOAWAY_SEND_SCHEDULED :=
  Or.inr ⟨by decide, by decide⟩

theorem ClosedRel.closedrel_refl (t : T) : ClosedRel t t := ⟨rfl, fun _ => rfl, Or.inl rfl⟩

theorem ClosedRel.closedrel_trans {a b c : T} (h1 : ClosedRel a b) (h2 : ClosedRel b c) :
    ClosedRel a c where
  is_client := h2.is_client.trans h1.is_client
  closed_mono := fun h => by
    have e1 := h1.closed_mono h
    rw [h2.closed_mono (e1 ▸ h), e1]
  closed_set := by
    rcases h2.closed_set with h | h
    · rcases h1.closed_set with h0 | h0
      · exact Or.inl (h.trans h0)
      · exact Or.inr (h ▸ h0)
    · exact Or.inr h

theorem Rel.rel_toClosedRel {t t1 : T} (h : Rel t t1) : ClosedRel t t1 :=
  ⟨h.is_client, h.closed_mono, h.closed_set⟩

theorem TopRel.toprel_toClosedRel {t t1 : T} (h : TopRel t t1) : ClosedRel t t1 :=
  ⟨h.is_client, fun _ => h.closed_with_error, Or.inl h.closed_with_error⟩

theorem TopRel.toprel_refl (t : T) : TopRel t t :=
  ⟨rfl, rfl, rfl, rfl, rfl, rfl, rfl, rfl, rfl, Kick.kick_refl t, fun _ => rfl, SendStep.sendstep_refl _⟩

theorem TopRel.toprel_trans {a b c : T} (h1 : TopRel a b) (h2 : TopRel b c) : TopRel a c where
  is_client := h2.is_client.trans h1.is_client
  closed_with_error := h2.closed_with_error.trans h1.closed_with_error
  close_pending := h2.close_pending.trans h1.close_pending
  next_stream_id := h2.next_stream_id.trans h1.next_stream_id
  last_new_stream_id := h2.last_new_stream_id.trans h1.last_new_stream_id
  stream_map := h2.stream_map.trans h1.stream_map
  waiting := h2.waiting.trans h1.waiting
  in_flight := h2.in_flight.trans h1.in_flight
  allocated := h2.allocated.trans h1.allocated
  kick := h1.kick.kick_trans h2.kick
  streams := fun r => (h2.streams r).trans (h1.streams r)
  send := h1.send.sendstep_trans h2.send

theorem SoftRel.toTopRel {t t1 : T} (h : SoftRel t t1) : TopRel t t1 :=
  ⟨h.is_client, h.closed_with_error, h.close_pending, h.next_stream_id, h.last_new_stream_id,
    h.stream_map, h.waiting, h.in_flight, h.allocated, h.kick, h.streams,
    Or.inl h.sent_goaway_state.symm⟩

/-- A step that leaves alone every field the invariant reads. -/
theorem toprel_of_eq {t t1 : T}
    (h1 : t1.is_client = t.is_client)
    (h3 : t1.closed_with_error = t.closed_with_error)
    (h4 : t1.close_transport_on_writes_finished = t.close_transport_on_writes_finished)
    (h7 : t1.next_stream_id = t.next_stream_id)
    (h8 : t1.last_new_stream_id = t.last_new_stream_id)
    (h9 : t1.stream_map = t.stream_map)
    (h10 : t1.waiting_for_concurrency = t.waiting_for_concurrency)
    (h12 : t1.endpoint_writes_in_flight = t.endpoint_writes_in_flight)
    (h13 : t1.streams_allocated = t.streams_allocated)
    (h15 : t1.write_state = t.write_state)
    (h16 : t1.finally_write_action_begin = t.finally_write_action_begin)
    (h17 : t1.streams = t.streams)
    (hs : SendStep t.sent_goaway_state t1.sent_goaway_state) : TopRel t t1 :=
  ⟨h1, h3, h4, h7, h8, h9, h10, h12, h13, Or.inl ⟨h15, h16⟩, fun r => by rw [h17], hs⟩

theorem TopRel.toprel_wfx {ex : Option Nat} {t t1 : T} (h : TopRel t t1) (hw : WFx ex t) :
    WFx ex t1 := by
  have hid : ∀ r, (t1.streams r).id = (t.streams r).id :=
    fun r => congrArg StreamCore.id (h.streams r)
  have hcl : ∀ r, (t1.streams r).closed ↔ (t.streams r).closed := by
    intro r
    have a : (t1.streams r).read_closed = (t.streams r).read_closed :=
      congrArg StreamCore.read_closed (h.streams r)
    have b : (t1.streams r).write_closed = (t.streams r).write_closed :=
      congrArg StreamCore.write_closed (h.streams r)
    unfold grpc_chttp2_stream.closed
    rw [a, b]
  exact
    { idle := (h.kick.wf_write h.in_flight hw.idle hw.busy).1
      busy := (h.kick.wf_write h.in_flight hw.idle hw.busy).2
      map_id := fun i r hm => by rw [hid]; exact hw.map_id i r (h.stream_map ▸ hm)
      map_nodup := by rw [h.stream_map]; exact hw.map_nodup
      map_open := fun i r hm he => by
        rw [hcl]; exact hw.map_open i r (h.stream_map ▸ hm) he
      map_conv := fun r h1 h2 => by
        rw [h.stream_map, hid]
        exact hw.map_conv r (hid r ▸ h1) (fun hc => h2 ((hcl r).mpr hc))
      wait_id := fun r hr => by
        rw [hid, hcl]; exact hw.wait_id r (h.waiting ▸ hr)
      wait_nodup := by rw [h.waiting]; exact hw.wait_nodup
      wait_client := by rw [h.waiting, h.is_client]; exact hw.wait_client
      closed_wait := by rw [h.waiting, h.closed_with_error]; exact hw.closed_wait
      pending := fun hp => by
        rw [h.close_pending] at hp
        obtain ⟨a, b⟩ := hw.pending hp
        exact ⟨(h.kick.busy a).1, h.closed_with_error ▸ b⟩
      ids_client := fun hc r hr => by
        rw [hid, h.next_stream_id]
        exact hw.ids_client (h.is_client ▸ hc) r (hid r ▸ hr)
      ids_server := fun hc r hr => by
        rw [hid, h.last_new_stream_id]
        exact hw.ids_server (h.is_client ▸ hc) r (hid r ▸ hr)
      next_parity := by rw [h.next_stream_id, h.is_client]; exact hw.next_parity
      map_refs := by rw [h.stream_map, h.allocated]; exact hw.map_refs
      wait_refs := by rw [h.waiting, h.allocated]; exact hw.wait_refs }

theorem TopRel.toprel_fsc {t t1 : T} (h : TopRel t t1) (hf : FinalSentClosed t) :
    FinalSentClosed t1 := by
  intro hs hm
  rcases h.send with he | ⟨_, hne⟩
  · rw [h.closed_with_error, h.close_pending]
    exact hf (he ▸ hs) (h.stream_map ▸ hm)
  · exact absurd hs hne

theorem TopRel.toprel_inv {t t1 : T} (h : TopRel t t1) (hi : Inv t) : Inv t1 :=
  ⟨h.toprel_wfx hi.1, h.toprel_fsc hi.2⟩

theorem TopRel.toprel_toStepRel {t t1 : T} (h : TopRel t t1) : StepRel t t1 :=
  ⟨h.toprel_toClosedRel, Or.inl h.send⟩

theorem Post.post_inv {t t1 : T} (h : Post t t1) (hi : Inv t) : Inv t1 := ⟨h.wf, h.fsc hi.2⟩

theorem Post.post_toStepRel {t t1 : T} (h : Post t t1) : StepRel t t1 :=
  ⟨h.rel.rel_toClosedRel, Or.inl (Or.inl h.rel.sent_goaway_state.symm)⟩

theorem toprel_send_ping_locked (t : T) (a b : Option Closure) :
    TopRel t (send_ping_locked t a b) := by
  unfold send_ping_locked
  split
  · exact ((softrel_exec_ctx_run _ _ _).softrel_trans (softrel_exec_ctx_run _ _ _)).toTopRel
  · apply toprel_of_eq <;> first | rfl | exact SendStep.sendstep_refl _

theorem toprel_GracefulGoaway_Start (t : T) (h : t.sent_goaway_state = .NO_GOAWAY_SEND) :
    TopRel t (GracefulGoaway_Start t) := by
  unfold GracefulGoaway_Start
  refine TopRel.toprel_trans (TopRel.toprel_trans ?_ (toprel_send_ping_locked _ _ _))
    (softrel_initiate_write _ _).toTopRel
  apply toprel_of_eq <;> first | rfl | skip
  rw [h]
  exact sendstep_none_graceful

theorem toprel_MaybeSendFinalGoawayLocked (t : T) :
    TopRel t (GracefulGoaway_MaybeSendFinalGoawayLocked t) := by
  unfold GracefulGoaway_MaybeSendFinalGoawayLocked
  split
  · exact TopRel.toprel_refl t
  · next hs =>
    split
    · exact TopRel.toprel_refl t
    · refine TopRel.toprel_trans ?_ (softrel_initiate_write _ _).toTopRel
      apply toprel_of_eq <;> first | rfl | skip
      have : t.sent_goaway_state = .GRACEFUL_GOAWAY := by
        by_contra hx; exact hs hx
      rw [this]
      exact sendstep_graceful_scheduled

theorem toprel_send_goaway (t : T) (e : Status) (imm : Bool) :
    TopRel t (send_goaway t e imm) := by
  unfold send_goaway
  refine TopRel.toprel_trans ?_ (softrel_initiate_write _ _).toTopRel
  split
  · split
    · next h => exact toprel_GracefulGoaway_Start t h
    · exact TopRel.toprel_refl t
  · split
    · next h =>
      apply toprel_of_eq <;> first | rfl | skip
      rcases h with h | h
      · rw [h]; exact sendstep_none_scheduled
      · rw [h]; exact sendstep_graceful_scheduled
    · exact TopRel.toprel_refl t

/-! ## The write path -/

/-- A step that leaves alone the streams, the map and the waiting list. -/
theorem wfb_core {t t1 : T} (hw : WFb t)
    (h1 : t1.is_client = t.is_client)
    (h3 : t1.closed_with_error = t.closed_with_error)
    (h7 : t1.next_stream_id = t.next_stream_id)
    (h8 : t1.last_new_stream_id = t.last_new_stream_id)
    (h9 : t1.stream_map = t.stream_map)
    (h10 : t1.waiting_for_concurrency = t.waiting_for_concurrency)
    (h13 : t1.streams_allocated = t.streams_allocated)
    (h17 : t1.streams = t.streams)
    (hi : t1.write_state = .IDLE →
      t1.finally_write_action_begin = 0 ∧ t1.endpoint_writes_in_flight = 0)
    (hb : t1.write_state ≠ .IDLE →
      t1.finally_write_action_begin + t1.endpoint_writes_in_flight ≤ 1)
    (hp : t1.close_transport_on_writes_finished.ok = false →
      t1.write_state ≠ .IDLE ∧ t1.closed_with_error.ok = true) : WFb t1 where
  idle := hi
  busy := hb
  map_id := by rw [h9, h17]; exact hw.map_id
  map_nodup := by rw [h9]; exact hw.map_nodup
  map_open := by rw [h9, h17]; exact hw.map_open
  map_conv := by rw [h9, h17]; exact hw.map_conv
  wait_id := by rw [h10, h17]; exact hw.wait_id
  wait_nodup := by rw [h10]; exact hw.wait_nodup
  wait_client := by rw [h10, h1]; exact hw.wait_client
  closed_wait := by rw [h10, h3]; exact hw.closed_wait
  pending := hp
  ids_client := by rw [h1, h7, h17]; exact hw.ids_client
  ids_server := by rw [h1, h8, h17]; exact hw.ids_server
  next_parity := by rw [h1, h7]; exact hw.next_parity
  map_refs := by rw [h9, h13]; exact hw.map_refs
  wait_refs := by rw [h10, h13]; exact hw.wait_refs

/-- A target other than IDLE: `set_write_state` is the assignment. -/
theorem set_write_state_of_ne_IDLE (remove : RemoveStream) (t : T)
    (st : grpc_chttp2_write_state) (h : st ≠ .IDLE) :
    set_write_state remove t st = some { t with write_state := st } := by
  unfold set_write_state
  rw [if_neg h]

theorem ok_OkStatus : Status.OkStatus.ok = true := rfl

/-- What `set_write_state` guarantees when it moves the transport to IDLE. -/
theorem set_write_state_IDLE_pc {remove : RemoveStream} (hr : RemoveOK remove) {t t1 : T}
    (hw : WFb t) (hf : FinalSentClosed t)
    (h0 : t.finally_write_action_begin = 0) (h1 : t.endpoint_writes_in_flight = 0)
    (h : set_write_state remove t .IDLE = some t1) :
    Inv t1 ∧ ClosedRel t t1 ∧ t1.sent_goaway_state = t.sent_goaway_state := by
  unfold set_write_state at h
  rw [if_pos rfl] at h
  simp only at h
  split at h
  · next hp =>
    have w2 : WFb { run_closure_list { t with write_state := .IDLE } with
        close_transport_on_writes_finished := .OkStatus } := by
      apply wfb_core hw <;> first | rfl | skip
      · intro _; exact ⟨h0, h1⟩
      · intro hx; exact absurd rfl hx
      · intro hx; exact absurd hx (by simp [ok_OkStatus])
    obtain ⟨p, hcl⟩ := close_transport_locked_pc hr w2 h
    refine ⟨⟨p.wf, fun _ _ => hcl⟩, ?_, ?_⟩
    · exact ⟨p.rel.is_client, p.rel.closed_mono, p.rel.closed_set⟩
    · exact p.rel.sent_goaway_state
  · next hp =>
    simp only [Option.some.injEq] at h; subst h
    have hp2 : t.close_transport_on_writes_finished.ok = true := by
      simpa using hp
    refine ⟨⟨?_, ?_⟩, ⟨rfl, fun _ => rfl, Or.inl rfl⟩, rfl⟩
    · apply wfb_core hw <;> first | rfl | skip
      · intro _; exact ⟨h0, h1⟩
      · intro hx; exact absurd rfl hx
      · intro hx
        have : t.close_transport_on_writes_finished.ok = false := hx
        rw [hp2] at this; exact absurd this (by decide)
    · intro hs hm
      exact hf hs hm

theorem Rel.busy0 {t t1 : T} (h : Rel t t1) (hb : Busy0 t) : Busy0 t1 := by
  obtain ⟨a, b⟩ := h.kick.busy hb.1
  exact ⟨a, b.trans hb.2.1, h.in_flight.trans hb.2.2⟩

theorem gather_eq (t : T) (g p : Bool) : ∃ q n w,
    (write_action_begin_gather t g p).1
      = { t with qbuf := q, num_pending_induced_frames := n, writable := w } := by
  unfold write_action_begin_gather
  split
  · exact ⟨t.qbuf, t.num_pending_induced_frames, t.writable, rfl⟩
  · exact ⟨[], 0, [], rfl⟩

theorem write_state_target_ne_IDLE (b : Bool) :
    (if b = true then grpc_chttp2_write_state.WRITING_WITH_MORE
      else grpc_chttp2_write_state.WRITING) ≠ .IDLE := by
  cases b <;> decide

theorem write_action_begin_write_pc {remove : RemoveStream} (hr : RemoveOK remove) {t t1 : T}
    {g p : Bool} (hw : WFb t) (hf : FinalSentClosed t) (hb : Busy0 t)
    (h : write_action_begin_write remove t g p = some t1) :
    Inv t1 ∧ ClosedRel t t1 ∧ t1.sent_goaway_state = t.sent_goaway_state := by
  unfold write_action_begin_write at h
  simp only at h
  obtain ⟨q, n, w, hq⟩ := gather_eq t g p
  generalize write_action_begin_gather t g p = tr at h hq
  obtain ⟨t2, r⟩ := tr
  simp only at hq h
  subst hq
  split at h
  · rw [set_write_state_of_ne_IDLE _ _ _ (write_state_target_ne_IDLE _)] at h
    simp only [Option.some_bind] at h
    have hst := write_state_target_ne_IDLE r.partial_write
    generalize (if r.partial_write = true then grpc_chttp2_write_state.WRITING_WITH_MORE
      else grpc_chttp2_write_state.WRITING) = st at h hst
    unfold write_action_begin_resume_read at h
    split at h
    · split at h
      · simp only [Option.some.injEq] at h; subst h
        refine ⟨⟨?_, fun hs hm => hf hs hm⟩, ⟨rfl, fun _ => rfl, Or.inl rfl⟩, rfl⟩
        apply wfb_core hw <;> first | rfl | skip
        · intro hx; exact absurd hx hst
        · intro _
          show t.finally_write_action_begin + (t.endpoint_writes_in_flight + 1) ≤ 1
          rw [hb.2.1, hb.2.2]
        · intro hx; exact ⟨hst, (hw.pending hx).2⟩
      · exact absurd h (by simp)
    · simp only [Option.some.injEq] at h; subst h
      refine ⟨⟨?_, fun hs hm => hf hs hm⟩, ⟨rfl, fun _ => rfl, Or.inl rfl⟩, rfl⟩
      apply wfb_core hw <;> first | rfl | skip
      · intro hx; exact absurd hx hst
      · intro _
        show t.finally_write_action_begin + (t.endpoint_writes_in_flight + 1) ≤ 1
        rw [hb.2.1, hb.2.2]
      · intro hx; exact ⟨hst, (hw.pending hx).2⟩
  · have w2 : WFb { t with qbuf := q, num_pending_induced_frames := n, writable := w } := by
      apply wfb_core hw <;> first | rfl | skip
      · exact hw.idle
      · exact hw.busy
      · exact hw.pending
    obtain ⟨i, r, g⟩ := set_write_state_IDLE_pc hr w2 (fun hs hm => hf hs hm) hb.2.1 hb.2.2 h
    exact ⟨i, ⟨r.is_client, r.closed_mono, r.closed_set⟩, g⟩

theorem write_action_begin_locked_pc {remove : RemoveStream} (hr : RemoveOK remove)
    {t t1 : T} {g p : Bool} (hi : Inv t) (hp : 0 < t.finally_write_action_begin)
    (h : write_action_begin_locked remove t g p = some t1) :
    Inv t1 ∧ ClosedRel t t1 ∧ t1.sent_goaway_state = t.sent_goaway_state := by
  unfold write_action_begin_locked at h
  simp only at h
  split at h
  · exact absurd h (by simp)
  · next hne =>
    have hne1 : t.write_state ≠ .IDLE := hne
    have hbz := hi.1.busy hne1
    have w2 : WFb { t with finally_write_action_begin := t.finally_write_action_begin - 1 } := by
      apply wfb_core hi.1 <;> first | rfl | skip
      · intro hx; exact absurd hx hne1
      · intro _
        show t.finally_write_action_begin - 1 + t.endpoint_writes_in_flight ≤ 1
        omega
      · exact hi.1.pending
    have b2 : Busy0 { t with finally_write_action_begin := t.finally_write_action_begin - 1 } := by
      refine ⟨hne1, ?_, ?_⟩
      · show t.finally_write_action_begin - 1 = 0
        omega
      · show t.endpoint_writes_in_flight = 0
        omega
    obtain ⟨i, r, g⟩ := write_action_begin_write_pc hr w2 (fun hs hm => hi.2 hs hm) b2 h
    exact ⟨i, ⟨r.is_client, r.closed_mono, r.closed_set⟩, g⟩

theorem write_action_end_error_pc {remove : RemoveStream} (hr : RemoveOK remove) {t t1 : T}
    {e : Status} {c : Bool} (hw : WFb t)
    (h : write_action_end_error remove t e = some (t1, c)) : Post t t1 := by
  unfold write_action_end_error at h
  split at h
  · simp only [Option.map_eq_some', Prod.mk.injEq] at h
    obtain ⟨t2, h2, rfl, _⟩ := h
    exact (close_transport_locked_pc hr hw h2).1
  · simp only [Option.some.injEq, Prod.mk.injEq] at h
    obtain ⟨rfl, _⟩ := h
    exact Post.post_refl hw

theorem write_action_end_goaway_pc {remove : RemoveStream} (hr : RemoveOK remove) {t t1 : T}
    {c c1 : Bool} (hw : WFb t) (hf : FinalSentClosed t) (hb : Busy0 t)
    (h : write_action_end_goaway remove t c = some (t1, c1)) :
    Inv t1 ∧ ClosedRel t t1 ∧ GoStep t.sent_goaway_state t1.sent_goaway_state ∧ Busy0 t1 := by
  unfold write_action_end_goaway at h
  split at h
  · next hs =>
    have w2 : WFb { t with sent_goaway_state := .FINAL_GOAWAY_SENT } := by
      apply wfb_core hw <;> first | rfl | skip
      · exact hw.idle
      · exact hw.busy
      · exact hw.pending
    simp only at h
    split at h
    · simp only [Option.map_eq_some', Prod.mk.injEq] at h
      obtain ⟨t2, h2, rfl, _⟩ := h
      obtain ⟨p, hcl⟩ := close_transport_locked_pc hr w2 h2
      refine ⟨⟨p.wf, fun _ _ => hcl⟩, ⟨p.rel.is_client, p.rel.closed_mono, p.rel.closed_set⟩,
        Or.inr ⟨hs, p.rel.sent_goaway_state⟩, p.rel.busy0 hb⟩
    · next hm =>
      simp only [Option.some.injEq, Prod.mk.injEq] at h
      obtain ⟨rfl, _⟩ := h
      refine ⟨⟨w2, fsc_of_map_ne ?_⟩, ⟨rfl, fun _ => rfl, Or.inl rfl⟩, Or.inr ⟨hs, rfl⟩, hb⟩
      intro hx
      apply hm
      show t.stream_map.isEmpty = true
      rw [hx]; rfl
  · simp only [Option.some.injEq, Prod.mk.injEq] at h
    obtain ⟨rfl, _⟩ := h
    exact ⟨⟨hw, hf⟩, ClosedRel.closedrel_refl _, Or.inl (Or.inl rfl), hb⟩

theorem writing_ne_IDLE : grpc_chttp2_write_state.WRITING ≠ .IDLE := by decide

theorem write_action_end_switch_pc {remove : RemoveStream} (hr : RemoveOK remove) {t t1 : T}
    {c : Bool} (hw : WFb t) (hf : FinalSentClosed t) (hb : Busy0 t)
    (h : write_action_end_switch remove t c = some t1) :
    Inv t1 ∧ ClosedRel t t1 ∧ t1.sent_goaway_state = t.sent_goaway_state := by
  unfold write_action_end_switch at h
  split at h
  · exact absurd h (by simp)
  · exact set_write_state_IDLE_pc hr hw hf hb.2.1 hb.2.2 h
  · rw [set_write_state_of_ne_IDLE _ _ _ (by decide)] at h
    simp only [Option.map_some', Option.some.injEq] at h
    subst h
    cases c
    · refine ⟨⟨?_, fun hs hm => hf hs hm⟩, ⟨rfl, fun _ => rfl, Or.inl rfl⟩, rfl⟩
      apply wfb_core hw <;> first | rfl | skip
      · intro hx; exact absurd hx writing_ne_IDLE
      · intro _
        show t.finally_write_action_begin + 1 + t.endpoint_writes_in_flight ≤ 1
        rw [hb.2.1, hb.2.2]
      · intro hx; exact ⟨writing_ne_IDLE, (hw.pending hx).2⟩
    · refine ⟨⟨?_, fun hs hm => hf hs hm⟩, ⟨rfl, fun _ => rfl, Or.inl rfl⟩, rfl⟩
      apply wfb_core hw <;> first | rfl | skip
      · intro hx; exact absurd hx writing_ne_IDLE
      · intro _
        show t.finally_write_action_begin + 1 + t.endpoint_writes_in_flight ≤ 1
        rw [hb.2.1, hb.2.2]
      · intro hx; exact ⟨writing_ne_IDLE, (hw.pending hx).2⟩

theorem write_action_end_body_pc {remove : RemoveStream} (hr : RemoveOK remove) {t t1 : T}
    {e : Status} (hw : WFb t) (hf : FinalSentClosed t) (hb : Busy0 t)
    (h : write_action_end_body remove t e = some t1) : Inv t1 ∧ StepRel t t1 := by
  unfold write_action_end_body at h
  simp only [Option.bind_eq_some] at h
  obtain ⟨⟨t2, c2⟩, h2, ⟨t3, c3⟩, h3, h4⟩ := h
  have p2 := write_action_end_error_pc hr hw h2
  obtain ⟨i3, r3, g3, b3⟩ := write_action_end_goaway_pc hr p2.wf (p2.fsc hf) (p2.rel.busy0 hb) h3
  obtain ⟨i4, r4, g4⟩ := write_action_end_switch_pc hr i3.1 i3.2 b3 h4
  refine ⟨i4, (p2.rel.rel_toClosedRel.closedrel_trans r3).closedrel_trans r4, ?_⟩
  have g5 : t1.sent_goaway_state = t3.sent_goaway_state := g4
  have g6 : GoStep t2.sent_goaway_state t3.sent_goaway_state := g3
  rw [g5, ← p2.rel.sent_goaway_state]
  exact g6

theorem write_action_end_locked_pc {remove : RemoveStream} (hr : RemoveOK remove)
    {t t1 : T} {e : Status} (hi : Inv t) (hp : 0 < t.endpoint_writes_in_flight)
    (h : write_action_end_locked remove t e = some t1) : Inv t1 ∧ StepRel t t1 := by
  unfold write_action_end_locked at h
  have hne : t.write_state ≠ .IDLE := by
    intro hx
    have := (hi.1.idle hx).2
    omega
  have hbz := hi.1.busy hne
  have w2 : WFb { t with endpoint_writes_in_flight := t.endpoint_writes_in_flight - 1 } := by
    apply wfb_core hi.1 <;> first | rfl | skip
    · intro hx; exact absurd hx hne
    · intro _
      show t.finally_write_action_begin + (t.endpoint_writes_in_flight - 1) ≤ 1
      omega
    · exact hi.1.pending
  have b2 : Busy0 { t with endpoint_writes_in_flight := t.endpoint_writes_in_flight - 1 } := by
    refine ⟨hne, ?_, ?_⟩
    · show t.finally_write_action_begin = 0
      omega
    · show t.endpoint_writes_in_flight - 1 = 0
      omega
  obtain ⟨i, r⟩ := write_action_end_body_pc hr w2 (fun hs hm => hi.2 hs hm) b2 h
  exact ⟨i, ⟨r.closed.is_client, r.closed.closed_mono, r.closed.closed_set⟩, r.go⟩

/-! ## One step of the transport -/

theorem MidRel.midrel_refl (t : T) : MidRel t t := ⟨id, ClosedRel.closedrel_refl t, SendStep.sendstep_refl _⟩

theorem MidRel.midrel_trans {a b c : T} (h1 : MidRel a b) (h2 : MidRel b c) : MidRel a c :=
  ⟨fun h => h2.inv (h1.inv h), h1.closed.closedrel_trans h2.closed, h1.send.sendstep_trans h2.send⟩

theorem TopRel.toprel_mid {t t1 : T} (h : TopRel t t1) : MidRel t t1 :=
  ⟨h.toprel_inv, h.toprel_toClosedRel, h.send⟩

theorem SoftRel.softrel_mid {t t1 : T} (h : SoftRel t t1) : MidRel t t1 := h.toTopRel.toprel_mid

theorem Post.post_mid {t t1 : T} (h : Post t t1) : MidRel t t1 :=
  ⟨h.post_inv, h.rel.rel_toClosedRel, Or.inl h.rel.sent_goaway_state.symm⟩

theorem MidRel.step {t t1 : T} (h : MidRel t t1) (hi : Inv t) : Inv t1 ∧ StepRel t t1 :=
  ⟨h.inv hi, h.closed, Or.inl h.send⟩

theorem send_goaway_then_close {remove : RemoveStream} (hr : RemoveOK remove) {t t1 : T}
    {e1 e2 : Status} {imm : Bool} (hi : Inv t)
    (h : close_transport_locked remove (send_goaway t e1 imm) e2 = some t1) : MidRel t t1 := by
  have m1 := (toprel_send_goaway t e1 imm).toprel_mid
  exact m1.midrel_trans (close_transport_locked_pc hr (m1.inv hi).1 h).1.post_mid

theorem keepalive_timeout_mid {remove : RemoveStream} (hr : RemoveOK remove) {t t1 : T}
    (hi : Inv t) (h : grpc_chttp2_keepalive_timeout remove t = some t1) : MidRel t t1 :=
  send_goaway_then_close hr hi h

theorem ping_timeout_mid {remove : RemoveStream} (hr : RemoveOK remove) {t t1 : T}
    (hi : Inv t) (h : grpc_chttp2_ping_timeout remove t = some t1) : MidRel t t1 :=
  send_goaway_then_close hr hi h

theorem settings_timeout_mid {remove : RemoveStream} (hr : RemoveOK remove) {t t1 : T}
    (hi : Inv t) (h : grpc_chttp2_settings_timeout remove t = some t1) : MidRel t t1 :=
  send_goaway_then_close hr hi h

theorem exceeded_ping_strikes_mid {remove : RemoveStream} (hr : RemoveOK remove) {t t1 : T}
    (hi : Inv t) (h : grpc_chttp2_exceeded_ping_strikes remove t = some t1) : MidRel t t1 :=
  send_goaway_then_close hr hi h

theorem toprel_set_destroying (t : T) : TopRel t { t with destroying := true } := by
  apply toprel_of_eq <;> first | rfl | exact SendStep.sendstep_refl _

theorem destroy_transport_mid {remove : RemoveStream} (hr : RemoveOK remove) {t t1 : T}
    (hi : Inv t) (h : destroy_transport_locked remove t = some t1) : MidRel t t1 := by
  have m1 := (toprel_set_destroying t).toprel_mid
  exact m1.midrel_trans (close_transport_locked_pc hr (m1.inv hi).1 h).1.post_mid

theorem toprel_peer_settings (t : T) (n : Nat) :
    TopRel t { t with peer_max_concurrent_streams := n } := by
  apply toprel_of_eq <;> first | rfl | exact SendStep.sendstep_refl _

theorem softrel_parser_stream_input (t : T) (s n : Nat) (d : DeframeResult)
    (f : FlowControlAction) : SoftRel t (parser_stream_input t s n d f) := by
  unfold parser_stream_input
  refine softrel_set_stream _ s _ ?_
  rfl

theorem toprel_benign_reclaimer_locked (t : T) (e : Status) :
    TopRel t (benign_reclaimer_locked t e) := by
  unfold benign_reclaimer_locked
  have key : ∀ t2 : T, TopRel t2 { t2 with benign_reclaimer_registered := false } := by
    intro t2
    apply toprel_of_eq <;> first | rfl | exact SendStep.sendstep_refl _
  split
  · exact (toprel_send_goaway _ _ _).toprel_trans (key _)
  · exact key _

theorem softrel_send_keepalive_ping_locked (t : T) :
    SoftRel t (send_keepalive_ping_locked t) := by
  unfold send_keepalive_ping_locked
  split
  · exact softrel_exec_ctx_run _ _ _
  · apply softrel_of_eq <;> rfl

theorem softrel_init_keepalive_ping_locked {t t1 : T}
    (h : init_keepalive_ping_locked t = some t1) : SoftRel t t1 := by
  unfold init_keepalive_ping_locked at h
  split at h
  · exact absurd h (by simp)
  · split at h
    · exact absurd h (by simp)
    · simp only at h
      split at h
      · simp only [Option.some.injEq] at h; subst h
        apply softrel_of_eq <;> rfl
      · split at h
        · simp only [Option.some.injEq] at h; subst h
          refine SoftRel.softrel_trans (SoftRel.softrel_trans ?_ (softrel_send_keepalive_ping_locked _))
            (softrel_initiate_write _ _)
          apply softrel_of_eq <;> rfl
        · simp only [Option.some.injEq] at h; subst h
          apply softrel_of_eq <;> rfl

theorem softrel_finish_keepalive_ping_locked {t t1 : T} {e : Status}
    (h : finish_keepalive_ping_locked t e = some t1) : SoftRel t t1 := by
  unfold finish_keepalive_ping_locked at h
  split at h
  · split at h
    · simp only at h
      split at h
      · exact absurd h (by simp)
      · simp only [Option.some.injEq] at h; subst h
        apply softrel_of_eq <;> rfl
    · simp only [Option.some.injEq] at h; subst h
      exact SoftRel.softrel_refl _
  · simp only [Option.some.injEq] at h; subst h
    exact SoftRel.softrel_refl _

theorem softrel_tarpit_timer_fired {t t1 : T} {i : Nat} (h : tarpit_timer_fired t i = some t1) :
    SoftRel t t1 := by
  unfold tarpit_timer_fired at h
  split at h
  · exact absurd h (by simp)
  · simp only at h
    have key : SoftRel t { t with tarpit_timers := t.tarpit_timers.eraseIdx i } := by
      apply softrel_of_eq <;> rfl
    split at h
    · simp only [Option.some.injEq] at h; subst h
      exact key
    · exact key.softrel_trans (softrel_run_tarpit_fn h)

theorem destructive_reclaimer_mid {remove : RemoveStream} (hr : RemoveOK remove) {t t1 : T}
    {e : Status} (hi : Inv t) (h : destructive_reclaimer_locked remove t e = some t1) :
    MidRel t t1 := by
  unfold destructive_reclaimer_locked at h
  have key : SoftRel t { t with destructive_reclaimer_registered := false } := by
    apply softrel_of_eq <;> rfl
  simp only at h
  split at h
  · simp only [Option.some.injEq] at h; subst h
    exact key.softrel_mid
  · split at h
    · simp only [Option.map_eq_some'] at h
      obtain ⟨t2, h2, rfl⟩ := h
      have p := cancel_stream_pc hr (key.softrel_wfx hi.1) h2
      refine (key.softrel_mid.midrel_trans p.post_mid).midrel_trans ?_
      split
      · exact (softrel_post_destructive_reclaimer _).softrel_mid
      · exact MidRel.midrel_refl _
    · simp only [Option.some.injEq] at h; subst h
      exact key.softrel_mid

theorem perform_transport_op_mid {remove : RemoveStream} (hr : RemoveOK remove) {t t1 : T}
    {op : grpc_transport_op} (hi : Inv t)
    (h : perform_transport_op_locked remove t op = some t1) : MidRel t t1 := by
  unfold perform_transport_op_locked at h
  simp only [Option.map_eq_some'] at h
  obtain ⟨t4, h4, rfl⟩ := h
  refine MidRel.midrel_trans ?_ (softrel_exec_ctx_run _ _ _).softrel_mid
  have m1 : TopRel t (if op.goaway_error.ok = false then send_goaway t op.goaway_error false
      else t) := by
    split
    · exact toprel_send_goaway _ _ _
    · exact TopRel.toprel_refl _
  generalize (if op.goaway_error.ok = false then send_goaway t op.goaway_error false
      else t) = t2 at h4 m1
  have m2 : TopRel t2 (if op.send_ping_on_initiate.isSome ∨ op.send_ping_on_ack.isSome then
      grpc_chttp2_initiate_write
        (send_ping_locked t2 (op.send_ping_on_initiate.map Closure.app)
          (op.send_ping_on_ack.map Closure.app)) .APPLICATION_PING
      else t2) := by
    split
    · exact (toprel_send_ping_locked _ _ _).toprel_trans (softrel_initiate_write _ _).toTopRel
    · exact TopRel.toprel_refl _
  generalize (if op.send_ping_on_initiate.isSome ∨ op.send_ping_on_ack.isSome then
      grpc_chttp2_initiate_write
        (send_ping_locked t2 (op.send_ping_on_initiate.map Closure.app)
          (op.send_ping_on_ack.map Closure.app)) .APPLICATION_PING
      else t2) = t3 at h4 m2
  have m12 := m1.toprel_mid.midrel_trans m2.toprel_mid
  split at h4
  · exact m12.midrel_trans (send_goaway_then_close hr (m12.inv hi) h4)
  · simp only [Option.some.injEq] at h4; subst h4
    exact m12

/-! ## Stream operations -/

theorem optsoft_none (t : T) : OptSoft t none := fun _ h => absurd h (by simp)

theorem optsoft_some {t x : T} (h : SoftRel t x) : OptSoft t (some x) :=
  fun _ e => (Option.some.inj e) ▸ h

theorem softrel_or_may_cover_write (t : T) (c : Nat) : SoftRel t (or_may_cover_write t c) := by
  apply softrel_of_eq <;> rfl

theorem softrel_add_closure_barrier (t : T) (c : Nat) : SoftRel t (add_closure_barrier t c) := by
  apply softrel_of_eq <;> rfl

theorem softrel_perform_stream_op_init_barrier (t : T) (op : grpc_transport_stream_op_batch) :
    SoftRel t (perform_stream_op_init_barrier t op) := by
  unfold perform_stream_op_init_barrier
  split
  · apply softrel_of_eq <;> rfl
  · exact SoftRel.softrel_refl t

theorem softrel_send_initial_metadata_record (t : T) (s : Nat)
    (op : grpc_transport_stream_op_batch) (c : Nat) :
    SoftRel t (send_initial_metadata_record t s op c) := by
  simp only [send_initial_metadata_record]
  have a := (softrel_or_may_cover_write t c).softrel_trans (softrel_add_closure_barrier _ c)
  generalize add_closure_barrier _ c = t2 at a ⊢
  have b := a.softrel_trans (softrel_set_stream t2 s { (t2.streams s) with
      send_initial_metadata_finished := some c, send_initial_metadata := true } rfl)
  generalize set_stream t2 s _ = t3 at b ⊢
  split
  · exact b.softrel_trans (softrel_set_stream _ s _ rfl)
  · exact b

theorem softrel_send_initial_metadata_after_close (t : T) (s : Nat) :
    SoftRel t (send_initial_metadata_after_close t s) := by
  simp only [send_initial_metadata_after_close]
  refine SoftRel.softrel_trans ?_ (softrel_complete_closure_step _ _ _ _)
  refine softrel_set_stream _ s _ ?_
  rfl

theorem softrel_send_message_record (t : T) (s c : Nat) :
    SoftRel t (send_message_record t s c) := by
  simp only [send_message_record]
  have a := (softrel_or_may_cover_write t c).softrel_trans (softrel_add_closure_barrier _ c)
  generalize add_closure_barrier _ c = t2 at a ⊢
  exact a.softrel_trans (softrel_set_stream t2 s _ rfl)

theorem softrel_send_message_after_close (t : T) (s c : Nat) :
    SoftRel t (send_message_after_close t s c) := by
  simp only [send_message_after_close]
  refine SoftRel.softrel_trans ?_ (softrel_complete_closure_step _ _ _ _)
  refine softrel_set_stream _ s _ ?_
  rfl

theorem softrel_send_message_buffer (t : T) (s : Nat) (op : grpc_transport_stream_op_batch) :
    SoftRel t (send_message_buffer t s op) := by
  simp only [send_message_buffer]
  refine softrel_set_stream _ s _ ?_
  rfl

theorem softrel_send_message_notify (t : T) (s : Nat) (op : grpc_transport_stream_op_batch)
    (c : Nat) : SoftRel t (send_message_notify t s op c) := by
  simp only [send_message_notify]
  split
  · refine SoftRel.softrel_trans ?_ (softrel_complete_closure_step _ _ _ _)
    refine softrel_set_stream _ s _ ?_
    rfl
  · split
    · refine softrel_set_stream _ s _ ?_
      rfl
    · refine softrel_set_stream _ s _ ?_
      rfl

theorem softrel_send_message_kick (t : T) (s : Nat) : SoftRel t (send_message_kick t s) := by
  unfold send_message_kick
  split
  · exact (softrel_mark_stream_writable _ _).softrel_trans (softrel_initiate_write _ _)
  · exact SoftRel.softrel_refl t

theorem optsoft_perform_stream_op_send_message (t : T) (s : Nat)
    (op : grpc_transport_stream_op_batch) :
    OptSoft t (perform_stream_op_send_message t s op) := by
  unfold perform_stream_op_send_message
  split
  · exact optsoft_none _
  · next c _ =>
    have a := softrel_send_message_record t s c
    simp only
    generalize send_message_record t s c = t2 at a ⊢
    split
    · exact optsoft_some (a.softrel_trans (softrel_send_message_after_close _ _ _))
    · exact optsoft_some (((a.softrel_trans (softrel_send_message_buffer _ _ _)).softrel_trans
        (softrel_send_message_notify _ _ _ _)).softrel_trans (softrel_send_message_kick _ _))

theorem optsoft_perform_stream_op_send_trailing_metadata (t : T) (s : Nat)
    (op : grpc_transport_stream_op_batch) :
    OptSoft t (perform_stream_op_send_trailing_metadata t s op) := by
  unfold perform_stream_op_send_trailing_metadata
  split
  · exact optsoft_none _
  · next c _ =>
    split
    · exact optsoft_none _
    · simp only
      have a := (softrel_or_may_cover_write t c).softrel_trans (softrel_add_closure_barrier _ c)
      generalize add_closure_barrier _ c = t2 at a ⊢
      have b := a.softrel_trans (softrel_set_stream t2 s { (t2.streams s) with
        send_trailing_metadata_finished := some c, send_trailing_metadata := true,
        write_buffering := false } rfl)
      generalize set_stream t2 s _ = t3 at b ⊢
      have d : SoftRel t (if op.send_trailing_metadata_non_ok_status = true then
          set_stream t3 s { (t3.streams s) with seen_error := true } else t3) := by
        split
        · exact b.softrel_trans (softrel_set_stream _ s _ rfl)
        · exact b
      generalize (if op.send_trailing_metadata_non_ok_status = true then
          set_stream t3 s { (t3.streams s) with seen_error := true } else t3) = t4 at d ⊢
      split
      · refine optsoft_some (d.softrel_trans ?_)
        refine SoftRel.softrel_trans ?_ (softrel_complete_closure_step _ _ _ _)
        refine softrel_set_stream _ s _ ?_
        rfl
      · split
        · exact optsoft_some (d.softrel_trans
            ((softrel_mark_stream_writable _ _).softrel_trans (softrel_initiate_write _ _)))
        · exact optsoft_some d

theorem optsoft_perform_stream_op_recv_initial_metadata (t : T) (s : Nat)
    (op : grpc_transport_stream_op_batch) :
    OptSoft t (perform_stream_op_recv_initial_metadata t s op) := by
  unfold perform_stream_op_recv_initial_metadata
  split
  · exact optsoft_none _
  · simp only
    refine optsoft_some ?_
    refine SoftRel.softrel_trans ?_ (softrel_maybe_complete_recv_initial_metadata _ _)
    refine softrel_set_stream _ s _ ?_
    split <;> rfl

theorem optsoft_perform_stream_op_recv_message (t : T) (s : Nat)
    (op : grpc_transport_stream_op_batch) :
    OptSoft t (perform_stream_op_recv_message t s op) := by
  unfold perform_stream_op_recv_message
  split
  · exact optsoft_none _
  · simp only
    refine optsoft_some ?_
    refine SoftRel.softrel_trans ?_ (softrel_maybe_complete_recv_trailing_metadata _ _)
    refine softrel_set_stream _ s _ ?_
    rfl

theorem optsoft_perform_stream_op_recv_trailing_metadata (t : T) (s : Nat)
    (op : grpc_transport_stream_op_batch) :
    OptSoft t (perform_stream_op_recv_trailing_metadata t s op) := by
  unfold perform_stream_op_recv_trailing_metadata
  split
  · exact optsoft_none _
  · split
    · exact optsoft_none _
    · simp only
      refine optsoft_some ?_
      refine SoftRel.softrel_trans ?_ (softrel_maybe_complete_recv_trailing_metadata _ _)
      refine softrel_set_stream _ s _ ?_
      rfl

/-- Retagging a stream without touching its id or its closed halves. -/
theorem StreamRel.post_of_closed_iff {s : Nat} {t t1 : T} (h : StreamRel s t t1) (hw : WFb t)
    (hc : (t1.streams s).closed ↔ (t.streams s).closed) : Post t t1 := by
  refine ⟨?_, h.streamrel_toRel, h.streamrel_fsc⟩
  refine h.streamrel_wfx hw ?_ ?_ ?_ ?_
  · intro i r _ _ he; exact he
  · intro i hm he hcl
    exact hw.map_open i s hm he (hc.mp hcl)
  · intro h1 h2
    exact hw.map_conv s h1 (fun hcl => h2 (hc.mpr hcl))
  · intro h3 hcl
    exact (hw.wait_id s (h.waiting.subset h3)).2 (hc.mp hcl)

theorem retag_post {t : T} (s : Nat) (st : grpc_chttp2_stream) (hw : WFb t)
    (h1 : st.id = (t.streams s).id) (h2 : st.read_closed = (t.streams s).read_closed)
    (h3 : st.write_closed = (t.streams s).write_closed) : Post t (set_stream t s st) := by
  have hs : StreamRel s t (set_stream t s st) := by
    refine streamrel_set_stream _ s st h1 ?_ ?_
    · intro h; rw [h2]; exact h
    · intro h; rw [h3]; exact h
  refine hs.post_of_closed_iff hw ?_
  rw [set_stream_streams_same]
  unfold grpc_chttp2_stream.closed
  rw [h2, h3]

/-- A fresh client stream joins the waiting list. -/
theorem add_waiting_wf {t : T} {s : Nat} (hw : WFb t) (hc : t.is_client = true)
    (ho : t.closed_with_error.ok = true) (hid : (t.streams s).id = 0)
    (hop : ¬ (t.streams s).closed) (hs : s < t.streams_allocated) :
    WFb (grpc_chttp2_list_add_waiting_for_concurrency t s) := by
  unfold grpc_chttp2_list_add_waiting_for_concurrency stream_list_add
  by_cases hm : s ∈ t.waiting_for_concurrency
  · rw [if_pos hm]
    exact hw
  · rw [if_neg hm]
    exact
      { idle := hw.idle
        busy := hw.busy
        map_id := hw.map_id
        map_nodup := hw.map_nodup
        map_open := hw.map_open
        map_conv := hw.map_conv
        wait_id := fun r hr => by
          rcases List.mem_append.mp hr with h1 | h1
          · exact hw.wait_id r h1
          · rw [List.mem_singleton.mp h1]; exact ⟨hid, hop⟩
        wait_nodup := by
          refine List.nodup_append.mpr ⟨hw.wait_nodup, List.nodup_singleton s, ?_⟩
          intro a ha hb
          rw [List.mem_singleton.mp hb] at ha
          exact hm ha
        wait_client := fun h => by
          have : t.is_client = false := h
          rw [hc] at this; exact absurd this (by decide)
        closed_wait := fun h => by
          have : t.closed_with_error.ok = false := h
          rw [ho] at this; exact absurd this (by decide)
        pending := hw.pending
        ids_client := hw.ids_client
        ids_server := hw.ids_server
        next_parity := hw.next_parity
        map_refs := hw.map_refs
        wait_refs := fun r hr => by
          rcases List.mem_append.mp hr with h1 | h1
          · exact hw.wait_refs r h1
          · rw [List.mem_singleton.mp h1]; exact hs }

theorem add_waiting_mid {t : T} {s : Nat} (hc : t.is_client = true)
    (ho : t.closed_with_error.ok = true) (hid : (t.streams s).id = 0)
    (hop : ¬ (t.streams s).closed) (hs : s < t.streams_allocated) :
    MidRel t (grpc_chttp2_list_add_waiting_for_concurrency t s) :=
  ⟨fun hi => ⟨add_waiting_wf hi.1 hc ho hid hop hs, fun a b => hi.2 a b⟩,
    ⟨rfl, fun _ => rfl, Or.inl rfl⟩, Or.inl rfl⟩

theorem send_initial_metadata_start_mid {remove : RemoveStream} (hr : RemoveOK remove)
    {t t1 : T} {s : Nat} {op : grpc_transport_stream_op_batch} (hi : Inv t)
    (hs : s < t.streams_allocated) (hwc : (t.streams s).write_closed = false)
    (h : send_initial_metadata_start remove t s op = some t1) : MidRel t t1 := by
  have hop : ¬ (t.streams s).closed := by
    intro hc
    rw [hc.2] at hwc
    exact absurd hwc (by decide)
  unfold send_initial_metadata_start at h
  split at h
  · next hc =>
    split at h
    · next ho =>
      split at h
      · next hid =>
        have m1 := add_waiting_mid hc ho hid hop hs
        exact m1.midrel_trans (maybe_start_some_streams_pc hr (m1.inv hi).1 h).post_mid
      · exact absurd h (by simp)
    · have p1 : Post t (set_stream t s
          { (t.streams s) with trailing_network_state := some .kNotSentOnWire }) :=
        retag_post s _ hi.1 rfl rfl rfl
      exact p1.post_mid.midrel_trans (cancel_stream_pc hr p1.wf h).post_mid
  · split at h
    · simp only at h
      split at h
      · simp only [Option.some.injEq] at h; subst h
        exact ((softrel_mark_stream_writable _ _).softrel_trans (softrel_initiate_write _ _)).softrel_mid
      · simp only [Option.some.injEq] at h; subst h
        exact (softrel_mark_stream_writable _ _).softrel_mid
    · exact absurd h (by simp)

theorem perform_stream_op_send_initial_metadata_mid {remove : RemoveStream}
    (hr : RemoveOK remove) {t t1 : T} {s : Nat} {op : grpc_transport_stream_op_batch}
    (hi : Inv t) (hs : s < t.streams_allocated)
    (h : perform_stream_op_send_initial_metadata remove t s op = some t1) : MidRel t t1 := by
  unfold perform_stream_op_send_initial_metadata at h
  split at h
  · exact absurd h (by simp)
  · next c _ =>
    split at h
    · exact absurd h (by simp)
    · have a := softrel_send_initial_metadata_record t s op c
      simp only at h
      generalize send_initial_metadata_record t s op c = t2 at a h
      split at h
      · next hwc =>
        exact a.softrel_mid.midrel_trans (send_initial_metadata_start_mid hr (a.softrel_mid.inv hi)
          (a.allocated ▸ hs) hwc h)
      · simp only [Option.some.injEq] at h; subst h
        exact (a.softrel_trans (softrel_send_initial_metadata_after_close _ _)).softrel_mid

theorem optsoft_if {t t1 : T} {c : Bool} {o : Option T} (ho : OptSoft t o)
    (h : (if c = true then o else some t) = some t1) : SoftRel t t1 := by
  split at h
  · exact ho t1 h
  · simp only [Option.some.injEq] at h; subst h
    exact SoftRel.softrel_refl t

theorem perform_stream_op_locked_mid {remove : RemoveStream} (hr : RemoveOK remove)
    {t t1 : T} {s : Nat} {op : grpc_transport_stream_op_batch} (hi : Inv t)
    (hs : s < t.streams_allocated)
    (h : perform_stream_op_locked remove t s op = some t1) : MidRel t t1 := by
  unfold perform_stream_op_locked at h
  simp only [Option.bind_eq_some, Option.map_eq_some'] at h
  obtain ⟨t2, h2, t3, h3, t4, h4, t5, h5, t6, h6, t7, h7, t8, h8, rfl⟩ := h
  have a := softrel_perform_stream_op_init_barrier t op
  generalize perform_stream_op_init_barrier t op = t0 at a h2
  have m2 : MidRel t0 t2 ∧ t2.streams_allocated = t0.streams_allocated := by
    split at h2
    · have p := cancel_stream_pc hr (a.softrel_mid.inv hi).1 h2
      exact ⟨p.post_mid, p.rel.allocated⟩
    · simp only [Option.some.injEq] at h2; subst h2
      exact ⟨MidRel.midrel_refl _, rfl⟩
  have i2 := m2.1.inv (a.softrel_mid.inv hi)
  have hs2 : s < t2.streams_allocated := by rw [m2.2, a.allocated]; exact hs
  have m3 : MidRel t2 t3 := by
    split at h3
    · exact perform_stream_op_send_initial_metadata_mid hr i2 hs2 h3
    · simp only [Option.some.injEq] at h3; subst h3
      exact MidRel.midrel_refl _
  have m4 := (optsoft_if (optsoft_perform_stream_op_send_message t3 s op) h4).softrel_mid
  have m5 := (optsoft_if (optsoft_perform_stream_op_send_trailing_metadata t4 s op) h5).softrel_mid
  have m6 := (optsoft_if (optsoft_perform_stream_op_recv_initial_metadata t5 s op) h6).softrel_mid
  have m7 := (optsoft_if (optsoft_perform_stream_op_recv_message t6 s op) h7).softrel_mid
  have m8 := (optsoft_if (optsoft_perform_stream_op_recv_trailing_metadata t7 s op) h8).softrel_mid
  exact ((((((a.softrel_mid.midrel_trans m2.1).midrel_trans m3).midrel_trans m4).midrel_trans m5).midrel_trans m6).midrel_trans m7).midrel_trans
    (m8.midrel_trans (softrel_complete_closure_step _ _ _ _).softrel_mid)

/-! ## The GOAWAY of the peer -/

theorem cancel_unseen_loop_mid {remove : RemoveStream} (hr : RemoveOK remove) :
    ∀ (l : List Nat) (t t1 : T), WFb t → cancel_unseen_loop remove l t = some t1 → Post t t1
  | [], t, t1, hw, h => by
    simp only [cancel_unseen_loop, Option.some.injEq] at h
    subst h
    exact Post.post_refl hw
  | s :: l, t, t1, hw, h => by
    simp only [cancel_unseen_loop, Option.bind_eq_some] at h
    obtain ⟨t2, h2, h3⟩ := h
    have p1 : Post t (set_stream t s
        { (t.streams s) with trailing_network_state := some .kNotSeenByServer }) :=
      retag_post s _ hw rfl rfl rfl
    have p2 := cancel_stream_pc hr p1.wf h2
    exact (p1.post_trans p2).post_trans (cancel_unseen_loop_mid hr l t2 t1 p2.wf h3)

theorem toprel_set_goaway_error (t : T) (e : Status) : TopRel t { t with goaway_error := e } := by
  apply toprel_of_eq <;> first | rfl | exact SendStep.sendstep_refl _

theorem add_incoming_goaway_mid {remove : RemoveStream} (hr : RemoveOK remove) {t t1 : T}
    {a b : Nat} {c : String} {d : Bool} (hi : Inv t)
    (h : grpc_chttp2_add_incoming_goaway remove t a b c d = some t1) : MidRel t t1 := by
  unfold grpc_chttp2_add_incoming_goaway at h
  simp only [Option.map_eq_some'] at h
  obtain ⟨t3, h3, rfl⟩ := h
  have m1 := (toprel_set_goaway_error t (grpc_error_set_rpc_status
      (grpc_error_set_http2_error
        (.Error ("GOAWAY received; Error code: " ++ toString a ++ "; Debug Text: " ++ c)
          none none []) a) GRPC_STATUS_UNAVAILABLE)).toprel_mid
  generalize ({ t with goaway_error := _ } : T) = t0 at m1 h3
  have m3 : MidRel t0 t3 := by
    split at h3
    · simp only [Option.bind_eq_some] at h3
      obtain ⟨t2, h2, h4⟩ := h3
      have p2 := (cancel_unstarted_streams_pc hr (m1.inv hi).1 h2).1
      exact (p2.post_trans (cancel_unseen_loop_mid hr _ t2 t3 p2.wf h4)).post_mid
    · simp only [Option.some.injEq] at h3; subst h3
      exact MidRel.midrel_refl _
  refine (m1.midrel_trans m3).midrel_trans ?_
  split
  · exact (softrel_connectivity_state_set _ _).softrel_mid
  · exact MidRel.midrel_refl _

/-! ## New streams -/

/-- A stream object constructed in the next fresh slot, not started. -/
theorem wfb_alloc {t t1 : T} (hw : WFb t)
    (e1 : t1.is_client = t.is_client)
    (e3 : t1.closed_with_error = t.closed_with_error)
    (e4 : t1.close_transport_on_writes_finished = t.close_transport_on_writes_finished)
    (e7 : t1.next_stream_id = t.next_stream_id)
    (e8 : t1.last_new_stream_id = t.last_new_stream_id)
    (e9 : t1.stream_map = t.stream_map)
    (e10 : t1.waiting_for_concurrency = t.waiting_for_concurrency)
    (e12 : t1.endpoint_writes_in_flight = t.endpoint_writes_in_flight)
    (e13 : t1.streams_allocated = t.streams_allocated + 1)
    (e15 : t1.write_state = t.write_state)
    (e16 : t1.finally_write_action_begin = t.finally_write_action_begin)
    (e17 : ∀ r, r ≠ t.streams_allocated → t1.streams r = t.streams r)
    (e18 : (t1.streams t.streams_allocated).id = 0) : WFb t1 := by
  have hm : ∀ i r, (i, r) ∈ t.stream_map → t1.streams r = t.streams r :=
    fun i r h => e17 r (Nat.ne_of_lt (hw.map_refs i r h))
  have hwt : ∀ r, r ∈ t.waiting_for_concurrency → t1.streams r = t.streams r :=
    fun r h => e17 r (Nat.ne_of_lt (hw.wait_refs r h))
  have hid : ∀ r, (t1.streams r).id ≠ 0 → t1.streams r = t.streams r := by
    intro r h
    by_cases hr : r = t.streams_allocated
    · subst hr; exact absurd e18 h
    · exact e17 r hr
  exact
    { idle := by rw [e15, e16, e12]; exact hw.idle
      busy := by rw [e15, e16, e12]; exact hw.busy
      map_id := fun i r h => by
        rw [e9] at h; rw [hm i r h]; exact hw.map_id i r h
      map_nodup := by rw [e9]; exact hw.map_nodup
      map_open := fun i r h he => by
        rw [e9] at h; rw [hm i r h]; exact hw.map_open i r h he
      map_conv := fun r h1 h2 => by
        rw [e9]
        have := hid r h1
        rw [this] at h1 h2 ⊢
        exact hw.map_conv r h1 h2
      wait_id := fun r h => by
        rw [e10] at h; rw [hwt r h]; exact hw.wait_id r h
      wait_nodup := by rw [e10]; exact hw.wait_nodup
      wait_client := by rw [e10, e1]; exact hw.wait_client
      closed_wait := by rw [e10, e3]; exact hw.closed_wait
      pending := by rw [e4, e15, e3]; exact hw.pending
      ids_client := fun hc r h => by
        have := hid r h
        rw [this] at h ⊢
        rw [e7]
        exact hw.ids_client (e1 ▸ hc) r h
      ids_server := fun hc r h => by
        have := hid r h
        rw [this] at h ⊢
        rw [e8]
        exact hw.ids_server (e1 ▸ hc) r h
      next_parity := by rw [e1, e7]; exact hw.next_parity
      map_refs := fun i r h => by
        rw [e9] at h; rw [e13]
        exact Nat.lt_succ_of_lt (hw.map_refs i r h)
      wait_refs := fun r h => by
        rw [e10] at h; rw [e13]
        exact Nat.lt_succ_of_lt (hw.wait_refs r h) }

/-- A stream object constructed in the next fresh slot for an id the peer
opened. -/
theorem wfb_accept {t t1 : T} {id : Nat} (hw : WFb t) (hsrv : t.is_client = false)
    (hodd : id % 2 = 1) (hlt : t.last_new_stream_id < id)
    (e1 : t1.is_client = t.is_client)
    (e3 : t1.closed_with_error = t.closed_with_error)
    (e4 : t1.close_transport_on_writes_finished = t.close_transport_on_writes_finished)
    (e7 : t1.next_stream_id = t.next_stream_id)
    (e8 : t1.last_new_stream_id = id)
    (e9 : t1.stream_map = t.stream_map ++ [(id, t.streams_allocated)])
    (e10 : t1.waiting_for_concurrency = t.waiting_for_concurrency)
    (e12 : t1.endpoint_writes_in_flight = t.endpoint_writes_in_flight)
    (e13 : t1.streams_allocated = t.streams_allocated + 1)
    (e15 : t1.write_state = t.write_state)
    (e16 : t1.finally_write_action_begin = t.finally_write_action_begin)
    (e17 : ∀ r, r ≠ t.streams_allocated → t1.streams r = t.streams r)
    (e18 : (t1.streams t.streams_allocated).id = id)
    (e19 : (t1.streams t.streams_allocated).read_closed = false) : WFb t1 := by
  have hm : ∀ i r, (i, r) ∈ t.stream_map → t1.streams r = t.streams r :=
    fun i r h => e17 r (Nat.ne_of_lt (hw.map_refs i r h))
  have hid0 : id ≠ 0 := by omega
  have hkeys : ∀ i r, (i, r) ∈ t.stream_map → i ≤ t.last_new_stream_id := by
    intro i r h
    obtain ⟨a, b⟩ := hw.map_id i r h
    have := hw.ids_server hsrv r (a ▸ b)
    rw [a] at this; exact this
  have hmem : ∀ i r, (i, r) ∈ t1.stream_map →
      (i, r) ∈ t.stream_map ∨ (i = id ∧ r = t.streams_allocated) := by
    intro i r h
    rw [e9] at h
    rcases List.mem_append.mp h with h1 | h1
    · exact Or.inl h1
    · simp only [List.mem_singleton, Prod.mk.injEq] at h1
      exact Or.inr h1
  have hopen : ¬ (t1.streams t.streams_allocated).closed := by
    intro hc
    rw [hc.1] at e19
    exact absurd e19 (by decide)
  have hw0 : t.waiting_for_concurrency = [] := hw.wait_client hsrv
  exact
    { idle := by rw [e15, e16, e12]; exact hw.idle
      busy := by rw [e15, e16, e12]; exact hw.busy
      map_id := fun i r h => by
        rcases hmem i r h with h1 | ⟨rfl, rfl⟩
        · rw [hm i r h1]; exact hw.map_id i r h1
        · exact ⟨e18, hid0⟩
      map_nodup := by
        rw [e9, List.map_append, List.nodup_append]
        refine ⟨hw.map_nodup, by simp, ?_⟩
        intro a ha hb
        simp only [List.map_cons, List.map_nil, List.mem_singleton] at hb
        obtain ⟨⟨i, r⟩, hm1, rfl⟩ := List.mem_map.mp ha
        have := hkeys i r hm1
        have hi : i = id := hb
        omega
      map_open := fun i r h he => by
        rcases hmem i r h with h1 | ⟨rfl, rfl⟩
        · rw [hm i r h1]; exact hw.map_open i r h1 he
        · exact hopen
      map_conv := fun r h1 h2 => by
        rw [e9]
        by_cases hr : r = t.streams_allocated
        · subst hr
          rw [e18]
          exact List.mem_append_right _ (List.mem_singleton_self _)
        · rw [e17 r hr] at h1 h2 ⊢
          exact List.mem_append_left _ (hw.map_conv r h1 h2)
      wait_id := fun r h => by
        rw [e10, hw0] at h; exact absurd h (List.not_mem_nil r)
      wait_nodup := by rw [e10]; exact hw.wait_nodup
      wait_client := by rw [e10, e1]; exact hw.wait_client
      closed_wait := by rw [e10, e3]; exact hw.closed_wait
      pending := by rw [e4, e15, e3]; exact hw.pending
      ids_client := fun hc r h => by
        rw [e1, hsrv] at hc; exact absurd hc (by decide)
      ids_server := fun _ r h => by
        rw [e8]
        by_cases hr : r = t.streams_allocated
        · subst hr; rw [e18]
        · rw [e17 r hr] at h ⊢
          exact le_of_lt (lt_of_le_of_lt (hw.ids_server hsrv r h) hlt)
      next_parity := by rw [e1, e7]; exact hw.next_parity
      map_refs := fun i r h => by
        rw [e13]
        rcases hmem i r h with h1 | ⟨rfl, rfl⟩
        · exact Nat.lt_succ_of_lt (hw.map_refs i r h1)
        · exact Nat.lt_succ_self _
      wait_refs := fun r h => by
        rw [e10] at h; rw [e13]
        exact Nat.lt_succ_of_lt (hw.wait_refs r h) }

theorem init_stream_inv {t : T} (hi : Inv t) :
    Inv (InitStream t none) ∧ StepRel t (InitStream t none) := by
  refine ⟨⟨?_, fun a b => hi.2 a b⟩, ⟨rfl, fun _ => rfl, Or.inl rfl⟩, Or.inl (Or.inl rfl)⟩
  apply wfb_alloc hi.1 <;> first | rfl | skip
  · intro r hr
    show Function.update t.streams t.streams_allocated _ r = t.streams r
    exact Function.update_noteq hr _ _
  · show (Function.update t.streams t.streams_allocated _ t.streams_allocated).id = 0
    rw [Function.update_same]

theorem accept_stream_inv {t t1 : T} {id : Nat} (hi : Inv t)
    (h : parsing_accept_stream t id = some t1) : Inv t1 ∧ StepRel t t1 := by
  unfold parsing_accept_stream at h
  split at h
  · next hc =>
    obtain ⟨hsrv, hodd, hlt, hM⟩ := hc
    simp only [Option.some.injEq] at h
    subst h
    have hmod : id % UINT32_MODULUS = id := Nat.mod_eq_of_lt hM
    have hlook : t.stream_map.lookup id = none := by
      apply lookup_none_of_lt
      intro i r hm
      obtain ⟨a, b⟩ := hi.1.map_id i r hm
      have := hi.1.ids_server hsrv r (a ▸ b)
      rw [a] at this
      omega
    unfold InitStream
    simp only [set_stream_streams_same, hmod]
    have hmap : stream_map_emplace t.stream_map id t.streams_allocated
        = t.stream_map ++ [(id, t.streams_allocated)] := by
      unfold stream_map_emplace
      rw [hlook]; rfl
    have s1 := softrel_post_destructive_reclaimer
      { set_stream
          (set_stream { t with last_new_stream_id := id,
                               streams_allocated := t.streams_allocated + 1 }
            t.streams_allocated {})
          t.streams_allocated { ({} : grpc_chttp2_stream) with id := id } with
        stream_map := stream_map_emplace t.stream_map id t.streams_allocated }
    have w1 : WFb
      { set_stream
          (set_stream { t with last_new_stream_id := id,
                               streams_allocated := t.streams_allocated + 1 }
            t.streams_allocated {})
          t.streams_allocated { ({} : grpc_chttp2_stream) with id := id } with
        stream_map := stream_map_emplace t.stream_map id t.streams_allocated } := by
      apply wfb_accept hi.1 hsrv hodd hlt <;> first | rfl | skip
      · exact hmap
      · intro r hr
        show Function.update (Function.update t.streams t.streams_allocated _)
          t.streams_allocated _ r = t.streams r
        rw [Function.update_noteq hr, Function.update_noteq hr]
      · show (Function.update (Function.update t.streams t.streams_allocated _)
          t.streams_allocated _ t.streams_allocated).id = id
        rw [Function.update_same]
      · show (Function.update (Function.update t.streams t.streams_allocated _)
          t.streams_allocated _ t.streams_allocated).read_closed = false
        rw [Function.update_same]
    refine ⟨⟨s1.softrel_wfx w1, s1.softrel_fsc (fsc_of_map_ne ?_)⟩, ⟨s1.is_client, ?_, ?_⟩, Or.inl (Or.inl ?_)⟩
    · show stream_map_emplace t.stream_map id t.streams_allocated ≠ []
      rw [hmap]; simp
    · intro _; exact s1.closed_with_error
    · exact Or.inl s1.closed_with_error
    · exact s1.sent_goaway_state.symm
  · exact absurd h (by simp)

/-! ## The initial state -/

theorem read_channel_args_parity (t : T) (ca : ChannelArgs) (ic : Bool) :
    (read_channel_args t ca ic).next_stream_id % 2 = t.next_stream_id % 2 := by
  simp only [read_channel_args]
  split
  · split
    · rfl
    · next h1 h2 =>
      show ((ca.http2_initial_sequence_number.getD (-1)) % (UINT32_MODULUS : Int)).toNat % 2
        = t.next_stream_id % 2
      have h3 : t.next_stream_id % 2
          = ((ca.http2_initial_sequence_number.getD (-1)) % 2).toNat := by
        by_contra hx; exact h2 hx
      rw [h3]
      unfold UINT32_MODULUS
      generalize ca.http2_initial_sequence_number.getD (-1) = z at h1 ⊢
      omega
  · rfl

theorem wfb_initial {t : T} (h1 : t.write_state = .IDLE)
    (h2 : t.finally_write_action_begin = 0) (h3 : t.endpoint_writes_in_flight = 0)
    (h4 : t.stream_map = []) (h5 : t.waiting_for_concurrency = [])
    (h6 : ∀ r, (t.streams r).id = 0)
    (h8 : t.close_transport_on_writes_finished = .OkStatus)
    (h9 : t.next_stream_id % 2 = if t.is_client then 1 else 0) : WFb t where
  idle := fun _ => ⟨h2, h3⟩
  busy := fun h => absurd h1 h
  map_id := fun i r h => by rw [h4] at h; exact absurd h (List.not_mem_nil _)
  map_nodup := by rw [h4]; exact List.nodup_nil
  map_open := fun i r h => by rw [h4] at h; exact absurd h (List.not_mem_nil _)
  map_conv := fun r h => absurd (h6 r) h
  wait_id := fun r h => by rw [h5] at h; exact absurd h (List.not_mem_nil _)
  wait_nodup := by rw [h5]; exact List.nodup_nil
  wait_client := fun _ => h5
  closed_wait := fun _ => h5
  pending := fun h => by rw [h8] at h; exact absurd h (by simp [ok_OkStatus])
  ids_client := fun _ r h => absurd (h6 r) h
  ids_server := fun _ r h => absurd (h6 r) h
  next_parity := h9
  map_refs := fun i r h => by rw [h4] at h; exact absurd h (List.not_mem_nil _)
  wait_refs := fun r h => by rw [h5] at h; exact absurd h (List.not_mem_nil _)

theorem read_channel_args_frame (t : T) (ca : ChannelArgs) (ic : Bool) :
    (read_channel_args t ca ic).write_state = t.write_state
    ∧ (read_channel_args t ca ic).finally_write_action_begin = t.finally_write_action_begin
    ∧ (read_channel_args t ca ic).endpoint_writes_in_flight = t.endpoint_writes_in_flight
    ∧ (read_channel_args t ca ic).stream_map = t.stream_map
    ∧ (read_channel_args t ca ic).waiting_for_concurrency = t.waiting_for_concurrency
    ∧ (read_channel_args t ca ic).streams = t.streams
    ∧ (read_channel_args t ca ic).closed_with_error = t.closed_with_error
    ∧ (read_channel_args t ca ic).close_transport_on_writes_finished
        = t.close_transport_on_writes_finished
    ∧ (read_channel_args t ca ic).is_client = t.is_client
    ∧ (read_channel_args t ca ic).sent_goaway_state = t.sent_goaway_state := by
  simp only [read_channel_args]
  split
  · split
    · exact ⟨rfl, rfl, rfl, rfl, rfl, rfl, rfl, rfl, rfl, rfl⟩
    · exact ⟨rfl, rfl, rfl, rfl, rfl, rfl, rfl, rfl, rfl, rfl⟩
  · exact ⟨rfl, rfl, rfl, rfl, rfl, rfl, rfl, rfl, rfl, rfl⟩

theorem softrel_init_keepalive_pings_if_enabled_locked (t : T) (b : Bool) :
    SoftRel t (init_keepalive_pings_if_enabled_locked t b) := by
  unfold init_keepalive_pings_if_enabled_locked
  split
  · apply softrel_of_eq <;> rfl
  · apply softrel_of_eq <;> rfl

theorem create_transport_soft (ca : ChannelArgs) (ic : Bool) :
    SoftRel
      (read_channel_args { is_client := ic, next_stream_id := if ic then 1 else 2 } ca ic)
      (grpc_create_chttp2_transport ca ic) := by
  unfold grpc_create_chttp2_transport
  simp only
  exact ((softrel_init_keepalive_pings_if_enabled_locked _ _).softrel_trans
    (softrel_initiate_write _ _)).softrel_trans (softrel_post_benign_reclaimer _)

theorem create_transport_inv (ca : ChannelArgs) (ic : Bool) :
    Inv (grpc_create_chttp2_transport ca ic) := by
  have s := create_transport_soft ca ic
  obtain ⟨f1, f2, f3, f4, f5, f6, f7, f8, f9, f10⟩ :=
    read_channel_args_frame { is_client := ic, next_stream_id := if ic then 1 else 2 } ca ic
  have hp := read_channel_args_parity
    { is_client := ic, next_stream_id := if ic then 1 else 2 } ca ic
  have w : WFb
      (read_channel_args { is_client := ic, next_stream_id := if ic then 1 else 2 } ca ic) := by
    apply wfb_initial
    · rw [f1]
    · rw [f2]
    · rw [f3]
    · rw [f4]
    · rw [f5]
    · intro r; rw [f6]
    · rw [f8]
    · rw [hp, f9]
      cases ic <;> rfl
  refine ⟨s.softrel_wfx w, s.softrel_fsc (fsc_of_state_ne ?_)⟩
  rw [f10]
  show grpc_chttp2_sent_goaway_state.NO_GOAWAY_SEND ≠ .FINAL_GOAWAY_SENT
  decide

/-! ## The invariant of the reachable states -/

/-- Every handler keeps the invariant, and moves `closed_with_error` and
`sent_goaway_state` forward only. -/
theorem step_inv (fuel : Nat) {op : Op} {t t1 : T} (hi : Inv t)
    (h : step fuel op t = some t1) : Inv t1 ∧ StepRel t t1 := by
  have hr := remove_stream_fuel_ok fuel
  cases op with
  | init_stream =>
    simp only [step, Option.some.injEq] at h; subst h
    exact init_stream_inv hi
  | accept_stream id =>
    exact accept_stream_inv hi h
  | perform_stream_op s op =>
    simp only [step] at h
    split at h
    · next hs => exact (perform_stream_op_locked_mid hr hi hs h).step hi
    · exact absurd h (by simp)
  | perform_transport_op op =>
    exact (perform_transport_op_mid hr hi h).step hi
  | initiate_write reason =>
    simp only [step, Option.some.injEq] at h; subst h
    exact (softrel_initiate_write _ _).softrel_mid.step hi
  | write_action_begin g p =>
    simp only [step] at h
    split at h
    · next hp =>
      obtain ⟨i, r, g⟩ := write_action_begin_locked_pc hr hi hp h
      exact ⟨i, r, Or.inl (Or.inl g.symm)⟩
    · exact absurd h (by simp)
  | write_action_end e =>
    simp only [step] at h
    split at h
    · next hp => exact write_action_end_locked_pc hr hi hp h
    · exact absurd h (by simp)
  | graceful_goaway_ping_ack =>
    simp only [step, Option.some.injEq] at h; subst h
    exact (toprel_MaybeSendFinalGoawayLocked t).toprel_mid.step hi
  | mark_stream_closed s cr cw e =>
    simp only [step] at h
    split at h
    · exact (mark_stream_closed_pc hr hi.1 h).post_mid.step hi
    · exact absurd h (by simp)
  | cancel_stream s e tarpit =>
    simp only [step] at h
    split at h
    · exact (cancel_stream_pc hr hi.1 h).post_mid.step hi
    · exact absurd h (by simp)
  | add_incoming_goaway a b c d =>
    exact (add_incoming_goaway_mid hr hi h).step hi
  | peer_settings n =>
    simp only [step, Option.some.injEq] at h; subst h
    exact (toprel_peer_settings t n).toprel_mid.step hi
  | close_transport e =>
    exact (close_transport_locked_pc hr hi.1 h).1.post_mid.step hi
  | send_goaway e imm =>
    simp only [step, Option.some.injEq] at h; subst h
    exact (toprel_send_goaway t e imm).toprel_mid.step hi
  | keepalive_timeout => exact (keepalive_timeout_mid hr hi h).step hi
  | ping_timeout => exact (ping_timeout_mid hr hi h).step hi
  | settings_timeout => exact (settings_timeout_mid hr hi h).step hi
  | exceeded_ping_strikes => exact (exceeded_ping_strikes_mid hr hi h).step hi
  | destroy_transport => exact (destroy_transport_mid hr hi h).step hi
  | tarpit_timer i => exact (softrel_tarpit_timer_fired h).softrel_mid.step hi
  | stream_input s n d f =>
    simp only [step] at h
    split at h
    · simp only [Option.some.injEq] at h; subst h
      exact (softrel_parser_stream_input t s n d f).softrel_mid.step hi
    · exact absurd h (by simp)
  | benign_reclaimer e =>
    simp only [step, Option.some.injEq] at h; subst h
    exact (toprel_benign_reclaimer_locked t e).toprel_mid.step hi
  | destructive_reclaimer e => exact (destructive_reclaimer_mid hr hi h).step hi
  | init_keepalive_ping => exact (softrel_init_keepalive_ping_locked h).softrel_mid.step hi
  | finish_keepalive_ping e => exact (softrel_finish_keepalive_ping_locked h).softrel_mid.step hi

theorem reachable_inv {fuel : Nat} {ca : ChannelArgs} {ic : Bool} {t : T}
    (h : Reachable fuel ca ic t) : Inv t := by
  induction h with
  | init => exact create_transport_inv ca ic
  | step t t1 op _ hs ih => exact (step_inv fuel ih hs).1

theorem reachable_is_client {fuel : Nat} {ca : ChannelArgs} {ic : Bool} {t : T}
    (h : Reachable fuel ca ic t) : t.is_client = ic := by
  induction h with
  | init =>
    have a := (create_transport_soft ca ic).is_client
    have b := (read_channel_args_frame
      { is_client := ic, next_stream_id := if ic then 1 else 2 } ca ic).2.2.2.2.2.2.2.2.1
    exact a.trans b
  | step t t1 op _ hs ih =>
    have hi := reachable_inv (by assumption)
    exact (step_inv fuel hi hs).2.closed.is_client.trans ih

/-! ## Cancelling a stream that was not started -/

theorem closed_core_congr {a b : grpc_chttp2_stream} (e : Status) (h : a.core = b.core) :
    closed_core a e = closed_core b e := by
  have h1 : a.id = b.id := congrArg StreamCore.id h
  have h2 : a.read_closed = b.read_closed := congrArg StreamCore.read_closed h
  have h3 : a.write_closed = b.write_closed := congrArg StreamCore.write_closed h
  have h4 : a.read_closed_error = b.read_closed_error := congrArg StreamCore.read_closed_error h
  have h5 : a.write_closed_error = b.write_closed_error :=
    congrArg StreamCore.write_closed_error h
  have h6 : a.trailing_network_state = b.trailing_network_state :=
    congrArg StreamCore.trailing_network_state h
  unfold closed_core
  rw [h1, h2, h3, h4, h5, h6]

theorem Cancelled.soft_right {s : Nat} {e : Status} {a b c : T} (h1 : Cancelled s e a b)
    (h2 : SoftRel b c) : Cancelled s e a c :=
  ⟨h1.rel.streamrel_soft h2, (h2.streams s).trans h1.core, h2.waiting.trans h1.waiting⟩

theorem Cancelled.soft_left {s : Nat} {e : Status} {a b c : T} (h1 : SoftRel a b)
    (h2 : Cancelled s e b c) : Cancelled s e a c :=
  ⟨(h1.toStreamRel s).streamrel_trans h2.rel,
    h2.core.trans (closed_core_congr e (h1.streams s)),
    by rw [h2.waiting, h1.waiting]⟩

theorem mark_stream_closed_reads_core (t : T) (s : Nat) (e : Status) :
    ((mark_stream_closed_reads t s true e).streams s).core
      = ⟨(t.streams s).id, true, (t.streams s).write_closed,
          if (t.streams s).read_closed then (t.streams s).read_closed_error else e,
          (t.streams s).write_closed_error, (t.streams s).trailing_network_state⟩ := by
  unfold mark_stream_closed_reads
  cases h : (t.streams s).read_closed
  · simp only [and_self, if_true, set_stream_streams_same]
    simp [grpc_chttp2_stream.core]
  · simp [grpc_chttp2_stream.core, h]

theorem mark_stream_closed_writes_core (t : T) (s : Nat) (e : Status) :
    ((mark_stream_closed_writes t s true e).streams s).core
      = ⟨(t.streams s).id, (t.streams s).read_closed, true, (t.streams s).read_closed_error,
          if (t.streams s).write_closed then (t.streams s).write_closed_error else e,
          (t.streams s).trailing_network_state⟩ := by
  unfold mark_stream_closed_writes
  cases h : (t.streams s).write_closed
  · simp only [and_self, if_true]
    rw [(softrel_fail_pending_writes _ s e).streams s, set_stream_streams_same]
    simp [grpc_chttp2_stream.core]
  · simp [grpc_chttp2_stream.core, h]

theorem mark_closed_core (t : T) (s : Nat) (e : Status) :
    ((mark_stream_closed_writes (mark_stream_closed_reads t s true e) s true e).streams s).core
      = closed_core (t.streams s) e := by
  rw [mark_stream_closed_writes_core]
  have hr := mark_stream_closed_reads_core t s e
  have h1 := congrArg StreamCore.id hr
  have h2 := congrArg StreamCore.read_closed hr
  have h3 := congrArg StreamCore.write_closed hr
  have h4 := congrArg StreamCore.read_closed_error hr
  have h5 := congrArg StreamCore.write_closed_error hr
  have h6 := congrArg StreamCore.trailing_network_state hr
  simp only [grpc_chttp2_stream.core] at h1 h2 h3 h4 h5 h6
  rw [h1, h2, h3, h4, h5, h6]
  rfl

theorem mark_stream_closed_reads_waiting (t : T) (s : Nat) (b : Bool) (e : Status) :
    (mark_stream_closed_reads t s b e).waiting_for_concurrency = t.waiting_for_concurrency := by
  unfold mark_stream_closed_reads
  split <;> rfl

theorem mark_stream_closed_writes_waiting (t : T) (s : Nat) (b : Bool) (e : Status) :
    (mark_stream_closed_writes t s b e).waiting_for_concurrency = t.waiting_for_concurrency := by
  unfold mark_stream_closed_writes
  split
  · exact (softrel_fail_pending_writes _ s e).waiting
  · rfl

/-- Closing an unstarted stream in both directions. -/
theorem mark_stream_closed_unstarted (remove : RemoveStream) (t : T) (s : Nat) (e : Status)
    (hid : (t.streams s).id = 0)
    (hnc : ¬ ((t.streams s).read_closed = true ∧ (t.streams s).write_closed = true)) :
    ∃ t1, grpc_chttp2_mark_stream_closed remove t s true true e = some t1
      ∧ Cancelled s e t t1 := by
  unfold grpc_chttp2_mark_stream_closed
  rw [if_neg hnc]
  simp only
  have hcore := mark_closed_core t s e
  have hrel : StreamRel s t
      (mark_stream_closed_writes (mark_stream_closed_reads t s true e) s true e) :=
    (streamrel_mark_stream_closed_reads t s true e).streamrel_trans
      (streamrel_mark_stream_closed_writes _ s true e)
  have hwait : (mark_stream_closed_writes (mark_stream_closed_reads t s true e) s true
      e).waiting_for_concurrency = t.waiting_for_concurrency := by
    rw [mark_stream_closed_writes_waiting, mark_stream_closed_reads_waiting]
  generalize mark_stream_closed_writes (mark_stream_closed_reads t s true e) s true e = t2
    at hcore hrel hwait ⊢
  have h1 : (t2.streams s).read_closed = true := congrArg StreamCore.read_closed hcore
  have h2 : (t2.streams s).write_closed = true := congrArg StreamCore.write_closed hcore
  have h3 : (t2.streams s).id = 0 := hrel.id_eq.trans hid
  simp only [h1, h2, h3, Bool.and_self, if_true, ne_eq, not_true_eq_false, if_false,
    Option.map_some']
  refine ⟨_, rfl, ?_⟩
  have c0 : Cancelled s e t (grpc_chttp2_list_remove_waiting_for_concurrency t2 s) :=
    ⟨hrel.streamrel_trans (softrel_list_remove_waiting_streamrel _ _), hcore, by
      show stream_list_remove t2.waiting_for_concurrency s = _
      rw [hwait]⟩
  generalize grpc_chttp2_list_remove_waiting_for_concurrency t2 s = t3 at c0 ⊢
  have c1 : Cancelled s e t (if (!(removal_error e (t2.streams s) "Stream removed").ok) = true
      then grpc_chttp2_fake_status t3 s (removal_error e (t2.streams s) "Stream removed")
      else t3) := by
    split
    · exact c0.soft_right (softrel_fake_status _ _ _)
    · exact c0
  generalize (if (!(removal_error e (t2.streams s) "Stream removed").ok) = true
      then grpc_chttp2_fake_status t3 s (removal_error e (t2.streams s) "Stream removed")
      else t3) = t4 at c1 ⊢
  refine Cancelled.soft_right ?_ (softrel_maybe_complete_recv_trailing_metadata _ _)
  split
  · exact c1.soft_right (softrel_mark_stream_closed_publish _ _)
  · exact c1

/-- Cancelling an unstarted stream of a client. -/
theorem cancel_stream_unstarted (remove : RemoveStream) (t : T) (s : Nat) (e : Status)
    (tarpit : Bool) (hc : t.is_client = true) (hid : (t.streams s).id = 0)
    (hnc : ¬ ((t.streams s).read_closed = true ∧ (t.streams s).write_closed = true)) :
    ∃ t1, grpc_chttp2_cancel_stream remove t s e tarpit = some t1 ∧ Cancelled s e t t1 := by
  unfold grpc_chttp2_cancel_stream
  have hif : ¬ (t.is_client = false ∧ (t.streams s).sent_trailing_metadata = false
      ∧ e.has_clear_grpc_status = true
      ∧ ¬ ((t.streams s).read_closed = true ∧ (t.streams s).write_closed = true)) := by
    intro h
    rw [hc] at h
    exact absurd h.1 (by decide)
  rw [if_neg hif]
  simp only
  have h0 : SoftRel t (if e.ok = false ∧ (t.streams s).seen_error = false then
      set_stream t s { (t.streams s) with seen_error := true } else t) := by
    split
    · refine softrel_set_stream t s _ ?_
      rfl
    · exact SoftRel.softrel_refl t
  generalize (if e.ok = false ∧ (t.streams s).seen_error = false then
      set_stream t s { (t.streams s) with seen_error := true } else t) = t0 at h0 ⊢
  have hid0 : (t0.streams s).id = 0 := (h0.id_eq s).trans hid
  have hnc0 : ¬ ((t0.streams s).read_closed = true ∧ (t0.streams s).write_closed = true) := by
    rw [h0.read_closed_eq, h0.write_closed_eq]; exact hnc
  have hif2 : ¬ (((t0.streams s).read_closed = false ∨ (t0.streams s).write_closed = false)
      ∧ (t0.streams s).id ≠ 0) := fun h => h.2 hid0
  rw [if_neg hif2]
  obtain ⟨t1, h1, c1⟩ := mark_stream_closed_unstarted remove t0 s e hid0 hnc0
  exact ⟨t1, h1, Cancelled.soft_left h0 c1⟩

theorem cancelled_core_congr {a b : grpc_chttp2_stream} (e : Status) (h : a.core = b.core) :
    cancelled_core a e = cancelled_core b e := by
  have h1 : a.id = b.id := congrArg StreamCore.id h
  have h2 : a.read_closed = b.read_closed := congrArg StreamCore.read_closed h
  have h3 : a.write_closed = b.write_closed := congrArg StreamCore.write_closed h
  have h4 : a.read_closed_error = b.read_closed_error := congrArg StreamCore.read_closed_error h
  have h5 : a.write_closed_error = b.write_closed_error :=
    congrArg StreamCore.write_closed_error h
  unfold cancelled_core
  rw [h1, h2, h3, h4, h5]

theorem stream_list_remove_not_mem {l : List Nat} {s : Nat} (h : s ∉ l) :
    stream_list_remove l s = l := by
  unfold stream_list_remove
  rw [List.filter_eq_self]
  intro a ha
  have : a ≠ s := fun hx => h (hx ▸ ha)
  simpa using this

/-- The loop that cancels the waiting list ends and cancels every stream of
the list, on a client. -/
theorem cancel_waiting_loop_total (remove : RemoveStream) (e : Status) (tarpit : Bool) :
    ∀ (n : Nat) (t : T), t.is_client = true → WaitingOK t →
      t.waiting_for_concurrency.length ≤ n →
      ∃ t1, cancel_waiting_loop remove e tarpit n t = some t1 ∧ AllCancelled e t t1
  | 0, t, _, _, hl => by
    have h0 : t.waiting_for_concurrency = [] := List.length_eq_zero.mp (Nat.le_zero.mp hl)
    refine ⟨t, ?_, h0, rfl, rfl, fun _ _ => rfl, ?_⟩
    · unfold cancel_waiting_loop
      rw [if_pos h0]
    · intro r hr
      rw [h0] at hr
      exact absurd hr (List.not_mem_nil r)
  | n + 1, t, hc, hq, hl => by
    unfold cancel_waiting_loop
    cases hw : t.waiting_for_concurrency with
    | nil =>
      refine ⟨t, rfl, hw, rfl, rfl, fun _ _ => rfl, ?_⟩
      intro r hr
      rw [hw] at hr
      exact absurd hr (List.not_mem_nil r)
    | cons s rest =>
      simp only
      have hs : s ∈ t.waiting_for_concurrency := by rw [hw]; exact List.mem_cons_self _ _
      have hnd : s ∉ rest ∧ rest.Nodup := by
        have := hq.nodup
        rw [hw] at this
        exact List.nodup_cons.mp this
      obtain ⟨t2, h2, c2⟩ := cancel_stream_unstarted remove
        (set_stream { t with waiting_for_concurrency := rest } s
          { (t.streams s) with trailing_network_state := some .kNotSentOnWire })
        s e tarpit hc
        (by rw [set_stream_streams_same]; exact (hq.fresh s hs).1)
        (by rw [set_stream_streams_same]; exact (hq.fresh s hs).2)
      rw [h2]
      simp only [Option.some_bind]
      have hwait2 : t2.waiting_for_concurrency = rest := by
        rw [c2.waiting]
        exact stream_list_remove_not_mem hnd.1
      have hother : ∀ r, r ≠ s → (t2.streams r).core = (t.streams r).core := by
        intro r hr
        rw [c2.rel.others r hr, set_stream_streams_ne _ _ hr]
      have hq2 : WaitingOK t2 := by
        refine ⟨hwait2 ▸ hnd.2, ?_⟩
        intro r hr
        rw [hwait2] at hr
        have hrs : r ≠ s := fun hx => hnd.1 (hx ▸ hr)
        have hcore := hother r hrs
        have a1 : (t2.streams r).id = (t.streams r).id := congrArg StreamCore.id hcore
        have a2 : (t2.streams r).read_closed = (t.streams r).read_closed :=
          congrArg StreamCore.read_closed hcore
        have a3 : (t2.streams r).write_closed = (t.streams r).write_closed :=
          congrArg StreamCore.write_closed hcore
        rw [a1, a2, a3]
        exact hq.fresh r (hw ▸ List.mem_cons_of_mem _ hr)
      have hl2 : t2.waiting_for_concurrency.length ≤ n := by
        rw [hwait2]
        rw [hw] at hl
        simpa using hl
      obtain ⟨t1, h1, c1⟩ := cancel_waiting_loop_total remove e tarpit n t2
        (c2.rel.is_client.trans hc) hq2 hl2
      refine ⟨t1, h1, c1.waiting, ?_, ?_, ?_, ?_⟩
      · rw [c1.stream_map, c2.rel.stream_map]; rfl
      · rw [c1.next_stream_id, c2.rel.next_stream_id]; rfl
      · intro r hr
        have hrs : r ≠ s := fun hx => hr (hx ▸ hs)
        have hrr : r ∉ rest := fun hx => hr (hw ▸ List.mem_cons_of_mem _ hx)
        rw [c1.others r (hwait2 ▸ hrr)]
        exact hother r hrs
      · intro r hr
        rw [hw] at hr
        rcases List.mem_cons.mp hr with rfl | hr1
        · rw [c1.others r (hwait2 ▸ hnd.1), c2.core, set_stream_streams_same]
          rfl
        · have hrs : r ≠ s := fun hx => hnd.1 (hx ▸ hr1)
          rw [c1.cancelled r (hwait2 ▸ hr1)]
          exact cancelled_core_congr e (hother r hrs)

/-! ## Admission, as a function -/

theorem start_stream_spec (t : T) (s : Nat) (hn : t.next_stream_id ≤ MAX_CLIENT_STREAM_ID)
    (hk : ∀ e, e ∈ t.stream_map → e.1 < t.next_stream_id) :
    (start_stream t s).waiting_for_concurrency = t.waiting_for_concurrency
    ∧ (start_stream t s).stream_map = t.stream_map ++ [(t.next_stream_id, s)]
    ∧ (start_stream t s).next_stream_id = t.next_stream_id + 2
    ∧ ((start_stream t s).streams s).id = t.next_stream_id
    ∧ (∀ r, r ≠ s → ((start_stream t s).streams r).core = (t.streams r).core)
    ∧ (start_stream t s).peer_max_concurrent_streams = t.peer_max_concurrent_streams
    ∧ (start_stream t s).is_client = t.is_client := by
  have hs := softrel_start_stream_tail t s
  have hlook : t.stream_map.lookup t.next_stream_id = none :=
    lookup_none_of_lt (fun i r hm => hk (i, r) hm)
  have hmap : (assign_stream_id t s).stream_map = t.stream_map ++ [(t.next_stream_id, s)] := by
    show stream_map_emplace t.stream_map t.next_stream_id s = _
    unfold stream_map_emplace
    rw [hlook]; rfl
  have hnext : (assign_stream_id t s).next_stream_id = t.next_stream_id + 2 := by
    show (t.next_stream_id + 2) % UINT32_MODULUS = _
    apply Nat.mod_eq_of_lt
    unfold MAX_CLIENT_STREAM_ID at hn
    unfold UINT32_MODULUS
    omega
  have hstr : ∀ r, (assign_stream_id t s).streams r
      = if r = s then { (t.streams s) with id := t.next_stream_id } else t.streams r := by
    intro r
    simp only [assign_stream_id, Function.update_apply]
  refine ⟨hs.waiting, hs.stream_map.trans hmap, hs.next_stream_id.trans hnext, ?_, ?_,
    hs.peer_max, hs.is_client⟩
  · rw [hs.id_eq, hstr, if_pos rfl]
  · intro r hr
    rw [hs.streams r, hstr, if_neg hr]

theorem admitted_entries_append (next : Nat) (l : List Nat) (s : Nat)
    (m : List (Nat × Nat)) :
    m ++ [(next, s)] ++ admitted_entries (next + 2) l
      = m ++ admitted_entries next (s :: l) := by
  simp [admitted_entries]

theorem admitted_entries_lt {next : Nat} {l : List Nat} {e : Nat × Nat}
    (h : e ∈ admitted_entries next l) : next ≤ e.1 ∧ e.2 ∈ l := by
  induction l generalizing next with
  | nil => simp [admitted_entries] at h
  | cons s l ih =>
    simp only [admitted_entries, List.mem_cons] at h
    rcases h with rfl | h
    · exact ⟨le_refl _, List.mem_cons_self _ _⟩
    · have := ih h
      exact ⟨by omega, List.mem_cons_of_mem _ this.2⟩

/-- The admission loop ends; it admits the first `k` streams of the waiting
list, for some `k`, and stops only when nothing waits, the ids are used up or
the peer limit is reached. -/
theorem start_streams_loop_total :
    ∀ (n : Nat) (t : T), WaitingOK t → (∀ e, e ∈ t.stream_map → e.1 < t.next_stream_id) →
      t.waiting_for_concurrency.length ≤ n →
      ∃ k t1, start_streams_loop n t = some t1 ∧ Admitted k t t1
        ∧ k ≤ t.waiting_for_concurrency.length
        ∧ (t1.waiting_for_concurrency = [] ∨ MAX_CLIENT_STREAM_ID < t1.next_stream_id
            ∨ t1.peer_max_concurrent_streams ≤ t1.stream_map.length)
        ∧ (k ≠ 0 → t.next_stream_id ≤ MAX_CLIENT_STREAM_ID
            ∧ t.stream_map.length < t.peer_max_concurrent_streams)
        ∧ t1.stream_map.length ≤ max t.stream_map.length t.peer_max_concurrent_streams
  | 0, t, _, _, hl => by
    have h0 : t.waiting_for_concurrency = [] := List.length_eq_zero.mp (Nat.le_zero.mp hl)
    refine ⟨0, t, ?_, ?_, Nat.zero_le _, Or.inl h0, fun h => absurd rfl h, le_max_left _ _⟩
    · unfold start_streams_loop
      rw [if_neg]
      intro h
      exact h.2.2 h0
    · refine ⟨by simp, by simp [admitted_entries], by simp, ?_, fun _ _ => rfl, rfl, rfl⟩
      intro e he
      simp [admitted_entries] at he
  | n + 1, t, hq, hk, hl => by
    unfold start_streams_loop
    by_cases hg : t.next_stream_id ≤ MAX_CLIENT_STREAM_ID
        ∧ t.stream_map.length < t.peer_max_concurrent_streams
    · rw [if_pos hg]
      cases hw : t.waiting_for_concurrency with
      | nil =>
        refine ⟨0, t, rfl, ?_, Nat.zero_le _, Or.inl hw, fun h => absurd rfl h, le_max_left _ _⟩
        refine ⟨by simp, by simp [admitted_entries], by simp, ?_, fun _ _ => rfl, rfl, rfl⟩
        intro e he
        simp [admitted_entries] at he
      | cons s rest =>
        simp only
        have hs : s ∈ t.waiting_for_concurrency := by rw [hw]; exact List.mem_cons_self _ _
        have hnd : s ∉ rest ∧ rest.Nodup := by
          have := hq.nodup
          rw [hw] at this
          exact List.nodup_cons.mp this
        rw [if_pos (hq.fresh s hs).1]
        obtain ⟨a1, a2, a3, a4, a5, a6, a7⟩ :=
          start_stream_spec { t with waiting_for_concurrency := rest } s hg.1 hk
        generalize start_stream { t with waiting_for_concurrency := rest } s = t2
          at a1 a2 a3 a4 a5 a6 a7 ⊢
        have b1 : t2.waiting_for_concurrency = rest := a1
        have b2 : t2.stream_map = t.stream_map ++ [(t.next_stream_id, s)] := a2
        have b3 : t2.next_stream_id = t.next_stream_id + 2 := a3
        have b4 : (t2.streams s).id = t.next_stream_id := a4
        have b5 : ∀ r, r ≠ s → (t2.streams r).core = (t.streams r).core := a5
        have b6 : t2.peer_max_concurrent_streams = t.peer_max_concurrent_streams := a6
        have b7 : t2.is_client = t.is_client := a7
        clear a1 a2 a3 a4 a5 a6 a7
        have hq2 : WaitingOK t2 := by
          refine ⟨b1 ▸ hnd.2, ?_⟩
          intro r hr
          rw [b1] at hr
          have hrs : r ≠ s := fun hx => hnd.1 (hx ▸ hr)
          have hcore := b5 r hrs
          have c1 : (t2.streams r).id = (t.streams r).id := congrArg StreamCore.id hcore
          have c2 : (t2.streams r).read_closed = (t.streams r).read_closed :=
            congrArg StreamCore.read_closed hcore
          have c3 : (t2.streams r).write_closed = (t.streams r).write_closed :=
            congrArg StreamCore.write_closed hcore
          rw [c1, c2, c3]
          exact hq.fresh r (hw ▸ List.mem_cons_of_mem _ hr)
        have hk2 : ∀ e, e ∈ t2.stream_map → e.1 < t2.next_stream_id := by
          intro e he
          rw [b2] at he
          rw [b3]
          rcases List.mem_append.mp he with h1 | h1
          · exact Nat.lt_add_right 2 (hk e h1)
          · rw [List.mem_singleton.mp h1]
            exact Nat.lt_add_of_pos_right (by decide)
        have hl2 : t2.waiting_for_concurrency.length ≤ n := by
          rw [b1]
          rw [hw] at hl
          simpa using hl
        obtain ⟨k, t1, h1, ad, hle, hstop, _, hsize⟩ := start_streams_loop_total n t2 hq2 hk2 hl2
        refine ⟨k + 1, t1, h1, ?_, ?_, hstop, fun _ => hg, ?_⟩
        · refine ⟨?_, ?_, ?_, ?_, ?_, ad.peer_max.trans b6, ad.is_client.trans b7⟩
          · rw [ad.waiting, b1, hw]; rfl
          · rw [ad.stream_map, b2, b3, b1, hw, List.take_succ_cons]
            exact admitted_entries_append _ _ _ _
          · rw [ad.next_stream_id, b3]; omega
          · intro e he
            rw [hw, List.take_succ_cons] at he
            simp only [admitted_entries, List.mem_cons] at he
            rcases he with rfl | he
            · show (t1.streams s).id = t.next_stream_id
              have : s ∉ t2.waiting_for_concurrency.take k := by
                rw [b1]
                exact fun hx => hnd.1 (List.mem_of_mem_take hx)
              have := congrArg StreamCore.id (ad.others s this)
              exact this.trans b4
            · apply ad.ids
              rw [b3, b1]
              exact he
          · intro r hr
            rw [hw, List.take_succ_cons] at hr
            have hrs : r ≠ s := fun hx => hr (hx ▸ List.mem_cons_self _ _)
            have hrr : r ∉ t2.waiting_for_concurrency.take k := by
              rw [b1]
              exact fun hx => hr (List.mem_cons_of_mem _ hx)
            rw [ad.others r hrr]
            exact b5 r hrs
        · rw [b1] at hle
          simpa using hle
        · have : t2.stream_map.length = t.stream_map.length + 1 := by
            rw [b2]; simp
          rw [b6, this] at hsize
          have := hg.2
          omega
    · rw [if_neg hg]
      refine ⟨0, t, rfl, ?_, Nat.zero_le _, ?_, fun h => absurd rfl h, le_max_left _ _⟩
      · refine ⟨by simp, by simp [admitted_entries], by simp, ?_, fun _ _ => rfl, rfl, rfl⟩
        intro e he
        simp [admitted_entries] at he
      · by_cases h1 : t.next_stream_id ≤ MAX_CLIENT_STREAM_ID
        · exact Or.inr (Or.inr (Nat.le_of_not_lt (fun h2 => hg ⟨h1, h2⟩)))
        · exact Or.inr (Or.inl (Nat.lt_of_not_le h1))

/-! ## Runs -/

theorem reachable_exec_state {fuel : Nat} {ca : ChannelArgs} {ic : Bool} :
    ∀ (ops : List Op) (t : T), Reachable fuel ca ic t →
      Reachable fuel ca ic (exec_state fuel ops t)
  | [], _, h => h
  | op :: ops, t, h => by
    unfold exec_state
    cases hs : step fuel op t with
    | none => exact h
    | some t1 => exact reachable_exec_state ops t1 (Reachable.step t t1 op h hs)

theorem step_eq_exec_state {fuel : Nat} {op : Op} {t : T}
    (h : (step fuel op t).isSome = true) : step fuel op t = some (exec_state fuel [op] t) := by
  unfold exec_state
  cases hs : step fuel op t with
  | none => rw [hs] at h; exact absurd h (by simp)
  | some t1 => rfl

theorem run_eq_getD {fuel : Nat} {ops : List Op} {t : T} (h : (run fuel ops t).isSome = true) :
    run fuel ops t = some ((run fuel ops t).getD []) := by
  cases hs : run fuel ops t with
  | none => rw [hs] at h; exact absurd h (by simp)
  | some l => rfl

/-! ## `maybe_start_some_streams`, as a function -/

theorem wfb_waiting_ok {t : T} (hw : WFb t) : WaitingOK t :=
  ⟨hw.wait_nodup, hw.wait_id⟩

theorem wfb_keys_lt {t : T} (hw : WFb t) (hc : t.is_client = true) :
    ∀ e, e ∈ t.stream_map → e.1 < t.next_stream_id := by
  intro e he
  obtain ⟨a, b⟩ := hw.map_id e.1 e.2 he
  have := (hw.ids_client hc e.2 (a ▸ b)).1
  rw [a] at this
  exact this

theorem not_mem_take_of_mem_drop {l : List Nat} (hn : l.Nodup) {k : Nat} {r : Nat}
    (h : r ∈ l.drop k) : r ∉ l.take k := by
  intro h2
  have hd : (l.take k ++ l.drop k).Nodup := by rw [List.take_append_drop]; exact hn
  exact (List.nodup_append.mp hd).2.2 h2 h

theorem admitted_waiting_ok {k : Nat} {t t1 : T} (hq : WaitingOK t) (ad : Admitted k t t1) :
    WaitingOK t1 := by
  refine ⟨?_, ?_⟩
  · rw [ad.waiting]
    exact (List.drop_sublist k _).nodup hq.nodup
  · intro r hr
    rw [ad.waiting] at hr
    have hcore := ad.others r (not_mem_take_of_mem_drop hq.nodup hr)
    have c1 : (t1.streams r).id = (t.streams r).id := congrArg StreamCore.id hcore
    have c2 : (t1.streams r).read_closed = (t.streams r).read_closed :=
      congrArg StreamCore.read_closed hcore
    have c3 : (t1.streams r).write_closed = (t.streams r).write_closed :=
      congrArg StreamCore.write_closed hcore
    rw [c1, c2, c3]
    exact hq.fresh r (List.mem_of_mem_drop hr)

/-- With no GOAWAY received, `maybe_start_some_streams` returns: it admits the
first `k` streams of the waiting list, and cancels the rest if that used up the
stream ids. -/
theorem maybe_start_some_streams_total (remove : RemoveStream) (t : T)
    (hc : t.is_client = true) (hg : t.goaway_error.ok = true) (hq : WaitingOK t)
    (hk : ∀ e, e ∈ t.stream_map → e.1 < t.next_stream_id) :
    ∃ k t4 t1, Admitted k t t4
      ∧ k ≤ t.waiting_for_concurrency.length
      ∧ (t4.waiting_for_concurrency = [] ∨ MAX_CLIENT_STREAM_ID < t4.next_stream_id
          ∨ t4.peer_max_concurrent_streams ≤ t4.stream_map.length)
      ∧ (k ≠ 0 → t.next_stream_id ≤ MAX_CLIENT_STREAM_ID
          ∧ t.stream_map.length < t.peer_max_concurrent_streams)
      ∧ t4.stream_map.length ≤ max t.stream_map.length t.peer_max_concurrent_streams
      ∧ maybe_start_some_streams remove t = some t1
      ∧ ((t4.next_stream_id < MAX_CLIENT_STREAM_ID ∧ t1 = t4)
        ∨ (MAX_CLIENT_STREAM_ID ≤ t4.next_stream_id
            ∧ AllCancelled stream_ids_exhausted_error t4 t1)) := by
  obtain ⟨k, t4, h4, ad, hle, hstop, hadm, hsize⟩ :=
    start_streams_loop_total t.waiting_for_concurrency.length t hq hk (le_refl _)
  have hng : ¬ (t.goaway_error.ok = false) := by rw [hg]; decide
  unfold maybe_start_some_streams
  rw [if_neg hng, h4]
  simp only [Option.some_bind]
  by_cases hx : t4.next_stream_id ≥ MAX_CLIENT_STREAM_ID
  · rw [if_pos hx]
    obtain ⟨t1, h1, c1⟩ := cancel_waiting_loop_total remove stream_ids_exhausted_error false
      t4.waiting_for_concurrency.length t4 (ad.is_client.trans hc)
      (admitted_waiting_ok hq ad) (le_refl _)
    exact ⟨k, t4, t1, ad, hle, hstop, hadm, hsize, h1, Or.inr ⟨hx, c1⟩⟩
  · rw [if_neg hx]
    exact ⟨k, t4, t4, ad, hle, hstop, hadm, hsize, rfl, Or.inl ⟨Nat.lt_of_not_le hx, rfl⟩⟩

/-! ## `remove_stream`, as a function -/

theorem admitted_entries_length (next : Nat) (l : List Nat) :
    (admitted_entries next l).length = l.length := by
  induction l generalizing next with
  | nil => rfl
  | cons s l ih => simp [admitted_entries, ih]

theorem remove_stream_maybe_close_open (remove : RemoveStream) (t : T) (e : Status)
    (h : ¬ (t.sent_goaway_state = .FINAL_GOAWAY_SENT ∧ t.stream_map.isEmpty = true)) :
    ∃ t1, remove_stream_maybe_close remove t e = some t1 ∧ SoftRel t t1 := by
  unfold remove_stream_maybe_close
  by_cases hm : t.stream_map.isEmpty = true
  · rw [if_pos hm]
    simp only
    have hs : ¬ ((post_benign_reclaimer t).sent_goaway_state = .FINAL_GOAWAY_SENT) := by
      rw [(softrel_post_benign_reclaimer t).sent_goaway_state]
      exact fun hx => h ⟨hx, hm⟩
    rw [if_neg hs]
    exact ⟨_, rfl, softrel_post_benign_reclaimer t⟩
  · rw [if_neg hm]
    exact ⟨t, rfl, SoftRel.softrel_refl t⟩

/-- Removing a stream of a client that received no GOAWAY and does not close:
when a stream waits, ids are left and the map is below the peer's limit once the
stream is out, the head of the waiting list is admitted at once. -/
theorem remove_stream_admits (n : Nat) (t : T) (id s : Nat) (e : Status) (r : Nat)
    (rest : List Nat) (hcl : t.is_client = true) (hg : t.goaway_error.ok = true)
    (hq : WaitingOK t) (hk : ∀ x, x ∈ t.stream_map → x.1 < t.next_stream_id)
    (hl : t.stream_map.lookup id = some s)
    (hnf : ¬ (t.sent_goaway_state = .FINAL_GOAWAY_SENT
      ∧ (t.stream_map.filter (fun x => x.1 ≠ id)).isEmpty = true))
    (hwait : t.waiting_for_concurrency = r :: rest)
    (hcap : (t.stream_map.filter (fun x => x.1 ≠ id)).length < t.peer_max_concurrent_streams)
    (hn : t.next_stream_id ≤ MAX_CLIENT_STREAM_ID) :
    ∃ t1, remove_stream_fuel (n + 1) t id e = some t1
      ∧ (t1.streams r).id = t.next_stream_id
      ∧ (t.next_stream_id, r) ∈ t1.stream_map
      ∧ (∀ x, (id, x) ∉ t1.stream_map) := by
  show ∃ t1, remove_stream_body (remove_stream_fuel n) t id e = some t1 ∧ _
  unfold remove_stream_body
  rw [hl]
  simp only
  obtain ⟨t2, h2, a2⟩ := remove_stream_maybe_close_open (remove_stream_fuel n)
    { t with stream_map := t.stream_map.filter (fun x => x.1 ≠ id),
             incoming_stream := if t.incoming_stream = some s then none
                                else t.incoming_stream } e hnf
  rw [h2]
  simp only [Option.some_bind]
  have a3 := a2.softrel_trans (softrel_remove_stream_from_lists t2 s)
  generalize remove_stream_from_lists t2 s = t3 at a3 ⊢
  have e_wait : t3.waiting_for_concurrency = r :: rest := a3.waiting.trans hwait
  have e_map : t3.stream_map = t.stream_map.filter (fun x => x.1 ≠ id) := a3.stream_map
  have e_next : t3.next_stream_id = t.next_stream_id := a3.next_stream_id
  have e_peer : t3.peer_max_concurrent_streams = t.peer_max_concurrent_streams := a3.peer_max
  have e_core : ∀ x, (t3.streams x).core = (t.streams x).core := a3.streams
  have hq3 : WaitingOK t3 := by
    refine ⟨by rw [e_wait, ← hwait]; exact hq.nodup, ?_⟩
    intro x hx
    rw [e_wait, ← hwait] at hx
    have hcore := e_core x
    have c1 : (t3.streams x).id = (t.streams x).id := congrArg StreamCore.id hcore
    have c2 : (t3.streams x).read_closed = (t.streams x).read_closed :=
      congrArg StreamCore.read_closed hcore
    have c3 : (t3.streams x).write_closed = (t.streams x).write_closed :=
      congrArg StreamCore.write_closed hcore
    rw [c1, c2, c3]
    exact hq.fresh x hx
  have hk3 : ∀ x, x ∈ t3.stream_map → x.1 < t3.next_stream_id := by
    intro x hx
    rw [e_map] at hx
    rw [e_next]
    exact hk x (List.mem_of_mem_filter hx)
  obtain ⟨k, t4, t1, ad, hle, hstop, _, _, h1, hfinal⟩ :=
    maybe_start_some_streams_total (remove_stream_fuel n) t3 (a3.is_client.trans hcl)
      (a3.goaway_error ▸ hg) hq3 hk3
  have hk1 : k ≠ 0 := by
    intro hk0
    subst hk0
    have f1 : t4.waiting_for_concurrency = r :: rest := by rw [ad.waiting, e_wait]; rfl
    have f2 : t4.next_stream_id = t.next_stream_id := by rw [ad.next_stream_id, e_next]; rfl
    have f3 : t4.stream_map.length = (t.stream_map.filter (fun x => x.1 ≠ id)).length := by
      rw [ad.stream_map, e_map]
      simp [admitted_entries]
    have f4 : t4.peer_max_concurrent_streams = t.peer_max_concurrent_streams := by
      rw [ad.peer_max, e_peer]
    rcases hstop with hx | hx | hx
    · rw [f1] at hx
      exact absurd hx (by simp)
    · omega
    · omega
  obtain ⟨j, rfl⟩ := Nat.exists_eq_succ_of_ne_zero hk1
  have htake : t3.waiting_for_concurrency.take (j + 1) = r :: rest.take j := by
    rw [e_wait, List.take_succ_cons]
  have hent : (t3.next_stream_id, r)
      ∈ admitted_entries t3.next_stream_id (t3.waiting_for_concurrency.take (j + 1)) := by
    rw [htake]
    simp [admitted_entries]
  have g1 : (t4.streams r).id = t.next_stream_id := by
    have := ad.ids _ hent
    rw [e_next] at this
    exact this
  have g2 : (t.next_stream_id, r) ∈ t4.stream_map := by
    rw [ad.stream_map]
    apply List.mem_append_right
    rw [← e_next]
    exact hent
  have g3 : ∀ x, (id, x) ∉ t4.stream_map := by
    intro x hx
    rw [ad.stream_map, e_map] at hx
    rcases List.mem_append.mp hx with h5 | h5
    · have := (List.mem_filter.mp h5).2
      simp at this
    · have h6 := (admitted_entries_lt h5).1
      have h7 : id < t.next_stream_id := hk (id, s) (mem_of_lookup hl)
      rw [e_next] at h6
      have : t.next_stream_id ≤ id := h6
      omega
  have g4 : r ∉ t4.waiting_for_concurrency := by
    rw [ad.waiting]
    intro hx
    have hnd : t3.waiting_for_concurrency.Nodup := hq3.nodup
    exact not_mem_take_of_mem_drop hnd hx (by rw [htake]; exact List.mem_cons_self _ _)
  rcases hfinal with ⟨_, rfl⟩ | ⟨_, hc1⟩
  · exact ⟨t1, h1, g1, g2, g3⟩
  · refine ⟨t1, h1, ?_, ?_, ?_⟩
    · have := congrArg StreamCore.id (hc1.others r g4)
      exact this.trans g1
    · rw [hc1.stream_map]
      exact g2
    · rw [hc1.stream_map]
      exact g3

/-! # The claims -/

/-- C1: in the transition system of the transport, whose steps include
`grpc_chttp2_initiate_write`, `write_action_begin_locked` (which calls
`write_action`, one more endpoint write in flight) and `write_action_end_locked`
(one less), every reachable state has at most one endpoint write in flight,
and none when `write_state` is IDLE. -/
theorem C1_write_serialization (fuel : Nat) (ca : ChannelArgs) (ic : Bool) (t : T)
    (h : Reachable fuel ca ic t) :
    t.endpoint_writes_in_flight ≤ 1
      ∧ (t.write_state = .IDLE → t.endpoint_writes_in_flight = 0) := by
  have hw := (reachable_inv h).1
  refine ⟨?_, fun hi => (hw.idle hi).2⟩
  by_cases hi : t.write_state = .IDLE
  · rw [(hw.idle hi).2]
    exact Nat.zero_le 1
  · have := hw.busy hi
    omega

/-- C1 at the state of a new client transport whose first write has begun:
one endpoint write is in flight. -/
theorem C1_write_serialization_witness :
    writing_client.endpoint_writes_in_flight = 1
      ∧ (writing_client.endpoint_writes_in_flight ≤ 1
        ∧ (writing_client.write_state = .IDLE → writing_client.endpoint_writes_in_flight = 0)) :=
  ⟨by decide!, C1_write_serialization 1 {} true writing_client
    (reachable_exec_state _ _ Reachable.init)⟩

theorem softrel_unstall_streams : ∀ (l : List Nat) (t : T), SoftRel t (unstall_streams l t)
  | [], t => SoftRel.softrel_refl t
  | s :: rest, t => by
    unfold unstall_streams
    have h0 : SoftRel t { t with stalled_by_stream := rest } := by
      apply softrel_of_eq <;> rfl
    exact ((h0.softrel_trans (softrel_mark_stream_writable _ s)).softrel_trans
      (softrel_initiate_write _ _)).softrel_trans (softrel_unstall_streams rest _)

theorem softrel_read_action_window_update (t : T) : SoftRel t (read_action_window_update t) := by
  unfold read_action_window_update
  split
  · simp only
    split
    · exact (softrel_unstall_streams _ t).softrel_trans (by apply softrel_of_eq <;> rfl)
    · apply softrel_of_eq <;> rfl
  · exact SoftRel.softrel_refl t

theorem read_action_end_mid {remove : RemoveStream} (hr : RemoveOK remove) {t t1 : T}
    {error : Status} {cancelled : Bool} (hi : Inv t)
    (h : read_action_end remove t error cancelled = some t1) : MidRel t t1 := by
  unfold read_action_end maybe_reset_keepalive_ping_timer_locked
    continue_read_action_locked at h
  simp only at h
  repeat' split at h
  all_goals
    first
    | exact (close_transport_locked_pc hr hi.1 h).1.post_mid
    | (simp only [Option.some.injEq] at h
       subst h
       exact SoftRel.softrel_mid
         (by first | exact SoftRel.softrel_refl t | (apply softrel_of_eq <;> rfl)))

/-- A turn of the read loop keeps the invariant and `closed_with_error`. -/
theorem read_action_parse_loop_locked_mid {remove : RemoveStream} (hr : RemoveOK remove)
    {t t1 : T} {error : Status} {turn : ParseTurn} (hi : Inv t)
    (h : read_action_parse_loop_locked remove t error turn = some t1) : MidRel t t1 := by
  unfold read_action_parse_loop_locked at h
  split at h
  · split at h
    · simp only [Option.some.injEq] at h; subst h
      exact MidRel.midrel_refl t
    · have m0 := (softrel_read_action_window_update t).softrel_mid
      exact m0.midrel_trans (read_action_end_mid hr (m0.inv hi) h)
  · exact read_action_end_mid hr hi h

theorem reachable_with_reads_inv {fuel : Nat} {ca : ChannelArgs} {ic : Bool} {t : T}
    (h : ReachableWithReads fuel ca ic t) : Inv t := by
  induction h with
  | init => exact create_transport_inv ca ic
  | step t t1 op _ hs ih => exact (step_inv fuel ih hs).1
  | read t t1 error turn _ hs ih =>
    exact (read_action_parse_loop_locked_mid (remove_stream_fuel_ok fuel) ih hs).inv ih

theorem reachable_with_reads_of_reachable {fuel : Nat} {ca : ChannelArgs} {ic : Bool} {t : T}
    (h : Reachable fuel ca ic t) : ReachableWithReads fuel ca ic t := by
  induction h with
  | init => exact ReachableWithReads.init
  | step t t1 op _ hs ih => exact ReachableWithReads.step t t1 op ih hs

theorem some_getD_of_isSome {α : Type} (o : Option α) (d : α) (h : o.isSome = true) :
    o = some (o.getD d) := by
  cases o with
  | none => exact absurd h (by simp)
  | some x => rfl

/-- C2: `closed_with_error` is monotonic.  In every state that the handlers of
the transport and the completions of its reads lead to, whatever their number
and order, and for every one of them run next (`close_transport_locked` with any
error, the write completions and the other handlers that run `set_write_state`,
every other handler; the completion of a read in `read_action_locked`, with any
error and any answer of the parser, and the parse loop run again),
a non-OK `closed_with_error` has the same value afterwards, and
`closed_with_error` is changed only to a non-OK status. -/
theorem C2_closed_with_error_monotonic (fuel : Nat) (ca : ChannelArgs) (ic : Bool) (t t1 : T)
    (h : ReachableWithReads fuel ca ic t)
    (hs : (∃ op, step fuel op t = some t1)
      ∨ (∃ error turn, read_action_locked (remove_stream_fuel fuel) t error turn = some t1)
      ∨ (∃ error turn,
          read_action_parse_loop_locked (remove_stream_fuel fuel) t error turn = some t1)) :
    (t.closed_with_error.ok = false →
        t1.closed_with_error = t.closed_with_error ∧ t1.closed_with_error.ok = false)
      ∧ (t1.closed_with_error ≠ t.closed_with_error → t1.closed_with_error.ok = false) := by
  have hi := reachable_with_reads_inv h
  have r : ClosedRel t t1 := by
    rcases hs with ⟨op, hs⟩ | ⟨error, turn, hs⟩ | ⟨error, turn, hs⟩
    · exact (step_inv fuel hi hs).2.closed
    · exact (read_action_parse_loop_locked_mid (remove_stream_fuel_ok fuel) hi hs).closed
    · exact (read_action_parse_loop_locked_mid (remove_stream_fuel_ok fuel) hi hs).closed
  refine ⟨fun hc => ?_, fun hne => ?_⟩
  · have := r.closed_mono hc
    exact ⟨this, this ▸ hc⟩
  · rcases r.closed_set with h1 | h1
    · exact absurd h1 hne
    · exact h1

/-- C2 at a closed client transport: closed again with another error, and
after the completion of a read, it keeps its first error. -/
theorem C2_closed_with_error_monotonic_witness :
    closed_client.closed_with_error.ok = false
      ∧ step 1 (.close_transport (GRPC_ERROR_CREATE "b")) closed_client = some closed_twice_client
      ∧ (closed_twice_client.closed_with_error = closed_client.closed_with_error
        ∧ closed_twice_client.closed_with_error.ok = false)
      ∧ read_action_locked (remove_stream_fuel 1) closed_client .OkStatus {}
          = some closed_read_client
      ∧ (closed_read_client.closed_with_error = closed_client.closed_with_error
        ∧ closed_read_client.closed_with_error.ok = false) :=
  ⟨by decide!, step_eq_exec_state (by decide!),
    (C2_closed_with_error_monotonic 1 {} true closed_client closed_twice_client
      (reachable_with_reads_of_reachable (reachable_exec_state _ _ Reachable.init))
      (Or.inl ⟨_, step_eq_exec_state (by decide!)⟩)).1 (by decide!),
    some_getD_of_isSome _ _ (by decide!),
    (C2_closed_with_error_monotonic 1 {} true closed_client closed_read_client
      (reachable_with_reads_of_reachable (reachable_exec_state _ _ Reachable.init))
      (Or.inr (Or.inl ⟨.OkStatus, {}, some_getD_of_isSome _ _ (by decide!)⟩))).1 (by decide!)⟩

theorem maybe_start_some_streams_nothing_waiting (remove : RemoveStream) (t : T)
    (h : t.waiting_for_concurrency = []) : maybe_start_some_streams remove t = some t := by
  have hloop : ∀ e b, cancel_waiting_loop remove e b 0 t = some t := by
    intro e b
    unfold cancel_waiting_loop
    rw [if_pos h]
  unfold maybe_start_some_streams cancel_unstarted_streams
  rw [h]
  simp only [List.length_nil]
  split
  · exact hloop _ _
  · have hs : start_streams_loop 0 t = some t := by
      unfold start_streams_loop
      rw [if_neg]
      intro hx
      exact hx.2.2 h
    rw [hs]
    simp only [Option.some_bind]
    split
    · rw [h]
      exact hloop _ _
    · rfl

theorem cancelled_components {s : Nat} {e : Status} {t t1 : T} (h : Cancelled s e t t1) :
    (t1.streams s).id = (t.streams s).id
      ∧ (t1.streams s).read_closed = true ∧ (t1.streams s).write_closed = true
      ∧ ((t.streams s).write_closed = false → (t1.streams s).write_closed_error = e)
      ∧ ((t.streams s).read_closed = false → (t1.streams s).read_closed_error = e)
      ∧ (t1.streams s).trailing_network_state = (t.streams s).trailing_network_state
      ∧ s ∉ t1.waiting_for_concurrency := by
  have h1 : (t1.streams s).id = (t.streams s).id := congrArg StreamCore.id h.core
  have h2 : (t1.streams s).read_closed = true := congrArg StreamCore.read_closed h.core
  have h3 : (t1.streams s).write_closed = true := congrArg StreamCore.write_closed h.core
  have h4 : (t1.streams s).read_closed_error
      = if (t.streams s).read_closed then (t.streams s).read_closed_error else e :=
    congrArg StreamCore.read_closed_error h.core
  have h5 : (t1.streams s).write_closed_error
      = if (t.streams s).write_closed then (t.streams s).write_closed_error else e :=
    congrArg StreamCore.write_closed_error h.core
  have h6 : (t1.streams s).trailing_network_state = (t.streams s).trailing_network_state :=
    congrArg StreamCore.trailing_network_state h.core
  refine ⟨h1, h2, h3, ?_, ?_, h6, ?_⟩
  · intro hw; rw [h5, hw]; rfl
  · intro hr; rw [h4, hr]; rfl
  · rw [h.waiting]
    simp [stream_list_remove]

/-- C3, refuted as written: on a closed client transport, a
send_initial_metadata op for a stream that the application cancelled before (it
is closed for writes) does not cancel the stream with "Transport closed": the
stream keeps the error of its cancellation and gets no kNotSentOnWire tag. -/
theorem C3_counterexample :
    closed_client_cancelled_stream.is_client = true
      ∧ closed_client_cancelled_stream.closed_with_error.ok = false
      ∧ (closed_client_cancelled_stream.streams 0).id = 0
      ∧ (perform_stream_op_send_initial_metadata (remove_stream_fuel 1)
          closed_client_cancelled_stream 0
          { on_complete := some 1, send_initial_metadata := true }).map
        (fun t => ((t.streams 0).write_closed_error.message,
          (t.streams 0).write_closed_error.rpc, (t.streams 0).trailing_network_state))
        = some ("cancelled by the application", none, none) := by
  decide!

/-- C3, amended: in every reachable state where `closed_with_error` is non-OK,
`maybe_start_some_streams` changes nothing; and on a client the block
`if (op->send_initial_metadata)` of `perform_stream_op_locked`, run for an
unstarted stream that is not closed for writes, returns with the stream's id
still 0, the stream off the waiting list and out of the map, closed in both
directions with the UNAVAILABLE error "Transport closed" and tagged
kNotSentOnWire. -/
theorem C3_closed_transport_admits_nothing (fuel : Nat) (ca : ChannelArgs) (ic : Bool) (t : T)
    (h : Reachable fuel ca ic t) (hc : t.closed_with_error.ok = false) :
    maybe_start_some_streams (remove_stream_fuel fuel) t = some t
      ∧ (∀ s op c, t.is_client = true → op.on_complete = some c →
          (t.streams s).id = 0 → (t.streams s).write_closed = false →
          (t.streams s).send_initial_metadata_finished = none →
          ∃ t1, perform_stream_op_send_initial_metadata (remove_stream_fuel fuel) t s op
              = some t1
            ∧ (t1.streams s).id = 0
            ∧ s ∉ t1.waiting_for_concurrency
            ∧ t1.stream_map = t.stream_map
            ∧ t1.next_stream_id = t.next_stream_id
            ∧ (t1.streams s).read_closed = true ∧ (t1.streams s).write_closed = true
            ∧ (t1.streams s).write_closed_error = transport_closed_error t
            ∧ ((t.streams s).read_closed = false →
                (t1.streams s).read_closed_error = transport_closed_error t)
            ∧ (transport_closed_error t).message = "Transport closed"
            ∧ (transport_closed_error t).rpc = some GRPC_STATUS_UNAVAILABLE
            ∧ (t1.streams s).trailing_network_state = some .kNotSentOnWire) := by
  have hw := (reachable_inv h).1
  refine ⟨maybe_start_some_streams_nothing_waiting _ t (hw.closed_wait hc), ?_⟩
  intro s op c hcl hoc hid hwc hfin
  unfold perform_stream_op_send_initial_metadata
  rw [hoc]
  simp only
  rw [if_neg (by rw [hfin]; simp)]
  have a := softrel_send_initial_metadata_record t s op c
  generalize send_initial_metadata_record t s op c = t2 at a ⊢
  have hwc2 : (t2.streams s).write_closed = false := (a.write_closed_eq s).trans hwc
  rw [if_pos hwc2]
  unfold send_initial_metadata_start
  have hcl2 : t2.is_client = true := a.is_client.trans hcl
  have hc2 : ¬ (t2.closed_with_error.ok = true) := by
    rw [a.closed_with_error, hc]; decide
  rw [if_pos hcl2, if_neg hc2]
  simp only
  have hid2 : (t2.streams s).id = 0 := (a.id_eq s).trans hid
  obtain ⟨t1, h1, c1⟩ := cancel_stream_unstarted (remove_stream_fuel fuel)
    (set_stream t2 s { (t2.streams s) with trailing_network_state := some .kNotSentOnWire })
    s (transport_closed_error t2) false hcl2
    (by rw [set_stream_streams_same]; exact hid2)
    (by
      rw [set_stream_streams_same]
      intro hx
      have : (t2.streams s).write_closed = true := hx.2
      rw [hwc2] at this
      exact absurd this (by decide))
  have herr : transport_closed_error t2 = transport_closed_error t := by
    unfold transport_closed_error
    rw [a.closed_with_error]
  obtain ⟨d1, d2, d3, d4, d5, d6, d7⟩ := cancelled_components c1
  rw [set_stream_streams_same] at d1 d4 d5 d6
  refine ⟨t1, h1, d1.trans hid2, d7, ?_, ?_, d2, d3, ?_, ?_, ?_, ?_, d6⟩
  · rw [c1.rel.stream_map]
    exact a.stream_map
  · rw [c1.rel.next_stream_id]
    exact a.next_stream_id
  · rw [← herr]
    exact d4 hwc2
  · intro hr
    rw [← herr]
    exact d5 ((a.read_closed_eq s).trans hr)
  · rfl
  · cases hx : t.closed_with_error <;> rfl

/-- C3 amended, at a closed client transport with a new stream: the op is
answered by cancelling the stream. -/
theorem C3_closed_transport_admits_nothing_witness :
    closed_client_new_stream.closed_with_error.ok = false
      ∧ maybe_start_some_streams (remove_stream_fuel 1) closed_client_new_stream
          = some closed_client_new_stream
      ∧ (perform_stream_op_send_initial_metadata (remove_stream_fuel 1)
          closed_client_new_stream 0
          { on_complete := some 1, send_initial_metadata := true }).map
        (fun t => ((t.streams 0).id, (t.streams 0).write_closed_error.message,
          (t.streams 0).write_closed_error.rpc, (t.streams 0).trailing_network_state))
        = some (0, "Transport closed", some 14, some .kNotSentOnWire) :=
  ⟨by decide!,
    (C3_closed_transport_admits_nothing 1 {} true closed_client_new_stream
      (reachable_exec_state _ _ Reachable.init) (by decide!)).1,
    by decide!⟩

/-- C4: in every reachable state the stream map has no key 0, every entry
`(id, s)` has `s.id = id`, no id has two entries, no two distinct streams of the
map have the same id, and no stream of the map is closed in both directions: a
stream with `id ≠ 0` closed in both directions is not in the map. -/
theorem C4_stream_map_wellformed (fuel : Nat) (ca : ChannelArgs) (ic : Bool) (t : T)
    (h : Reachable fuel ca ic t) :
    (∀ s, (0, s) ∉ t.stream_map)
      ∧ (∀ id s, (id, s) ∈ t.stream_map → (t.streams s).id = id)
      ∧ (t.stream_map.map Prod.fst).Nodup
      ∧ (∀ id id1 s s1, (id, s) ∈ t.stream_map → (id1, s1) ∈ t.stream_map →
          (t.streams s).id = (t.streams s1).id → s = s1)
      ∧ (∀ id s, (id, s) ∈ t.stream_map →
          ¬ ((t.streams s).read_closed = true ∧ (t.streams s).write_closed = true))
      ∧ (∀ s, (t.streams s).id ≠ 0 → (t.streams s).read_closed = true →
          (t.streams s).write_closed = true → ∀ id, (id, s) ∉ t.stream_map) := by
  have hw := (reachable_inv h).1
  refine ⟨?_, ?_, hw.map_nodup, ?_, ?_, ?_⟩
  · intro s hm
    exact (hw.map_id 0 s hm).2 rfl
  · intro id s hm
    exact (hw.map_id id s hm).1
  · intro id id1 s s1 hm hm1 he
    have e1 := (hw.map_id id s hm).1
    have e2 := (hw.map_id id1 s1 hm1).1
    have hid : id = id1 := by rw [← e1, ← e2, he]
    subst hid
    exact eq_of_mem_of_nodup_keys hw.map_nodup hm hm1
  · intro id s hm
    exact hw.map_open id s hm (by simp)
  · intro s _ hr hc id hm
    exact hw.map_open id s hm (by simp) ⟨hr, hc⟩

/-- C4 at a client transport with one stream admitted: the map holds the entry
`(1, 0)`. -/
theorem C4_stream_map_wellformed_witness :
    one_stream_client.stream_map = [(1, 0)]
      ∧ (∀ id s, (id, s) ∈ one_stream_client.stream_map →
          (one_stream_client.streams s).id = id) :=
  ⟨by decide!, (C4_stream_map_wellformed 1 { http2_initial_sequence_number := some 4 } true
    one_stream_client (reachable_exec_state _ _ Reachable.init)).2.1⟩

/-- C5: for every value of the channel args (HTTP2_INITIAL_SEQUENCE_NUMBER of
the wrong parity is ignored), `next_stream_id` is odd in every reachable state of
a client transport and even in every reachable state of a server transport; on a
client every id assigned is odd and below `next_stream_id`; and when the loop of
`maybe_start_some_streams` admits the head `s` of the waiting list, `s` receives
the current `next_stream_id`, above every id assigned before, and
`next_stream_id` grows by exactly 2. -/
theorem C5_stream_id_parity (fuel : Nat) (ca : ChannelArgs) (ic : Bool) (t : T)
    (h : Reachable fuel ca ic t) :
    t.next_stream_id % 2 = (if ic then 1 else 0)
      ∧ (ic = true → ∀ r, (t.streams r).id ≠ 0 →
          (t.streams r).id % 2 = 1 ∧ (t.streams r).id < t.next_stream_id)
      ∧ (∀ n s rest, t.waiting_for_concurrency = s :: rest →
          t.next_stream_id ≤ MAX_CLIENT_STREAM_ID →
          t.stream_map.length < t.peer_max_concurrent_streams →
          start_streams_loop (n + 1) t
              = start_streams_loop n (start_stream { t with waiting_for_concurrency := rest } s)
            ∧ ((start_stream { t with waiting_for_concurrency := rest } s).streams s).id
                = t.next_stream_id
            ∧ (start_stream { t with waiting_for_concurrency := rest } s).next_stream_id
                = t.next_stream_id + 2
            ∧ t.next_stream_id % 2 = 1
            ∧ ∀ r, (t.streams r).id < t.next_stream_id) := by
  have hw := (reachable_inv h).1
  have hic := reachable_is_client h
  refine ⟨?_, ?_, ?_⟩
  · rw [← hic]; exact hw.next_parity
  · intro hc r hr
    have := hw.ids_client (hic.trans hc) r hr
    exact ⟨this.2, this.1⟩
  · intro n s rest hl hn hcap
    have hs : s ∈ t.waiting_for_concurrency := by rw [hl]; exact List.mem_cons_self _ _
    have hc : t.is_client = true := by
      cases hcl : t.is_client with
      | true => rfl
      | false =>
        have := hw.wait_client hcl
        rw [this] at hl
        exact absurd hl (by simp)
    have hk : ∀ e, e ∈ t.stream_map → e.1 < t.next_stream_id := by
      intro e he
      obtain ⟨a, b⟩ := hw.map_id e.1 e.2 he
      have := (hw.ids_client hc e.2 (a ▸ b)).1
      rw [a] at this
      exact this
    have hpar : t.next_stream_id % 2 = 1 := by
      have := hw.next_parity
      rw [hc] at this
      simpa using this
    obtain ⟨_, _, a3, a4, _, _, _⟩ :=
      start_stream_spec { t with waiting_for_concurrency := rest } s hn hk
    refine ⟨?_, a4, a3, hpar, ?_⟩
    · conv_lhs => unfold start_streams_loop
      rw [if_pos ⟨hn, hcap⟩]
      simp only [hl]
      rw [if_pos (hw.wait_id s hs).1]
    · intro r
      by_cases hr : (t.streams r).id = 0
      · rw [hr]; omega
      · exact (hw.ids_client hc r hr).1

/-- C5 at a client transport created with the initial sequence number 4, of
the wrong parity: the first stream got the id 1 and `next_stream_id` is 3. -/
theorem C5_stream_id_parity_witness :
    (one_stream_client.streams 0).id = 1 ∧ one_stream_client.next_stream_id = 3
      ∧ one_stream_client.next_stream_id % 2 = (if true then 1 else 0) :=
  ⟨by decide!, by decide!, (C5_stream_id_parity 1 { http2_initial_sequence_number := some 4 } true
    one_stream_client (reachable_exec_state _ _ Reachable.init)).1⟩

theorem send_initial_metadata_open_eq (remove : RemoveStream) (t : T) (s : Nat)
    (op : grpc_transport_stream_op_batch) (c : Nat) (hcl : t.is_client = true)
    (ho : t.closed_with_error.ok = true) (hoc : op.on_complete = some c)
    (hid : (t.streams s).id = 0) (hwc : (t.streams s).write_closed = false)
    (hfin : (t.streams s).send_initial_metadata_finished = none) :
    perform_stream_op_send_initial_metadata remove t s op
      = maybe_start_some_streams remove
          (grpc_chttp2_list_add_waiting_for_concurrency
            (send_initial_metadata_record t s op c) s) := by
  unfold perform_stream_op_send_initial_metadata
  rw [hoc]
  simp only
  rw [if_neg (by rw [hfin]; simp)]
  have a := softrel_send_initial_metadata_record t s op c
  generalize send_initial_metadata_record t s op c = t2 at a ⊢
  rw [if_pos ((a.write_closed_eq s).trans hwc)]
  unfold send_initial_metadata_start
  rw [if_pos (a.is_client.trans hcl), if_pos (a.closed_with_error ▸ ho),
    if_pos ((a.id_eq s).trans hid)]

theorem mem_stream_list_add (l : List Nat) (s : Nat) : s ∈ (stream_list_add l s).1 := by
  unfold stream_list_add
  split
  · assumption
  · simp

/-- C6, refuted as written: a client whose `next_stream_id` is exactly
2^31-1, with no GOAWAY received, admits the stream that sends its initial
metadata: the stream gets the id 2^31-1 and enters the map. -/
theorem C6_counterexample :
    last_id_client.is_client = true
      ∧ last_id_client.goaway_error.ok = true
      ∧ last_id_client.next_stream_id = 2 ^ 31 - 1
      ∧ (last_id_client.streams 0).id = 0
      ∧ (perform_stream_op_send_initial_metadata (remove_stream_fuel 1) last_id_client 0
          { on_complete := some 1, send_initial_metadata := true }).map
        (fun t => ((t.streams 0).id, t.stream_map, (t.streams 0).write_closed))
        = some (2 ^ 31 - 1, [(2 ^ 31 - 1, 0)], false) := by
  decide!

/-- C6, amended: on a client that is not closed and received no GOAWAY, the
block `if (op->send_initial_metadata)` of `perform_stream_op_locked`, run for an
unstarted stream that is not closed for writes, returns.  If `next_stream_id` is
above 2^31-1, or equal to 2^31-1 while the map holds at least the peer's
MAX_CONCURRENT_STREAMS streams, the stream is not admitted: its id stays 0, the
map is unchanged, and the stream is closed with the UNAVAILABLE error "Stream IDs
exhausted", tagged kNotSentOnWire and off the waiting list.  If `next_stream_id`
is 2^31-1, nothing waits and the map is below the peer's limit, the stream is
admitted with the id 2^31-1. -/
theorem C6_stream_ids_exhausted (fuel : Nat) (ca : ChannelArgs) (t : T)
    (h : Reachable fuel ca true t) (hg : t.goaway_error.ok = true)
    (ho : t.closed_with_error.ok = true) (s : Nat) (op : grpc_transport_stream_op_batch)
    (c : Nat) (hoc : op.on_complete = some c) (hid : (t.streams s).id = 0)
    (hwc : (t.streams s).write_closed = false)
    (hfin : (t.streams s).send_initial_metadata_finished = none)
    (hs : s < t.streams_allocated) :
    ((MAX_CLIENT_STREAM_ID < t.next_stream_id
        ∨ (t.next_stream_id = MAX_CLIENT_STREAM_ID
            ∧ t.peer_max_concurrent_streams ≤ t.stream_map.length)) →
      ∃ t1, perform_stream_op_send_initial_metadata (remove_stream_fuel fuel) t s op = some t1
        ∧ (t1.streams s).id = 0
        ∧ t1.stream_map = t.stream_map
        ∧ (∀ id, (id, s) ∉ t1.stream_map)
        ∧ s ∉ t1.waiting_for_concurrency
        ∧ (t1.streams s).read_closed = true ∧ (t1.streams s).write_closed = true
        ∧ (t1.streams s).write_closed_error = stream_ids_exhausted_error
        ∧ stream_ids_exhausted_error.message = "Stream IDs exhausted"
        ∧ stream_ids_exhausted_error.rpc = some GRPC_STATUS_UNAVAILABLE
        ∧ (t1.streams s).trailing_network_state = some .kNotSentOnWire)
    ∧ (t.next_stream_id = MAX_CLIENT_STREAM_ID →
        t.stream_map.length < t.peer_max_concurrent_streams →
        t.waiting_for_concurrency = [] →
      ∃ t1, perform_stream_op_send_initial_metadata (remove_stream_fuel fuel) t s op = some t1
        ∧ (t1.streams s).id = MAX_CLIENT_STREAM_ID
        ∧ (MAX_CLIENT_STREAM_ID, s) ∈ t1.stream_map) := by
  have hw := (reachable_inv h).1
  have hcl : t.is_client = true := reachable_is_client h
  have heq := send_initial_metadata_open_eq (remove_stream_fuel fuel) t s op c hcl ho hoc hid
    hwc hfin
  have a := softrel_send_initial_metadata_record t s op c
  generalize send_initial_metadata_record t s op c = t2 at a heq
  have hid2 : (t2.streams s).id = 0 := (a.id_eq s).trans hid
  have hwc2 : (t2.streams s).write_closed = false := (a.write_closed_eq s).trans hwc
  have hop2 : ¬ (t2.streams s).closed := by
    intro hx
    have : (t2.streams s).write_closed = true := hx.2
    rw [hwc2] at this
    exact absurd this (by decide)
  have hcl2 : t2.is_client = true := a.is_client.trans hcl
  have hw3 : WFb (grpc_chttp2_list_add_waiting_for_concurrency t2 s) :=
    add_waiting_wf (a.softrel_wfx hw) hcl2 (a.closed_with_error ▸ ho) hid2 hop2 (a.allocated ▸ hs)
  have hmem3 : s ∈ (grpc_chttp2_list_add_waiting_for_concurrency t2 s).waiting_for_concurrency :=
    mem_stream_list_add _ _
  have e_map : (grpc_chttp2_list_add_waiting_for_concurrency t2 s).stream_map = t.stream_map :=
    a.stream_map
  have e_next : (grpc_chttp2_list_add_waiting_for_concurrency t2 s).next_stream_id
      = t.next_stream_id := a.next_stream_id
  have e_peer : (grpc_chttp2_list_add_waiting_for_concurrency t2 s).peer_max_concurrent_streams
      = t.peer_max_concurrent_streams := a.peer_max
  have e_str : (grpc_chttp2_list_add_waiting_for_concurrency t2 s).streams = t2.streams := rfl
  have e_wait : t.waiting_for_concurrency = [] →
      (grpc_chttp2_list_add_waiting_for_concurrency t2 s).waiting_for_concurrency = [s] := by
    intro h0
    show (stream_list_add t2.waiting_for_concurrency s).1 = [s]
    rw [a.waiting, h0]
    rfl
  obtain ⟨k, t4, t1, ad, hle, hstop, hadm, _, h1, hfinal⟩ :=
    maybe_start_some_streams_total (remove_stream_fuel fuel)
      (grpc_chttp2_list_add_waiting_for_concurrency t2 s) hcl2 (a.goaway_error ▸ hg)
      (wfb_waiting_ok hw3) (wfb_keys_lt hw3 hcl2)
  generalize grpc_chttp2_list_add_waiting_for_concurrency t2 s = t3
    at heq hw3 hmem3 e_map e_next e_peer e_str e_wait ad hle hstop hadm h1
  rw [heq]
  refine ⟨?_, ?_⟩
  · intro hx
    have hk0 : k = 0 := by
      by_contra hne
      have := hadm hne
      rw [e_next, e_map, e_peer] at this
      rcases hx with hx | hx
      · omega
      · omega
    subst hk0
    have hn4 : t4.next_stream_id = t.next_stream_id := by
      rw [ad.next_stream_id, e_next]; rfl
    have hex : MAX_CLIENT_STREAM_ID ≤ t4.next_stream_id := by
      rw [hn4]
      rcases hx with hx | hx
      · exact le_of_lt hx
      · exact le_of_eq hx.1.symm
    have hc1 : AllCancelled stream_ids_exhausted_error t4 t1 := by
      rcases hfinal with ⟨hlt, _⟩ | ⟨_, hc1⟩
      · omega
      · exact hc1
    have hmem4 : s ∈ t4.waiting_for_concurrency := by
      rw [ad.waiting]
      exact hmem3
    have hcore4 : (t4.streams s).core = (t.streams s).core := by
      have := ad.others s (by simp)
      rw [this, e_str]
      exact a.streams s
    have hcore1 := hc1.cancelled s hmem4
    have hmap1 : t1.stream_map = t.stream_map := by
      rw [hc1.stream_map, ad.stream_map, e_map]
      simp [admitted_entries]
    have i1 : (t1.streams s).id = (t4.streams s).id := congrArg StreamCore.id hcore1
    have i2 : (t1.streams s).read_closed = true := congrArg StreamCore.read_closed hcore1
    have i3 : (t1.streams s).write_closed = true := congrArg StreamCore.write_closed hcore1
    have i4 : (t1.streams s).write_closed_error
        = if (t4.streams s).write_closed then (t4.streams s).write_closed_error
          else stream_ids_exhausted_error := congrArg StreamCore.write_closed_error hcore1
    have i5 : (t1.streams s).trailing_network_state = some .kNotSentOnWire :=
      congrArg StreamCore.trailing_network_state hcore1
    have j1 : (t4.streams s).id = (t.streams s).id := congrArg StreamCore.id hcore4
    have j2 : (t4.streams s).write_closed = (t.streams s).write_closed :=
      congrArg StreamCore.write_closed hcore4
    refine ⟨t1, h1, by rw [i1, j1, hid], hmap1, ?_, ?_, i2, i3, ?_, rfl, rfl, i5⟩
    · intro id hm
      rw [hmap1] at hm
      have := hw.map_id id s hm
      exact this.2 (this.1 ▸ hid)
    · rw [hc1.waiting]
      exact List.not_mem_nil s
    · rw [i4, j2, hwc]
      rfl
  · intro hn hcap h0
    have hw3l := e_wait h0
    have hk1 : k = 1 := by
      have hle1 : k ≤ 1 := by
        rw [hw3l] at hle
        simpa using hle
      by_contra hne
      have hk0 : k = 0 := by omega
      subst hk0
      have f1 : t4.waiting_for_concurrency = [s] := by rw [ad.waiting, hw3l]; rfl
      have f2 : t4.next_stream_id = t.next_stream_id := by rw [ad.next_stream_id, e_next]; rfl
      have f3 : t4.stream_map.length = t.stream_map.length := by
        rw [ad.stream_map, e_map]
        simp [admitted_entries]
      have f4 : t4.peer_max_concurrent_streams = t.peer_max_concurrent_streams := by
        rw [ad.peer_max, e_peer]
      rcases hstop with hx | hx | hx
      · rw [f1] at hx
        exact absurd hx (by simp)
      · omega
      · omega
    subst hk1
    have hent : (t3.next_stream_id, s)
        ∈ admitted_entries t3.next_stream_id (t3.waiting_for_concurrency.take 1) := by
      rw [hw3l]
      simp [admitted_entries]
    have g1 : (t4.streams s).id = MAX_CLIENT_STREAM_ID := by
      have := ad.ids _ hent
      rw [e_next, hn] at this
      exact this
    have g2 : (MAX_CLIENT_STREAM_ID, s) ∈ t4.stream_map := by
      rw [ad.stream_map]
      apply List.mem_append_right
      rw [← hn, ← e_next]
      exact hent
    have g3 : t4.waiting_for_concurrency = [] := by
      rw [ad.waiting, hw3l]
      rfl
    rcases hfinal with ⟨_, rfl⟩ | ⟨_, hc1⟩
    · exact ⟨t1, h1, g1, g2⟩
    · refine ⟨t1, h1, ?_, ?_⟩
      · have := hc1.others s (by rw [g3]; exact List.not_mem_nil s)
        have i1 : (t1.streams s).id = (t4.streams s).id := congrArg StreamCore.id this
        rw [i1, g1]
      · rw [hc1.stream_map]
        exact g2

/-- C6 amended, at the client created with the initial sequence number 2^31-1
after it admitted a first stream: `next_stream_id` is 2^31+1 and the second
stream is cancelled. -/
theorem C6_stream_ids_exhausted_witness :
    exhausted_client.next_stream_id = 2 ^ 31 + 1
      ∧ ∃ t1, perform_stream_op_send_initial_metadata (remove_stream_fuel 1) exhausted_client 1
          { on_complete := some 2, send_initial_metadata := true } = some t1
        ∧ (t1.streams 1).id = 0
        ∧ t1.stream_map = exhausted_client.stream_map
        ∧ (∀ id, (id, 1) ∉ t1.stream_map)
        ∧ 1 ∉ t1.waiting_for_concurrency
        ∧ (t1.streams 1).read_closed = true ∧ (t1.streams 1).write_closed = true
        ∧ (t1.streams 1).write_closed_error = stream_ids_exhausted_error
        ∧ stream_ids_exhausted_error.message = "Stream IDs exhausted"
        ∧ stream_ids_exhausted_error.rpc = some GRPC_STATUS_UNAVAILABLE
        ∧ (t1.streams 1).trailing_network_state = some .kNotSentOnWire :=
  ⟨by decide!,
    (C6_stream_ids_exhausted 1 { http2_initial_sequence_number := some 2147483647 }
      exhausted_client
      (reachable_exec_state _ _ (reachable_exec_state _ _ Reachable.init))
      (by decide!) (by decide!) 1 { on_complete := some 2, send_initial_metadata := true } 2
      rfl (by decide!) (by decide!) (by decide!) (by decide!)).1 (Or.inl (by decide!))⟩

/-- C7, refuted as written: on a client that sent its final GOAWAY, whose
peer allows one stream, with stream 0 open and stream 1 waiting, no GOAWAY
received and ids left, closing stream 0 removes it from the map; the map is then
below the peer's limit, yet the waiting stream is not admitted: `remove_stream`
closes the transport and the stream is cancelled with its id still 0. -/
theorem C7_counterexample :
    goaway_sent_one_waiting_client.goaway_error.ok = true
      ∧ goaway_sent_one_waiting_client.next_stream_id = 3
      ∧ goaway_sent_one_waiting_client.peer_max_concurrent_streams = 1
      ∧ goaway_sent_one_waiting_client.stream_map = [(1, 0)]
      ∧ goaway_sent_one_waiting_client.waiting_for_concurrency = [1]
      ∧ (step 1 (.mark_stream_closed 0 true true .OkStatus)
          goaway_sent_one_waiting_client).map
        (fun t => (t.stream_map, (t.streams 1).id, (t.streams 1).write_closed,
          t.waiting_for_concurrency, t.closed_with_error.ok))
        = some ([], 0, true, [], false) := by
  decide!

/-- C7, amended: on a client that received no GOAWAY, whose waiting list holds
distinct unstarted open streams and whose map keys are below `next_stream_id`:
if the ids suffice for the whole waiting list, `maybe_start_some_streams` returns
having admitted the first `k` streams of the list in order, with consecutive ids
from `next_stream_id`, only while the map was below the peer's
MAX_CONCURRENT_STREAMS; on return the list is empty or the map has reached the
limit, the streams left waiting are untouched, and the map is no larger than
max(previous size, peer limit).  And `remove_stream` admits the head of the
waiting list at once when an id is left and the map is below the limit once the
stream is out, unless the final GOAWAY was sent and the removed stream was the
last one. -/
theorem C7_admission_under_peer_limit (remove : RemoveStream) (t : T)
    (hcl : t.is_client = true) (hg : t.goaway_error.ok = true) (hq : WaitingOK t)
    (hk : ∀ x, x ∈ t.stream_map → x.1 < t.next_stream_id) :
    (t.next_stream_id + 2 * t.waiting_for_concurrency.length < MAX_CLIENT_STREAM_ID →
      ∃ k t1, maybe_start_some_streams remove t = some t1
        ∧ k ≤ t.waiting_for_concurrency.length
        ∧ t1.waiting_for_concurrency = t.waiting_for_concurrency.drop k
        ∧ t1.stream_map = t.stream_map
            ++ admitted_entries t.next_stream_id (t.waiting_for_concurrency.take k)
        ∧ (k ≠ 0 → t.stream_map.length + k ≤ t.peer_max_concurrent_streams)
        ∧ (t1.waiting_for_concurrency = []
            ∨ t1.peer_max_concurrent_streams ≤ t1.stream_map.length)
        ∧ (∀ r, r ∈ t1.waiting_for_concurrency →
            (t1.streams r).id = 0 ∧ (t1.streams r).core = (t.streams r).core)
        ∧ t1.stream_map.length ≤ max t.stream_map.length t.peer_max_concurrent_streams)
    ∧ (∀ n id s e r rest, t.stream_map.lookup id = some s →
        ¬ (t.sent_goaway_state = .FINAL_GOAWAY_SENT
          ∧ (t.stream_map.filter (fun x => x.1 ≠ id)).isEmpty = true) →
        t.waiting_for_concurrency = r :: rest →
        (t.stream_map.filter (fun x => x.1 ≠ id)).length < t.peer_max_concurrent_streams →
        t.next_stream_id ≤ MAX_CLIENT_STREAM_ID →
        ∃ t1, remove_stream_fuel (n + 1) t id e = some t1
          ∧ (t1.streams r).id = t.next_stream_id
          ∧ (t.next_stream_id, r) ∈ t1.stream_map
          ∧ (∀ x, (id, x) ∉ t1.stream_map)) := by
  refine ⟨?_, ?_⟩
  · intro hx
    obtain ⟨k, t4, t1, ad, hle, hstop, hadm, hsize, h1, hfinal⟩ :=
      maybe_start_some_streams_total remove t hcl hg hq hk
    have hn4 : t4.next_stream_id < MAX_CLIENT_STREAM_ID := by
      rw [ad.next_stream_id]
      omega
    have h14 : t1 = t4 := by
      rcases hfinal with ⟨_, h⟩ | ⟨h, _⟩
      · exact h
      · omega
    subst h14
    have hlen : t1.stream_map.length = t.stream_map.length + k := by
      rw [ad.stream_map, List.length_append, admitted_entries_length, List.length_take]
      omega
    refine ⟨k, t1, h1, hle, ad.waiting, ad.stream_map, ?_, ?_, ?_, hsize⟩
    · intro hk0
      have := (hadm hk0).2
      rw [hlen] at hsize
      omega
    · rcases hstop with h | h | h
      · exact Or.inl h
      · omega
      · exact Or.inr h
    · intro r hr
      rw [ad.waiting] at hr
      have hcore := ad.others r (not_mem_take_of_mem_drop hq.nodup hr)
      have c1 : (t1.streams r).id = (t.streams r).id := congrArg StreamCore.id hcore
      exact ⟨c1.trans (hq.fresh r (List.mem_of_mem_drop hr)).1, hcore⟩
  · intro n id s e r rest hl hnf hwait hcap hn
    exact remove_stream_admits n t id s e r rest hcl hg hq hk hl hnf hwait hcap hn

/-- C7 amended, at a client whose peer allows one stream, with one stream open
and one waiting: once the peer allows two, `maybe_start_some_streams` admits the
waiting stream with the id 3; and removing the open stream admits it as well. -/
theorem C7_admission_under_peer_limit_witness :
    one_waiting_client_raised.waiting_for_concurrency = [1]
      ∧ one_waiting_client_raised.stream_map = [(1, 0)]
      ∧ (∃ k t1, maybe_start_some_streams (remove_stream_fuel 1) one_waiting_client_raised
            = some t1
          ∧ k ≤ one_waiting_client_raised.waiting_for_concurrency.length
          ∧ t1.waiting_for_concurrency = one_waiting_client_raised.waiting_for_concurrency.drop k
          ∧ t1.stream_map = one_waiting_client_raised.stream_map
              ++ admitted_entries one_waiting_client_raised.next_stream_id
                  (one_waiting_client_raised.waiting_for_concurrency.take k)
          ∧ (k ≠ 0 → one_waiting_client_raised.stream_map.length + k
              ≤ one_waiting_client_raised.peer_max_concurrent_streams)
          ∧ (t1.waiting_for_concurrency = []
              ∨ t1.peer_max_concurrent_streams ≤ t1.stream_map.length)
          ∧ (∀ r, r ∈ t1.waiting_for_concurrency →
              (t1.streams r).id = 0
                ∧ (t1.streams r).core = (one_waiting_client_raised.streams r).core)
          ∧ t1.stream_map.length ≤ max one_waiting_client_raised.stream_map.length
              one_waiting_client_raised.peer_max_concurrent_streams)
      ∧ (maybe_start_some_streams (remove_stream_fuel 1) one_waiting_client_raised).map
          (fun t => (t.stream_map, t.waiting_for_concurrency)) = some ([(1, 0), (3, 1)], [])
      ∧ (∃ t1, remove_stream_fuel (0 + 1) one_waiting_client 1 .OkStatus = some t1
          ∧ (t1.streams 1).id = one_waiting_client.next_stream_id
          ∧ (one_waiting_client.next_stream_id, 1) ∈ t1.stream_map
          ∧ (∀ x, (1, x) ∉ t1.stream_map)) :=
  ⟨by decide!, by decide!,
    (C7_admission_under_peer_limit (remove_stream_fuel 1) one_waiting_client_raised
      (by decide!) (by decide!)
      (wfb_waiting_ok (reachable_inv
        (reachable_exec_state [.peer_settings 2] _
          (reachable_exec_state _ _
            (Reachable.init : Reachable 1 {} true _)))).1)
      (wfb_keys_lt (reachable_inv
        (reachable_exec_state [.peer_settings 2] _
          (reachable_exec_state _ _
            (Reachable.init : Reachable 1 {} true _)))).1 (by decide!))).1 (by decide!),
    by decide!,
    (C7_admission_under_peer_limit (remove_stream_fuel 1) one_waiting_client
      (by decide!) (by decide!)
      (wfb_waiting_ok (reachable_inv
        (reachable_exec_state _ _ (Reachable.init : Reachable 1 {} true _))).1)
      (wfb_keys_lt (reachable_inv
        (reachable_exec_state _ _ (Reachable.init : Reachable 1 {} true _))).1
        (by decide!))).2 0 1 0 .OkStatus 1 [] (by decide!) (by decide!) (by decide!)
      (by decide!) (by decide!)⟩

theorem gostep_cases {a b : grpc_chttp2_sent_goaway_state} (h : GoStep a b) :
    a = b ∨ (a = .NO_GOAWAY_SEND ∧ b = .GRACEFUL_GOAWAY)
      ∨ (a = .NO_GOAWAY_SEND ∧ b = .FINAL_GOAWAY_SEND_SCHEDULED)
      ∨ (a = .GRACEFUL_GOAWAY ∧ b = .FINAL_GOAWAY_SEND_SCHEDULED)
      ∨ (a = .FINAL_GOAWAY_SEND_SCHEDULED ∧ b = .FINAL_GOAWAY_SENT) := by
  rcases h with (h | ⟨h1, h2⟩) | ⟨h1, h2⟩
  · exact Or.inl h
  · cases a <;> cases b <;>
      simp [grpc_chttp2_sent_goaway_state.rank] at h1 h2 ⊢
  · exact Or.inr (Or.inr (Or.inr (Or.inr ⟨h1, h2⟩)))

theorem run_chain (fuel : Nat) : ∀ (ops : List Op) (t : T) (l : List T), Inv t →
    run fuel ops t = some l →
    List.Chain GoStep t.sent_goaway_state (l.map (fun x => x.sent_goaway_state))
  | [], t, l, _, h => by
    simp only [run, Option.some.injEq] at h
    subst h
    exact List.Chain.nil
  | op :: ops, t, l, hi, h => by
    unfold run at h
    cases hs : step fuel op t with
    | none => rw [hs] at h; exact absurd h (by simp)
    | some t1 =>
      rw [hs] at h
      simp only [Option.map_eq_some'] at h
      obtain ⟨l1, h1, rfl⟩ := h
      obtain ⟨i1, r1⟩ := step_inv fuel hi hs
      exact List.Chain.cons r1.go (run_chain fuel ops t1 l1 i1 h1)

theorem distinct_values_allowed : ∀ (l : List grpc_chttp2_sent_goaway_state)
    (a : grpc_chttp2_sent_goaway_state), List.Chain GoStep a l →
    distinct_values (a :: l) ∈ allowed_traces a
  | [], a, _ => by
    cases a <;> simp [distinct_values, allowed_traces]
  | b :: l, a, h => by
    obtain ⟨hab, hl⟩ := List.chain_cons.mp h
    have ih := distinct_values_allowed l b hl
    unfold distinct_values
    rcases gostep_cases hab with rfl | ⟨rfl, rfl⟩ | ⟨rfl, rfl⟩ | ⟨rfl, rfl⟩ | ⟨rfl, rfl⟩
    · rw [if_pos rfl]; exact ih
    · rw [if_neg (by decide)]
      simp only [allowed_traces, List.mem_cons, List.mem_singleton, List.not_mem_nil,
        or_false] at ih ⊢
      rcases ih with h1 | h1 | h1 <;> rw [h1] <;> simp
    · rw [if_neg (by decide)]
      simp only [allowed_traces, List.mem_cons, List.mem_singleton, List.not_mem_nil,
        or_false] at ih ⊢
      rcases ih with h1 | h1 <;> rw [h1] <;> simp
    · rw [if_neg (by decide)]
      simp only [allowed_traces, List.mem_cons, List.mem_singleton, List.not_mem_nil,
        or_false] at ih ⊢
      rcases ih with h1 | h1 <;> rw [h1] <;> simp
    · rw [if_neg (by decide)]
      simp only [allowed_traces, List.mem_cons, List.mem_singleton, List.not_mem_nil,
        or_false] at ih ⊢
      rw [ih]; simp

theorem create_transport_sent_goaway_state (ca : ChannelArgs) (ic : Bool) :
    (grpc_create_chttp2_transport ca ic).sent_goaway_state = .NO_GOAWAY_SEND := by
  have a := (create_transport_soft ca ic).sent_goaway_state
  have b := (read_channel_args_frame
    { is_client := ic, next_stream_id := if ic then 1 else 2 } ca ic).2.2.2.2.2.2.2.2.2
  exact a.trans b

/-- C8, refuted as written: a client that sends a GOAWAY with the immediate
disconnect hint goes from NO_GOAWAY_SEND to FINAL_GOAWAY_SEND_SCHEDULED at once;
the sequence of distinct values is not a prefix of the four-state list. -/
theorem C8_counterexample :
    (run 1 [.send_goaway (GRPC_ERROR_CREATE "bye") true]
        (grpc_create_chttp2_transport {} true)).map
      (fun l => distinct_values (sent_goaway_trace (grpc_create_chttp2_transport {} true) l))
      = some [.NO_GOAWAY_SEND, .FINAL_GOAWAY_SEND_SCHEDULED]
    ∧ ¬ ([grpc_chttp2_sent_goaway_state.NO_GOAWAY_SEND, .FINAL_GOAWAY_SEND_SCHEDULED]
          <+: [.NO_GOAWAY_SEND, .GRACEFUL_GOAWAY, .FINAL_GOAWAY_SEND_SCHEDULED,
               .FINAL_GOAWAY_SENT]) :=
  ⟨by decide!, by decide⟩

/-- C8, amended: for every sequence of handlers run on a new transport, the
sequence of distinct values taken by `sent_goaway_state` is a prefix of
[NO_GOAWAY_SEND, GRACEFUL_GOAWAY, FINAL_GOAWAY_SEND_SCHEDULED, FINAL_GOAWAY_SENT]
or a prefix of [NO_GOAWAY_SEND, FINAL_GOAWAY_SEND_SCHEDULED, FINAL_GOAWAY_SENT]. -/
theorem C8_goaway_state_order (fuel : Nat) (ca : ChannelArgs) (ic : Bool) (ops : List Op)
    (l : List T) (h : run fuel ops (grpc_create_chttp2_transport ca ic) = some l) :
    distinct_values (sent_goaway_trace (grpc_create_chttp2_transport ca ic) l)
        <+: [.NO_GOAWAY_SEND, .GRACEFUL_GOAWAY, .FINAL_GOAWAY_SEND_SCHEDULED,
             .FINAL_GOAWAY_SENT]
      ∨ distinct_values (sent_goaway_trace (grpc_create_chttp2_transport ca ic) l)
        <+: [.NO_GOAWAY_SEND, .FINAL_GOAWAY_SEND_SCHEDULED, .FINAL_GOAWAY_SENT] := by
  have hc := run_chain fuel ops _ l (create_transport_inv ca ic) h
  have ha := distinct_values_allowed _ _ hc
  rw [create_transport_sent_goaway_state] at ha
  have he : sent_goaway_trace (grpc_create_chttp2_transport ca ic) l
      = (grpc_create_chttp2_transport ca ic).sent_goaway_state
        :: l.map (fun x => x.sent_goaway_state) := rfl
  rw [he, create_transport_sent_goaway_state]
  generalize distinct_values _ = x at ha ⊢
  simp only [allowed_traces, List.mem_cons, List.mem_singleton, List.not_mem_nil,
    or_false] at ha
  rcases ha with h1 | h1 | h1 | h1 | h1 | h1 <;> subst h1
  · exact Or.inl ⟨_, rfl⟩
  · exact Or.inl ⟨_, rfl⟩
  · exact Or.inl ⟨_, rfl⟩
  · exact Or.inl ⟨_, rfl⟩
  · exact Or.inr ⟨_, rfl⟩
  · exact Or.inr ⟨_, rfl⟩

/-- C8 amended, at the run of a client that sends a GOAWAY with the immediate
disconnect hint and completes the write: the distinct values are the
three-state list. -/
theorem C8_goaway_state_order_witness :
    distinct_values (sent_goaway_trace (grpc_create_chttp2_transport {} true) goaway_run)
        = [.NO_GOAWAY_SEND, .FINAL_GOAWAY_SEND_SCHEDULED, .FINAL_GOAWAY_SENT]
      ∧ (distinct_values (sent_goaway_trace (grpc_create_chttp2_transport {} true) goaway_run)
          <+: [.NO_GOAWAY_SEND, .GRACEFUL_GOAWAY, .FINAL_GOAWAY_SEND_SCHEDULED,
               .FINAL_GOAWAY_SENT]
        ∨ distinct_values (sent_goaway_trace (grpc_create_chttp2_transport {} true) goaway_run)
          <+: [.NO_GOAWAY_SEND, .FINAL_GOAWAY_SEND_SCHEDULED, .FINAL_GOAWAY_SENT]) :=
  ⟨by decide!, C8_goaway_state_order 1 {} true _ goaway_run (run_eq_getD (by decide!))⟩

theorem initiate_write_frame (t : T) (r : grpc_chttp2_initiate_write_reason) :
    (grpc_chttp2_initiate_write t r).qbuf = t.qbuf
      ∧ (grpc_chttp2_initiate_write t r).sent_goaway_state = t.sent_goaway_state
      ∧ (grpc_chttp2_initiate_write t r).ping_requested = t.ping_requested
      ∧ (grpc_chttp2_initiate_write t r).ping_on_ack = t.ping_on_ack
      ∧ (grpc_chttp2_initiate_write t r).write_state ≠ .IDLE
      ∧ (t.write_state = .IDLE → (grpc_chttp2_initiate_write t r).finally_write_action_begin
          = t.finally_write_action_begin + 1)
      ∧ (t.write_state ≠ .IDLE → (grpc_chttp2_initiate_write t r).finally_write_action_begin
          = t.finally_write_action_begin) := by
  unfold grpc_chttp2_initiate_write
  cases h : t.write_state <;> simp [h]

theorem send_ping_locked_open (t : T) (a b : Option Closure)
    (ho : t.closed_with_error.ok = true) :
    send_ping_locked t a b
      = { t with ping_requested := true,
                 ping_on_initiate := t.ping_on_initiate ++ a.toList,
                 ping_on_ack := t.ping_on_ack ++ b.toList } := by
  unfold send_ping_locked
  rw [if_neg]
  rw [ho]
  decide

theorem ping_then_write_spec (t : T) (ho : t.closed_with_error.ok = true) :
    (grpc_chttp2_initiate_write
        (send_ping_locked t none (some .graceful_goaway_on_ping_ack))
        .GOAWAY_SENT).sent_goaway_state = t.sent_goaway_state
      ∧ (grpc_chttp2_initiate_write
          (send_ping_locked t none (some .graceful_goaway_on_ping_ack)) .GOAWAY_SENT).qbuf
          = t.qbuf
      ∧ (grpc_chttp2_initiate_write
          (send_ping_locked t none (some .graceful_goaway_on_ping_ack))
          .GOAWAY_SENT).ping_requested = true
      ∧ (grpc_chttp2_initiate_write
          (send_ping_locked t none (some .graceful_goaway_on_ping_ack))
          .GOAWAY_SENT).ping_on_ack = t.ping_on_ack ++ [.graceful_goaway_on_ping_ack]
      ∧ (grpc_chttp2_initiate_write
          (send_ping_locked t none (some .graceful_goaway_on_ping_ack))
          .GOAWAY_SENT).write_state ≠ .IDLE
      ∧ (t.write_state = .IDLE →
          (grpc_chttp2_initiate_write
            (send_ping_locked t none (some .graceful_goaway_on_ping_ack))
            .GOAWAY_SENT).finally_write_action_begin = t.finally_write_action_begin + 1) := by
  rw [send_ping_locked_open t _ _ ho]
  obtain ⟨b1, b2, b3, b4, b5, b6, _⟩ := initiate_write_frame
    { t with ping_requested := true,
             ping_on_initiate := t.ping_on_initiate ++ (none : Option Closure).toList,
             ping_on_ack := t.ping_on_ack
               ++ (some Closure.graceful_goaway_on_ping_ack).toList } .GOAWAY_SENT
  exact ⟨b2, b1, b3, b4, b5, b6⟩

theorem GracefulGoaway_Start_spec (t : T) (ho : t.closed_with_error.ok = true) :
    (GracefulGoaway_Start t).sent_goaway_state = .GRACEFUL_GOAWAY
      ∧ (GracefulGoaway_Start t).qbuf = t.qbuf ++ [.goaway (2 ^ 31 - 1) 0 ""]
      ∧ (GracefulGoaway_Start t).ping_requested = true
      ∧ (GracefulGoaway_Start t).ping_on_ack = t.ping_on_ack ++ [.graceful_goaway_on_ping_ack]
      ∧ (GracefulGoaway_Start t).write_state ≠ .IDLE
      ∧ (t.write_state = .IDLE → (GracefulGoaway_Start t).finally_write_action_begin
          = t.finally_write_action_begin + 1) :=
  ping_then_write_spec
    { t with sent_goaway_state := .GRACEFUL_GOAWAY,
             qbuf := grpc_chttp2_goaway_append (2 ^ 31 - 1) 0 "" t.qbuf,
             keepalive_timeout := cap_20s t.keepalive_timeout,
             ping_timeout := cap_20s t.ping_timeout } ho

/-- C9, refuted as written: on a closed server transport in the state
NO_GOAWAY_SEND, `send_goaway` with a NO_ERROR error and no immediate disconnect
hint moves to GRACEFUL_GOAWAY but requests no ping: `send_ping_locked` hands the
ack closure to the ExecCtx with the close error. -/
theorem C9_counterexample :
    closed_server.is_client = false
      ∧ closed_server.sent_goaway_state = .NO_GOAWAY_SEND
      ∧ grpc_error_get_http2_error no_error_goaway = GRPC_HTTP2_NO_ERROR
      ∧ (send_goaway closed_server no_error_goaway false).sent_goaway_state = .GRACEFUL_GOAWAY
      ∧ (send_goaway closed_server no_error_goaway false).ping_requested = false
      ∧ (send_goaway closed_server no_error_goaway false).ping_on_ack = [] := by
  decide!

/-- C9, amended: on a server transport that is not closed, in the state
NO_GOAWAY_SEND, `send_goaway` with an error whose HTTP/2 code is NO_ERROR and no
immediate disconnect hint sets the state to GRACEFUL_GOAWAY, appends to `qbuf` a
GOAWAY with last stream id 2^31-1 and error code 0, requests a ping whose ack
closure is that of the graceful GOAWAY, and initiates a write.  When the ack
closure runs with the state still GRACEFUL_GOAWAY on a transport neither
destroying nor closed, the state becomes FINAL_GOAWAY_SEND_SCHEDULED and a GOAWAY
with last stream id `last_new_stream_id` and error code 0 is appended; otherwise
the ack changes nothing. -/
theorem C9_graceful_goaway (t : T) (e : Status) :
    (t.is_client = false → t.sent_goaway_state = .NO_GOAWAY_SEND →
      t.closed_with_error.ok = true → grpc_error_get_http2_error e = GRPC_HTTP2_NO_ERROR →
      (send_goaway t e false).sent_goaway_state = .GRACEFUL_GOAWAY
        ∧ (send_goaway t e false).qbuf = t.qbuf ++ [.goaway (2 ^ 31 - 1) 0 ""]
        ∧ (send_goaway t e false).ping_requested = true
        ∧ (send_goaway t e false).ping_on_ack
            = t.ping_on_ack ++ [.graceful_goaway_on_ping_ack]
        ∧ (send_goaway t e false).write_state ≠ .IDLE
        ∧ (t.write_state = .IDLE → (send_goaway t e false).finally_write_action_begin
            = t.finally_write_action_begin + 1))
    ∧ (t.sent_goaway_state = .GRACEFUL_GOAWAY → t.destroying = false →
        t.closed_with_error.ok = true →
        (GracefulGoaway_MaybeSendFinalGoawayLocked t).sent_goaway_state
            = .FINAL_GOAWAY_SEND_SCHEDULED
          ∧ (GracefulGoaway_MaybeSendFinalGoawayLocked t).qbuf
              = t.qbuf ++ [.goaway t.last_new_stream_id 0 ""]
          ∧ (GracefulGoaway_MaybeSendFinalGoawayLocked t).write_state ≠ .IDLE)
    ∧ (t.sent_goaway_state ≠ .GRACEFUL_GOAWAY ∨ t.destroying = true
          ∨ t.closed_with_error.ok = false →
        GracefulGoaway_MaybeSendFinalGoawayLocked t = t) := by
  refine ⟨?_, ?_, ?_⟩
  · intro hc hs ho he
    have heq : send_goaway t e false
        = grpc_chttp2_initiate_write (GracefulGoaway_Start t) .GOAWAY_SENT := by
      simp only [send_goaway, hc, he, hs, and_self, if_true]
    rw [heq]
    obtain ⟨a1, a2, a3, a4, a5, a6, a7⟩ :=
      initiate_write_frame (GracefulGoaway_Start t) .GOAWAY_SENT
    obtain ⟨g1, g2, g3, g4, g5, g6⟩ := GracefulGoaway_Start_spec t ho
    rw [a1, a2, a3, a4]
    refine ⟨g1, g2, g3, g4, a5, fun hi => ?_⟩
    rw [a7 g5]
    exact g6 hi
  · intro hs hd ho
    have hno : ¬ (t.destroying = true ∨ t.closed_with_error.ok = false) := by
      rw [hd, ho]; decide
    have heq : GracefulGoaway_MaybeSendFinalGoawayLocked t
        = grpc_chttp2_initiate_write
            { t with sent_goaway_state := .FINAL_GOAWAY_SEND_SCHEDULED,
                     qbuf := grpc_chttp2_goaway_append t.last_new_stream_id 0 "" t.qbuf }
            .GOAWAY_SENT := by
      unfold GracefulGoaway_MaybeSendFinalGoawayLocked
      rw [if_neg (by rw [hs]; decide), if_neg hno]
    rw [heq]
    obtain ⟨a1, a2, _, _, a5, _, _⟩ := initiate_write_frame
      { t with sent_goaway_state := .FINAL_GOAWAY_SEND_SCHEDULED,
               qbuf := grpc_chttp2_goaway_append t.last_new_stream_id 0 "" t.qbuf }
      .GOAWAY_SENT
    exact ⟨a2, a1, a5⟩
  · intro h
    unfold GracefulGoaway_MaybeSendFinalGoawayLocked
    by_cases hs : t.sent_goaway_state = .GRACEFUL_GOAWAY
    · rw [if_neg (by rw [hs]; decide)]
      rcases h with h | h
      · exact absurd hs h
      · rw [if_pos h]
    · rw [if_pos hs]

/-- C9 amended, at a new server transport: the graceful GOAWAY is queued with a
ping, and the ack of the ping queues the final GOAWAY. -/
theorem C9_graceful_goaway_witness :
    (send_goaway (grpc_create_chttp2_transport {} false) no_error_goaway
        false).sent_goaway_state = .GRACEFUL_GOAWAY
      ∧ (GracefulGoaway_MaybeSendFinalGoawayLocked
          (send_goaway (grpc_create_chttp2_transport {} false) no_error_goaway
            false)).sent_goaway_state = .FINAL_GOAWAY_SEND_SCHEDULED :=
  ⟨((C9_graceful_goaway (grpc_create_chttp2_transport {} false) no_error_goaway).1
      (by decide!) (by decide!) (by decide!) (by decide!)).1,
    ((C9_graceful_goaway
        (send_goaway (grpc_create_chttp2_transport {} false) no_error_goaway false)
        no_error_goaway).2.1 (by decide!) (by decide!) (by decide!)).1⟩

/-! # Lemmas for the later claims -/

/-! ## Frames of the receive gates -/

theorem WithUrgency_frame (t : T) (u : Urgency) (reason : grpc_chttp2_initiate_write_reason)
    (action : T → T)
    (h : ∀ x, (action x).streams = x.streams ∧ (action x).exec_ctx = x.exec_ctx) :
    (WithUrgency t u reason action).streams = t.streams
      ∧ (WithUrgency t u reason action).exec_ctx = t.exec_ctx := by
  have hi : ∀ x : T, (grpc_chttp2_initiate_write x reason).streams = x.streams
      ∧ (grpc_chttp2_initiate_write x reason).exec_ctx = x.exec_ctx := by
    intro x
    unfold grpc_chttp2_initiate_write
    cases x.write_state <;> exact ⟨rfl, rfl⟩
  unfold WithUrgency
  cases u
  · exact ⟨rfl, rfl⟩
  · exact ⟨(h _).1.trans (hi t).1, (h _).2.trans (hi t).2⟩
  · exact h t

theorem act_on_flowctl_action_frame (a : FlowControlAction) (t : T) (s : Option Nat) :
    (grpc_chttp2_act_on_flowctl_action a t s).streams = t.streams
      ∧ (grpc_chttp2_act_on_flowctl_action a t s).exec_ctx = t.exec_ctx := by
  unfold grpc_chttp2_act_on_flowctl_action
  simp only
  have h1 : ∀ x : T, (match s with
    | some s =>
        if (x.streams s).id ≠ 0 ∧ (x.streams s).read_closed = false then
          grpc_chttp2_mark_stream_writable x s
        else x
    | none => x).streams = x.streams ∧ (match s with
    | some s =>
        if (x.streams s).id ≠ 0 ∧ (x.streams s).read_closed = false then
          grpc_chttp2_mark_stream_writable x s
        else x
    | none => x).exec_ctx = x.exec_ctx := by
    intro x
    cases s with
    | none => exact ⟨rfl, rfl⟩
    | some s =>
      simp only
      split
      · unfold grpc_chttp2_mark_stream_writable
        split <;> exact ⟨rfl, rfl⟩
      · exact ⟨rfl, rfl⟩
  have r1 := WithUrgency_frame t a.send_stream_update .STREAM_FLOW_CONTROL _ h1
  have r2 := fun x => WithUrgency_frame x a.send_transport_update .TRANSPORT_FLOW_CONTROL
    (fun t => t) (fun _ => ⟨rfl, rfl⟩)
  have r3 := fun x => WithUrgency_frame x a.send_initial_window_update .SEND_SETTINGS
    (fun t => { t with local_initial_window_size := a.initial_window_size })
    (fun _ => ⟨rfl, rfl⟩)
  have r4 := fun x => WithUrgency_frame x a.send_max_frame_size_update .SEND_SETTINGS
    (fun t => { t with local_max_frame_size := a.max_frame_size })
    (fun _ => ⟨rfl, rfl⟩)
  have r5 := fun x => WithUrgency_frame x a.preferred_rx_crypto_frame_size_update .SEND_SETTINGS
    (fun t => { t with local_preferred_receive_crypto_message_size :=
                 a.preferred_rx_crypto_frame_size })
    (fun _ => ⟨rfl, rfl⟩)
  split
  · exact ⟨(r5 _).1.trans ((r4 _).1.trans ((r3 _).1.trans ((r2 _).1.trans r1.1))),
      (r5 _).2.trans ((r4 _).2.trans ((r3 _).2.trans ((r2 _).2.trans r1.2)))⟩
  · exact ⟨(r4 _).1.trans ((r3 _).1.trans ((r2 _).1.trans r1.1)),
      (r4 _).2.trans ((r3 _).2.trans ((r2 _).2.trans r1.2))⟩

theorem set_stream_trailing_view (t : T) (s : Nat) (st : grpc_chttp2_stream)
    (h : st.trailing_view = (t.streams s).trailing_view) (r : Nat) :
    ((set_stream t s st).streams r).trailing_view = (t.streams r).trailing_view := by
  by_cases hr : r = s
  · subst hr
    rw [set_stream_streams_same]
    exact h
  · rw [set_stream_streams_ne _ _ hr]

theorem recv_message_drain_trailing_view (t : T) (s r : Nat) :
    (((recv_message_drain t s).1).streams r).trailing_view = (t.streams r).trailing_view := by
  simp only [recv_message_drain]
  repeat' split
  all_goals first
    | rfl
    | (refine set_stream_trailing_view t s _ ?_ r; rfl)

/-- The call of `grpc_chttp2_maybe_complete_recv_message` leaves alone the
latch of `recv_trailing_metadata`, the closed flags and the role. -/
theorem maybe_complete_recv_message_trailing_view (t : T) (s r : Nat) :
    ((grpc_chttp2_maybe_complete_recv_message t s).streams r).trailing_view
        = (t.streams r).trailing_view
      ∧ (grpc_chttp2_maybe_complete_recv_message t s).is_client = t.is_client := by
  refine ⟨?_, (softrel_maybe_complete_recv_message t s).is_client⟩
  simp only [grpc_chttp2_maybe_complete_recv_message]
  split
  · rfl
  · rw [(act_on_flowctl_action_frame _ _ _).1]
    refine Eq.trans ?_ (recv_message_drain_trailing_view t s r)
    repeat' split
    all_goals first
      | rfl
      | (refine set_stream_trailing_view _ s _ ?_ r; rfl)

theorem trailing_view_eq {a b : grpc_chttp2_stream} (h : a.trailing_view = b.trailing_view) :
    a.recv_trailing_metadata_finished = b.recv_trailing_metadata_finished
      ∧ a.read_closed = b.read_closed ∧ a.write_closed = b.write_closed
      ∧ a.collecting_stats = b.collecting_stats
      ∧ a.recv_trailing_metadata_moved = b.recv_trailing_metadata_moved := by
  simp only [grpc_chttp2_stream.trailing_view, Prod.mk.injEq] at h
  exact h

/-- The decision of `grpc_chttp2_maybe_complete_recv_trailing_metadata`, in
terms of the state `m` left by the call of
`grpc_chttp2_maybe_complete_recv_message` that opens it. -/
theorem maybe_complete_recv_trailing_metadata_spec (t : T) (s : Nat) (m : T)
    (hm : grpc_chttp2_maybe_complete_recv_message t s = m) :
    (∀ c, (m.streams s).recv_trailing_metadata_finished = some c →
        (m.streams s).read_closed = true → (m.streams s).write_closed = true →
        ((m.streams s).seen_error = true ∨ m.is_client = false
          ∨ (m.streams s).frame_storage = 0) →
        (grpc_chttp2_maybe_complete_recv_trailing_metadata t s).exec_ctx
            = m.exec_ctx ++ [(Closure.app c, Status.OkStatus)]
          ∧ ((grpc_chttp2_maybe_complete_recv_trailing_metadata t s).streams s
              ).trailing_view = (none, true, true, false, true)
          ∧ ((grpc_chttp2_maybe_complete_recv_trailing_metadata t s).streams s
              ).frame_storage = 0)
      ∧ (¬ ((m.streams s).recv_trailing_metadata_finished.isSome = true
            ∧ (m.streams s).read_closed = true ∧ (m.streams s).write_closed = true
            ∧ ((m.streams s).seen_error = true ∨ m.is_client = false
              ∨ (m.streams s).frame_storage = 0)) →
        (grpc_chttp2_maybe_complete_recv_trailing_metadata t s).exec_ctx = m.exec_ctx
          ∧ ((grpc_chttp2_maybe_complete_recv_trailing_metadata t s).streams s
              ).trailing_view = (m.streams s).trailing_view) := by
  constructor
  · intro c hc hr hw hz
    unfold grpc_chttp2_maybe_complete_recv_trailing_metadata
    simp only
    rw [hm, if_pos ⟨by rw [hc]; rfl, hr, hw⟩]
    by_cases hs : (m.streams s).seen_error = true ∨ m.is_client = false
    · rw [if_pos hs]
      simp only [hc, hr, true_and, if_true]
      refine ⟨rfl, ?_, ?_⟩
      · simp only [null_then_sched_closure, set_stream_streams_same,
          grpc_chttp2_stream.trailing_view, hr, hw]
      · simp only [null_then_sched_closure, set_stream_streams_same]
    · rw [if_neg hs]
      have hz0 : (m.streams s).frame_storage = 0 := by
        rcases hz with h | h | h
        · exact absurd (Or.inl h) hs
        · exact absurd (Or.inr h) hs
        · exact h
      simp only [hc, hr, hz0, true_and, if_true]
      refine ⟨rfl, ?_, ?_⟩
      · simp only [null_then_sched_closure, set_stream_streams_same,
          grpc_chttp2_stream.trailing_view, hr, hw]
      · simp only [null_then_sched_closure, set_stream_streams_same, hz0]
  · intro hn
    unfold grpc_chttp2_maybe_complete_recv_trailing_metadata
    simp only
    rw [hm]
    by_cases h1 : (m.streams s).recv_trailing_metadata_finished.isSome = true
        ∧ (m.streams s).read_closed = true ∧ (m.streams s).write_closed = true
    · rw [if_pos h1]
      have hs : ¬ ((m.streams s).seen_error = true ∨ m.is_client = false) := by
        intro h
        rcases h with h | h
        · exact hn ⟨h1.1, h1.2.1, h1.2.2, Or.inl h⟩
        · exact hn ⟨h1.1, h1.2.1, h1.2.2, Or.inr (Or.inl h)⟩
      have hz : (m.streams s).frame_storage ≠ 0 :=
        fun h => hn ⟨h1.1, h1.2.1, h1.2.2, Or.inr (Or.inr h)⟩
      rw [if_neg hs]
      split
      · rw [if_neg (fun h => hz h.2)]
        exact ⟨rfl, by rw [set_stream_streams_same]⟩
      · exact ⟨rfl, by rw [set_stream_streams_same]⟩
    · rw [if_neg h1]
      exact ⟨rfl, rfl⟩

/-! ## The slices of `close_from_api` -/

theorem slice_filled_some {alloc : Nat} {w : List Nat} {s : Slice}
    (h : slice_filled alloc w = some s) : s = .bytes w ∧ w.length = alloc := by
  unfold slice_filled at h
  split at h
  · next hl =>
    simp only [Option.some.injEq] at h
    exact ⟨h.symm, hl⟩
  · exact absurd h (by simp)

theorem slice_filled_of_length {alloc : Nat} {w : List Nat} (h : w.length = alloc) :
    slice_filled alloc w = some (.bytes w) := by
  unfold slice_filled
  rw [if_pos h]

theorem VarintWriteTail_length (v l : Nat) : (VarintWriteTail v l).length = l := by
  simp [VarintWriteTail]

theorem VarintWriter_length_pos (n : Nat) : 1 ≤ VarintWriter_length n := by
  unfold VarintWriter_length VarintLength
  split_ifs <;> omega

theorem VarintWriter_write_length (n : Nat) :
    (VarintWriter_write n).length = VarintWriter_length n := by
  unfold VarintWriter_write
  split
  · next h => rw [h]; rfl
  · have := VarintWriter_length_pos n
    simp only [List.length_cons, VarintWriteTail_length]
    omega

theorem grpc_status_digits_length (g : Nat) :
    ([0x00, 11] ++ ascii "grpc-status" ++
      (if g < 10 then [1, (48 + g) % 256]
       else [2, (48 + g / 10) % 256, (48 + g % 10) % 256])).length
      = 15 + (if g ≥ 10 then 1 else 0) := by
  have h : (ascii "grpc-status").length = 11 := by decide
  by_cases hg : g < 10
  · rw [if_pos hg, if_neg (by omega)]
    simp only [List.length_append, List.length_cons, List.length_nil, h]
  · rw [if_neg hg, if_pos (by omega)]
    simp only [List.length_append, List.length_cons, List.length_nil, h]

/-- What the lambda of `close_from_api` queues when it returns: the frame
header, the literal headers, the message and the RST_STREAM frame. -/
theorem close_from_api_emit_qbuf {t t1 : T} {sim : Bool} {id g : Nat} {m : String}
    (h : close_from_api_emit t sim id g m = some t1) :
    m.utf8ByteSize ≤ UINT32_MODULUS - 1
      ∧ ∃ len, len = ((if !sim then 13 + 31 else 0) + (15 + (if g ≥ 10 then 1 else 0))
            + (14 + VarintWriter_length m.utf8ByteSize) + m.utf8ByteSize) % UINT32_MODULUS
        ∧ t1.qbuf = t.qbuf
          ++ [QItem.slice (.bytes
              [(len / 65536) % 256, (len / 256) % 256, len % 256, GRPC_CHTTP2_FRAME_HEADER,
               GRPC_CHTTP2_DATA_FLAG_END_STREAM ||| GRPC_CHTTP2_DATA_FLAG_END_HEADERS,
               (id / 16777216) % 256, (id / 65536) % 256, (id / 256) % 256, id % 256])]
          ++ (if !sim then
                [QItem.slice (.bytes ([0x00, 7] ++ ascii ":status" ++ [3] ++ ascii "200")),
                 QItem.slice (.bytes ([0x00, 12] ++ ascii "content-type" ++ [16]
                   ++ ascii "application/grpc"))]
              else [])
          ++ [QItem.slice (.bytes ([0x00, 11] ++ ascii "grpc-status" ++
                (if g < 10 then [1, (48 + g) % 256]
                 else [2, (48 + g / 10) % 256, (48 + g % 10) % 256]))),
              QItem.slice (.bytes ([0x00, 12] ++ ascii "grpc-message"
                ++ VarintWriter_write m.utf8ByteSize)),
              QItem.slice (.str m),
              QItem.rst_stream id GRPC_HTTP2_NO_ERROR] := by
  unfold close_from_api_emit at h
  simp only [Option.bind_eq_bind, Option.bind_eq_some, Option.pure_def] at h
  obtain ⟨x1, h1, x2, h2, x3, h3, h⟩ := h
  obtain ⟨e1, l1⟩ := slice_filled_some h1
  obtain ⟨e2, l2⟩ := slice_filled_some h2
  obtain ⟨e3, l3⟩ := slice_filled_some h3
  split at h
  · next hm =>
    simp only [Option.bind_eq_some] at h
    obtain ⟨x4, h4, x5, h5, h⟩ := h
    obtain ⟨e4, l4⟩ := slice_filled_some h4
    obtain ⟨e5, l5⟩ := slice_filled_some h5
    simp only [Option.some.injEq] at h
    have k5 : ∃ len, x5 = .bytes
        [(len / 65536) % 256, (len / 256) % 256, len % 256, GRPC_CHTTP2_FRAME_HEADER,
          GRPC_CHTTP2_DATA_FLAG_END_STREAM ||| GRPC_CHTTP2_DATA_FLAG_END_HEADERS,
          (id / 16777216) % 256, (id / 65536) % 256, (id / 256) % 256, id % 256]
        ∧ len = ((if !sim then 13 + 31 else 0) + (15 + (if g ≥ 10 then 1 else 0))
            + (14 + VarintWriter_length m.utf8ByteSize) + m.utf8ByteSize) % UINT32_MODULUS := by
      refine ⟨_, e5, ?_⟩
      rw [e1, e2, e3, e4]
      simp only [Slice.length, l1, l2, l3, l4]
      generalize (if g ≥ 10 then 1 else 0) = a
      generalize VarintWriter_length m.utf8ByteSize = b
      cases sim <;> simp only [Bool.not_false, Bool.not_true, if_true, if_false,
        Bool.false_eq_true, UINT32_MODULUS] <;> omega
    obtain ⟨len, k5a, k5b⟩ := k5
    refine ⟨hm, len, k5b, ?_⟩
    subst h
    have q : ∀ x r, (grpc_chttp2_initiate_write x r).qbuf = x.qbuf := by
      intro x r
      unfold grpc_chttp2_initiate_write
      cases x.write_state <;> rfl
    rw [q]
    simp only [grpc_chttp2_add_rst_stream_to_next_write]
    rw [k5a, e1, e2, e3, e4]
    cases sim <;> simp only [Bool.not_false, Bool.not_true, if_true, if_false,
      Bool.false_eq_true, List.append_assoc, List.cons_append, List.nil_append]
  · exact absurd h (by simp)

/-- The lambda of `close_from_api` returns for every message of at most
UINT32_MAX bytes: each hand-built slice is filled to its allocated size. -/
theorem close_from_api_emit_total (t : T) (sim : Bool) (id g : Nat) (m : String)
    (hm : m.utf8ByteSize ≤ UINT32_MODULUS - 1) :
    ∃ t1, close_from_api_emit t sim id g m = some t1 := by
  have l1 : ([0x00, 7] ++ ascii ":status" ++ [3] ++ ascii "200").length = 13 := by decide
  have l2 : ([0x00, 12] ++ ascii "content-type" ++ [16] ++ ascii "application/grpc").length
      = 31 := by decide
  have l3 := grpc_status_digits_length g
  have l4 : ([0x00, 12] ++ ascii "grpc-message" ++ VarintWriter_write m.utf8ByteSize).length
      = 14 + VarintWriter_length m.utf8ByteSize := by
    have h : (ascii "grpc-message").length = 12 := by decide
    simp only [List.length_append, List.length_cons, List.length_nil, h,
      VarintWriter_write_length]
  unfold close_from_api_emit
  simp only [Option.bind_eq_bind, Option.pure_def, slice_filled_of_length l1,
    slice_filled_of_length l2, slice_filled_of_length l3, Option.some_bind, if_pos hm,
    slice_filled_of_length l4]
  rw [slice_filled_of_length (by rfl)]
  exact ⟨_, rfl⟩

/-! ## The close path, as functions -/

theorem samestreams_refl (t : T) : SameStreams t t := ⟨rfl, rfl, rfl, rfl, rfl⟩

theorem samestreams_trans {a b c : T} (h1 : SameStreams a b) (h2 : SameStreams b c) :
    SameStreams a c :=
  ⟨h2.is_client.trans h1.is_client, h2.goaway_error.trans h1.goaway_error,
    h2.streams.trans h1.streams, h2.stream_map.trans h1.stream_map,
    h2.waiting.trans h1.waiting⟩

theorem quiet_refl (t : T) : Quiet t t := ⟨rfl, rfl, fun _ h => h, fun _ _ => rfl, fun _ => rfl⟩

theorem quiet_trans {a b c : T} (h1 : Quiet a b) (h2 : Quiet b c) : Quiet a c where
  is_client := h2.is_client.trans h1.is_client
  goaway_error := h2.goaway_error.trans h1.goaway_error
  waiting := fun r h => h1.waiting r (h2.waiting r h)
  others := fun r h => (h2.others r (fun hb => h (h1.waiting r hb))).trans (h1.others r h)
  idle := fun h => by
    have hb : b.waiting_for_concurrency = [] := by
      apply List.eq_nil_iff_forall_not_mem.mpr
      intro r hr
      have := h1.waiting r hr
      rw [h] at this
      exact absurd this (List.not_mem_nil r)
    exact (h2.idle hb).trans (h1.idle h)

theorem quiet_of_same {t t1 : T} (h : SameStreams t t1) : Quiet t t1 where
  is_client := h.is_client
  goaway_error := h.goaway_error
  waiting := fun _ hr => h.waiting ▸ hr
  others := fun _ _ => by rw [h.streams]
  idle := fun _ => h.stream_map

theorem quiet_of_soft {t t1 : T} (h : SoftRel t t1) : Quiet t t1 where
  is_client := h.is_client
  goaway_error := h.goaway_error
  waiting := fun _ hr => h.waiting ▸ hr
  others := fun r _ => h.streams r
  idle := fun _ => h.stream_map

theorem quiet_of_all_cancelled {e : Status} {t t1 : T} (h : AllCancelled e t t1)
    (h1 : t1.is_client = t.is_client) (h2 : t1.goaway_error = t.goaway_error) :
    Quiet t t1 where
  is_client := h1
  goaway_error := h2
  waiting := fun r hr => by rw [h.waiting] at hr; exact absurd hr (List.not_mem_nil r)
  others := h.others
  idle := fun _ => h.stream_map

theorem admitted_entries_nil (next : Nat) : admitted_entries next [] = [] := rfl

theorem quiet_of_admitted {k : Nat} {t t1 : T} (h : Admitted k t t1)
    (h2 : t1.goaway_error = t.goaway_error) : Quiet t t1 where
  is_client := h.is_client
  goaway_error := h2
  waiting := fun r hr => by
    rw [h.waiting] at hr
    exact List.mem_of_mem_drop hr
  others := fun r hr => h.others r (fun hb => hr (List.mem_of_mem_take hb))
  idle := fun hw => by
    rw [h.stream_map, hw, List.take_nil, admitted_entries_nil, List.append_nil]

/-- Cancelling the waiting list returns, on a client as on a server. -/
theorem cancel_unstarted_streams_quiet {remove : RemoveStream} (hr : RemoveOK remove) (t : T)
    (e : Status) (tarpit : Bool) (hw : WFb t) :
    ∃ t1, cancel_unstarted_streams remove t e tarpit = some t1 ∧ Quiet t t1 ∧ WFb t1
      ∧ (FinalSentClosed t → FinalSentClosed t1)
      ∧ t1.stream_map = t.stream_map ∧ t1.waiting_for_concurrency = []
      ∧ AllCancelled e t t1 := by
  cases hc : t.is_client with
  | true =>
    obtain ⟨t1, h1, ac⟩ := cancel_waiting_loop_total remove e tarpit
      t.waiting_for_concurrency.length t hc (wfb_waiting_ok hw) (le_refl _)
    have h1b : cancel_unstarted_streams remove t e tarpit = some t1 := h1
    obtain ⟨p, _⟩ := cancel_unstarted_streams_pc hr hw h1b
    exact ⟨t1, h1b, quiet_of_all_cancelled ac p.rel.is_client p.rel.goaway_error, p.wf, p.fsc,
      ac.stream_map, ac.waiting, ac⟩
  | false =>
    have h0 : t.waiting_for_concurrency = [] := hw.wait_client hc
    have h1 : cancel_unstarted_streams remove t e tarpit = some t := by
      unfold cancel_unstarted_streams
      rw [h0]
      simp only [List.length_nil, cancel_waiting_loop]
      rw [if_pos h0]
    refine ⟨t, h1, quiet_refl t, hw, fun h => h, rfl, h0, h0, rfl, rfl, fun _ _ => rfl, ?_⟩
    intro r hr
    rw [h0] at hr
    exact absurd hr (List.not_mem_nil r)

/-- Admitting or cancelling the waiting streams returns. -/
theorem maybe_start_some_streams_quiet {remove : RemoveStream} (hr : RemoveOK remove) (t : T)
    (hw : WFb t) :
    ∃ t1, maybe_start_some_streams remove t = some t1 ∧ Quiet t t1 := by
  cases hc : t.is_client with
  | false =>
    exact ⟨t, maybe_start_some_streams_nothing_waiting remove t (hw.wait_client hc),
      quiet_refl t⟩
  | true =>
    by_cases hg : t.goaway_error.ok = true
    · obtain ⟨k, t4, t1, ad, _, _, _, _, h1, hcase⟩ :=
        maybe_start_some_streams_total remove t hc hg (wfb_waiting_ok hw) (wfb_keys_lt hw hc)
      have p := maybe_start_some_streams_pc hr hw h1
      refine ⟨t1, h1, ?_⟩
      rcases hcase with ⟨_, he⟩ | ⟨_, ac⟩
      · subst he
        exact quiet_of_admitted ad p.rel.goaway_error
      · refine ⟨p.rel.is_client, p.rel.goaway_error, ?_, ?_, ?_⟩
        · intro r hr
          rw [ac.waiting] at hr
          exact absurd hr (List.not_mem_nil r)
        · intro r hr
          have h4 : r ∉ t4.waiting_for_concurrency := by
            rw [ad.waiting]
            exact fun hb => hr (List.mem_of_mem_drop hb)
          rw [ac.others r h4]
          exact ad.others r (fun hb => hr (List.mem_of_mem_take hb))
        · intro hw0
          rw [ac.stream_map, ad.stream_map, hw0, List.take_nil, admitted_entries_nil,
            List.append_nil]
    · have hg2 : t.goaway_error.ok = false := by simpa using hg
      obtain ⟨t1, h1, q, _⟩ := cancel_unstarted_streams_quiet hr t t.goaway_error false hw
      refine ⟨t1, ?_, q⟩
      unfold maybe_start_some_streams
      rw [if_pos hg2]
      exact h1

theorem samestreams_exec_ctx_run (t : T) (c : Option Closure) (e : Status) :
    SameStreams t (exec_ctx_run t c e) := by
  unfold exec_ctx_run
  cases c <;> exact ⟨rfl, rfl, rfl, rfl, rfl⟩

theorem samestreams_close_transport_notify (t : T) (e : Status) :
    SameStreams t (close_transport_notify t e) := by
  unfold close_transport_notify
  exact samestreams_trans
    (samestreams_trans (show SameStreams t { t with notify_on_receive_settings := none }
      from ⟨rfl, rfl, rfl, rfl, rfl⟩) (samestreams_exec_ctx_run _ _ _))
    (samestreams_trans (show SameStreams _ { (exec_ctx_run
      { t with notify_on_receive_settings := none }
      (t.notify_on_receive_settings.map Closure.app) e) with notify_on_close := none }
      from ⟨rfl, rfl, rfl, rfl, rfl⟩) (samestreams_exec_ctx_run _ _ _))

/-- The part of `close_transport_locked` that follows `end_all_the_calls`
returns for a non-OK error and touches no stream. -/
theorem close_transport_tail (t : T) (e : Status) (he : e.ok = false) :
    ∃ t1,
      (if (cancel_pings t e).closed_with_error.ok then
        if (cancel_pings t e).write_state ≠ .IDLE then
          some (close_transport_defer (cancel_pings t e)
            (if !e.has_clear_grpc_status then grpc_error_set_rpc_status e GRPC_STATUS_UNAVAILABLE
             else e))
        else if (if !e.has_clear_grpc_status
            then grpc_error_set_rpc_status e GRPC_STATUS_UNAVAILABLE else e).ok then none
        else some (close_transport_notify (close_transport_now (cancel_pings t e)
          (if !e.has_clear_grpc_status then grpc_error_set_rpc_status e GRPC_STATUS_UNAVAILABLE
           else e))
          (if !e.has_clear_grpc_status then grpc_error_set_rpc_status e GRPC_STATUS_UNAVAILABLE
           else e))
      else some (close_transport_notify (cancel_pings t e) e)) = some t1
      ∧ SameStreams t t1 := by
  have hp : SameStreams t (cancel_pings t e) := ⟨rfl, rfl, rfl, rfl, rfl⟩
  have he2 : (if !e.has_clear_grpc_status
      then grpc_error_set_rpc_status e GRPC_STATUS_UNAVAILABLE else e).ok = false := by
    split
    · rw [set_rpc_status_ok]; exact he
    · exact he
  generalize cancel_pings t e = x at hp
  generalize (if !e.has_clear_grpc_status
      then grpc_error_set_rpc_status e GRPC_STATUS_UNAVAILABLE else e) = e2 at he2
  split
  · split
    · exact ⟨_, rfl, samestreams_trans hp ⟨rfl, rfl, rfl, rfl, rfl⟩⟩
    · rw [if_neg (by rw [he2]; simp)]
      refine ⟨_, rfl, samestreams_trans hp (samestreams_trans ?_
        (samestreams_close_transport_notify _ _))⟩
      exact ⟨rfl, rfl, rfl, rfl, rfl⟩
  · exact ⟨_, rfl, samestreams_trans hp (samestreams_close_transport_notify _ _)⟩

/-- Closing a transport whose map is empty, with a non-OK error: the call
returns and only streams of the waiting list are touched. -/
theorem close_transport_locked_quiet {remove : RemoveStream} (hr : RemoveOK remove) (t : T)
    (e : Status) (hw : WFb t) (hm : t.stream_map = []) (he : e.ok = false) :
    ∃ t1, close_transport_locked remove t e = some t1 ∧ Quiet t t1
      ∧ t1.stream_map = [] := by
  generalize he0 : (if t.is_client = false ∧ e.has_clear_grpc_status = false ∧ e.http2 = none
      then grpc_error_set_rpc_status e GRPC_STATUS_UNAVAILABLE else e) = e0
  obtain ⟨t2, h2, q2, _, _, m2, _, _⟩ := cancel_unstarted_streams_quiet hr t e0 false hw
  have h3 : end_all_the_calls remove t e = some t2 := by
    unfold end_all_the_calls
    simp only
    rw [he0, h2]
    simp only [Option.some_bind]
    rw [m2, hm]
    rfl
  obtain ⟨t1, h1, s1⟩ := close_transport_tail t2 e he
  refine ⟨t1, ?_, quiet_trans q2 (quiet_of_same s1), ?_⟩
  · unfold close_transport_locked
    rw [h3]
    simp only [Option.some_bind]
    exact h1
  · rw [s1.stream_map, m2, hm]

/-- The block `if (t->stream_map.empty())` of `remove_stream` returns and only
touches streams of the waiting list. -/
theorem remove_stream_maybe_close_quiet {remove : RemoveStream} (hr : RemoveOK remove)
    (t : T) (e : Status) (hw : WFb t) :
    ∃ t1, remove_stream_maybe_close remove t e = some t1 ∧ Quiet t t1
      ∧ t1.stream_map = t.stream_map := by
  unfold remove_stream_maybe_close
  by_cases hm : t.stream_map.isEmpty = true
  · rw [if_pos hm]
    have hm2 : t.stream_map = [] := List.isEmpty_iff.mp hm
    have sb := softrel_post_benign_reclaimer t
    simp only
    by_cases hs : (post_benign_reclaimer t).sent_goaway_state = .FINAL_GOAWAY_SENT
    · rw [if_pos hs]
      obtain ⟨t1, h1, q1, m1⟩ := close_transport_locked_quiet hr (post_benign_reclaimer t)
        (GRPC_ERROR_CREATE_REFERENCING "Last stream closed after sending GOAWAY" [e])
        (sb.softrel_wfx hw) (by rw [sb.stream_map]; exact hm2) rfl
      exact ⟨t1, h1, quiet_trans (quiet_of_soft sb) q1, by rw [m1, hm2]⟩
    · rw [if_neg hs]
      exact ⟨_, rfl, quiet_of_soft sb, sb.stream_map⟩
  · rw [if_neg hm]
    exact ⟨t, rfl, quiet_refl t, rfl⟩

/-- Removing the key of a closed stream of the map returns, with fuel for one
call. -/
theorem remove_stream_body_removed {remove : RemoveStream} (hr : RemoveOK remove) (t : T)
    (id s : Nat) (e : Status) (hw : WFx (some id) t)
    (hc : ∀ r, (id, r) ∈ t.stream_map → (t.streams r).closed)
    (hmem : (id, s) ∈ t.stream_map) :
    ∃ t1, remove_stream_body remove t id e = some t1 ∧ Removed id t t1 := by
  have key : ∀ x : T, x.is_client = t.is_client → x.goaway_error = t.goaway_error →
      x.waiting_for_concurrency = t.waiting_for_concurrency → x.streams = t.streams →
      x.stream_map = t.stream_map.filter (fun e => e.1 ≠ id) → WFb x →
      ∃ t1, (remove_stream_maybe_close remove x e).bind (fun t =>
          maybe_start_some_streams remove (remove_stream_from_lists t s)) = some t1
        ∧ Removed id t t1 := by
    intro x x1 x2 x3 x4 x5 hw2
    obtain ⟨t2, h2, q2, m2⟩ := remove_stream_maybe_close_quiet hr x e hw2
    obtain ⟨hw3, _, _⟩ := remove_stream_maybe_close_pc hr hw2 h2
    rw [h2]
    simp only [Option.some_bind]
    have sl := softrel_remove_stream_from_lists t2 s
    obtain ⟨t1, h1, q1⟩ := maybe_start_some_streams_quiet hr (remove_stream_from_lists t2 s)
      (sl.softrel_wfx hw3)
    have q := quiet_trans q2 (quiet_trans (quiet_of_soft sl) q1)
    refine ⟨t1, h1, ?_⟩
    refine ⟨q.is_client.trans x1, q.goaway_error.trans x2, ?_, ?_, ?_⟩
    · intro r hr2
      rw [← x3]
      exact q.waiting r hr2
    · intro r hr2
      rw [← x4]
      exact q.others r (by rw [x3]; exact hr2)
    · intro h0
      rw [q.idle (by rw [x3]; exact h0), x5]
  unfold remove_stream_body
  rw [lookup_of_mem hw.map_nodup hmem]
  simp only
  exact key _ rfl rfl rfl rfl rfl
    (extract_wf (if t.incoming_stream = some s then none else t.incoming_stream) hw hc)

theorem closed_core_closed (st : grpc_chttp2_stream) (e : Status) {x : grpc_chttp2_stream}
    (h : x.core = closed_core st e) : x.read_closed = true ∧ x.write_closed = true ∧ x.id = st.id := by
  have h1 := congrArg StreamCore.read_closed h
  have h2 := congrArg StreamCore.write_closed h
  have h3 := congrArg StreamCore.id h
  exact ⟨h1, h2, h3⟩

theorem closed_core_of_closed (st : grpc_chttp2_stream) (e : Status) (h : st.closed) :
    closed_core st e = st.core := by
  unfold closed_core grpc_chttp2_stream.core
  rw [h.1, h.2]
  rfl

/-- Closing a started stream that is open in some direction: the stream is
removed from the map, with fuel for one call of `remove_stream`. -/
theorem mark_stream_closed_started (n : Nat) (t : T) (s : Nat) (e : Status) (hw : WFb t)
    (hid : (t.streams s).id ≠ 0) (hopen : ¬ (t.streams s).closed) :
    ∃ t1, grpc_chttp2_mark_stream_closed (remove_stream_fuel (n + 1)) t s true true e = some t1
      ∧ StreamClosed s e t t1 := by
  have hmem : ((t.streams s).id, s) ∈ t.stream_map := hw.map_conv s hid hopen
  have hnw : s ∉ t.waiting_for_concurrency := fun h => hid (hw.wait_id s h).1
  have key : ∀ x : T, StreamRel s t x → (x.streams s).core = closed_core (t.streams s) e →
      x.waiting_for_concurrency = t.waiting_for_concurrency →
      ∃ t1,
        ((if ((x.streams s).read_closed && (x.streams s).write_closed) = true then
            (if (x.streams s).id ≠ 0 then
                remove_stream_fuel (n + 1) x (x.streams s).id
                  (removal_error e (x.streams s) "Stream removed")
              else some (grpc_chttp2_list_remove_waiting_for_concurrency x s)).map
              (fun t => if (!(removal_error e (x.streams s) "Stream removed").ok) = true
                then grpc_chttp2_fake_status t s (removal_error e (x.streams s) "Stream removed")
                else t)
          else some x).map (fun t1 =>
            if ((x.streams s).read_closed && (x.streams s).write_closed) = true then
              grpc_chttp2_maybe_complete_recv_trailing_metadata
                (if (true && !(t.streams s).read_closed) = true
                  then mark_stream_closed_publish t1 s else t1) s
            else (if (true && !(t.streams s).read_closed) = true
                  then mark_stream_closed_publish t1 s else t1))) = some t1
        ∧ StreamClosed s e t t1 := by
    intro x h2 hcore hwait
    obtain ⟨c1, c2, c3⟩ := closed_core_closed _ e hcore
    have hcl : (x.streams s).closed := ⟨c1, c2⟩
    have hb : ((x.streams s).read_closed && (x.streams s).write_closed) = true := by
      rw [c1, c2]; rfl
    have hid2 : (x.streams s).id ≠ 0 := by rw [c3]; exact hid
    rw [if_pos hb, if_pos hid2]
    have hwx : WFx (some (x.streams s).id) x := by
      refine h2.streamrel_wfx hw ?_ ?_ ?_ ?_
      · intro i r _ _ _; simp
      · intro i hm he
        exact absurd (congrArg some ((hw.map_id i s hm).1.symm.trans h2.id_eq.symm)) he
      · intro _ _; exact hmem
      · intro hs
        exact absurd (hw.wait_id s (h2.waiting.subset hs)).1 hid
    have hcl2 : ∀ r, ((x.streams s).id, r) ∈ x.stream_map → (x.streams r).closed := by
      intro r hm
      rw [h2.stream_map, h2.id_eq] at hm
      have := eq_of_mem_of_nodup_keys hw.map_nodup hm hmem
      subst this
      exact hcl
    have hmem2 : ((x.streams s).id, s) ∈ x.stream_map := by
      rw [h2.stream_map, h2.id_eq]; exact hmem
    obtain ⟨t4, h4, r4⟩ := remove_stream_body_removed (remove_stream_fuel_ok n) x
      (x.streams s).id s (removal_error e (x.streams s) "Stream removed") hwx hcl2 hmem2
    have h4b : remove_stream_fuel (n + 1) x (x.streams s).id
        (removal_error e (x.streams s) "Stream removed") = some t4 := h4
    rw [h4b]
    simp only [Option.map_some']
    rw [if_pos hb]
    refine ⟨_, rfl, ?_⟩
    have hs1 : SoftRel t4 (if (!(removal_error e (x.streams s) "Stream removed").ok) = true
        then grpc_chttp2_fake_status t4 s (removal_error e (x.streams s) "Stream removed")
        else t4) := by
      split
      · exact softrel_fake_status _ _ _
      · exact SoftRel.softrel_refl _
    generalize (if (!(removal_error e (x.streams s) "Stream removed").ok) = true
        then grpc_chttp2_fake_status t4 s (removal_error e (x.streams s) "Stream removed")
        else t4) = t5 at hs1
    have hs2 : SoftRel t5 (grpc_chttp2_maybe_complete_recv_trailing_metadata
        (if (true && !(t.streams s).read_closed) = true
          then mark_stream_closed_publish t5 s else t5) s) := by
      refine SoftRel.softrel_trans ?_ (softrel_maybe_complete_recv_trailing_metadata _ _)
      split
      · exact softrel_mark_stream_closed_publish _ _
      · exact SoftRel.softrel_refl _
    generalize (grpc_chttp2_maybe_complete_recv_trailing_metadata
        (if (true && !(t.streams s).read_closed) = true
          then mark_stream_closed_publish t5 s else t5) s) = t6 at hs2
    have hs := hs1.softrel_trans hs2
    have hnwx : s ∉ x.waiting_for_concurrency := by rw [hwait]; exact hnw
    refine ⟨by rw [hs.is_client, r4.is_client, h2.is_client],
      by rw [hs.goaway_error, r4.goaway_error, h2.goaway_error], ?_, ?_, ?_, ?_⟩
    · rw [hs.streams s, r4.others s hnwx, hcore]
    · intro r hr hrw
      rw [hs.streams r, r4.others r (by rw [hwait]; exact hrw)]
      exact h2.others r hr
    · intro r hr
      rw [hs.waiting] at hr
      have := r4.waiting r hr
      rw [hwait] at this
      exact this
    · intro h0 _ _
      rw [hs.stream_map, r4.idle (by rw [hwait]; exact h0), h2.stream_map, c3]
  have hrel : StreamRel s t (mark_stream_closed_writes (mark_stream_closed_reads t s true e) s
      true e) :=
    (streamrel_mark_stream_closed_reads t s true e).streamrel_trans
      (streamrel_mark_stream_closed_writes _ s true e)
  have hwt : (mark_stream_closed_writes (mark_stream_closed_reads t s true e) s
      true e).waiting_for_concurrency = t.waiting_for_concurrency := by
    rw [mark_stream_closed_writes_waiting, mark_stream_closed_reads_waiting]
  unfold grpc_chttp2_mark_stream_closed
  rw [if_neg (show ¬ ((t.streams s).read_closed = true ∧ (t.streams s).write_closed = true)
    from hopen)]
  exact key _ hrel (mark_closed_core t s e) hwt

theorem streamclosed_soft_left {s : Nat} {e : Status} {a b c : T} (h1 : SoftRel a b)
    (h2 : StreamClosed s e b c) : StreamClosed s e a c where
  is_client := h2.is_client.trans h1.is_client
  goaway_error := h2.goaway_error.trans h1.goaway_error
  core := h2.core.trans (closed_core_congr e (h1.streams s))
  others := fun r hr hw => (h2.others r hr (by rw [h1.waiting]; exact hw)).trans (h1.streams r)
  waiting := fun r hr => h1.waiting ▸ h2.waiting r hr
  idle := by
    intro h0 hid hop
    have hid1 : (b.streams s).id = (a.streams s).id := h1.id_eq s
    rw [h2.idle (by rw [h1.waiting]; exact h0) (by rw [hid1]; exact hid)
      (by
        intro hc
        apply hop
        have := h1.streams s
        exact ⟨(congrArg StreamCore.read_closed this).symm.trans hc.1,
          (congrArg StreamCore.write_closed this).symm.trans hc.2⟩),
      h1.stream_map, hid1]

theorem streamclosed_soft_right {s : Nat} {e : Status} {a b c : T} (h1 : StreamClosed s e a b)
    (h2 : SoftRel b c) : StreamClosed s e a c where
  is_client := h2.is_client.trans h1.is_client
  goaway_error := h2.goaway_error.trans h1.goaway_error
  core := (h2.streams s).trans h1.core
  others := fun r hr hw => (h2.streams r).trans (h1.others r hr hw)
  waiting := fun r hr => h1.waiting r (h2.waiting ▸ hr)
  idle := fun h0 hid hop => h2.stream_map.trans (h1.idle h0 hid hop)

theorem streamclosed_of_soft {s : Nat} (e : Status) {t t1 : T} (h : SoftRel t t1)
    (hc : (t.streams s).closed) : StreamClosed s e t t1 where
  is_client := h.is_client
  goaway_error := h.goaway_error
  core := (h.streams s).trans (closed_core_of_closed _ e hc).symm
  others := fun r _ _ => h.streams r
  waiting := fun _ hr => h.waiting ▸ hr
  idle := fun _ _ hop => absurd hc hop

theorem streamclosed_of_cancelled {s : Nat} {e : Status} {t t1 : T} (h : Cancelled s e t t1)
    (hid : (t.streams s).id = 0) : StreamClosed s e t t1 where
  is_client := h.rel.is_client
  goaway_error := h.rel.goaway_error
  core := h.core
  others := fun r hr _ => h.rel.others r hr
  waiting := fun _ hr => h.rel.waiting.subset hr
  idle := fun _ hid1 _ => absurd hid hid1

/-- Closing a stream that is closed already. -/
theorem mark_stream_closed_closed (remove : RemoveStream) (t : T) (s : Nat) (cr cw : Bool)
    (e : Status) (hc : (t.streams s).closed) :
    ∃ t1, grpc_chttp2_mark_stream_closed remove t s cr cw e = some t1 ∧ SoftRel t t1 := by
  unfold grpc_chttp2_mark_stream_closed
  rw [if_pos (show (t.streams s).read_closed = true ∧ (t.streams s).write_closed = true
    from hc)]
  refine ⟨_, rfl, ?_⟩
  refine SoftRel.softrel_trans ?_ (softrel_maybe_complete_recv_trailing_metadata _ _)
  split
  · exact softrel_fake_status _ _ _
  · exact SoftRel.softrel_refl _

/-- Closing a stream in both directions returns, with fuel for one call of
`remove_stream`. -/
theorem mark_stream_closed_total (n : Nat) (t : T) (s : Nat) (e : Status) (hw : WFb t) :
    ∃ t1, grpc_chttp2_mark_stream_closed (remove_stream_fuel (n + 1)) t s true true e = some t1
      ∧ StreamClosed s e t t1 := by
  by_cases hc : (t.streams s).closed
  · obtain ⟨t1, h1, r1⟩ := mark_stream_closed_closed (remove_stream_fuel (n + 1)) t s true true
      e hc
    exact ⟨t1, h1, streamclosed_of_soft e r1 hc⟩
  · by_cases hid : (t.streams s).id = 0
    · obtain ⟨t1, h1, r1⟩ := mark_stream_closed_unstarted (remove_stream_fuel (n + 1)) t s e
        hid hc
      exact ⟨t1, h1, streamclosed_of_cancelled r1 hid⟩
    · exact mark_stream_closed_started n t s e hw hid hc

/-- Without fuel the close of a started open stream does not return. -/
theorem mark_stream_closed_fuel_zero (t : T) (s : Nat) (e : Status)
    (hid : (t.streams s).id ≠ 0) (hopen : ¬ (t.streams s).closed) :
    grpc_chttp2_mark_stream_closed (remove_stream_fuel 0) t s true true e = none := by
  cases h : grpc_chttp2_mark_stream_closed (remove_stream_fuel 0) t s true true e with
  | none => rfl
  | some t1 =>
    exfalso
    unfold grpc_chttp2_mark_stream_closed at h
    rw [if_neg (show ¬ ((t.streams s).read_closed = true ∧ (t.streams s).write_closed = true)
      from hopen)] at h
    simp only [Option.map_eq_some'] at h
    obtain ⟨t3, h3, -⟩ := h
    have hcore := mark_closed_core t s e
    generalize mark_stream_closed_writes (mark_stream_closed_reads t s true e) s true e = t2
      at h3 hcore
    obtain ⟨c1, c2, c3⟩ := closed_core_closed _ e hcore
    split at h3
    · simp only [Option.map_eq_some'] at h3
      obtain ⟨t4, h4, -⟩ := h3
      split at h4
      · simp [remove_stream_fuel] at h4
      · next h5 => exact h5 (by rw [c3]; exact hid)
    · next hb => exact hb (by rw [c1, c2]; rfl)

/-- Closing a stream in both directions, whenever it returns. -/
theorem mark_stream_closed_spec (n : Nat) {t t1 : T} {s : Nat} {e : Status} (hw : WFb t)
    (h : grpc_chttp2_mark_stream_closed (remove_stream_fuel n) t s true true e = some t1) :
    StreamClosed s e t t1 := by
  cases n with
  | succ n =>
    obtain ⟨t2, h2, r2⟩ := mark_stream_closed_total n t s e hw
    rw [h2] at h
    cases h
    exact r2
  | zero =>
    by_cases hc : (t.streams s).closed
    · obtain ⟨t2, h2, r2⟩ := mark_stream_closed_closed (remove_stream_fuel 0) t s true true e hc
      rw [h2] at h
      cases h
      exact streamclosed_of_soft e r2 hc
    · by_cases hid : (t.streams s).id = 0
      · obtain ⟨t2, h2, r2⟩ := mark_stream_closed_unstarted (remove_stream_fuel 0) t s e hid hc
        rw [h2] at h
        cases h
        exact streamclosed_of_cancelled r2 hid
      · rw [mark_stream_closed_fuel_zero t s e hid hc] at h
        cases h

theorem run_tarpit_fn_rst_stream (t : T) (id http_error : Nat) :
    ∃ t1, run_tarpit_fn t (.rst_stream id http_error) = some t1 := ⟨_, rfl⟩

theorem maybe_tarpit_total (t : T) (tarpit : Bool) (fn : TarpitFn)
    (h : ∃ t1, run_tarpit_fn t fn = some t1) : ∃ t1, MaybeTarpit t tarpit fn = some t1 := by
  unfold MaybeTarpit
  split
  · exact h
  · exact ⟨_, rfl⟩

/-- The shape of `grpc_chttp2_cancel_stream`: a step that keeps the core
state, then `grpc_chttp2_mark_stream_closed` in both directions with the same
error, then the emission, which keeps the core state; the first two do not
depend on the tarpit flag. -/
theorem cancel_stream_factor (remove : RemoveStream) (t : T) (s : Nat) (e : Status) :
    ∃ t0, SoftRel t t0 ∧ ∀ tarpit t1, grpc_chttp2_cancel_stream remove t s e tarpit = some t1 →
      ∃ t2, grpc_chttp2_mark_stream_closed remove t0 s true true e = some t2
        ∧ SoftRel t2 t1 := by
  by_cases hif : t.is_client = false ∧ (t.streams s).sent_trailing_metadata = false
      ∧ e.has_clear_grpc_status = true
      ∧ ¬ ((t.streams s).read_closed = true ∧ (t.streams s).write_closed = true)
  · refine ⟨t, SoftRel.softrel_refl t, ?_⟩
    intro tarpit t1 h
    unfold grpc_chttp2_cancel_stream at h
    rw [if_pos hif] at h
    unfold close_from_api at h
    simp only at h
    split at h
    · simp only [Option.bind_eq_some] at h
      obtain ⟨t2, h2, h3⟩ := h
      exact ⟨t2, h2, softrel_MaybeTarpit h3⟩
    · exact absurd h (by simp)
  · refine ⟨if e.ok = false ∧ (t.streams s).seen_error = false then
        set_stream t s { (t.streams s) with seen_error := true } else t, ?_, ?_⟩
    · split
      · refine softrel_set_stream t s _ ?_
        rfl
      · exact SoftRel.softrel_refl t
    · intro tarpit t1 h
      unfold grpc_chttp2_cancel_stream at h
      rw [if_neg hif] at h
      simp only at h
      generalize (if e.ok = false ∧ (t.streams s).seen_error = false then
        set_stream t s { (t.streams s) with seen_error := true } else t) = t0 at h ⊢
      split at h
      · simp only [Option.bind_eq_some] at h
        obtain ⟨t2, h2, h3⟩ := h
        exact ⟨t2, h2, softrel_MaybeTarpit h3⟩
      · exact ⟨t1, h, SoftRel.softrel_refl t1⟩

/-- Cancelling a stream returns when closing it does, unless the trailers to
emit are refused: a gRPC status of three digits or a message longer than
UINT32_MAX bytes, on a server. -/
theorem cancel_stream_returns (remove : RemoveStream) (t : T) (s : Nat) (e : Status)
    (tarpit : Bool)
    (hm : ∀ t0, SoftRel t t0 → ∃ t2, grpc_chttp2_mark_stream_closed remove t0 s true true e
      = some t2)
    (hok : t.is_client = true ∨ (grpc_error_get_grpc_status e < 100
      ∧ e.message.utf8ByteSize ≤ UINT32_MODULUS - 1)) :
    ∃ t1, grpc_chttp2_cancel_stream remove t s e tarpit = some t1 := by
  unfold grpc_chttp2_cancel_stream
  split
  · next hif =>
    have hg : grpc_error_get_grpc_status e < 100
        ∧ e.message.utf8ByteSize ≤ UINT32_MODULUS - 1 := by
      rcases hok with h | h
      · rw [hif.1] at h
        cases h
      · exact h
    unfold close_from_api
    simp only
    rw [if_pos hg.1]
    obtain ⟨t2, h2⟩ := hm t (SoftRel.softrel_refl t)
    rw [h2]
    simp only [Option.some_bind]
    apply maybe_tarpit_total
    exact close_from_api_emit_total _ _ _ _ _ hg.2
  · simp only
    have h0 : SoftRel t (if e.ok = false ∧ (t.streams s).seen_error = false then
        set_stream t s { (t.streams s) with seen_error := true } else t) := by
      split
      · refine softrel_set_stream t s _ ?_
        rfl
      · exact SoftRel.softrel_refl t
    generalize (if e.ok = false ∧ (t.streams s).seen_error = false then
        set_stream t s { (t.streams s) with seen_error := true } else t) = t0 at h0 ⊢
    obtain ⟨t2, h2⟩ := hm t0 h0
    rw [h2]
    split
    · simp only [Option.some_bind]
      apply maybe_tarpit_total
      exact run_tarpit_fn_rst_stream _ _ _
    · exact ⟨t2, rfl⟩

/-- Cancelling a stream, whenever it returns: the stream is closed in both
directions. -/
theorem cancel_stream_spec (n : Nat) {t t1 : T} {s : Nat} {e : Status} {tarpit : Bool}
    (hw : WFb t) (h : grpc_chttp2_cancel_stream (remove_stream_fuel n) t s e tarpit = some t1) :
    StreamClosed s e t t1 := by
  obtain ⟨t0, h0, hf⟩ := cancel_stream_factor (remove_stream_fuel n) t s e
  obtain ⟨t2, h2, h3⟩ := hf tarpit t1 h
  exact streamclosed_soft_left h0
    (streamclosed_soft_right (mark_stream_closed_spec n (h0.softrel_wfx hw) h2) h3)

/-- Cancelling a stream returns, with fuel for one call of `remove_stream`. -/
theorem cancel_stream_total (n : Nat) (t : T) (s : Nat) (e : Status) (tarpit : Bool)
    (hw : WFb t)
    (hok : t.is_client = true ∨ (grpc_error_get_grpc_status e < 100
      ∧ e.message.utf8ByteSize ≤ UINT32_MODULUS - 1)) :
    ∃ t1, grpc_chttp2_cancel_stream (remove_stream_fuel (n + 1)) t s e tarpit = some t1
      ∧ StreamClosed s e t t1 ∧ WFb t1 := by
  obtain ⟨t1, h1⟩ := cancel_stream_returns (remove_stream_fuel (n + 1)) t s e tarpit
    (fun t0 h0 => by
      obtain ⟨t2, h2, -⟩ := mark_stream_closed_total n t0 s e (h0.softrel_wfx hw)
      exact ⟨t2, h2⟩) hok
  exact ⟨t1, h1, cancel_stream_spec (n + 1) hw h1,
    (cancel_stream_pc (remove_stream_fuel_ok (n + 1)) hw h1).wf⟩

theorem filter_key_eq_filter_stream {t : T} (hw : WFb t) (s : Nat)
    (hmem : ((t.streams s).id, s) ∈ t.stream_map) :
    t.stream_map.filter (fun x => x.1 ≠ (t.streams s).id)
      = t.stream_map.filter (fun x => decide (x.2 ∉ [s])) := by
  apply List.filter_congr
  intro x hx
  have hid := (hw.map_id x.1 x.2 hx).1
  by_cases h : x.2 = s
  · have : x.1 = (t.streams s).id := by rw [← hid, h]
    simp [h, this]
  · have : x.1 ≠ (t.streams s).id := by
      intro h1
      apply h
      have hx1 : ((t.streams s).id, x.2) ∈ t.stream_map := by rw [← h1]; exact hx
      exact eq_of_mem_of_nodup_keys hw.map_nodup hx1 hmem
    simp [h, this]

/-- One stream of the map cancelled, after a step that kept all but its tag. -/
theorem streamsclosed_one {t t0 t2 : T} {s : Nat} {e : Status} (hw : WFb t)
    (h0 : t.waiting_for_concurrency = []) (hmem : ((t.streams s).id, s) ∈ t.stream_map)
    (hc : StreamClosed s e t0 t2)
    (e1 : t0.is_client = t.is_client) (e2 : t0.goaway_error = t.goaway_error)
    (e3 : t0.waiting_for_concurrency = t.waiting_for_concurrency)
    (e4 : t0.stream_map = t.stream_map)
    (e5 : ∀ r, r ≠ s → (t0.streams r).core = (t.streams r).core)
    (e6 : (t0.streams s).id = (t.streams s).id)
    (e7 : (t0.streams s).read_closed = (t.streams s).read_closed)
    (e8 : (t0.streams s).write_closed = (t.streams s).write_closed)
    (e9 : (t0.streams s).read_closed_error = (t.streams s).read_closed_error)
    (e10 : (t0.streams s).write_closed_error = (t.streams s).write_closed_error) :
    StreamsClosed e [s] t t2 where
  is_client := hc.is_client.trans e1
  goaway_error := hc.goaway_error.trans e2
  waiting := by
    cases hl : t2.waiting_for_concurrency with
    | nil => rfl
    | cons a l =>
      have := hc.waiting a (by rw [hl]; exact List.mem_cons_self _ _)
      rw [e3, h0] at this
      cases this
  stream_map := by
    have hopen : ¬ (t.streams s).closed := hw.map_open _ s hmem (by simp)
    have hid := (hw.map_id _ s hmem).2
    rw [hc.idle (by rw [e3, h0]) (by rw [e6]; exact hid)
      (by
        intro h
        exact hopen ⟨e7 ▸ h.1, e8 ▸ h.2⟩), e4, e6]
    exact filter_key_eq_filter_stream hw s hmem
  others := by
    intro r hr
    have hrs : r ≠ s := by simpa using hr
    rw [hc.others r hrs (by rw [e3, h0]; simp), e5 r hrs]
  closed := by
    intro r hr
    have hrs : r = s := by simpa using hr
    subst hrs
    refine ⟨(t0.streams r).trailing_network_state, hc.core.trans ?_⟩
    unfold closed_core
    rw [e6, e7, e8, e9, e10]

theorem streamsclosed_nil (e : Status) (t : T) (h0 : t.waiting_for_concurrency = []) :
    StreamsClosed e [] t t where
  is_client := rfl
  goaway_error := rfl
  waiting := h0
  stream_map := by simp
  others := fun _ _ => rfl
  closed := fun r hr => by cases hr

theorem streamsclosed_cons {e : Status} {s : Nat} {l : List Nat} {t t2 t1 : T}
    (h1 : StreamsClosed e [s] t t2) (h2 : StreamsClosed e l t2 t1) (hs : s ∉ l) :
    StreamsClosed e (s :: l) t t1 where
  is_client := h2.is_client.trans h1.is_client
  goaway_error := h2.goaway_error.trans h1.goaway_error
  waiting := h2.waiting
  stream_map := by
    rw [h2.stream_map, h1.stream_map, List.filter_filter]
    apply List.filter_congr
    intro x _
    by_cases a : x.2 = s <;> by_cases b : x.2 ∈ l <;> simp [a, b]
  others := by
    intro r hr
    simp only [List.mem_cons, not_or] at hr
    rw [h2.others r hr.2, h1.others r (by simpa using hr.1)]
  closed := by
    intro r hr
    rcases List.mem_cons.mp hr with h | h
    · subst h
      obtain ⟨tag, ht⟩ := h1.closed r (List.mem_singleton.mpr rfl)
      exact ⟨tag, (h2.others r hs).trans ht⟩
    · have hrs : r ∉ [s] := by
        intro h3
        have : r = s := by simpa using h3
        exact hs (this ▸ h)
      obtain ⟨tag, ht⟩ := h2.closed r h
      exact ⟨tag, ht.trans (by rw [closed_core_congr e (h1.others r hrs)])⟩

/-- What the loops over the streams to cancel keep: the streams left are
distinct and in the map, and nothing waits. -/
theorem loop_pre_step {e : Status} {s : Nat} {l : List Nat} {t t2 : T}
    (h1 : StreamsClosed e [s] t t2) (hn : (s :: l).Nodup)
    (hm : ∀ r, r ∈ s :: l → ((t.streams r).id, r) ∈ t.stream_map) :
    t2.waiting_for_concurrency = [] ∧ l.Nodup
      ∧ ∀ r, r ∈ l → ((t2.streams r).id, r) ∈ t2.stream_map := by
  refine ⟨h1.waiting, (List.nodup_cons.mp hn).2, ?_⟩
  intro r hr
  have hrs : r ≠ s := fun h => (List.nodup_cons.mp hn).1 (h ▸ hr)
  have hc := h1.others r (by simpa using hrs)
  have hid : (t2.streams r).id = (t.streams r).id := congrArg StreamCore.id hc
  rw [hid, h1.stream_map]
  refine List.mem_filter.mpr ⟨hm r (List.mem_cons_of_mem _ hr), ?_⟩
  simpa using hrs

theorem retag_streamsclosed {t t2 : T} {s : Nat} {e : Status}
    {tag : Option GrpcStreamNetworkState} (hw : WFb t)
    (h0 : t.waiting_for_concurrency = []) (hmem : ((t.streams s).id, s) ∈ t.stream_map)
    (hc : StreamClosed s e
      (set_stream t s { (t.streams s) with trailing_network_state := tag }) t2) :
    StreamsClosed e [s] t t2 ∧ (t2.streams s).trailing_network_state = tag := by
  refine ⟨streamsclosed_one hw h0 hmem hc rfl rfl rfl rfl ?_ ?_ ?_ ?_ ?_ ?_, ?_⟩
  · intro r hr
    rw [set_stream_streams_ne _ _ hr]
  · rw [set_stream_streams, if_pos rfl]
  · rw [set_stream_streams, if_pos rfl]
  · rw [set_stream_streams, if_pos rfl]
  · rw [set_stream_streams, if_pos rfl]
  · rw [set_stream_streams, if_pos rfl]
  · have := congrArg StreamCore.trailing_network_state hc.core
    rw [set_stream_streams, if_pos rfl] at this
    exact this

/-- The loop of `grpc_chttp2_add_incoming_goaway` over streams of the map,
whenever it returns. -/
theorem cancel_unseen_loop_spec (n : Nat) :
    ∀ (l : List Nat) (t t1 : T), WFb t → t.waiting_for_concurrency = [] → l.Nodup →
      (∀ r, r ∈ l → ((t.streams r).id, r) ∈ t.stream_map) →
      cancel_unseen_loop (remove_stream_fuel n) l t = some t1 →
      WFb t1 ∧ StreamsClosed t.goaway_error l t t1
        ∧ ∀ r, r ∈ l → (t1.streams r).trailing_network_state = some .kNotSeenByServer
  | [], t, t1, hw, h0, _, _, h => by
    simp only [cancel_unseen_loop, Option.some.injEq] at h
    subst h
    exact ⟨hw, streamsclosed_nil _ _ h0, fun r hr => by cases hr⟩
  | s :: l, t, t1, hw, h0, hn, hm, h => by
    simp only [cancel_unseen_loop, Option.bind_eq_some] at h
    obtain ⟨t2, h2, h3⟩ := h
    have p1 : Post t (set_stream t s
        { (t.streams s) with trailing_network_state := some .kNotSeenByServer }) :=
      retag_post s _ hw rfl rfl rfl
    have hc := cancel_stream_spec n p1.wf h2
    have hw2 := (cancel_stream_pc (remove_stream_fuel_ok n) p1.wf h2).wf
    obtain ⟨o1, g1⟩ := retag_streamsclosed hw h0 (hm s (List.mem_cons_self _ _)) hc
    obtain ⟨w2, n2, m2⟩ := loop_pre_step o1 hn hm
    obtain ⟨hw1, o2, tg⟩ := cancel_unseen_loop_spec n l t2 t1 hw2 w2 n2 m2 h3
    rw [o1.goaway_error] at o2
    have hs : s ∉ l := (List.nodup_cons.mp hn).1
    refine ⟨hw1, streamsclosed_cons o1 o2 hs, ?_⟩
    intro r hr
    rcases List.mem_cons.mp hr with h | h
    · subst h
      have := congrArg StreamCore.trailing_network_state (o2.others r hs)
      exact this.trans g1
    · exact tg r h

/-- The loop of `grpc_chttp2_add_incoming_goaway` returns on a client, with
fuel for one call of `remove_stream`. -/
theorem cancel_unseen_loop_total (n : Nat) :
    ∀ (l : List Nat) (t : T), WFb t → t.is_client = true → t.waiting_for_concurrency = [] →
      l.Nodup → (∀ r, r ∈ l → ((t.streams r).id, r) ∈ t.stream_map) →
      ∃ t1, cancel_unseen_loop (remove_stream_fuel (n + 1)) l t = some t1
  | [], t, _, _, _, _, _ => ⟨t, rfl⟩
  | s :: l, t, hw, hic, h0, hn, hm => by
    have p1 : Post t (set_stream t s
        { (t.streams s) with trailing_network_state := some .kNotSeenByServer }) :=
      retag_post s _ hw rfl rfl rfl
    obtain ⟨t2, h2, hc, hw2⟩ := cancel_stream_total n _ s t.goaway_error false p1.wf
      (Or.inl hic)
    obtain ⟨o1, -⟩ := retag_streamsclosed hw h0 (hm s (List.mem_cons_self _ _)) hc
    obtain ⟨w2, n2, m2⟩ := loop_pre_step o1 hn hm
    obtain ⟨t1, h1⟩ := cancel_unseen_loop_total n l t2 hw2 (o1.is_client.trans hic) w2 n2 m2
    refine ⟨t1, ?_⟩
    simp only [cancel_unseen_loop]
    rw [h2]
    exact h1

/-- The loop of `end_all_the_calls` over streams of the map, whenever it
returns. -/
theorem cancel_streams_loop_spec (n : Nat) (e : Status) :
    ∀ (l : List Nat) (t t1 : T), WFb t → t.waiting_for_concurrency = [] → l.Nodup →
      (∀ r, r ∈ l → ((t.streams r).id, r) ∈ t.stream_map) →
      cancel_streams_loop (remove_stream_fuel n) e l t = some t1 →
      WFb t1 ∧ StreamsClosed e l t t1
  | [], t, t1, hw, h0, _, _, h => by
    simp only [cancel_streams_loop, Option.some.injEq] at h
    subst h
    exact ⟨hw, streamsclosed_nil _ _ h0⟩
  | s :: l, t, t1, hw, h0, hn, hm, h => by
    simp only [cancel_streams_loop, Option.bind_eq_some] at h
    obtain ⟨t2, h2, h3⟩ := h
    have hc := cancel_stream_spec n hw h2
    have hw2 := (cancel_stream_pc (remove_stream_fuel_ok n) hw h2).wf
    have o1 : StreamsClosed e [s] t t2 :=
      streamsclosed_one hw h0 (hm s (List.mem_cons_self _ _)) hc rfl rfl rfl rfl
        (fun _ _ => rfl) rfl rfl rfl rfl rfl
    obtain ⟨w2, n2, m2⟩ := loop_pre_step o1 hn hm
    obtain ⟨hw1, o2⟩ := cancel_streams_loop_spec n e l t2 t1 hw2 w2 n2 m2 h3
    exact ⟨hw1, streamsclosed_cons o1 o2 (List.nodup_cons.mp hn).1⟩

/-- The loop of `end_all_the_calls` returns, with fuel for one call of
`remove_stream`, unless the trailers to emit are refused. -/
theorem cancel_streams_loop_total (n : Nat) (e : Status) :
    ∀ (l : List Nat) (t : T), WFb t → t.waiting_for_concurrency = [] → l.Nodup →
      (∀ r, r ∈ l → ((t.streams r).id, r) ∈ t.stream_map) →
      (t.is_client = true ∨ (grpc_error_get_grpc_status e < 100
        ∧ e.message.utf8ByteSize ≤ UINT32_MODULUS - 1)) →
      ∃ t1, cancel_streams_loop (remove_stream_fuel (n + 1)) e l t = some t1
  | [], t, _, _, _, _, _ => ⟨t, rfl⟩
  | s :: l, t, hw, h0, hn, hm, hok => by
    obtain ⟨t2, h2, hc, hw2⟩ := cancel_stream_total n t s e false hw hok
    have o1 : StreamsClosed e [s] t t2 :=
      streamsclosed_one hw h0 (hm s (List.mem_cons_self _ _)) hc rfl rfl rfl rfl
        (fun _ _ => rfl) rfl rfl rfl rfl rfl
    obtain ⟨w2, n2, m2⟩ := loop_pre_step o1 hn hm
    have hok2 : t2.is_client = true ∨ (grpc_error_get_grpc_status e < 100
        ∧ e.message.utf8ByteSize ≤ UINT32_MODULUS - 1) := by
      rcases hok with h | h
      · exact Or.inl (o1.is_client.trans h)
      · exact Or.inr h
    obtain ⟨t1, h1⟩ := cancel_streams_loop_total n e l t2 hw2 w2 n2 m2 hok2
    refine ⟨t1, ?_⟩
    simp only [cancel_streams_loop]
    rw [h2]
    exact h1

/-- The streams of the map, in the order of the map: distinct, each under its
id. -/
theorem map_streams_pre {t : T} (hw : WFb t) (p : Nat × Nat → Bool) :
    ((t.stream_map.filter p).map (fun id_stream => id_stream.2)).Nodup
      ∧ ∀ r, r ∈ (t.stream_map.filter p).map (fun id_stream => id_stream.2) →
          ((t.streams r).id, r) ∈ t.stream_map := by
  constructor
  · have hk : ((t.stream_map.filter p).map Prod.fst).Nodup :=
      (List.filter_sublist _).map Prod.fst |>.nodup hw.map_nodup
    refine List.Nodup.of_map (fun r => (t.streams r).id) ?_
    rw [List.map_map]
    have : (t.stream_map.filter p).map ((fun r => (t.streams r).id) ∘ fun id_stream => id_stream.2)
        = (t.stream_map.filter p).map Prod.fst := by
      apply List.map_congr_left
      intro x hx
      exact (hw.map_id x.1 x.2 (List.mem_of_mem_filter hx)).1
    rw [this]
    exact hk
  · intro r hr
    obtain ⟨x, hx, rfl⟩ := List.mem_map.mp hr
    have hx1 := List.mem_of_mem_filter hx
    rw [(hw.map_id x.1 x.2 hx1).1]
    exact hx1

theorem cancelled_core_closed (st : grpc_chttp2_stream) (e : Status) {x : grpc_chttp2_stream}
    (h : x.core = cancelled_core st e) : x.read_closed = true ∧ x.write_closed = true
      ∧ x.id = st.id ∧ x.trailing_network_state = some .kNotSentOnWire :=
  ⟨congrArg StreamCore.read_closed h, congrArg StreamCore.write_closed h,
    congrArg StreamCore.id h, congrArg StreamCore.trailing_network_state h⟩

theorem streamsclosed_closed {e : Status} {l : List Nat} {t t1 : T}
    (h : StreamsClosed e l t t1) {r : Nat} (hr : r ∈ l) :
    (t1.streams r).read_closed = true ∧ (t1.streams r).write_closed = true := by
  obtain ⟨tag, ht⟩ := h.closed r hr
  exact ⟨congrArg StreamCore.read_closed ht, congrArg StreamCore.write_closed ht⟩

/-- The streams of the map above `last`, as streams. -/
theorem unseen_filter {t : T} (hw : WFb t) (last : Nat) :
    t.stream_map.filter (fun x => decide (x.2 ∉
        (t.stream_map.filter (fun id_stream => id_stream.1 > last)).map
          (fun id_stream => id_stream.2)))
      = t.stream_map.filter (fun x => decide (x.1 ≤ last)) := by
  apply List.filter_congr
  intro x hx
  have hid := (hw.map_id x.1 x.2 hx).1
  by_cases h : x.1 ≤ last
  · have : x.2 ∉ (t.stream_map.filter (fun id_stream => id_stream.1 > last)).map
        (fun id_stream => id_stream.2) := by
      intro hm
      obtain ⟨y, hy, hyx⟩ := List.mem_map.mp hm
      have hy1 := List.mem_filter.mp hy
      have hidy := (hw.map_id y.1 y.2 hy1.1).1
      simp only [hyx] at hidy
      have : y.1 > last := by simpa using hy1.2
      omega
    simp [this, h]
  · have : x.2 ∈ (t.stream_map.filter (fun id_stream => id_stream.1 > last)).map
        (fun id_stream => id_stream.2) := by
      refine List.mem_map.mpr ⟨x, List.mem_filter.mpr ⟨hx, ?_⟩, rfl⟩
      simpa using h
    simp [this, h]

/-- The two loops of `grpc_chttp2_add_incoming_goaway` on a client, whenever
they return. -/
theorem goaway_cancel_spec (n : Nat) (t : T) (last : Nat) (hw : WFb t) {t3 : T}
    (h : (cancel_unstarted_streams (remove_stream_fuel n) t t.goaway_error false).bind
      (fun t => cancel_unseen_loop (remove_stream_fuel n)
        ((t.stream_map.filter (fun id_stream => id_stream.1 > last)).map
          (fun id_stream => id_stream.2)) t) = some t3) :
    t3.stream_map = t.stream_map.filter (fun x => decide (x.1 ≤ last))
      ∧ (∀ i r, (i, r) ∈ t.stream_map → last < i →
          (t3.streams r).read_closed = true ∧ (t3.streams r).write_closed = true
            ∧ (t3.streams r).trailing_network_state = some .kNotSeenByServer)
      ∧ t3.waiting_for_concurrency = []
      ∧ (∀ r, r ∈ t.waiting_for_concurrency →
          (t3.streams r).read_closed = true ∧ (t3.streams r).write_closed = true
            ∧ (t3.streams r).trailing_network_state = some .kNotSentOnWire)
      ∧ t3.goaway_error = t.goaway_error := by
  obtain ⟨t2, h2, q2, hw2, -, hm2, hwt2, ac⟩ :=
    cancel_unstarted_streams_quiet (remove_stream_fuel_ok n) t t.goaway_error false hw
  rw [h2] at h
  simp only [Option.some_bind] at h
  obtain ⟨npre, mpre⟩ := map_streams_pre hw2 (fun id_stream => id_stream.1 > last)
  obtain ⟨-, sc, tg⟩ := cancel_unseen_loop_spec n _ t2 t3 hw2 hwt2 npre mpre h
  have hmem : ∀ i r, (i, r) ∈ t.stream_map → last < i →
      r ∈ (t2.stream_map.filter (fun id_stream => id_stream.1 > last)).map
        (fun id_stream => id_stream.2) := by
    intro i r hir hl
    rw [hm2]
    refine List.mem_map.mpr ⟨(i, r), List.mem_filter.mpr ⟨hir, ?_⟩, rfl⟩
    simpa using hl
  refine ⟨?_, ?_, sc.waiting, ?_, sc.goaway_error.trans q2.goaway_error⟩
  · rw [sc.stream_map, unseen_filter hw2, hm2]
  · intro i r hir hl
    have hr := hmem i r hir hl
    exact ⟨(streamsclosed_closed sc hr).1, (streamsclosed_closed sc hr).2, tg r hr⟩
  · intro r hr
    have hc := ac.cancelled r hr
    obtain ⟨c1, c2, c3, c4⟩ := cancelled_core_closed _ _ hc
    have hnot : r ∉ (t2.stream_map.filter (fun id_stream => id_stream.1 > last)).map
        (fun id_stream => id_stream.2) := by
      intro hm
      have h1 := mpre r hm
      have h3 := (hw2.map_id _ r h1).2
      rw [c3] at h3
      exact h3 (hw.wait_id r hr).1
    have ho := sc.others r hnot
    exact ⟨(congrArg StreamCore.read_closed ho).trans c1,
      (congrArg StreamCore.write_closed ho).trans c2,
      (congrArg StreamCore.trailing_network_state ho).trans c4⟩

/-- The two loops of `grpc_chttp2_add_incoming_goaway` return on a client,
with fuel for one call of `remove_stream`. -/
theorem goaway_cancel_total (n : Nat) (t : T) (last : Nat) (hw : WFb t)
    (hic : t.is_client = true) :
    ∃ t3, (cancel_unstarted_streams (remove_stream_fuel (n + 1)) t t.goaway_error false).bind
      (fun t => cancel_unseen_loop (remove_stream_fuel (n + 1))
        ((t.stream_map.filter (fun id_stream => id_stream.1 > last)).map
          (fun id_stream => id_stream.2)) t) = some t3 := by
  obtain ⟨t2, h2, q2, hw2, -, -, hwt2, -⟩ :=
    cancel_unstarted_streams_quiet (remove_stream_fuel_ok (n + 1)) t t.goaway_error false hw
  obtain ⟨npre, mpre⟩ := map_streams_pre hw2 (fun id_stream => id_stream.1 > last)
  obtain ⟨t3, h3⟩ := cancel_unseen_loop_total n _ t2 hw2 (q2.is_client.trans hic) hwt2 npre mpre
  refine ⟨t3, ?_⟩
  rw [h2]
  exact h3

theorem wfb_set_goaway_error {t : T} (hw : WFb t) (e : Status) :
    WFb { t with goaway_error := e } :=
  ⟨hw.idle, hw.busy, hw.map_id, hw.map_nodup, hw.map_open, hw.map_conv, hw.wait_id,
    hw.wait_nodup, hw.wait_client, hw.closed_wait, hw.pending, hw.ids_client, hw.ids_server,
    hw.next_parity, hw.map_refs, hw.wait_refs⟩

/-- The part of `close_transport_locked` that follows `end_all_the_calls`
touches no stream, whenever it returns. -/
theorem close_transport_tail_spec (t : T) (e : Status) {t1 : T}
    (h : (if (cancel_pings t e).closed_with_error.ok then
        if (cancel_pings t e).write_state ≠ .IDLE then
          some (close_transport_defer (cancel_pings t e)
            (if !e.has_clear_grpc_status then grpc_error_set_rpc_status e GRPC_STATUS_UNAVAILABLE
             else e))
        else if (if !e.has_clear_grpc_status
            then grpc_error_set_rpc_status e GRPC_STATUS_UNAVAILABLE else e).ok then none
        else some (close_transport_notify (close_transport_now (cancel_pings t e)
          (if !e.has_clear_grpc_status then grpc_error_set_rpc_status e GRPC_STATUS_UNAVAILABLE
           else e))
          (if !e.has_clear_grpc_status then grpc_error_set_rpc_status e GRPC_STATUS_UNAVAILABLE
           else e))
      else some (close_transport_notify (cancel_pings t e) e)) = some t1) :
    SameStreams t t1 := by
  have hp : SameStreams t (cancel_pings t e) := ⟨rfl, rfl, rfl, rfl, rfl⟩
  generalize cancel_pings t e = x at hp h
  generalize (if !e.has_clear_grpc_status
      then grpc_error_set_rpc_status e GRPC_STATUS_UNAVAILABLE else e) = e2 at h
  split at h
  · split at h
    · simp only [Option.some.injEq] at h
      subst h
      exact samestreams_trans hp ⟨rfl, rfl, rfl, rfl, rfl⟩
    · split at h
      · cases h
      · simp only [Option.some.injEq] at h
        subst h
        refine samestreams_trans hp (samestreams_trans ?_
          (samestreams_close_transport_notify _ _))
        exact ⟨rfl, rfl, rfl, rfl, rfl⟩
  · simp only [Option.some.injEq] at h
    subst h
    exact samestreams_trans hp (samestreams_close_transport_notify _ _)

theorem map_streams_all {t : T} (hw : WFb t) :
    (t.stream_map.map (fun id_stream => id_stream.2)).Nodup
      ∧ ∀ r, r ∈ t.stream_map.map (fun id_stream => id_stream.2) →
          ((t.streams r).id, r) ∈ t.stream_map := by
  have h := map_streams_pre hw (fun _ => true)
  rw [List.filter_true] at h
  exact h

/-- What `end_all_the_calls` leaves, whenever it returns: an empty map, an
empty waiting list, and the streams of both closed. -/
theorem end_all_the_calls_spec (n : Nat) {t t2 : T} {e : Status} (hw : WFb t)
    (h : end_all_the_calls (remove_stream_fuel n) t e = some t2) :
    t2.stream_map = [] ∧ t2.waiting_for_concurrency = []
      ∧ (∀ i r, (i, r) ∈ t.stream_map →
          (t2.streams r).read_closed = true ∧ (t2.streams r).write_closed = true)
      ∧ (∀ r, r ∈ t.waiting_for_concurrency →
          (t2.streams r).read_closed = true ∧ (t2.streams r).write_closed = true) := by
  unfold end_all_the_calls at h
  simp only at h
  generalize (if t.is_client = false ∧ e.has_clear_grpc_status = false ∧ e.http2 = none
      then grpc_error_set_rpc_status e GRPC_STATUS_UNAVAILABLE else e) = e0 at h
  obtain ⟨t1, h1, -, hw1, -, hm1, hwt1, ac⟩ :=
    cancel_unstarted_streams_quiet (remove_stream_fuel_ok n) t e0 false hw
  rw [h1] at h
  simp only [Option.some_bind] at h
  obtain ⟨npre, mpre⟩ := map_streams_all hw1
  obtain ⟨-, sc⟩ := cancel_streams_loop_spec n e0 _ t1 t2 hw1 hwt1 npre mpre h
  refine ⟨?_, sc.waiting, ?_, ?_⟩
  · rw [sc.stream_map]
    apply List.filter_eq_nil_iff.mpr
    intro x hx
    have : x.2 ∈ t1.stream_map.map (fun id_stream => id_stream.2) :=
      List.mem_map.mpr ⟨x, hx, rfl⟩
    simp [this]
  · intro i r hir
    have : r ∈ t1.stream_map.map (fun id_stream => id_stream.2) := by
      rw [hm1]
      exact List.mem_map.mpr ⟨(i, r), hir, rfl⟩
    exact streamsclosed_closed sc this
  · intro r hr
    obtain ⟨c1, c2, -, -⟩ := cancelled_core_closed _ _ (ac.cancelled r hr)
    by_cases hl : r ∈ t1.stream_map.map (fun id_stream => id_stream.2)
    · exact streamsclosed_closed sc hl
    · have ho := sc.others r hl
      exact ⟨(congrArg StreamCore.read_closed ho).trans c1,
        (congrArg StreamCore.write_closed ho).trans c2⟩

theorem set_rpc_status_message (e : Status) (v : Nat) :
    (grpc_error_set_rpc_status e v).message = e.message := by
  cases e <;> rfl

theorem set_rpc_status_unavailable_lt (e : Status) :
    grpc_error_get_grpc_status (grpc_error_set_rpc_status e GRPC_STATUS_UNAVAILABLE) < 100 := by
  cases e with
  | OkStatus => show (0 : Nat) < 100; omega
  | Error m r h c => show (14 : Nat) < 100; omega

/-- The call `end_all_the_calls` returns, with fuel for one call of
`remove_stream`, unless the trailers to emit are refused. -/
theorem end_all_the_calls_total (n : Nat) (t : T) (e : Status) (hw : WFb t)
    (hok : t.is_client = true ∨ (grpc_error_get_grpc_status e < 100
      ∧ e.message.utf8ByteSize ≤ UINT32_MODULUS - 1)) :
    ∃ t2, end_all_the_calls (remove_stream_fuel (n + 1)) t e = some t2 := by
  unfold end_all_the_calls
  simp only
  have hok0 : t.is_client = true ∨ (grpc_error_get_grpc_status
        (if t.is_client = false ∧ e.has_clear_grpc_status = false ∧ e.http2 = none
          then grpc_error_set_rpc_status e GRPC_STATUS_UNAVAILABLE else e) < 100
      ∧ (if t.is_client = false ∧ e.has_clear_grpc_status = false ∧ e.http2 = none
          then grpc_error_set_rpc_status e GRPC_STATUS_UNAVAILABLE else e).message.utf8ByteSize
        ≤ UINT32_MODULUS - 1) := by
    rcases hok with h | h
    · exact Or.inl h
    · right
      split
      · exact ⟨set_rpc_status_unavailable_lt e, by rw [set_rpc_status_message]; exact h.2⟩
      · exact h
  generalize (if t.is_client = false ∧ e.has_clear_grpc_status = false ∧ e.http2 = none
      then grpc_error_set_rpc_status e GRPC_STATUS_UNAVAILABLE else e) = e0 at hok0 ⊢
  obtain ⟨t1, h1, q1, hw1, -, -, hwt1, -⟩ :=
    cancel_unstarted_streams_quiet (remove_stream_fuel_ok (n + 1)) t e0 false hw
  rw [h1]
  simp only [Option.some_bind]
  obtain ⟨npre, mpre⟩ := map_streams_all hw1
  refine cancel_streams_loop_total n e0 _ t1 hw1 hwt1 npre mpre ?_
  rcases hok0 with h | h
  · exact Or.inl (q1.is_client.trans h)
  · exact Or.inr h

/-! # The later claims -/

theorem goaway_status_unavailable (code : Nat) (text : String) :
    (grpc_error_set_rpc_status
        (grpc_error_set_http2_error
          (.Error ("GOAWAY received; Error code: " ++ toString code ++ "; Debug Text: "
            ++ text) none none [])
          code)
        GRPC_STATUS_UNAVAILABLE).ok = false
      ∧ grpc_error_get_grpc_status
          (grpc_error_set_rpc_status
            (grpc_error_set_http2_error
              (.Error ("GOAWAY received; Error code: " ++ toString code ++ "; Debug Text: "
                ++ text) none none [])
              code)
            GRPC_STATUS_UNAVAILABLE) = GRPC_STATUS_UNAVAILABLE :=
  ⟨rfl, rfl⟩

/-- C11: from every reachable state, for every code, last_stream_id, text and
notification flag, and every depth `n` allowed to `remove_stream`.  On a
client, when `grpc_chttp2_add_incoming_goaway` returns: `stream_map` is the
map of before restricted to the ids at most last_stream_id; every stream that
the map held under an id above last_stream_id is read_closed and write_closed
and tagged kNotSeenByServer; the waiting list is empty and every stream that
was on it is read_closed, write_closed and tagged kNotSentOnWire;
`goaway_error` is not OK and its gRPC status is UNAVAILABLE; and the call does
return (`n` at least 1).  On a server the call returns, `stream_map` is
unchanged and `goaway_error` is the same kind of status. -/
theorem C11_incoming_goaway_cancels (fuel : Nat) (ca : ChannelArgs) (ic : Bool) (t : T)
    (h : Reachable fuel ca ic t) (n code last_stream_id : Nat) (text : String) (d : Bool) :
    (t.is_client = true →
      (∀ t1, grpc_chttp2_add_incoming_goaway (remove_stream_fuel n) t code last_stream_id
          text d = some t1 →
        t1.stream_map = t.stream_map.filter (fun x => decide (x.1 ≤ last_stream_id))
          ∧ (∀ i r, (i, r) ∈ t.stream_map → last_stream_id < i →
              (t1.streams r).read_closed = true ∧ (t1.streams r).write_closed = true
                ∧ (t1.streams r).trailing_network_state = some .kNotSeenByServer)
          ∧ t1.waiting_for_concurrency = []
          ∧ (∀ r, r ∈ t.waiting_for_concurrency →
              (t1.streams r).read_closed = true ∧ (t1.streams r).write_closed = true
                ∧ (t1.streams r).trailing_network_state = some .kNotSentOnWire)
          ∧ t1.goaway_error.ok = false
          ∧ grpc_error_get_grpc_status t1.goaway_error = GRPC_STATUS_UNAVAILABLE)
      ∧ (1 ≤ n → ∃ t1, grpc_chttp2_add_incoming_goaway (remove_stream_fuel n) t code
          last_stream_id text d = some t1))
    ∧ (t.is_client = false →
        ∃ t1, grpc_chttp2_add_incoming_goaway (remove_stream_fuel n) t code last_stream_id
            text d = some t1
          ∧ t1.stream_map = t.stream_map
          ∧ t1.goaway_error.ok = false
          ∧ grpc_error_get_grpc_status t1.goaway_error = GRPC_STATUS_UNAVAILABLE) := by
  have hw : WFb t := (reachable_inv h).1
  have hw0 := wfb_set_goaway_error hw (grpc_error_set_rpc_status
    (grpc_error_set_http2_error
      (.Error ("GOAWAY received; Error code: " ++ toString code ++ "; Debug Text: "
        ++ text) none none []) code) GRPC_STATUS_UNAVAILABLE)
  have hst := goaway_status_unavailable code text
  refine ⟨fun hic => ⟨?_, ?_⟩, ?_⟩
  · intro t1 h1
    unfold grpc_chttp2_add_incoming_goaway at h1
    simp only [Option.map_eq_some'] at h1
    obtain ⟨t3, h3, rfl⟩ := h1
    rw [if_pos hic] at h3
    obtain ⟨r1, r2, r3, r4, r5⟩ := goaway_cancel_spec n _ last_stream_id hw0 h3
    have r6 : t3.goaway_error.ok = false := by rw [r5]; exact hst.1
    have r7 : grpc_error_get_grpc_status t3.goaway_error = GRPC_STATUS_UNAVAILABLE := by
      rw [r5]; exact hst.2
    cases d
    · exact ⟨r1, r2, r3, r4, r6, r7⟩
    · exact ⟨r1, r2, r3, r4, r6, r7⟩
  · intro hn
    obtain ⟨m, rfl⟩ : ∃ m, n = m + 1 := ⟨n - 1, by omega⟩
    obtain ⟨t3, h3⟩ := goaway_cancel_total m _ last_stream_id hw0 hic
    unfold grpc_chttp2_add_incoming_goaway
    simp only
    rw [if_pos hic, h3]
    exact ⟨_, rfl⟩
  · intro hic
    unfold grpc_chttp2_add_incoming_goaway
    simp only
    rw [if_neg (by rw [hic]; decide)]
    refine ⟨_, rfl, ?_⟩
    cases d
    · exact ⟨rfl, hst.1, hst.2⟩
    · exact ⟨rfl, hst.1, hst.2⟩

/-- Witness of C11: a client with stream 1 open and a second stream waiting
receives a GOAWAY whose last stream id is 0. -/
theorem C11_incoming_goaway_cancels_witness :
    one_waiting_client.stream_map = [(1, 0)]
      ∧ one_waiting_client.waiting_for_concurrency = [1]
      ∧ ∃ t1, grpc_chttp2_add_incoming_goaway (remove_stream_fuel 1) one_waiting_client 0 0
            "bye" false = some t1
          ∧ t1.stream_map = []
          ∧ (t1.streams 0).read_closed = true ∧ (t1.streams 0).write_closed = true
          ∧ (t1.streams 0).trailing_network_state = some .kNotSeenByServer
          ∧ t1.waiting_for_concurrency = []
          ∧ (t1.streams 1).read_closed = true ∧ (t1.streams 1).write_closed = true
          ∧ (t1.streams 1).trailing_network_state = some .kNotSentOnWire
          ∧ t1.goaway_error.ok = false := by
  have c := (C11_incoming_goaway_cancels 1 {} true one_waiting_client
    (reachable_exec_state _ _ Reachable.init) 1 0 0 "bye" false).1 (by decide!)
  obtain ⟨t1, h1⟩ := c.2 (le_refl 1)
  obtain ⟨r1, r2, r3, r4, r5, -⟩ := c.1 t1 h1
  have hm : one_waiting_client.stream_map = [(1, 0)] := by decide!
  have hwt : one_waiting_client.waiting_for_concurrency = [1] := by decide!
  have a := r2 1 0 (by rw [hm]; exact List.mem_singleton.mpr rfl) (by decide)
  have b := r4 1 (by rw [hwt]; exact List.mem_singleton.mpr rfl)
  refine ⟨hm, hwt, t1, h1, ?_, a.1, a.2.1, a.2.2, r3, b.1, b.2.1, b.2.2, r5⟩
  rw [r1, hm]
  rfl

/-- C12: the keepalive-throttling payload that `grpc_chttp2_add_incoming_goaway`
attaches to the connectivity status is present exactly when the transport is a
client, the code is ENHANCE_YOUR_CALM and the debug text is "too_many_pings";
for a keepalive time of `k` milliseconds it is then the decimal rendering of
`min (2 * k) INT_MAX`: 2000 for `k = 1000`, and INT_MAX from
`k = INT_MAX / 2 + 1` on. -/
theorem C12_keepalive_throttling (t : T) (code : Nat) (text : String) (k : Nat) :
    goaway_keepalive_throttling t code text k
        = (if t.is_client = true ∧ code = GRPC_HTTP2_ENHANCE_YOUR_CALM
              ∧ text = "too_many_pings"
            then some (toString (min (2 * k) INT_MAX)) else none)
      ∧ ((goaway_keepalive_throttling t code text k).isSome = true
          ↔ (t.is_client = true ∧ code = GRPC_HTTP2_ENHANCE_YOUR_CALM
              ∧ text = "too_many_pings"))
      ∧ goaway_keepalive_throttling { t with is_client := true } GRPC_HTTP2_ENHANCE_YOUR_CALM
          "too_many_pings" 1000 = some "2000"
      ∧ (INT_MAX / 2 < k →
          goaway_keepalive_throttling { t with is_client := true }
            GRPC_HTTP2_ENHANCE_YOUR_CALM "too_many_pings" k = some "2147483647") := by
  have key : goaway_keepalive_throttling t code text k
        = (if t.is_client = true ∧ code = GRPC_HTTP2_ENHANCE_YOUR_CALM
              ∧ text = "too_many_pings"
            then some (toString (min (2 * k) INT_MAX)) else none) := by
    unfold goaway_keepalive_throttling
    by_cases h : t.is_client = true ∧ code = GRPC_HTTP2_ENHANCE_YOUR_CALM
        ∧ text = "too_many_pings"
    · rw [if_pos h, if_pos h]
      simp only [INT_MAX, KEEPALIVE_TIME_BACKOFF_MULTIPLIER]
      by_cases hk : k > 2147483647 / 2
      · rw [if_pos hk]
        have : min (2 * k) 2147483647 = 2147483647 := by omega
        rw [this]
      · rw [if_neg hk]
        have : min (2 * k) 2147483647 = k * 2 := by omega
        rw [this]
    · rw [if_neg h, if_neg h]
  refine ⟨key, ?_, ?_, ?_⟩
  · rw [key]
    by_cases h : t.is_client = true ∧ code = GRPC_HTTP2_ENHANCE_YOUR_CALM
        ∧ text = "too_many_pings"
    · simp [h]
    · rw [if_neg h]
      simp [h]
  · unfold goaway_keepalive_throttling
    rw [if_pos ⟨rfl, rfl, rfl⟩]
    rfl
  · intro hk
    unfold goaway_keepalive_throttling
    rw [if_pos ⟨rfl, rfl, rfl⟩]
    simp only [INT_MAX, KEEPALIVE_TIME_BACKOFF_MULTIPLIER] at hk ⊢
    rw [if_pos hk]
    rfl

/-- C13: from every reachable state of a transport of either role, for every
stream `s`, error `e`, value of the tarpit flag and depth `n` allowed to
`remove_stream`: when `grpc_chttp2_cancel_stream` returns, `s` is read_closed
and write_closed and is not in `stream_map` (whatever its id), and a half that
was closed before keeps its close error while a half that was open gets `e`;
the results for the two values of the tarpit flag have the same stream core
states, `stream_map` and waiting list, so the flag only bears on the emission;
and the call does return on a client, and on a server whenever the status to
report has fewer than three digits and a message of at most UINT32_MAX bytes
(`n` at least 1). -/
theorem C13_cancel_stream_closes (fuel : Nat) (ca : ChannelArgs) (ic : Bool) (t : T)
    (h : Reachable fuel ca ic t) (n s : Nat) (e : Status) :
    (∀ tarpit t1, grpc_chttp2_cancel_stream (remove_stream_fuel n) t s e tarpit = some t1 →
      (t1.streams s).read_closed = true ∧ (t1.streams s).write_closed = true
        ∧ (∀ i, (i, s) ∉ t1.stream_map)
        ∧ (t1.streams s).read_closed_error
            = (if (t.streams s).read_closed then (t.streams s).read_closed_error else e)
        ∧ (t1.streams s).write_closed_error
            = (if (t.streams s).write_closed then (t.streams s).write_closed_error else e))
    ∧ (∀ ta tb, grpc_chttp2_cancel_stream (remove_stream_fuel n) t s e true = some ta →
        grpc_chttp2_cancel_stream (remove_stream_fuel n) t s e false = some tb →
        (∀ r, (ta.streams r).core = (tb.streams r).core)
          ∧ ta.stream_map = tb.stream_map
          ∧ ta.waiting_for_concurrency = tb.waiting_for_concurrency)
    ∧ (1 ≤ n →
        (t.is_client = true ∨ (grpc_error_get_grpc_status e < 100
          ∧ e.message.utf8ByteSize ≤ UINT32_MODULUS - 1)) →
        ∀ tarpit, ∃ t1,
          grpc_chttp2_cancel_stream (remove_stream_fuel n) t s e tarpit = some t1) := by
  have hw : WFb t := (reachable_inv h).1
  refine ⟨?_, ?_, ?_⟩
  · intro tarpit t1 h1
    have hs := cancel_stream_spec n hw h1
    have hw1 : WFb t1 := (cancel_stream_pc (remove_stream_fuel_ok n) hw h1).wf
    have c1 : (t1.streams s).read_closed = true := congrArg StreamCore.read_closed hs.core
    have c2 : (t1.streams s).write_closed = true := congrArg StreamCore.write_closed hs.core
    refine ⟨c1, c2, ?_, congrArg StreamCore.read_closed_error hs.core,
      congrArg StreamCore.write_closed_error hs.core⟩
    intro i hi
    exact hw1.map_open i s hi (by simp) ⟨c1, c2⟩
  · intro ta tb ha hb
    obtain ⟨t0, -, hf⟩ := cancel_stream_factor (remove_stream_fuel n) t s e
    obtain ⟨t2, h2, ra⟩ := hf true ta ha
    obtain ⟨t3, h3, rb⟩ := hf false tb hb
    rw [h2] at h3
    cases h3
    refine ⟨fun r => (ra.streams r).trans (rb.streams r).symm,
      ra.stream_map.trans rb.stream_map.symm, ra.waiting.trans rb.waiting.symm⟩
  · intro hn hok tarpit
    obtain ⟨m, rfl⟩ : ∃ m, n = m + 1 := ⟨n - 1, by omega⟩
    obtain ⟨t1, h1, -⟩ := cancel_stream_total m t s e tarpit hw hok
    exact ⟨t1, h1⟩

/-- Witness of C13: the stream admitted on a client, cancelled with the tarpit
flag set. -/
theorem C13_cancel_stream_closes_witness :
    (started_stream_client.streams 0).id = 1
      ∧ (started_stream_client.streams 0).read_closed = false
      ∧ ∃ t1, grpc_chttp2_cancel_stream (remove_stream_fuel 1) started_stream_client 0
            CancelledError true = some t1
          ∧ (t1.streams 0).read_closed = true ∧ (t1.streams 0).write_closed = true
          ∧ (∀ i, (i, 0) ∉ t1.stream_map)
          ∧ (t1.streams 0).read_closed_error.ok = false := by
  have c := C13_cancel_stream_closes 1 {} true started_stream_client
    (reachable_exec_state _ _ Reachable.init) 1 0 CancelledError
  obtain ⟨t1, h1⟩ := c.2.2 (le_refl 1) (Or.inl (by decide!)) true
  obtain ⟨r1, r2, r3, r4, -⟩ := c.1 true t1 h1
  refine ⟨by decide!, by decide!, t1, h1, r1, r2, r3, ?_⟩
  rw [r4]
  decide!

theorem utf8_bytes_length (s : String) : (utf8_bytes s).length = s.utf8ByteSize := by
  unfold utf8_bytes
  rw [List.length_map, ← String.size_toUTF8]
  rfl

theorem hpack_decode_string_short (n : Nat) (bytes rest : List Nat) (hn : n < 127)
    (hl : bytes.length = n) :
    hpack_decode_string (n :: (bytes ++ rest)) = some (bytes, rest) := by
  simp only [hpack_decode_string]
  rw [if_neg (by omega), if_pos hn]
  simp only
  rw [if_pos (by rw [List.length_append]; omega), ← hl, List.take_left, List.drop_left]

theorem hpack_decode_tail_range (v l : Nat) (rest : List Nat) :
    ∀ (j i acc : Nat), i + j = l → 1 ≤ j → v / 128 ^ i < 128 ^ j →
      hpack_decode_integer_tail (7 * i) acc
          ((List.range' i j).map (fun i =>
            if i + 1 = l then (v / 128 ^ i) % 128 else (v / 128 ^ i) % 128 + 128) ++ rest)
        = some (acc + (v / 128 ^ i) * 2 ^ (7 * i), rest)
  | 0, _, _, _, h, _ => absurd h (by omega)
  | 1, i, acc, hi, _, hv => by
    have hv1 : v / 128 ^ i < 128 := by simpa using hv
    have h1 : v / 128 ^ i % 128 = v / 128 ^ i := Nat.mod_eq_of_lt hv1
    simp only [List.range', List.map, List.cons_append, List.nil_append, if_pos hi, h1,
      hpack_decode_integer_tail]
    rw [if_neg (by omega)]
    rfl
  | j + 2, i, acc, hi, _, hv => by
    have hne : ¬ i + 1 = l := by omega
    have hd : v / 128 ^ (i + 1) = v / 128 ^ i / 128 := by
      rw [pow_succ, Nat.div_div_eq_div_mul]
    have ih := hpack_decode_tail_range v l rest (j + 1) (i + 1)
      (acc + ((v / 128 ^ i) % 128 + 128) % 128 * 2 ^ (7 * i)) (by omega) (by omega)
      (by
        rw [hd]
        apply Nat.div_lt_of_lt_mul
        rw [pow_succ] at hv
        rw [Nat.mul_comm]
        exact hv)
    have h7 : 7 * (i + 1) = 7 * i + 7 := by ring
    rw [h7] at ih
    have hr : List.range' i (j + 2) = i :: List.range' (i + 1) (j + 1) := rfl
    rw [hr, List.map_cons, List.cons_append, if_neg hne, hpack_decode_integer_tail,
      if_pos (by omega), ih]
    congr 2
    rw [hd, pow_add]
    have hq := Nat.mod_add_div (v / 128 ^ i) 128
    have hm : (v / 128 ^ i % 128 + 128) % 128 = v / 128 ^ i % 128 := by omega
    rw [hm]
    generalize v / 128 ^ i = q at hq
    generalize 2 ^ (7 * i) = p
    have : q * p = (q % 128 + 128 * (q / 128)) * p := by rw [hq]
    rw [this]
    ring

theorem hpack_decode_varint_tail (v l : Nat) (rest : List Nat) (hl : 1 ≤ l)
    (hv : v < 128 ^ l) :
    hpack_decode_integer_tail 0 127 (VarintWriteTail v l ++ rest) = some (127 + v, rest) := by
  have h := hpack_decode_tail_range v l rest l 0 127 (by omega) hl (by simpa using hv)
  simp only [Nat.mul_zero, pow_zero, Nat.div_one, Nat.mul_one] at h
  unfold VarintWriteTail
  rw [List.range_eq_range']
  exact h

theorem hpack_decode_string_varint (bytes rest : List Nat)
    (hl : bytes.length ≤ UINT32_MODULUS - 1) :
    hpack_decode_string (VarintWriter_write bytes.length ++ (bytes ++ rest))
      = some (bytes, rest) := by
  by_cases h : bytes.length < 127
  · have h1 : VarintWriter_write bytes.length = [bytes.length] := by
      unfold VarintWriter_write VarintWriter_length
      rw [if_pos h, if_pos rfl]
    rw [h1]
    exact hpack_decode_string_short _ bytes rest h rfl
  · have hlen : VarintWriter_length bytes.length = VarintLength (bytes.length - 127) := by
      unfold VarintWriter_length
      rw [if_neg h]
    have h2 : 2 ≤ VarintLength (bytes.length - 127) := by
      unfold VarintLength
      split_ifs <;> omega
    have h1 : VarintWriter_write bytes.length
        = 127 :: VarintWriteTail (bytes.length - 127) (VarintLength (bytes.length - 127) - 1) := by
      unfold VarintWriter_write
      rw [hlen, if_neg (by omega)]
    have hv : bytes.length - 127 < 128 ^ (VarintLength (bytes.length - 127) - 1) := by
      simp only [UINT32_MODULUS] at hl
      unfold VarintLength
      split_ifs <;> norm_num <;> omega
    rw [h1]
    simp only [List.cons_append, hpack_decode_string]
    rw [if_neg (by omega), if_neg (by omega),
      hpack_decode_varint_tail _ _ _ (by omega) hv]
    simp only
    have e : 127 + (bytes.length - 127) = bytes.length := by omega
    rw [e, if_pos (by rw [List.length_append]; omega), List.take_left, List.drop_left]

theorem hpack_decode_literal_short (fuel n v : Nat) (name value rest : List Nat)
    (hn : name.length = n) (hnl : n < 127) (hv : value.length = v) (hvl : v < 127) :
    hpack_decode_literal_headers (fuel + 1) (0 :: n :: (name ++ v :: (value ++ rest)))
      = (hpack_decode_literal_headers fuel rest).map (fun l => (name, value) :: l) := by
  rw [hpack_decode_literal_headers, if_pos rfl, hpack_decode_string_short n name _ hnl hn]
  simp only
  rw [hpack_decode_string_short v value _ hvl hv]

theorem hpack_decode_literal_long (fuel n : Nat) (name value rest : List Nat)
    (hn : name.length = n) (hnl : n < 127) (hv : value.length ≤ UINT32_MODULUS - 1) :
    hpack_decode_literal_headers (fuel + 1)
        (0 :: n :: (name ++ (VarintWriter_write value.length ++ (value ++ rest))))
      = (hpack_decode_literal_headers fuel rest).map (fun l => (name, value) :: l) := by
  rw [hpack_decode_literal_headers, if_pos rfl, hpack_decode_string_short n name _ hnl hn]
  simp only
  rw [hpack_decode_string_varint value _ hv]

theorem grpc_status_digits (g : Nat) (hg : g < 100) :
    (if g < 10 then [1, (48 + g) % 256] else [2, (48 + g / 10) % 256, (48 + g % 10) % 256])
        = (ascii (toString g)).length :: ascii (toString g)
      ∧ (ascii (toString g)).length < 127 := by
  interval_cases g <;> exact ⟨by decide, by decide⟩

/-- The header block queued by the lambda of `close_from_api` decodes to the
header fields of `close_from_api_headers`. -/
theorem close_from_api_block_decode (sim : Bool) (g : Nat) (m : String) (hg : g < 100)
    (hm : m.utf8ByteSize ≤ UINT32_MODULUS - 1) (k : Nat) :
    hpack_decode_literal_headers (k + 4)
        (((if !sim then
              [Slice.bytes ([0x00, 7] ++ ascii ":status" ++ [3] ++ ascii "200"),
               Slice.bytes ([0x00, 12] ++ ascii "content-type" ++ [16]
                 ++ ascii "application/grpc")]
            else [])
          ++ [Slice.bytes ([0x00, 11] ++ ascii "grpc-status" ++
                (if g < 10 then [1, (48 + g) % 256]
                 else [2, (48 + g / 10) % 256, (48 + g % 10) % 256])),
              Slice.bytes ([0x00, 12] ++ ascii "grpc-message"
                ++ VarintWriter_write m.utf8ByteSize),
              Slice.str m]).flatMap Slice.toBytes)
      = some (close_from_api_headers sim g m) := by
  obtain ⟨d1, d2⟩ := grpc_status_digits g hg
  rw [d1, ← utf8_bytes_length m]
  have tail2 : ∀ j, hpack_decode_literal_headers (j + 2)
      (0 :: 11 :: (ascii "grpc-status" ++ (ascii (toString g)).length ::
        (ascii (toString g) ++ (0 :: 12 :: (ascii "grpc-message" ++
          (VarintWriter_write (utf8_bytes m).length ++ (utf8_bytes m ++ []))))))) =
      some [(ascii "grpc-status", ascii (toString g)), (ascii "grpc-message", utf8_bytes m)] := by
    intro j
    rw [hpack_decode_literal_short (j + 1) 11 _ _ _ _ (by decide) (by decide) rfl d2,
      hpack_decode_literal_long j 12 _ _ _ (by decide) (by decide)
        (by rw [utf8_bytes_length]; exact hm)]
    simp only [hpack_decode_literal_headers, Option.map_some']
  cases sim
  · simp only [Bool.not_false, if_true, List.flatMap_cons, List.flatMap_nil, Slice.toBytes,
      List.append_assoc, List.cons_append, List.nil_append, close_from_api_headers,
      Bool.false_eq_true, if_false]
    rw [hpack_decode_literal_short (k + 3) 7 3 _ _ _ (by decide) (by decide) (by decide)
        (by decide),
      hpack_decode_literal_short (k + 2) 12 16 _ _ _ (by decide) (by decide) (by decide)
        (by decide), tail2 k]
    rfl
  · simp only [Bool.not_true, Bool.false_eq_true, if_false, List.flatMap_cons,
      List.flatMap_nil, Slice.toBytes, List.append_assoc, List.cons_append, List.nil_append,
      close_from_api_headers, if_true]
    exact tail2 (k + 2)

/-- The lambda of `close_from_api` returns and queues the frame header, the
slices of the header block and the RST_STREAM frame, in this order. -/
theorem close_from_api_emit_frame (t : T) (sim : Bool) (id g : Nat) (m : String)
    (hm : m.utf8ByteSize ≤ UINT32_MODULUS - 1) :
    ∃ t1 len block,
      close_from_api_emit t sim id g m = some t1
        ∧ len = ((if !sim then 13 + 31 else 0) + (15 + (if g ≥ 10 then 1 else 0))
            + (14 + VarintWriter_length m.utf8ByteSize) + m.utf8ByteSize) % UINT32_MODULUS
        ∧ block = (if !sim then
              [Slice.bytes ([0x00, 7] ++ ascii ":status" ++ [3] ++ ascii "200"),
               Slice.bytes ([0x00, 12] ++ ascii "content-type" ++ [16]
                 ++ ascii "application/grpc")]
            else [])
          ++ [Slice.bytes ([0x00, 11] ++ ascii "grpc-status" ++
                (if g < 10 then [1, (48 + g) % 256]
                 else [2, (48 + g / 10) % 256, (48 + g % 10) % 256])),
              Slice.bytes ([0x00, 12] ++ ascii "grpc-message"
                ++ VarintWriter_write m.utf8ByteSize),
              Slice.str m]
        ∧ t1.qbuf = t.qbuf
          ++ [QItem.slice (.bytes
              [(len / 65536) % 256, (len / 256) % 256, len % 256, GRPC_CHTTP2_FRAME_HEADER,
               GRPC_CHTTP2_DATA_FLAG_END_STREAM ||| GRPC_CHTTP2_DATA_FLAG_END_HEADERS,
               (id / 16777216) % 256, (id / 65536) % 256, (id / 256) % 256, id % 256])]
          ++ block.map QItem.slice ++ [QItem.rst_stream id GRPC_HTTP2_NO_ERROR]
        ∧ slices_length block = (if !sim then 13 + 31 else 0)
            + (15 + (if g ≥ 10 then 1 else 0))
            + (14 + VarintWriter_length m.utf8ByteSize) + m.utf8ByteSize := by
  obtain ⟨t1, h1⟩ := close_from_api_emit_total t sim id g m hm
  obtain ⟨_, len, hlen, hq⟩ := close_from_api_emit_qbuf h1
  refine ⟨t1, len, _, h1, hlen, rfl, ?_, ?_⟩
  · rw [hq]
    cases sim <;> simp
  · have l3 := grpc_status_digits_length g
    have l4 : ([0x00, 12] ++ ascii "grpc-message" ++ VarintWriter_write m.utf8ByteSize).length
        = 14 + VarintWriter_length m.utf8ByteSize := by
      have h : (ascii "grpc-message").length = 12 := by decide
      simp only [List.length_append, List.length_cons, List.length_nil, h,
        VarintWriter_write_length]
    have l1 : ([0x00, 7] ++ ascii ":status" ++ [3] ++ ascii "200").length = 13 := by decide
    have l2 : ([0x00, 12] ++ ascii "content-type" ++ [16] ++ ascii "application/grpc").length
        = 31 := by decide
    cases sim
    · simp only [Bool.not_false, if_true, slices_length, List.map_append, List.sum_append,
        List.map_cons, List.map_nil, List.sum_cons, List.sum_nil, Slice.length, l1, l2, l3, l4]
      omega
    · simp only [Bool.not_true, Bool.false_eq_true, if_false, slices_length, List.map_append,
        List.sum_append, List.map_cons, List.map_nil, List.sum_cons, List.sum_nil,
        Slice.length, l3, l4]
      omega

theorem close_from_api_unfold {remove : RemoveStream} {t t2 : T} {s : Nat} {e : Status}
    (h : close_from_api remove t s e false = some t2) :
    grpc_error_get_grpc_status e < 100
      ∧ ∃ t1, grpc_chttp2_mark_stream_closed remove t s true true e = some t1
        ∧ close_from_api_emit t1 (t1.streams s).sent_initial_metadata (t1.streams s).id
            (grpc_error_get_grpc_status e) e.message = some t2 := by
  unfold close_from_api at h
  simp only at h
  split at h
  · next hg =>
    simp only [Option.bind_eq_some] at h
    obtain ⟨t1, h1, h2⟩ := h
    refine ⟨hg, t1, h1, ?_⟩
    unfold MaybeTarpit at h2
    simp only [Bool.not_false, Bool.true_or, if_true] at h2
    exact h2
  · exact absurd h (by simp)

/-- C14: for every gRPC status `g < 100` and every message `m`, whenever the
lambda of `close_from_api` returns, which it does for every message of at most
UINT32_MAX bytes, it has appended to `qbuf` a 9-byte frame header, then a
header block, then an RST_STREAM frame for the same stream id with the error
code NO_ERROR.  Read as uncompressed literal header fields (RFC 7541: not
indexed, literal name, strings not Huffman coded and prefixed with their
length), the block is, in order, (":status", "200") and
("content-type", "application/grpc") if and only if the stream had not sent
initial metadata, then ("grpc-status", the decimal digits of `g`), then
("grpc-message", `m`).  `close_from_api` runs the lambda with the status and the
message of the error, once the stream is marked closed. -/
theorem C14_close_from_api_header_block (t : T) (sim : Bool) (id g : Nat) (m : String)
    (hg : g < 100) :
    (m.utf8ByteSize ≤ UINT32_MODULUS - 1 → ∃ t1, close_from_api_emit t sim id g m = some t1)
      ∧ (∀ t1, close_from_api_emit t sim id g m = some t1 →
          ∃ (hdr : List Nat) (block : List Slice),
            t1.qbuf = t.qbuf ++ [QItem.slice (.bytes hdr)] ++ block.map QItem.slice
                ++ [QItem.rst_stream id GRPC_HTTP2_NO_ERROR]
              ∧ hdr.length = 9
              ∧ (∀ k, hpack_decode_literal_headers (k + 4) (block.flatMap Slice.toBytes)
                  = some (close_from_api_headers sim g m)))
      ∧ close_from_api_headers sim g m
          = (if sim then []
             else [(ascii ":status", ascii "200"),
                   (ascii "content-type", ascii "application/grpc")])
            ++ [(ascii "grpc-status", ascii (toString g)),
                (ascii "grpc-message", utf8_bytes m)]
      ∧ (∀ (remove : RemoveStream) (s : Nat) (e : Status) (t2 : T),
          close_from_api remove t s e false = some t2 →
          ∃ t0, grpc_chttp2_mark_stream_closed remove t s true true e = some t0
            ∧ close_from_api_emit t0 (t0.streams s).sent_initial_metadata (t0.streams s).id
                (grpc_error_get_grpc_status e) e.message = some t2) := by
  refine ⟨fun hm => close_from_api_emit_total t sim id g m hm, ?_, rfl, ?_⟩
  · intro t1 h1
    have hm := (close_from_api_emit_qbuf h1).1
    obtain ⟨t1b, len, block, h1b, _, hb, hq, _⟩ := close_from_api_emit_frame t sim id g m hm
    rw [h1] at h1b
    simp only [Option.some.injEq] at h1b
    subst h1b
    refine ⟨_, block, hq, rfl, ?_⟩
    intro k
    rw [hb]
    exact close_from_api_block_decode sim g m hg hm k
  · intro remove s e t2 h
    exact (close_from_api_unfold h).2

/-- C14 at the status 14 and the message "boom", on a stream that has not sent
initial metadata: the block reads :status 200, content-type application/grpc,
grpc-status 14, grpc-message boom. -/
theorem C14_close_from_api_header_block_witness :
    close_from_api_headers false 14 "boom"
        = [(ascii ":status", ascii "200"), (ascii "content-type", ascii "application/grpc"),
           (ascii "grpc-status", ascii "14"), (ascii "grpc-message", ascii "boom")]
      ∧ ∃ (t1 : T) (hdr : List Nat) (block : List Slice),
        close_from_api_emit (grpc_create_chttp2_transport {} false) false 1 14 "boom" = some t1
          ∧ t1.qbuf = (grpc_create_chttp2_transport {} false).qbuf
              ++ [QItem.slice (.bytes hdr)] ++ block.map QItem.slice
              ++ [QItem.rst_stream 1 GRPC_HTTP2_NO_ERROR]
          ∧ hpack_decode_literal_headers 4 (block.flatMap Slice.toBytes)
              = some (close_from_api_headers false 14 "boom") := by
  refine ⟨by decide, ?_⟩
  obtain ⟨w1, w2, _⟩ :=
    C14_close_from_api_header_block (grpc_create_chttp2_transport {} false) false 1 14 "boom"
      (by decide)
  obtain ⟨t1, h1⟩ := w1 (by decide)
  obtain ⟨hdr, block, h2, _, h4⟩ := w2 t1 h1
  exact ⟨t1, hdr, block, h1, h2, h4 0⟩

theorem utf8ByteSize_replicate (n : Nat) :
    (String.mk (List.replicate n 'a')).utf8ByteSize = n := by
  have h : ∀ k, String.utf8ByteSize.go (List.replicate k 'a') = k := by
    intro k
    induction k with
    | zero => rfl
    | succ k ih =>
      rw [List.replicate_succ, String.utf8ByteSize.go, ih]
      rfl
  exact h n

theorem big_endian_frame_header (len : Nat) :
    big_endian [(len / 65536) % 256, (len / 256) % 256, len % 256] = len % 16777216 := by
  simp only [big_endian, List.foldl]
  omega

theorem big_endian_stream_id (id : Nat) :
    big_endian [(id / 16777216) % 256, (id / 65536) % 256, (id / 256) % 256, id % 256]
      = id % 4294967296 := by
  simp only [big_endian, List.foldl]
  omega

/-- C15, the code at the failing input: for the gRPC status 0, the stream id 1
and the message of 2^24 bytes, which `close_from_api` accepts
(`CHECK(msg_len <= UINT32_MAX)`), the header block appended after the frame
header holds 16777294 bytes, but bytes 0..2 of the frame header read as the
24-bit value 78, not as the number of bytes of the block: the three bytes are
casts to `uint8_t` of shifts of the 32-bit length, and drop what does not fit
the 24-bit field. -/
theorem C15_frame_length_truncated :
    message_16M.utf8ByteSize = 16777216
      ∧ ∃ (t1 : T) (hdr : List Nat) (block : List Slice),
        close_from_api_emit (grpc_create_chttp2_transport {} false) false 1 0 message_16M
            = some t1
          ∧ t1.qbuf = (grpc_create_chttp2_transport {} false).qbuf
              ++ [QItem.slice (.bytes hdr)] ++ block.map QItem.slice
              ++ [QItem.rst_stream 1 GRPC_HTTP2_NO_ERROR]
          ∧ hdr.length = 9
          ∧ big_endian (hdr.take 3) = 78
          ∧ slices_length block = 16777294 := by
  have hsz : message_16M.utf8ByteSize = 16777216 := utf8ByteSize_replicate 16777216
  refine ⟨hsz, ?_⟩
  obtain ⟨t1, len, block, h1, hlen, _, hq, hs⟩ := close_from_api_emit_frame
    (grpc_create_chttp2_transport {} false) false 1 0 message_16M
    (by rw [hsz]; decide)
  have hv : VarintWriter_length 16777216 = 5 := by decide
  rw [hsz, hv] at hlen hs
  have hlen2 : len = 16777294 := by rw [hlen]; decide
  refine ⟨t1, _, block, h1, hq, rfl, ?_, ?_⟩
  · rw [hlen2]
    decide
  · rw [hs]
    decide

/-- The frame header of `close_from_api`, for every gRPC status `g < 100`, every
stream id and every message of at most UINT32_MAX bytes: the lambda returns, so
each hand-built slice is filled exactly to its allocated size, and the 9-byte
frame header it queues before the header block has as byte 3 the HEADERS type,
as byte 4 END_STREAM|END_HEADERS, as bytes 5..8 the stream id big-endian
(modulo 2^32), and as bytes 0..2 the big-endian 24-bit value of the number of
bytes of the header block modulo 2^24; that number is 13+31 when initial
metadata was not sent, plus 14 + the number of status digits, plus 14 + the
size of the varint length prefix, plus the message length, and bytes 0..2 are
equal to it whenever it is below 2^24. -/
theorem close_from_api_frame_header_spec (t : T) (sim : Bool) (id g : Nat) (m : String)
    (hg : g < 100) (hm : m.utf8ByteSize ≤ UINT32_MODULUS - 1) :
    ∃ (t1 : T) (hdr : List Nat) (block : List Slice),
      close_from_api_emit t sim id g m = some t1
        ∧ t1.qbuf = t.qbuf ++ [QItem.slice (.bytes hdr)] ++ block.map QItem.slice
            ++ [QItem.rst_stream id GRPC_HTTP2_NO_ERROR]
        ∧ hdr.length = 9
        ∧ (∀ b, b ∈ hdr → b < 256)
        ∧ slices_length block = (if sim then 0 else 13 + 31)
            + (14 + (ascii (toString g)).length)
            + (14 + VarintWriter_length m.utf8ByteSize) + m.utf8ByteSize
        ∧ big_endian (hdr.take 3) = slices_length block % 16777216
        ∧ (slices_length block < 16777216 → big_endian (hdr.take 3) = slices_length block)
        ∧ (hdr.drop 3).take 2 = [GRPC_CHTTP2_FRAME_HEADER,
            GRPC_CHTTP2_DATA_FLAG_END_STREAM ||| GRPC_CHTTP2_DATA_FLAG_END_HEADERS]
        ∧ GRPC_CHTTP2_DATA_FLAG_END_STREAM ||| GRPC_CHTTP2_DATA_FLAG_END_HEADERS = 5
        ∧ big_endian (hdr.drop 5) = id % 4294967296
        ∧ (id < 4294967296 → big_endian (hdr.drop 5) = id) := by
  obtain ⟨t1, len, block, h1, hlen, _, hq, hs⟩ := close_from_api_emit_frame t sim id g m hm
  obtain ⟨d1, _⟩ := grpc_status_digits g hg
  have hd : 15 + (if g ≥ 10 then 1 else 0) = 14 + (ascii (toString g)).length := by
    have h := congrArg List.length d1
    by_cases h10 : g < 10
    · rw [if_pos h10] at h
      rw [if_neg (by omega)]
      simp only [List.length_cons, List.length_nil] at h
      omega
    · rw [if_neg h10] at h
      rw [if_pos (by omega)]
      simp only [List.length_cons, List.length_nil] at h
      omega
  have hs2 : slices_length block = (if sim then 0 else 13 + 31)
      + (14 + (ascii (toString g)).length)
      + (14 + VarintWriter_length m.utf8ByteSize) + m.utf8ByteSize := by
    rw [hs, hd]
    cases sim <;> rfl
  have hl24 : len % 16777216 = slices_length block % 16777216 := by
    rw [hlen, hs]
    simp only [UINT32_MODULUS]
    omega
  refine ⟨t1, _, block, h1, hq, rfl, ?_, hs2, ?_, ?_, rfl, by decide, ?_, ?_⟩
  · intro b hb
    simp only [List.mem_cons, List.mem_singleton, List.not_mem_nil, or_false] at hb
    rcases hb with h | h | h | h | h | h | h | h | h <;> subst h <;>
      first
        | exact Nat.mod_lt _ (by decide)
        | decide
  · show big_endian [(len / 65536) % 256, (len / 256) % 256, len % 256] = _
    rw [big_endian_frame_header, hl24]
  · intro hlt
    show big_endian [(len / 65536) % 256, (len / 256) % 256, len % 256] = _
    rw [big_endian_frame_header, hl24, Nat.mod_eq_of_lt hlt]
  · exact big_endian_stream_id id
  · intro hlt
    exact (big_endian_stream_id id).trans (Nat.mod_eq_of_lt hlt)

/-- The frame header of `close_from_api` at the status 14, the stream id 1 and
the message "boom", on a stream that has not sent initial metadata: the
header block holds 79 bytes and the frame header is 0 0 79 1 5 0 0 0 1. -/
theorem close_from_api_frame_header_boom :
    ∃ (t1 : T) (hdr : List Nat) (block : List Slice),
      close_from_api_emit (grpc_create_chttp2_transport {} false) false 1 14 "boom" = some t1
        ∧ t1.qbuf = (grpc_create_chttp2_transport {} false).qbuf
            ++ [QItem.slice (.bytes hdr)] ++ block.map QItem.slice
            ++ [QItem.rst_stream 1 GRPC_HTTP2_NO_ERROR]
        ∧ slices_length block = 79
        ∧ big_endian (hdr.take 3) = 79
        ∧ (hdr.drop 3).take 2 = [1, 5]
        ∧ big_endian (hdr.drop 5) = 1 := by
  obtain ⟨t1, hdr, block, h1, h2, _, _, h5, _, h7, h8, _, _, h11⟩ :=
    close_from_api_frame_header_spec (grpc_create_chttp2_transport {} false) false 1 14 "boom"
      (by decide) (by decide)
  have h5b : slices_length block = 79 := by rw [h5]; decide
  exact ⟨t1, hdr, block, h1, h2, h5b, (h7 (by rw [h5b]; decide)).trans h5b, h8,
    h11 (by decide)⟩

theorem closure_step_record_error_streams (t : T) (c : Nat) (e : Status) (d : String) :
    (closure_step_record_error t c e d).streams = t.streams := by
  unfold closure_step_record_error
  split <;> rfl

theorem closure_step_finish_streams (t : T) (c : Nat) :
    (closure_step_finish t c).streams = t.streams := by
  unfold closure_step_finish
  split
  · split <;> rfl
  · rfl

theorem complete_closure_step_streams (t : T) (c : Option Nat) (e : Status) (d : String) :
    (grpc_chttp2_complete_closure_step t c e d).streams = t.streams := by
  unfold grpc_chttp2_complete_closure_step
  cases c with
  | none => rfl
  | some c =>
    simp only
    rw [closure_step_finish_streams, closure_step_record_error_streams]

theorem set_stream_buffer (t : T) (s : Nat) (st : grpc_chttp2_stream)
    (h : st.flow_controlled_buffer = (t.streams s).flow_controlled_buffer) (r : Nat) :
    ((set_stream t s st).streams r).flow_controlled_buffer
      = (t.streams r).flow_controlled_buffer := by
  by_cases hr : r = s
  · subst hr
    rw [set_stream_streams_same]
    exact h
  · rw [set_stream_streams_ne _ _ hr]

theorem initiate_write_streams (t : T) (reason : grpc_chttp2_initiate_write_reason) :
    (grpc_chttp2_initiate_write t reason).streams = t.streams := by
  unfold grpc_chttp2_initiate_write
  cases t.write_state <;> rfl

theorem mark_stream_writable_streams (t : T) (s : Nat) :
    (grpc_chttp2_mark_stream_writable t s).streams = t.streams := by
  unfold grpc_chttp2_mark_stream_writable
  split <;> rfl

theorem maybe_complete_recv_initial_metadata_buffer (t : T) (s r : Nat) :
    ((grpc_chttp2_maybe_complete_recv_initial_metadata t s).streams r).flow_controlled_buffer
      = (t.streams r).flow_controlled_buffer := by
  unfold grpc_chttp2_maybe_complete_recv_initial_metadata
  simp only
  split
  · rfl
  · split
    · refine set_stream_buffer t s _ ?_ r
      split_ifs <;> rfl
    · rfl

theorem recv_message_drain_buffer (t : T) (s r : Nat) :
    (((recv_message_drain t s).1).streams r).flow_controlled_buffer
      = (t.streams r).flow_controlled_buffer := by
  simp only [recv_message_drain]
  repeat' split
  all_goals first
    | rfl
    | (refine set_stream_buffer t s _ ?_ r; rfl)

theorem maybe_complete_recv_message_buffer (t : T) (s r : Nat) :
    ((grpc_chttp2_maybe_complete_recv_message t s).streams r).flow_controlled_buffer
      = (t.streams r).flow_controlled_buffer := by
  simp only [grpc_chttp2_maybe_complete_recv_message]
  split
  · rfl
  · rw [(act_on_flowctl_action_frame _ _ _).1]
    refine Eq.trans ?_ (recv_message_drain_buffer t s r)
    repeat' split
    all_goals first
      | rfl
      | (refine set_stream_buffer _ s _ ?_ r; rfl)

theorem maybe_complete_recv_trailing_metadata_buffer (t : T) (s r : Nat) :
    ((grpc_chttp2_maybe_complete_recv_trailing_metadata t s).streams r).flow_controlled_buffer
      = (t.streams r).flow_controlled_buffer := by
  unfold grpc_chttp2_maybe_complete_recv_trailing_metadata
  simp only
  refine Eq.trans ?_ (maybe_complete_recv_message_buffer t s r)
  generalize grpc_chttp2_maybe_complete_recv_message t s = m
  repeat' split
  all_goals first
    | rfl
    | (refine set_stream_buffer _ s _ ?_ r; rfl)

theorem send_trailing_metadata_buffer {t t1 : T} {s : Nat} {op : grpc_transport_stream_op_batch}
    (h : perform_stream_op_send_trailing_metadata t s op = some t1) (r : Nat) :
    (t1.streams r).flow_controlled_buffer = (t.streams r).flow_controlled_buffer := by
  unfold perform_stream_op_send_trailing_metadata at h
  simp only at h
  repeat' split at h
  all_goals first
    | (simp only [Option.some.injEq] at h
       subst h
       try simp only [complete_closure_step_streams, initiate_write_streams,
         mark_stream_writable_streams]
       repeat (first | rfl | refine (set_stream_buffer _ s _ (by rfl) r).trans ?_))
    | cases h

theorem recv_initial_metadata_op_buffer {t t1 : T} {s : Nat}
    {op : grpc_transport_stream_op_batch}
    (h : perform_stream_op_recv_initial_metadata t s op = some t1) (r : Nat) :
    (t1.streams r).flow_controlled_buffer = (t.streams r).flow_controlled_buffer := by
  unfold perform_stream_op_recv_initial_metadata at h
  split at h
  · exact absurd h (by simp)
  · simp only [Option.some.injEq] at h
    subst h
    refine (maybe_complete_recv_initial_metadata_buffer _ s r).trans ?_
    refine set_stream_buffer t s _ ?_ r
    split_ifs <;> rfl

theorem recv_message_op_buffer {t t1 : T} {s : Nat} {op : grpc_transport_stream_op_batch}
    (h : perform_stream_op_recv_message t s op = some t1) (r : Nat) :
    (t1.streams r).flow_controlled_buffer = (t.streams r).flow_controlled_buffer := by
  unfold perform_stream_op_recv_message at h
  split at h
  · exact absurd h (by simp)
  · simp only [Option.some.injEq] at h
    subst h
    refine (maybe_complete_recv_trailing_metadata_buffer _ s r).trans ?_
    exact set_stream_buffer t s _ (by rfl) r

theorem recv_trailing_metadata_op_buffer {t t1 : T} {s : Nat}
    {op : grpc_transport_stream_op_batch}
    (h : perform_stream_op_recv_trailing_metadata t s op = some t1) (r : Nat) :
    (t1.streams r).flow_controlled_buffer = (t.streams r).flow_controlled_buffer := by
  unfold perform_stream_op_recv_trailing_metadata at h
  split at h
  · exact absurd h (by simp)
  · split at h
    · exact absurd h (by simp)
    · simp only [Option.some.injEq] at h
      subst h
      refine (maybe_complete_recv_trailing_metadata_buffer _ s r).trans ?_
      exact set_stream_buffer t s _ (by rfl) r

theorem opt_block_buffer {b : Bool} {f : T → Option T} {t t1 : T}
    (hf : ∀ x y, f x = some y → ∀ r, (y.streams r).flow_controlled_buffer
      = (x.streams r).flow_controlled_buffer)
    (h : (if b = true then f t else some t) = some t1) (r : Nat) :
    (t1.streams r).flow_controlled_buffer = (t.streams r).flow_controlled_buffer := by
  split at h
  · exact hf t t1 h r
  · simp only [Option.some.injEq] at h
    subst h
    rfl

/-- The block `if (op->send_message)` on a stream open for writes: the frame
header and the slices of the message are appended to the flow-controlled
buffer of the stream, the buffers of the other streams stay. -/
theorem perform_stream_op_send_message_spec (t : T) (s : Nat)
    (op : grpc_transport_stream_op_batch) (c : Nat) (hoc : op.on_complete = some c)
    (hwc : (t.streams s).write_closed = false) :
    ∃ t1, perform_stream_op_send_message t s op = some t1
      ∧ (t1.streams s).flow_controlled_buffer
          = (t.streams s).flow_controlled_buffer
            ++ [Slice.bytes
                [if op.send_message_flags &&& GRPC_WRITE_INTERNAL_COMPRESS ≠ 0 then 1 else 0,
                 (slices_length op.send_message_slices / 16777216) % 256,
                 (slices_length op.send_message_slices / 65536) % 256,
                 (slices_length op.send_message_slices / 256) % 256,
                 slices_length op.send_message_slices % 256]]
            ++ op.send_message_slices
      ∧ (∀ r, r ≠ s → (t1.streams r).flow_controlled_buffer
          = (t.streams r).flow_controlled_buffer) := by
  unfold perform_stream_op_send_message
  rw [hoc]
  simp only
  have hrec : (send_message_record t s c).streams s
      = { (t.streams s) with send_message_finished := some c } := by
    unfold send_message_record
    simp only
    rw [set_stream_streams_same]
    rfl
  have hrecne : ∀ r, r ≠ s → (send_message_record t s c).streams r = t.streams r := by
    intro r hr
    unfold send_message_record
    simp only
    rw [set_stream_streams_ne _ _ hr]
    rfl
  have hw2 : ((send_message_record t s c).streams s).write_closed = false := by
    rw [hrec]; exact hwc
  rw [if_neg (by rw [hw2]; simp)]
  refine ⟨_, rfl, ?_, ?_⟩
  · generalize send_message_record t s c = t2 at hrec
    have k : ∀ (x : T) (r : Nat),
        ((send_message_kick (send_message_notify x s op c) s).streams r).flow_controlled_buffer
          = (x.streams r).flow_controlled_buffer := by
      intro x r
      have k1 : ((send_message_notify x s op c).streams r).flow_controlled_buffer
          = (x.streams r).flow_controlled_buffer := by
        unfold send_message_notify
        simp only
        split
        · rw [complete_closure_step_streams]
          exact set_stream_buffer x s _ (by rfl) r
        · split
          · exact set_stream_buffer x s _ (by rfl) r
          · exact set_stream_buffer x s _ (by rfl) r
      refine Eq.trans ?_ k1
      unfold send_message_kick
      split
      · rw [initiate_write_streams, mark_stream_writable_streams]
      · rfl
    rw [k]
    unfold send_message_buffer
    simp only
    rw [set_stream_streams_same, hrec]
    rfl
  · intro r hr
    have k : ∀ (x : T),
        ((send_message_kick (send_message_notify x s op c) s).streams r).flow_controlled_buffer
          = (x.streams r).flow_controlled_buffer := by
      intro x
      have k1 : ((send_message_notify x s op c).streams r).flow_controlled_buffer
          = (x.streams r).flow_controlled_buffer := by
        unfold send_message_notify
        simp only
        split
        · rw [complete_closure_step_streams]
          exact set_stream_buffer x s _ (by rfl) r
        · split
          · exact set_stream_buffer x s _ (by rfl) r
          · exact set_stream_buffer x s _ (by rfl) r
      refine Eq.trans ?_ k1
      unfold send_message_kick
      split
      · rw [initiate_write_streams, mark_stream_writable_streams]
      · rfl
    rw [k]
    unfold send_message_buffer
    simp only
    rw [set_stream_streams_ne _ _ hr, hrecne r hr]

/-- A batch that neither cancels nor sends initial metadata and sends a message
on a stream open for writes: whenever `perform_stream_op_locked` returns, the
flow-controlled buffer of the stream has grown by the frame header and the
slices of the message. -/
theorem perform_stream_op_locked_send_message_buffer (remove : RemoveStream) (t : T) (s : Nat)
    (op : grpc_transport_stream_op_batch) (c : Nat) (t2 : T) (hoc : op.on_complete = some c)
    (hc : op.cancel_stream = false) (hi : op.send_initial_metadata = false)
    (hm : op.send_message = true) (hwc : (t.streams s).write_closed = false)
    (h : perform_stream_op_locked remove t s op = some t2) :
    (t2.streams s).flow_controlled_buffer
      = (t.streams s).flow_controlled_buffer
        ++ [Slice.bytes
            [if op.send_message_flags &&& GRPC_WRITE_INTERNAL_COMPRESS ≠ 0 then 1 else 0,
             (slices_length op.send_message_slices / 16777216) % 256,
             (slices_length op.send_message_slices / 65536) % 256,
             (slices_length op.send_message_slices / 256) % 256,
             slices_length op.send_message_slices % 256]]
        ++ op.send_message_slices := by
  unfold perform_stream_op_locked at h
  simp only [hc, hi, hm, Bool.false_eq_true, if_false, if_true, Option.some_bind] at h
  simp only [Option.bind_eq_some, Option.map_eq_some'] at h
  obtain ⟨a1, h1, a2, h2, a3, h3, a4, h4, a5, h5, h6⟩ := h
  have hs0 : (perform_stream_op_init_barrier t op).streams = t.streams := by
    unfold perform_stream_op_init_barrier
    rw [hoc]
  obtain ⟨b1, k1, k2, _⟩ := perform_stream_op_send_message_spec
    (perform_stream_op_init_barrier t op) s op c hoc (by rw [hs0]; exact hwc)
  rw [h1] at k1
  simp only [Option.some.injEq] at k1
  subst k1
  rw [hs0] at k2
  rw [← k2, ← h6, complete_closure_step_streams]
  rw [opt_block_buffer (fun x y => recv_trailing_metadata_op_buffer) h5 s,
    opt_block_buffer (fun x y => recv_message_op_buffer) h4 s,
    opt_block_buffer (fun x y => recv_initial_metadata_op_buffer) h3 s,
    opt_block_buffer (fun x y => send_trailing_metadata_buffer) h2 s]

/-- A batch that only sends a message does not abort. -/
theorem perform_stream_op_locked_send_only (remove : RemoveStream) (t : T) (s : Nat)
    (op : grpc_transport_stream_op_batch) (c : Nat) (hoc : op.on_complete = some c)
    (hc : op.cancel_stream = false) (hi : op.send_initial_metadata = false)
    (hm : op.send_message = true) (ht : op.send_trailing_metadata = false)
    (h1 : op.recv_initial_metadata = false) (h2 : op.recv_message = false)
    (h3 : op.recv_trailing_metadata = false) :
    ∃ t2, perform_stream_op_locked remove t s op = some t2 := by
  unfold perform_stream_op_locked
  simp only [hc, hi, hm, ht, h1, h2, h3, Bool.false_eq_true, if_false, if_true,
    Option.some_bind, Option.map_some']
  unfold perform_stream_op_send_message
  rw [hoc]
  simp only
  split <;> simp

theorem big_endian_frame_length (len : Nat) :
    big_endian [(len / 16777216) % 256, (len / 65536) % 256, (len / 256) % 256, len % 256]
      = len % 4294967296 := by
  simp only [big_endian, List.foldl]
  omega

/-- C16, the code at the failing input: a send_message op with a message of
2^32 bytes, in one slice and with no flag, on a client stream that is open for
writes.  `perform_stream_op_locked` returns and appends the framing bytes
0 0 0 0 0 followed by the slice of the message; bytes 1..4 read as the
big-endian integer 0, not as the length 2^32 of the message, because each byte
is the cast to `uint8_t` of a shift of the `size_t` length and the length is
not checked against the four bytes of the prefix. -/
theorem C16_length_prefix_truncated :
    (started_stream_client.streams 0).write_closed = false
      ∧ slices_length send_huge_op.send_message_slices = 4294967296
      ∧ (∃ t2, perform_stream_op_locked (remove_stream_fuel 1) started_stream_client 0
            send_huge_op = some t2
          ∧ (t2.streams 0).flow_controlled_buffer
              = (started_stream_client.streams 0).flow_controlled_buffer
                ++ [Slice.bytes [0, 0, 0, 0, 0]] ++ send_huge_op.send_message_slices)
      ∧ big_endian [0, 0, 0, 0] = 0 := by
  have hl : slices_length send_huge_op.send_message_slices = 4294967296 := by
    simp only [send_huge_op, slices_length, List.map, Slice.length, List.length_replicate,
      List.sum_cons, List.sum_nil, Nat.add_zero]
  have hw : (started_stream_client.streams 0).write_closed = false := by decide!
  refine ⟨hw, hl, ?_, by decide⟩
  obtain ⟨t2, h2⟩ := perform_stream_op_locked_send_only (remove_stream_fuel 1)
    started_stream_client 0 send_huge_op 3 rfl rfl rfl rfl rfl rfl rfl rfl
  refine ⟨t2, h2, ?_⟩
  have k := perform_stream_op_locked_send_message_buffer (remove_stream_fuel 1)
    started_stream_client 0 send_huge_op 3 t2 rfl rfl rfl rfl hw h2
  rw [hl] at k
  exact k

/-- The framing of a message, for every send_message op on a stream that is not
write-closed, with message length `len` and any flags: the block
`if (op->send_message)` of `perform_stream_op_locked` appends to the
flow-controlled buffer of the stream exactly 5 framing bytes followed by the
slices of the message in their order, so the buffer grows by 5 + len bytes;
byte 0 is 1 if GRPC_WRITE_INTERNAL_COMPRESS is set and 0 otherwise, and bytes
1..4 read as the big-endian integer len mod 2^32, which is len when
len < 2^32.  A batch that neither cancels nor sends initial metadata leaves
the buffer in that state whenever `perform_stream_op_locked` returns, and a
batch that only sends the message does return. -/
theorem send_message_framing_spec (remove : RemoveStream) (t : T) (s : Nat)
    (op : grpc_transport_stream_op_batch) (c : Nat) (hoc : op.on_complete = some c)
    (hm : op.send_message = true) (hwc : (t.streams s).write_closed = false) :
    ∃ b0 b1 b2 b3 b4 t1,
      perform_stream_op_send_message t s op = some t1
        ∧ (t1.streams s).flow_controlled_buffer
            = (t.streams s).flow_controlled_buffer ++ [Slice.bytes [b0, b1, b2, b3, b4]]
              ++ op.send_message_slices
        ∧ slices_length (t1.streams s).flow_controlled_buffer
            = slices_length (t.streams s).flow_controlled_buffer + 5
              + slices_length op.send_message_slices
        ∧ b0 = (if op.send_message_flags &&& GRPC_WRITE_INTERNAL_COMPRESS ≠ 0 then 1 else 0)
        ∧ b1 < 256 ∧ b2 < 256 ∧ b3 < 256 ∧ b4 < 256
        ∧ big_endian [b1, b2, b3, b4] = slices_length op.send_message_slices % 4294967296
        ∧ (slices_length op.send_message_slices < 4294967296 →
            big_endian [b1, b2, b3, b4] = slices_length op.send_message_slices)
        ∧ (op.cancel_stream = false → op.send_initial_metadata = false →
            ∀ t2, perform_stream_op_locked remove t s op = some t2 →
              (t2.streams s).flow_controlled_buffer
                = (t.streams s).flow_controlled_buffer ++ [Slice.bytes [b0, b1, b2, b3, b4]]
                  ++ op.send_message_slices)
        ∧ (op.cancel_stream = false → op.send_initial_metadata = false →
            op.send_trailing_metadata = false → op.recv_initial_metadata = false →
            op.recv_message = false → op.recv_trailing_metadata = false →
            ∃ t2, perform_stream_op_locked remove t s op = some t2) := by
  obtain ⟨t1, k1, k2, _⟩ := perform_stream_op_send_message_spec t s op c hoc hwc
  refine ⟨_, _, _, _, _, t1, k1, k2, ?_, rfl, Nat.mod_lt _ (by decide), Nat.mod_lt _ (by decide),
    Nat.mod_lt _ (by decide), Nat.mod_lt _ (by decide), big_endian_frame_length _, ?_, ?_, ?_⟩
  · rw [k2]
    simp only [slices_length, List.map_append, List.sum_append, List.map_cons, List.map_nil,
      List.sum_cons, List.sum_nil, Slice.length, List.length_cons, List.length_nil]
    omega
  · intro hl
    rw [big_endian_frame_length, Nat.mod_eq_of_lt hl]
  · intro hc hi t2 h2
    exact perform_stream_op_locked_send_message_buffer remove t s op c t2 hoc hc hi hm hwc h2
  · intro hc hi ht h1 h2 h3
    exact perform_stream_op_locked_send_only remove t s op c hoc hc hi hm ht h1 h2 h3

/-- The framing of a message at a client stream that sends the eight-byte message
"hello" "abc" with no flag: the header 0 0 0 0 8 and the two slices are queued. -/
theorem send_message_framing_hello :
    send_hello_op.on_complete = some 3 ∧ send_hello_op.send_message = true
      ∧ (started_stream_client.streams 0).write_closed = false
      ∧ slices_length send_hello_op.send_message_slices = 8
      ∧ ∃ b0 b1 b2 b3 b4 t1,
        perform_stream_op_send_message started_stream_client 0 send_hello_op = some t1
          ∧ (t1.streams 0).flow_controlled_buffer
              = (started_stream_client.streams 0).flow_controlled_buffer
                ++ [Slice.bytes [b0, b1, b2, b3, b4]] ++ send_hello_op.send_message_slices
          ∧ b0 = 0 ∧ big_endian [b1, b2, b3, b4] = 8 := by
  refine ⟨rfl, rfl, by decide!, by decide!, ?_⟩
  obtain ⟨b0, b1, b2, b3, b4, t1, h1, h2, _, h4, _, _, _, _, _, h10, _⟩ :=
    send_message_framing_spec (remove_stream_fuel 1) started_stream_client 0 send_hello_op 3
      rfl rfl (by decide!)
  exact ⟨b0, b1, b2, b3, b4, t1, h1, h2, h4.trans (by decide), h10 (by decide!)⟩

theorem or_flag (a f g : Nat) (hf : f ≤ 1) (hg : g ≤ 1) :
    ∃ f2, f2 ≤ 1 ∧ (a * 65536 + f) ||| g = a * 65536 + f2 := by
  have h0 : ∀ b, b < 2 ^ 16 → a * 65536 + b = 2 ^ 16 * a ||| b := by
    intro b hb
    rw [← Nat.mul_add_lt_is_or hb a]
    omega
  have hf2 : f = 0 ∨ f = 1 := by omega
  have hg2 : g = 0 ∨ g = 1 := by omega
  rcases hg2 with hg2 | hg2
  · subst hg2
    exact ⟨f, hf, by simp⟩
  · subst hg2
    refine ⟨1, le_refl _, ?_⟩
    rcases hf2 with hf2 | hf2
    · subst hf2
      rw [h0 1 (by decide), h0 0 (by decide)]
      simp
    · subst hf2
      rw [h0 1 (by decide), Nat.lor_assoc]
      simp

theorem record_error_acc (t : T) (c : Nat) (e : Status) (d : String) (seen : List Status)
    (h : ErrAcc (t.closure_error c) seen) :
    ErrAcc ((closure_step_record_error t c e d).closure_error c) (seen ++ [e]) := by
  unfold closure_step_record_error
  by_cases he : e.ok = true
  · rw [if_neg (by rw [he]; simp)]
    refine ⟨?_, ?_⟩
    · rw [h.1]
      constructor
      · intro k x hx
        rcases List.mem_append.mp hx with hx | hx
        · exact k x hx
        · rw [List.mem_singleton.mp hx]; exact he
      · intro k x hx
        exact k x (List.mem_append.mpr (Or.inl hx))
    · intro x hx hxo
      rcases List.mem_append.mp hx with hx | hx
      · exact h.2 x hx hxo
      · rw [List.mem_singleton.mp hx, he] at hxo
        exact absurd hxo (by simp)
  · have he2 : e.ok = false := by simpa using he
    rw [if_pos (by rw [he2]; rfl)]
    simp only [Function.update_same]
    have hne : ¬ ∀ x, x ∈ seen ++ [e] → x.ok = true := by
      intro k
      exact he (k e (List.mem_append.mpr (Or.inr (List.mem_singleton.mpr rfl))))
    have key : ∀ base : Status, base.ok = false →
        (∀ x, x ∈ seen → x.ok = false → x ∈ base.children) →
        ErrAcc (grpc_error_add_child base e) (seen ++ [e]) := by
      intro base hb hch
      cases base with
      | OkStatus => exact absurd hb (by simp [Status.ok])
      | Error m r hh ch =>
        simp only [grpc_error_add_child, he2, Bool.false_eq_true, if_false]
        refine ⟨?_, ?_⟩
        · constructor
          · intro k
            exact absurd k (by simp [Status.ok])
          · intro k
            exact absurd k hne
        · intro x hx hxo
          simp only [Status.children]
          rcases List.mem_append.mp hx with hx | hx
          · exact List.mem_append.mpr (Or.inl (hch x hx hxo))
          · exact List.mem_append.mpr (Or.inr hx)
    by_cases hc : (t.closure_error c).ok = true
    · rw [if_pos hc]
      refine key _ rfl ?_
      intro x hx hxo
      rw [h.1.mp hc x hx] at hxo
      exact absurd hxo (by simp)
    · rw [if_neg hc]
      exact key _ (by simpa using hc) h.2

theorem record_error_frame (x : T) (c : Nat) (e : Status) (d : String) :
    (closure_step_record_error x c e d).closure_scratch c = x.closure_scratch c
      ∧ (closure_step_record_error x c e d).exec_ctx = x.exec_ctx
      ∧ (closure_step_record_error x c e d).run_after_write = x.run_after_write := by
  unfold closure_step_record_error
  split <;> exact ⟨rfl, rfl, rfl⟩

theorem closure_step_tail_holds (x : T) (c : Nat) (e : Status) (d : String)
    (seen : List Status) (hs : CLOSURE_BARRIER_FIRST_REF_BIT ≤ x.closure_scratch c)
    (ha : ErrAcc (x.closure_error c) seen) :
    (closure_step_finish (closure_step_record_error x c e d) c).closure_scratch c
        = x.closure_scratch c
      ∧ ErrAcc ((closure_step_finish (closure_step_record_error x c e d) c).closure_error c)
          (seen ++ [e])
      ∧ (closure_step_finish (closure_step_record_error x c e d) c).exec_ctx = x.exec_ctx
      ∧ (closure_step_finish (closure_step_record_error x c e d) c).run_after_write
          = x.run_after_write := by
  have r0 := record_error_acc x c e d seen ha
  obtain ⟨r1, r3, r4⟩ := record_error_frame x c e d
  generalize closure_step_record_error x c e d = y at r0 r1 r3 r4
  unfold closure_step_finish
  rw [if_neg (by rw [r1]; omega)]
  exact ⟨r1, r0, r3, r4⟩

theorem closure_step_tail_fires (x : T) (c : Nat) (e : Status) (d : String)
    (seen : List Status) (hs : x.closure_scratch c < CLOSURE_BARRIER_FIRST_REF_BIT)
    (ha : ErrAcc (x.closure_error c) seen) :
    ∃ err, ErrAcc err (seen ++ [e])
      ∧ (((closure_step_finish (closure_step_record_error x c e d) c).exec_ctx
            = x.exec_ctx ++ [(Closure.app c, err)]
          ∧ (closure_step_finish (closure_step_record_error x c e d) c).run_after_write
            = x.run_after_write)
        ∨ ((closure_step_finish (closure_step_record_error x c e d) c).run_after_write
            = x.run_after_write ++ [c]
          ∧ (closure_step_finish (closure_step_record_error x c e d) c).exec_ctx = x.exec_ctx
          ∧ (closure_step_finish (closure_step_record_error x c e d) c).closure_error c
            = err)) := by
  have r0 := record_error_acc x c e d seen ha
  obtain ⟨r1, r3, r4⟩ := record_error_frame x c e d
  generalize closure_step_record_error x c e d = y at r0 r1 r3 r4
  refine ⟨y.closure_error c, r0, ?_⟩
  unfold closure_step_finish
  rw [if_pos (by rw [r1]; exact hs)]
  split
  · left
    exact ⟨by rw [← r3], r4⟩
  · right
    exact ⟨by rw [← r4], r3, rfl⟩

/-- A step of the barrier that does not release the last reference: the count
drops, the error is recorded, nothing is scheduled. -/
theorem complete_closure_step_holds (t : T) (c : Nat) (e : Status) (d : String)
    (k f : Nat) (seen : List Status) (hf : f ≤ 1) (hk : 2 ≤ k)
    (hb : k * 65536 + f < UINTPTR_MODULUS) (hs : t.closure_scratch c = k * 65536 + f)
    (ha : ErrAcc (t.closure_error c) seen) :
    (grpc_chttp2_complete_closure_step t (some c) e d).closure_scratch c = (k - 1) * 65536 + f
      ∧ ErrAcc ((grpc_chttp2_complete_closure_step t (some c) e d).closure_error c)
          (seen ++ [e])
      ∧ (grpc_chttp2_complete_closure_step t (some c) e d).exec_ctx = t.exec_ctx
      ∧ (grpc_chttp2_complete_closure_step t (some c) e d).run_after_write
          = t.run_after_write := by
  have hv : (t.closure_scratch c + UINTPTR_MODULUS - CLOSURE_BARRIER_FIRST_REF_BIT)
      % UINTPTR_MODULUS = (k - 1) * 65536 + f := by
    rw [hs]
    simp only [UINTPTR_MODULUS, CLOSURE_BARRIER_FIRST_REF_BIT] at hb ⊢
    omega
  unfold grpc_chttp2_complete_closure_step
  simp only
  rw [hv]
  have k0 := closure_step_tail_holds
    { t with closure_scratch := Function.update t.closure_scratch c ((k - 1) * 65536 + f) }
    c e d seen
    (by simp only [Function.update_same, CLOSURE_BARRIER_FIRST_REF_BIT]; omega) ha
  simp only [Function.update_same] at k0
  exact k0

/-- The step of the barrier that releases the last reference: the closure is
run with the recorded error, or queued on `run_after_write` with it. -/
theorem complete_closure_step_fires (t : T) (c : Nat) (e : Status) (d : String)
    (f : Nat) (seen : List Status) (hf : f ≤ 1) (hs : t.closure_scratch c = 65536 + f)
    (ha : ErrAcc (t.closure_error c) seen) :
    ∃ err, ErrAcc err (seen ++ [e])
      ∧ (((grpc_chttp2_complete_closure_step t (some c) e d).exec_ctx
            = t.exec_ctx ++ [(Closure.app c, err)]
          ∧ (grpc_chttp2_complete_closure_step t (some c) e d).run_after_write
            = t.run_after_write)
        ∨ ((grpc_chttp2_complete_closure_step t (some c) e d).run_after_write
            = t.run_after_write ++ [c]
          ∧ (grpc_chttp2_complete_closure_step t (some c) e d).exec_ctx = t.exec_ctx
          ∧ (grpc_chttp2_complete_closure_step t (some c) e d).closure_error c = err)) := by
  have hv : (t.closure_scratch c + UINTPTR_MODULUS - CLOSURE_BARRIER_FIRST_REF_BIT)
      % UINTPTR_MODULUS = f := by
    rw [hs]
    simp only [UINTPTR_MODULUS, CLOSURE_BARRIER_FIRST_REF_BIT]
    omega
  unfold grpc_chttp2_complete_closure_step
  simp only
  rw [hv]
  exact closure_step_tail_fires
    { t with closure_scratch := Function.update t.closure_scratch c f } c e d seen
    (by simp only [Function.update_same, CLOSURE_BARRIER_FIRST_REF_BIT]; omega) ha

theorem barrier_trace_append (c : Nat) (l1 l2 : List BarrierEvent) (t : T) :
    barrier_trace c (l1 ++ l2) t = barrier_trace c l2 (barrier_trace c l1 t) := by
  simp only [barrier_trace, List.foldl_append]

theorem barrier_refs_append (l1 l2 : List BarrierEvent) :
    barrier_refs (l1 ++ l2) = barrier_refs l1 + barrier_refs l2 := by
  induction l1 with
  | nil => simp only [List.nil_append, barrier_refs, Nat.zero_add]
  | cons e l ih =>
    cases e <;> simp only [List.cons_append, barrier_refs, List.append_eq, ih]
    omega

theorem barrier_errors_append (l1 l2 : List BarrierEvent) :
    barrier_errors (l1 ++ l2) = barrier_errors l1 ++ barrier_errors l2 := by
  induction l1 with
  | nil => simp only [List.nil_append, barrier_errors]
  | cons e l ih =>
    cases e <;> simp only [List.cons_append, barrier_errors, List.append_eq, ih, List.cons_append]

/-- A send op takes its reference: the count of the barrier grows by one, and
nothing else of the barrier changes. -/
theorem barrier_ref_spec (t : T) (c a f : Nat) (hg : t.closure_barrier_may_cover_write ≤ 1)
    (hf : f ≤ 1) (hb : (a + 1) * 65536 + 1 < UINTPTR_MODULUS)
    (hs : t.closure_scratch c = a * 65536 + f) :
    ∃ f2, f2 ≤ 1
      ∧ (add_closure_barrier (or_may_cover_write t c) c).closure_scratch c
          = (a + 1) * 65536 + f2
      ∧ (add_closure_barrier (or_may_cover_write t c) c).closure_error c = t.closure_error c
      ∧ (add_closure_barrier (or_may_cover_write t c) c).closure_barrier_may_cover_write
          = t.closure_barrier_may_cover_write := by
  obtain ⟨f2, hf2, e2⟩ := or_flag a f t.closure_barrier_may_cover_write hf hg
  refine ⟨f2, hf2, ?_, rfl, rfl⟩
  simp only [add_closure_barrier, or_may_cover_write, Function.update_same, hs, e2]
  simp only [UINTPTR_MODULUS, CLOSURE_BARRIER_FIRST_REF_BIT] at hb ⊢
  omega

theorem complete_closure_step_flag (t : T) (c : Option Nat) (e : Status) (d : String) :
    (grpc_chttp2_complete_closure_step t c e d).closure_barrier_may_cover_write
      = t.closure_barrier_may_cover_write := by
  cases c with
  | none => rfl
  | some c =>
    unfold grpc_chttp2_complete_closure_step
    simp only
    unfold closure_step_finish closure_step_record_error
    split <;> split <;> (try split) <;> rfl

/-- The state of the barrier of `c` after a part of a run in which the last
reference was not released: the count is one more than the references taken
less the steps made, and the error holds what the steps recorded. -/
theorem barrier_trace_count (c n : Nat) (t : T) (evs : List BarrierEvent) (f0 : Nat)
    (hf0 : f0 ≤ 1) (hs0 : t.closure_scratch c = 65536 + f0)
    (he0 : t.closure_error c = .OkStatus) (hg0 : t.closure_barrier_may_cover_write ≤ 1)
    (hn : n + 2 ≤ 2 ^ 48) (hrefs : barrier_refs evs = n)
    (horder : ∀ pre post, evs = pre ++ post → (barrier_errors pre).length ≤ n →
      (barrier_errors pre).length ≤ barrier_refs pre)
    (hother : ∀ pre g post, evs = pre ++ .other g :: post →
      BarrierKept c (barrier_trace c pre t) (g (barrier_trace c pre t))) :
    ∀ pre post, evs = pre ++ post → (barrier_errors pre).length ≤ n →
      ∃ f, f ≤ 1
        ∧ (barrier_trace c pre t).closure_scratch c
            = (1 + barrier_refs pre - (barrier_errors pre).length) * 65536 + f
        ∧ ErrAcc ((barrier_trace c pre t).closure_error c) (barrier_errors pre)
        ∧ (barrier_trace c pre t).closure_barrier_may_cover_write ≤ 1 := by
  intro pre
  induction pre using List.reverseRecOn with
  | nil =>
    intro post _ _
    refine ⟨f0, hf0, ?_, ?_, hg0⟩
    · simp only [barrier_trace, List.foldl_nil, barrier_refs, barrier_errors, List.length_nil]
      rw [hs0]
    · simp only [barrier_trace, List.foldl_nil, barrier_errors]
      rw [he0]
      exact ⟨⟨fun _ x hx => absurd hx (List.not_mem_nil x), fun _ => rfl⟩,
        fun x hx => absurd hx (List.not_mem_nil x)⟩
  | append_singleton pre e ih =>
    intro post hev hle
    have hev2 : evs = pre ++ (e :: post) := by rw [hev]; simp
    have hrle : barrier_refs (pre ++ [e]) ≤ n := by
      rw [← hrefs, hev, barrier_refs_append (pre ++ [e]) post]
      omega
    rw [barrier_errors_append] at hle
    simp only [List.length_append] at hle
    obtain ⟨f, hf, h1, h2, h3⟩ := ih (e :: post) hev2 (by omega)
    have ho := horder (pre ++ [e]) post hev
    rw [barrier_errors_append, barrier_refs_append] at ho
    simp only [List.length_append] at ho
    have ho2 := ho hle
    rw [barrier_refs_append] at hrle
    rw [barrier_trace_append, barrier_refs_append, barrier_errors_append]
    simp only [List.length_append]
    have hoth : ∀ g, e = .other g →
        BarrierKept c (barrier_trace c pre t) (g (barrier_trace c pre t)) :=
      fun g he => hother pre g post (by rw [hev2, he])
    generalize barrier_trace c pre t = tb at h1 h2 h3 hoth
    cases e with
    | ref =>
      simp only [barrier_refs, barrier_errors, List.length_nil, List.append_nil,
        Nat.add_zero] at hle ho2 hrle ⊢
      obtain ⟨f2, hf2, k1, k2, k3⟩ := barrier_ref_spec tb c _ f h3 hf
        (by simp only [UINTPTR_MODULUS]; omega) h1
      refine ⟨f2, hf2, ?_, ?_, ?_⟩
      · show (add_closure_barrier (or_may_cover_write tb c) c).closure_scratch c = _
        rw [k1]
        have : 1 + barrier_refs pre - (barrier_errors pre).length + 1
            = 1 + (barrier_refs pre + (0 + 1)) - (barrier_errors pre).length := by omega
        rw [this]
      · show ErrAcc ((add_closure_barrier (or_may_cover_write tb c) c).closure_error c) _
        rw [k2]
        exact h2
      · show (add_closure_barrier (or_may_cover_write tb c) c).closure_barrier_may_cover_write
          ≤ 1
        rw [k3]
        exact h3
    | step err d =>
      simp only [barrier_refs, barrier_errors, List.length_cons, List.length_nil,
        Nat.add_zero] at hle ho2 hrle ⊢
      obtain ⟨s1, s2, _, _⟩ := complete_closure_step_holds tb c err d
        (1 + barrier_refs pre - (barrier_errors pre).length) f (barrier_errors pre) hf
        (by omega) (by simp only [UINTPTR_MODULUS]; omega) h1 h2
      refine ⟨f, hf, ?_, ?_, ?_⟩
      · show (grpc_chttp2_complete_closure_step tb (some c) err d).closure_scratch c = _
        rw [s1]
        have : 1 + barrier_refs pre - (barrier_errors pre).length - 1
            = 1 + barrier_refs pre - ((barrier_errors pre).length + (0 + 1)) := by omega
        rw [this]
      · exact s2
      · show (grpc_chttp2_complete_closure_step tb (some c) err d).closure_barrier_may_cover_write
          ≤ 1
        rw [complete_closure_step_flag]
        exact h3
    | other g =>
      simp only [barrier_refs, barrier_errors, List.length_nil, List.append_nil,
        Nat.add_zero] at hle ho2 hrle ⊢
      obtain ⟨k1, k2, k3⟩ := hoth g rfl
      refine ⟨f, hf, ?_, ?_, k3 h3⟩
      · show (g tb).closure_scratch c = _
        rw [k1, h1]
      · show ErrAcc ((g tb).closure_error c) _
        rw [k2]
        exact h2

theorem prefix_of_take {α : Type} (l : List α) (P : List α → Prop)
    (h : ∀ k, k ≤ l.length → P (l.take k)) : ∀ pre post, l = pre ++ post → P pre := by
  intro pre post hl
  have h1 := h pre.length (by rw [hl]; simp)
  rw [hl, List.take_left] at h1
  exact h1

theorem mem_of_split {α : Type} (l pre post : List α) (x : α) (h : l = pre ++ x :: post) :
    x ∈ l := by
  rw [h]
  simp

theorem barrierkept_initiate_write (c : Nat) (t : T)
    (reason : grpc_chttp2_initiate_write_reason) :
    BarrierKept c t (grpc_chttp2_initiate_write t reason) := by
  unfold grpc_chttp2_initiate_write
  cases t.write_state <;> exact ⟨rfl, rfl, id⟩

theorem barrierkept_write_end (c : Nat) (t : T) :
    BarrierKept c t (run_closure_list { t with write_state := .IDLE }) :=
  ⟨rfl, rfl, id⟩

/-- C17: closure barrier.  A batch has the non-null closure `c` as `on_complete`
and `n` send ops; `perform_stream_op_locked` starts the barrier of `c` with the
initial reference, and `evs` is what happens to it afterwards, in any order:
each send op ors in `closure_barrier_may_cover_write` and takes a reference
with `add_closure_barrier` (`n` events), `grpc_chttp2_complete_closure_step` is
called `n + 1` times for `c` with any errors, and any other code runs in
between, of which only this is asked: on the state it starts from it leaves the
scratch word and the error of `c` alone and the flag of the transport 0 or
CLOSURE_BARRIER_MAY_COVER_WRITE (it may change the write state, run closures and
flush `run_after_write`).  A reference is released after it was taken: up to
any point of the run, as long as at most `n` steps were made, no more steps than
references were counted (the initial reference is dropped after the send ops
took theirs, a send op completes after it took its own).  Then `c` is scheduled
exactly once, by the `(n + 1)`-th call and never earlier: each of the first `n`
calls hands nothing to `ExecCtx::Run` and appends nothing to `run_after_write`,
and the `(n + 1)`-th call either runs `c` or appends it to `run_after_write`.
The error `c` is then run with is OK if and only if every one of the `n + 1`
steps was completed with an OK error, and otherwise holds each non-OK step
error among its children.  A step on a null closure pointer does nothing.  The
references fit the bits of the scratch word above the flags (`n + 2` is at most
2^48). -/
theorem C17_closure_barrier (t0 : T) (op : grpc_transport_stream_op_batch) (c n : Nat)
    (evs : List BarrierEvent)
    (hoc : op.on_complete = some c) (hflag : t0.closure_barrier_may_cover_write ≤ 1)
    (hn : n + 2 ≤ 2 ^ 48)
    (hrefs : barrier_refs evs = n) (hsteps : (barrier_errors evs).length = n + 1)
    (horder : ∀ pre post, evs = pre ++ post → (barrier_errors pre).length ≤ n →
      (barrier_errors pre).length ≤ barrier_refs pre)
    (hother : ∀ pre g post, evs = pre ++ .other g :: post →
      BarrierKept c (barrier_trace c pre (perform_stream_op_init_barrier t0 op))
        (g (barrier_trace c pre (perform_stream_op_init_barrier t0 op)))) :
    (∀ pre e d post, evs = pre ++ .step e d :: post →
        ((barrier_errors pre).length < n →
          (grpc_chttp2_complete_closure_step
              (barrier_trace c pre (perform_stream_op_init_barrier t0 op)) (some c) e d).exec_ctx
            = (barrier_trace c pre (perform_stream_op_init_barrier t0 op)).exec_ctx
          ∧ (grpc_chttp2_complete_closure_step
              (barrier_trace c pre (perform_stream_op_init_barrier t0 op))
              (some c) e d).run_after_write
            = (barrier_trace c pre (perform_stream_op_init_barrier t0 op)).run_after_write)
        ∧ ((barrier_errors pre).length = n →
          ∃ err,
            (((grpc_chttp2_complete_closure_step
                  (barrier_trace c pre (perform_stream_op_init_barrier t0 op))
                  (some c) e d).exec_ctx
                = (barrier_trace c pre (perform_stream_op_init_barrier t0 op)).exec_ctx
                  ++ [(Closure.app c, err)]
              ∧ (grpc_chttp2_complete_closure_step
                  (barrier_trace c pre (perform_stream_op_init_barrier t0 op))
                  (some c) e d).run_after_write
                = (barrier_trace c pre (perform_stream_op_init_barrier t0 op)).run_after_write)
            ∨ ((grpc_chttp2_complete_closure_step
                  (barrier_trace c pre (perform_stream_op_init_barrier t0 op))
                  (some c) e d).run_after_write
                = (barrier_trace c pre (perform_stream_op_init_barrier t0 op)).run_after_write
                  ++ [c]
              ∧ (grpc_chttp2_complete_closure_step
                  (barrier_trace c pre (perform_stream_op_init_barrier t0 op))
                  (some c) e d).exec_ctx
                = (barrier_trace c pre (perform_stream_op_init_barrier t0 op)).exec_ctx
              ∧ (grpc_chttp2_complete_closure_step
                  (barrier_trace c pre (perform_stream_op_init_barrier t0 op))
                  (some c) e d).closure_error c = err))
            ∧ (err.ok = true ↔ ∀ x, x ∈ barrier_errors evs → x.ok = true)
            ∧ (∀ x, x ∈ barrier_errors evs → x.ok = false → x ∈ err.children)))
      ∧ (∀ (x : T) (e : Status) (d : String),
          grpc_chttp2_complete_closure_step x none e d = x) := by
  have i1 : (perform_stream_op_init_barrier t0 op).closure_scratch c = 65536 + 0 := by
    unfold perform_stream_op_init_barrier
    rw [hoc]
    simp only [Function.update_same, CLOSURE_BARRIER_FIRST_REF_BIT]
  have i2 : (perform_stream_op_init_barrier t0 op).closure_error c = .OkStatus := by
    unfold perform_stream_op_init_barrier
    rw [hoc]
    simp only [Function.update_same]
  have i3 : (perform_stream_op_init_barrier t0 op).closure_barrier_may_cover_write ≤ 1 := by
    unfold perform_stream_op_init_barrier
    rw [hoc]
    exact hflag
  have hcount := barrier_trace_count c n (perform_stream_op_init_barrier t0 op) evs 0
    (Nat.zero_le _) i1 i2 i3 hn hrefs horder hother
  generalize perform_stream_op_init_barrier t0 op = T0 at hcount hother ⊢
  refine ⟨?_, fun _ _ _ => rfl⟩
  intro pre e d post hev
  have hst : (barrier_errors pre).length + 1 + (barrier_errors post).length = n + 1 := by
    rw [← hsteps, hev, barrier_errors_append]
    simp only [barrier_errors, List.length_append, List.length_cons]
    omega
  have hrf : barrier_refs pre ≤ n := by
    rw [← hrefs, hev, barrier_refs_append]
    omega
  obtain ⟨f, hf, h1, h2, _⟩ := hcount pre (.step e d :: post) hev (by omega)
  constructor
  · intro hlt
    have ho := horder (pre ++ [.step e d]) post (by rw [hev]; simp)
    rw [barrier_errors_append, barrier_refs_append] at ho
    simp only [barrier_errors, barrier_refs, List.length_append, List.length_cons,
      List.length_nil, Nat.add_zero] at ho
    have ho2 := ho (by omega)
    obtain ⟨_, _, s3, s4⟩ := complete_closure_step_holds (barrier_trace c pre T0) c e d
      (1 + barrier_refs pre - (barrier_errors pre).length) f (barrier_errors pre) hf
      (by omega) (by simp only [UINTPTR_MODULUS]; omega) h1 h2
    exact ⟨s3, s4⟩
  · intro heq
    have ho := horder pre (.step e d :: post) hev (by omega)
    have h1b : (barrier_trace c pre T0).closure_scratch c = 65536 + f := by
      rw [h1]
      have : 1 + barrier_refs pre - (barrier_errors pre).length = 1 := by omega
      rw [this]
    obtain ⟨err, e1, e2⟩ := complete_closure_step_fires (barrier_trace c pre T0) c e d f
      (barrier_errors pre) hf h1b h2
    have hpost : barrier_errors post = [] := List.length_eq_zero.mp (by omega)
    have hall : barrier_errors evs = barrier_errors pre ++ [e] := by
      rw [hev, barrier_errors_append]
      simp only [barrier_errors, hpost]
    rw [hall]
    exact ⟨err, e2, e1.1, e1.2⟩

/-- C17 at a batch with two send ops on a new client transport, the references
and the steps being interleaved: the first send op completes at once, the
initial reference is dropped while the second send op waits for its write, the
write ends and `run_after_write` is run, and the second send op fails with
"boom"; the closure 5 is scheduled by that third step, with an error that is
not OK and holds "boom" among its children. -/
theorem C17_closure_barrier_witness :
    barrier_refs two_send_events = 2 ∧ (barrier_errors two_send_events).length = 2 + 1
      ∧ (∀ k, k ≤ two_send_events.length →
          (barrier_errors (two_send_events.take k)).length ≤ 2 →
          (barrier_errors (two_send_events.take k)).length
            ≤ barrier_refs (two_send_events.take k))
      ∧ ∃ err : Status, GRPC_ERROR_CREATE "boom" ∈ err.children ∧ err.ok = false
        ∧ ((grpc_chttp2_complete_closure_step
              (barrier_trace 5 (two_send_events.take 6)
                (perform_stream_op_init_barrier (grpc_create_chttp2_transport {} true)
                  { on_complete := some 5 }))
              (some 5) (GRPC_ERROR_CREATE "boom") "send_message_finished").exec_ctx
            = (barrier_trace 5 (two_send_events.take 6)
                (perform_stream_op_init_barrier (grpc_create_chttp2_transport {} true)
                  { on_complete := some 5 })).exec_ctx ++ [(Closure.app 5, err)]
          ∨ (grpc_chttp2_complete_closure_step
              (barrier_trace 5 (two_send_events.take 6)
                (perform_stream_op_init_barrier (grpc_create_chttp2_transport {} true)
                  { on_complete := some 5 }))
              (some 5) (GRPC_ERROR_CREATE "boom") "send_message_finished").run_after_write
            = (barrier_trace 5 (two_send_events.take 6)
                (perform_stream_op_init_barrier (grpc_create_chttp2_transport {} true)
                  { on_complete := some 5 })).run_after_write ++ [5]) := by
  have hord : ∀ k, k ≤ two_send_events.length →
      (barrier_errors (two_send_events.take k)).length ≤ 2 →
      (barrier_errors (two_send_events.take k)).length
        ≤ barrier_refs (two_send_events.take k) := by decide
  obtain ⟨err, w1, w2, w3⟩ := ((C17_closure_barrier (grpc_create_chttp2_transport {} true)
    { on_complete := some 5 } 5 2 two_send_events rfl (by decide) (by norm_num) rfl rfl
    (prefix_of_take two_send_events _ hord)
    (by
      intro pre g post h
      have hm := mem_of_split _ _ _ _ h
      simp only [two_send_events, List.mem_cons, List.mem_singleton, List.not_mem_nil,
        BarrierEvent.other.injEq, or_false, false_or, reduceCtorEq] at hm
      rcases hm with hm | hm
      · subst hm
        exact barrierkept_initiate_write _ _ _
      · subst hm
        exact barrierkept_write_end _ _)).1
    (two_send_events.take 6) (GRPC_ERROR_CREATE "boom") "send_message_finished" [] rfl).2 rfl
  refine ⟨rfl, rfl, hord, err, w3 _ (by simp [two_send_events, barrier_errors]) rfl, ?_, ?_⟩
  · cases hok : err.ok with
    | false => rfl
    | true =>
      have := w2.mp hok (GRPC_ERROR_CREATE "boom") (by simp [two_send_events, barrier_errors])
      exact absurd this (by decide)
  · rcases w1 with h | h
    · exact Or.inl h.1
    · exact Or.inr h.1

/-- C18, refuted as written: with the closure latched and `published_metadata[0]`
equal to PUBLISHED_AT_CLOSE, which is neither PUBLISHED_FROM_WIRE nor
SYNTHESIZED_FROM_FAKE, `grpc_chttp2_maybe_complete_recv_initial_metadata`
schedules the closure and clears the latch; this is what happens when
`grpc_chttp2_mark_stream_closed` closes the reads of a stream whose initial
metadata never arrived. -/
theorem C18_counterexample :
    (recv_initial_metadata_at_close.streams 0).recv_initial_metadata_ready = some 7
      ∧ (recv_initial_metadata_at_close.streams 0).published_metadata_0 = .PUBLISHED_AT_CLOSE
      ∧ recv_initial_metadata_at_close.exec_ctx.map Prod.fst = []
      ∧ (grpc_chttp2_maybe_complete_recv_initial_metadata
          recv_initial_metadata_at_close 0).exec_ctx.map Prod.fst = [Closure.app 7]
      ∧ ((grpc_chttp2_maybe_complete_recv_initial_metadata
          recv_initial_metadata_at_close 0).streams 0).recv_initial_metadata_ready = none
      ∧ (recv_initial_metadata_latched.streams 0).published_metadata_0 = .NOT_PUBLISHED
      ∧ (recv_initial_metadata_reads_closed.streams 0).published_metadata_0
          = .PUBLISHED_AT_CLOSE
      ∧ recv_initial_metadata_reads_closed.exec_ctx.map Prod.fst = [Closure.app 7]
      ∧ (recv_initial_metadata_reads_closed.streams 0).recv_initial_metadata_ready = none := by
  refine ⟨by decide!, by decide!, by decide!, by decide!, by decide!, by decide!, by decide!,
    by decide!, by decide!⟩

/-- C18, amended: `grpc_chttp2_maybe_complete_recv_initial_metadata` schedules
the closure `recv_initial_metadata_ready` with an OK status, clears the latch
and moves the initial metadata buffer to the slot of the caller if and only if
the closure is latched and `published_metadata[0]` is not NOT_PUBLISHED (it is
PUBLISHED_FROM_WIRE, SYNTHESIZED_FROM_FAKE or PUBLISHED_AT_CLOSE); in every
other state it returns the state unchanged: nothing is scheduled, the latch and
the initial metadata buffer stay as they are. -/
theorem C18_recv_initial_metadata_gate (t : T) (s : Nat) :
    (∀ c, (t.streams s).recv_initial_metadata_ready = some c →
      ((t.streams s).published_metadata_0 = .PUBLISHED_FROM_WIRE
        ∨ (t.streams s).published_metadata_0 = .SYNTHESIZED_FROM_FAKE
        ∨ (t.streams s).published_metadata_0 = .PUBLISHED_AT_CLOSE) →
      (grpc_chttp2_maybe_complete_recv_initial_metadata t s).exec_ctx
          = t.exec_ctx ++ [(Closure.app c, Status.OkStatus)]
        ∧ ((grpc_chttp2_maybe_complete_recv_initial_metadata t s).streams s
            ).recv_initial_metadata_ready = none
        ∧ ((grpc_chttp2_maybe_complete_recv_initial_metadata t s).streams s
            ).recv_initial_metadata = some (t.streams s).initial_metadata_buffer
        ∧ ((grpc_chttp2_maybe_complete_recv_initial_metadata t s).streams s
            ).initial_metadata_buffer = [])
      ∧ (((t.streams s).recv_initial_metadata_ready = none
          ∨ (t.streams s).published_metadata_0 = .NOT_PUBLISHED) →
        grpc_chttp2_maybe_complete_recv_initial_metadata t s = t) := by
  constructor
  · intro c hc hp
    have hne : (t.streams s).published_metadata_0 ≠ .NOT_PUBLISHED := by
      rcases hp with h | h | h <;> rw [h] <;> decide
    unfold grpc_chttp2_maybe_complete_recv_initial_metadata
    simp only
    split
    · next h0 => rw [hc] at h0; exact absurd h0 (by simp)
    · next c2 h0 =>
      rw [hc] at h0
      simp only [Option.some.injEq] at h0
      subst h0
      rw [if_pos hne]
      simp only [null_then_sched_closure, set_stream, Function.update_same]
      refine ⟨trivial, trivial, ?_, ?_⟩
      · split_ifs <;> simp
      · split_ifs <;> simp
  · intro h
    unfold grpc_chttp2_maybe_complete_recv_initial_metadata
    simp only
    split
    · rfl
    · next c2 h0 =>
      rcases h with h | h
      · rw [h] at h0; exact absurd h0 (by simp)
      · rw [if_neg (by rw [h]; decide)]

/-- C18 amended, at the stream whose initial metadata is PUBLISHED_AT_CLOSE
with the closure 7 latched: the closure is scheduled and the latch cleared. -/
theorem C18_recv_initial_metadata_gate_witness :
    (recv_initial_metadata_at_close.streams 0).recv_initial_metadata_ready = some 7
      ∧ (grpc_chttp2_maybe_complete_recv_initial_metadata
          recv_initial_metadata_at_close 0).exec_ctx
          = recv_initial_metadata_at_close.exec_ctx ++ [(Closure.app 7, Status.OkStatus)]
      ∧ ((grpc_chttp2_maybe_complete_recv_initial_metadata
          recv_initial_metadata_at_close 0).streams 0).recv_initial_metadata_ready = none :=
  ⟨by decide!,
    ((C18_recv_initial_metadata_gate recv_initial_metadata_at_close 0).1 7 (by decide!)
      (Or.inr (Or.inr (by decide!)))).1,
    ((C18_recv_initial_metadata_gate recv_initial_metadata_at_close 0).1 7 (by decide!)
      (Or.inr (Or.inr (by decide!)))).2.1⟩

/-- C19: `grpc_chttp2_maybe_complete_recv_trailing_metadata` first calls
`grpc_chttp2_maybe_complete_recv_message`, which leaves the latch, the closed
flags and the role alone (and does nothing when no `recv_message` is latched).
In the state `m` reached at that point it schedules
`recv_trailing_metadata_finished` with an OK status, moves the trailing
metadata and the stats to the slots of the caller and clears the latch if and
only if the closure is latched, the stream is read_closed and write_closed and
`frame_storage` is empty, `frame_storage` being emptied first when `seen_error`
is set or the transport is a server; so on a client without `seen_error` and
with undelivered bytes left in `frame_storage` it does not fire. -/
theorem C19_recv_trailing_metadata_gate (t : T) (s : Nat) (m r : T)
    (hm : m = grpc_chttp2_maybe_complete_recv_message t s)
    (hr : r = grpc_chttp2_maybe_complete_recv_trailing_metadata t s) :
    (m.streams s).trailing_view = (t.streams s).trailing_view
      ∧ m.is_client = t.is_client
      ∧ ((t.streams s).recv_message_ready = none → m = t)
      ∧ (∀ c, (t.streams s).recv_trailing_metadata_finished = some c →
          (t.streams s).read_closed = true → (t.streams s).write_closed = true →
          ((m.streams s).seen_error = true ∨ t.is_client = false
            ∨ (m.streams s).frame_storage = 0) →
          r.exec_ctx = m.exec_ctx ++ [(Closure.app c, Status.OkStatus)]
            ∧ (r.streams s).recv_trailing_metadata_finished = none
            ∧ (r.streams s).recv_trailing_metadata_moved = true
            ∧ (r.streams s).collecting_stats = false
            ∧ (r.streams s).frame_storage = 0)
      ∧ (¬ ((t.streams s).recv_trailing_metadata_finished.isSome = true
            ∧ (t.streams s).read_closed = true ∧ (t.streams s).write_closed = true
            ∧ ((m.streams s).seen_error = true ∨ t.is_client = false
              ∨ (m.streams s).frame_storage = 0)) →
          r.exec_ctx = m.exec_ctx
            ∧ (r.streams s).trailing_view = (t.streams s).trailing_view)
      ∧ (t.is_client = true → (m.streams s).seen_error = false →
          (m.streams s).frame_storage ≠ 0 →
          r.exec_ctx = m.exec_ctx
            ∧ (r.streams s).recv_trailing_metadata_finished
                = (t.streams s).recv_trailing_metadata_finished) := by
  subst hr
  obtain ⟨hv, hcl⟩ := maybe_complete_recv_message_trailing_view t s s
  rw [← hm] at hv hcl
  obtain ⟨v1, v2, v3, v4, v5⟩ := trailing_view_eq hv
  obtain ⟨k1, k2⟩ := maybe_complete_recv_trailing_metadata_spec t s m hm.symm
  have notfire : ¬ ((t.streams s).recv_trailing_metadata_finished.isSome = true
        ∧ (t.streams s).read_closed = true ∧ (t.streams s).write_closed = true
        ∧ ((m.streams s).seen_error = true ∨ t.is_client = false
          ∨ (m.streams s).frame_storage = 0)) →
      (grpc_chttp2_maybe_complete_recv_trailing_metadata t s).exec_ctx = m.exec_ctx
        ∧ ((grpc_chttp2_maybe_complete_recv_trailing_metadata t s).streams s).trailing_view
            = (t.streams s).trailing_view := by
    intro hn
    rw [← hv]
    apply k2
    rw [v1, v2, v3, hcl]
    exact hn
  refine ⟨hv, hcl, ?_, ?_, notfire, ?_⟩
  · intro h0
    rw [hm]
    unfold grpc_chttp2_maybe_complete_recv_message
    rw [h0]
  · intro c hc hrc hwc hz
    have k := k1 c (by rw [v1]; exact hc) (by rw [v2]; exact hrc) (by rw [v3]; exact hwc)
      (by rw [hcl]; exact hz)
    obtain ⟨w1, w2, w3, w4, w5⟩ := trailing_view_eq
      (show _ = (({ recv_trailing_metadata_finished := none, read_closed := true,
                    write_closed := true, collecting_stats := false,
                    recv_trailing_metadata_moved := true } : grpc_chttp2_stream)).trailing_view
        from k.2.1)
    exact ⟨k.1, w1, w5, w4, k.2.2⟩
  · intro hc hse hfs
    have hn : ¬ ((t.streams s).recv_trailing_metadata_finished.isSome = true
        ∧ (t.streams s).read_closed = true ∧ (t.streams s).write_closed = true
        ∧ ((m.streams s).seen_error = true ∨ t.is_client = false
          ∨ (m.streams s).frame_storage = 0)) := by
      intro h
      rcases h.2.2.2 with h | h | h
      · rw [hse] at h; exact absurd h (by simp)
      · rw [hc] at h; exact absurd h (by simp)
      · exact hfs h
    exact ⟨(notfire hn).1, (trailing_view_eq (notfire hn).2).1⟩

/-- C19 at a client stream closed in both directions, with the closure 9
latched, no error seen and five undelivered bytes in `frame_storage`: nothing
is scheduled and the latch stays. -/
theorem C19_recv_trailing_metadata_gate_witness :
    (trailing_latched_with_bytes.streams 0).recv_trailing_metadata_finished = some 9
      ∧ (trailing_latched_with_bytes.streams 0).read_closed = true
      ∧ (trailing_latched_with_bytes.streams 0).write_closed = true
      ∧ (trailing_latched_with_bytes.streams 0).frame_storage = 5
      ∧ (grpc_chttp2_maybe_complete_recv_trailing_metadata trailing_latched_with_bytes 0).exec_ctx
          = (grpc_chttp2_maybe_complete_recv_message trailing_latched_with_bytes 0).exec_ctx
      ∧ ((grpc_chttp2_maybe_complete_recv_trailing_metadata trailing_latched_with_bytes 0
          ).streams 0).recv_trailing_metadata_finished
          = (trailing_latched_with_bytes.streams 0).recv_trailing_metadata_finished :=
  ⟨by decide!, by decide!, by decide!, by decide!,
    (C19_recv_trailing_metadata_gate trailing_latched_with_bytes 0 _ _ rfl rfl).2.2.2.2.2
      (by decide!) (by decide!) (by decide!)⟩

/-- C20: from every reachable state, for every error `e` and every depth `n`
allowed to `remove_stream`: when `close_transport_locked` returns, whichever
of its branches ran (the close taken now, deferred behind the write in
progress, or found done already), `stream_map` is empty, the waiting list is
empty, and every stream that was in the map or on the waiting list before the
call is read_closed and write_closed; and the call does return for a non-OK
error on a client, and on a server when moreover the status to report has
fewer than three digits and a message of at most UINT32_MAX bytes (`n` at
least 1). -/
theorem C20_close_transport_cancels_all (fuel : Nat) (ca : ChannelArgs) (ic : Bool) (t : T)
    (h : Reachable fuel ca ic t) (n : Nat) (e : Status) :
    (∀ t1, close_transport_locked (remove_stream_fuel n) t e = some t1 →
      t1.stream_map = [] ∧ t1.waiting_for_concurrency = []
        ∧ (∀ i r, (i, r) ∈ t.stream_map →
            (t1.streams r).read_closed = true ∧ (t1.streams r).write_closed = true)
        ∧ (∀ r, r ∈ t.waiting_for_concurrency →
            (t1.streams r).read_closed = true ∧ (t1.streams r).write_closed = true))
    ∧ (1 ≤ n → e.ok = false →
        (t.is_client = true ∨ (grpc_error_get_grpc_status e < 100
          ∧ e.message.utf8ByteSize ≤ UINT32_MODULUS - 1)) →
        ∃ t1, close_transport_locked (remove_stream_fuel n) t e = some t1) := by
  have hw : WFb t := (reachable_inv h).1
  constructor
  · intro t1 h1
    unfold close_transport_locked at h1
    simp only [Option.bind_eq_some] at h1
    obtain ⟨t2, h2, h3⟩ := h1
    obtain ⟨r1, r2, r3, r4⟩ := end_all_the_calls_spec n hw h2
    have s := close_transport_tail_spec t2 e h3
    refine ⟨s.stream_map.trans r1, s.waiting.trans r2, ?_, ?_⟩
    · intro i r hir
      rw [s.streams]
      exact r3 i r hir
    · intro r hr
      rw [s.streams]
      exact r4 r hr
  · intro hn he hok
    obtain ⟨m, rfl⟩ : ∃ m, n = m + 1 := ⟨n - 1, by omega⟩
    obtain ⟨t2, h2⟩ := end_all_the_calls_total m t e hw hok
    obtain ⟨t1, h1, -⟩ := close_transport_tail t2 e he
    refine ⟨t1, ?_⟩
    unfold close_transport_locked
    rw [h2]
    exact h1

/-- Witness of C20: a client with one stream open, a second one waiting and a
write in progress is closed. -/
theorem C20_close_transport_cancels_all_witness :
    one_waiting_client.stream_map = [(1, 0)]
      ∧ one_waiting_client.waiting_for_concurrency = [1]
      ∧ one_waiting_client.write_state ≠ .IDLE
      ∧ ∃ t1, close_transport_locked (remove_stream_fuel 1) one_waiting_client
            (GRPC_ERROR_CREATE "keepalive timeout") = some t1
          ∧ t1.stream_map = [] ∧ t1.waiting_for_concurrency = []
          ∧ (t1.streams 0).read_closed = true ∧ (t1.streams 0).write_closed = true
          ∧ (t1.streams 1).read_closed = true ∧ (t1.streams 1).write_closed = true := by
  have c := C20_close_transport_cancels_all 1 {} true one_waiting_client
    (reachable_exec_state _ _ Reachable.init) 1 (GRPC_ERROR_CREATE "keepalive timeout")
  obtain ⟨t1, h1⟩ := c.2 (le_refl 1) rfl (Or.inl (by decide!))
  obtain ⟨r1, r2, r3, r4⟩ := c.1 t1 h1
  have hm : one_waiting_client.stream_map = [(1, 0)] := by decide!
  have hwt : one_waiting_client.waiting_for_concurrency = [1] := by decide!
  have a := r3 1 0 (by rw [hm]; exact List.mem_singleton.mpr rfl)
  have b := r4 1 (by rw [hwt]; exact List.mem_singleton.mpr rfl)
  exact ⟨hm, hwt, by decide!, t1, h1, r1, r2, a.1, a.2, b.1, b.2⟩

/-! # Lemmas on the write path, the read loop and the published metadata -/

/-! ## The frame `KeepX` -/

theorem pubstep_refl (a : grpc_chttp2_stream) : PubStep a a :=
  ⟨id, id, fun h => Or.inl h⟩

theorem pubstep_of_eq {a b : grpc_chttp2_stream} (h1 : b.read_closed = a.read_closed)
    (h2 : b.published_metadata_0 = a.published_metadata_0)
    (h3 : b.published_metadata_1 = a.published_metadata_1) : PubStep a b :=
  ⟨fun h => h2 ▸ h, fun h => h3 ▸ h, fun h => Or.inl (h1 ▸ h)⟩

theorem keepx_refl (ex : Option Nat) (t : T) : KeepX ex t t where
  paused := rfl
  reads := rfl
  busy := fun h => ⟨h, rfl, rfl⟩
  allocated := rfl
  pub0 := fun _ h => h
  pub1 := fun _ h => h
  closed := fun _ _ h => Or.inl h

theorem keepx_trans {ex : Option Nat} {a b c : T} (h1 : KeepX ex a b) (h2 : KeepX ex b c) :
    KeepX ex a c where
  paused := h2.paused.trans h1.paused
  reads := h2.reads.trans h1.reads
  busy := fun h => by
    obtain ⟨x1, x2, x3⟩ := h1.busy h
    obtain ⟨y1, y2, y3⟩ := h2.busy x1
    exact ⟨y1, y2.trans x2, y3.trans x3⟩
  allocated := h2.allocated.trans h1.allocated
  pub0 := fun r h => h2.pub0 r (h1.pub0 r h)
  pub1 := fun r h => h2.pub1 r (h1.pub1 r h)
  closed := fun r he h => by
    rcases h2.closed r he h with h3 | h3
    · rcases h1.closed r he h3 with h4 | h4
      · exact Or.inl h4
      · exact Or.inr ⟨h2.pub0 r h4.1, h2.pub1 r h4.2⟩
    · exact Or.inr h3

theorem keepx_weaken {t t1 : T} (ex : Option Nat) (h : KeepX none t t1) : KeepX ex t t1 where
  paused := h.paused
  reads := h.reads
  busy := h.busy
  allocated := h.allocated
  pub0 := h.pub0
  pub1 := h.pub1
  closed := fun r _ => h.closed r (by simp)

/-- The stream left out of the frame has its slots published in the end. -/
theorem keepx_upgrade {s : Nat} {t t1 : T} (h : KeepX (some s) t t1)
    (hp : (t1.streams s).published) : KeepX none t t1 where
  paused := h.paused
  reads := h.reads
  busy := h.busy
  allocated := h.allocated
  pub0 := h.pub0
  pub1 := h.pub1
  closed := fun r _ hr => by
    by_cases hs : r = s
    · subst hs
      exact Or.inr hp
    · exact h.closed r (fun hx => hs (Option.some.inj hx)) hr

/-- A state that agrees with `t` on every field of the frame. -/
theorem keepx_of_eq {t t1 : T} (h1 : t1.streams = t.streams)
    (h2 : t1.streams_allocated = t.streams_allocated)
    (h3 : t1.reading_paused_on_pending_induced_frames
      = t.reading_paused_on_pending_induced_frames)
    (h4 : t1.endpoint_reads_in_flight = t.endpoint_reads_in_flight)
    (h5 : t1.write_state = t.write_state)
    (h6 : t1.closed_with_error = t.closed_with_error)
    (h7 : t1.ep_destroyed = t.ep_destroyed) : KeepX none t t1 where
  paused := h3
  reads := h4
  busy := fun h => ⟨h5 ▸ h, h6, h7⟩
  allocated := h2
  pub0 := fun r h => by rw [h1]; exact h
  pub1 := fun r h => by rw [h1]; exact h
  closed := fun r _ h => by rw [h1] at h; exact Or.inl h

/-- A step taken with the write state IDLE that touches no stream. -/
theorem keepx_at_idle {t t1 : T} (hi : t.write_state = .IDLE) (h1 : t1.streams = t.streams)
    (h2 : t1.streams_allocated = t.streams_allocated)
    (h3 : t1.reading_paused_on_pending_induced_frames
      = t.reading_paused_on_pending_induced_frames)
    (h4 : t1.endpoint_reads_in_flight = t.endpoint_reads_in_flight) : KeepX none t t1 where
  paused := h3
  reads := h4
  busy := fun h => absurd hi h
  allocated := h2
  pub0 := fun r h => by rw [h1]; exact h
  pub1 := fun r h => by rw [h1]; exact h
  closed := fun r _ h => by rw [h1] at h; exact Or.inl h

theorem keepx_set_stream (t : T) (s : Nat) (st : grpc_chttp2_stream)
    (h : PubStep (t.streams s) st) : KeepX none t (set_stream t s st) where
  paused := rfl
  reads := rfl
  busy := fun h => ⟨h, rfl, rfl⟩
  allocated := rfl
  pub0 := fun r h0 => by
    rw [set_stream_streams]
    split
    · next h1 => subst h1; exact h.pub0 h0
    · exact h0
  pub1 := fun r h0 => by
    rw [set_stream_streams]
    split
    · next h1 => subst h1; exact h.pub1 h0
    · exact h0
  closed := fun r _ h0 => by
    rw [set_stream_streams] at h0 ⊢
    split at h0
    · next h1 =>
      subst h1
      rw [if_pos rfl]
      exact h.closed h0
    · next h1 =>
      rw [if_neg h1]
      exact Or.inl h0

/-- A write of the stream object `s` that keeps its published slots, `s` being
left out of the frame. -/
theorem keepx_set_stream_ex (t : T) (s : Nat) (st : grpc_chttp2_stream)
    (h2 : st.published_metadata_0 = (t.streams s).published_metadata_0)
    (h3 : st.published_metadata_1 = (t.streams s).published_metadata_1) :
    KeepX (some s) t (set_stream t s st) where
  paused := rfl
  reads := rfl
  busy := fun h => ⟨h, rfl, rfl⟩
  allocated := rfl
  pub0 := fun r h0 => by
    rw [set_stream_streams]
    split
    · next h1 => subst h1; rw [h2]; exact h0
    · exact h0
  pub1 := fun r h0 => by
    rw [set_stream_streams]
    split
    · next h1 => subst h1; rw [h3]; exact h0
    · exact h0
  closed := fun r he h0 => by
    have hs : r ≠ s := fun hx => he (by rw [hx])
    rw [set_stream_streams, if_neg hs] at h0
    exact Or.inl h0

/-- A write of the stream object that leaves its reads and its published slots
alone. -/
theorem keepx_set_stream_eq (t : T) (s : Nat) (st : grpc_chttp2_stream)
    (h1 : st.read_closed = (t.streams s).read_closed)
    (h2 : st.published_metadata_0 = (t.streams s).published_metadata_0)
    (h3 : st.published_metadata_1 = (t.streams s).published_metadata_1) :
    KeepX none t (set_stream t s st) :=
  keepx_set_stream t s st (pubstep_of_eq h1 h2 h3)

theorem initiate_write_fields (t : T) (reason : grpc_chttp2_initiate_write_reason) :
    (grpc_chttp2_initiate_write t reason).streams = t.streams
      ∧ (grpc_chttp2_initiate_write t reason).streams_allocated = t.streams_allocated
      ∧ (grpc_chttp2_initiate_write t reason).reading_paused_on_pending_induced_frames
          = t.reading_paused_on_pending_induced_frames
      ∧ (grpc_chttp2_initiate_write t reason).endpoint_reads_in_flight
          = t.endpoint_reads_in_flight
      ∧ (grpc_chttp2_initiate_write t reason).closed_with_error = t.closed_with_error
      ∧ (grpc_chttp2_initiate_write t reason).ep_destroyed = t.ep_destroyed := by
  unfold grpc_chttp2_initiate_write
  cases t.write_state <;> exact ⟨rfl, rfl, rfl, rfl, rfl, rfl⟩

theorem keepx_initiate_write (t : T) (reason : grpc_chttp2_initiate_write_reason) :
    KeepX none t (grpc_chttp2_initiate_write t reason) where
  paused := (initiate_write_fields t reason).2.2.1
  reads := (initiate_write_fields t reason).2.2.2.1
  busy := fun _ => ⟨initiate_write_ne_IDLE t reason, (initiate_write_fields t reason).2.2.2.2.1,
    (initiate_write_fields t reason).2.2.2.2.2⟩
  allocated := (initiate_write_fields t reason).2.1
  pub0 := fun r h => by rw [(initiate_write_fields t reason).1]; exact h
  pub1 := fun r h => by rw [(initiate_write_fields t reason).1]; exact h
  closed := fun r _ h => by rw [(initiate_write_fields t reason).1] at h; exact Or.inl h

theorem keepx_mark_stream_writable (t : T) (s : Nat) :
    KeepX none t (grpc_chttp2_mark_stream_writable t s) := by
  unfold grpc_chttp2_mark_stream_writable
  split
  · apply keepx_of_eq <;> rfl
  · exact keepx_refl _ t

theorem keepx_post_benign_reclaimer (t : T) : KeepX none t (post_benign_reclaimer t) := by
  unfold post_benign_reclaimer
  split
  · apply keepx_of_eq <;> rfl
  · exact keepx_refl _ t

theorem keepx_post_destructive_reclaimer (t : T) :
    KeepX none t (post_destructive_reclaimer t) := by
  unfold post_destructive_reclaimer
  split
  · apply keepx_of_eq <;> rfl
  · exact keepx_refl _ t

theorem keepx_connectivity_state_set (t : T) (st : grpc_connectivity_state) :
    KeepX none t (connectivity_state_set t st) := by
  apply keepx_of_eq <;> rfl

theorem keepx_exec_ctx_run (t : T) (c : Option Closure) (e : Status) :
    KeepX none t (exec_ctx_run t c e) := by
  unfold exec_ctx_run
  cases c
  · exact keepx_refl _ t
  · apply keepx_of_eq <;> rfl

theorem keepx_null_then_sched_closure (t : T) (c : Nat) :
    KeepX none t (null_then_sched_closure t c) := by
  apply keepx_of_eq <;> rfl

theorem keepx_closure_step_record_error (t : T) (c : Nat) (e : Status) (d : String) :
    KeepX none t (closure_step_record_error t c e d) := by
  unfold closure_step_record_error
  split
  · apply keepx_of_eq <;> rfl
  · exact keepx_refl _ t

theorem keepx_closure_step_finish (t : T) (c : Nat) :
    KeepX none t (closure_step_finish t c) := by
  unfold closure_step_finish
  repeat' split
  all_goals first
    | exact keepx_refl _ t
    | (apply keepx_of_eq <;> rfl)

theorem keepx_complete_closure_step (t : T) (c : Option Nat) (e : Status) (d : String) :
    KeepX none t (grpc_chttp2_complete_closure_step t c e d) := by
  cases c with
  | none => exact keepx_refl _ t
  | some c =>
    simp only [grpc_chttp2_complete_closure_step]
    refine keepx_trans ?_ (keepx_closure_step_finish _ _)
    refine keepx_trans ?_ (keepx_closure_step_record_error _ _ _ _)
    apply keepx_of_eq <;> rfl

theorem keepx_WithUrgency (t : T) (u : Urgency) (reason : grpc_chttp2_initiate_write_reason)
    (action : T → T) (h : ∀ x, KeepX none x (action x)) :
    KeepX none t (WithUrgency t u reason action) := by
  unfold WithUrgency
  cases u
  · exact keepx_refl _ t
  · exact keepx_trans (keepx_initiate_write t reason) (h _)
  · exact h t

theorem keepx_act_on_flowctl_action (a : FlowControlAction) (t : T) (s : Option Nat) :
    KeepX none t (grpc_chttp2_act_on_flowctl_action a t s) := by
  unfold grpc_chttp2_act_on_flowctl_action
  simp only
  have h1 : ∀ x : T, KeepX none x (match s with
    | some s =>
        if (x.streams s).id ≠ 0 ∧ (x.streams s).read_closed = false then
          grpc_chttp2_mark_stream_writable x s
        else x
    | none => x) := by
    intro x
    cases s with
    | none => exact keepx_refl _ x
    | some s =>
      simp only
      split
      · exact keepx_mark_stream_writable x s
      · exact keepx_refl _ x
  have r1 := keepx_WithUrgency t a.send_stream_update .STREAM_FLOW_CONTROL _ h1
  have r2 := fun x => keepx_WithUrgency x a.send_transport_update .TRANSPORT_FLOW_CONTROL
    (fun t => t) (fun y => keepx_refl _ y)
  have r3 := fun x => keepx_WithUrgency x a.send_initial_window_update .SEND_SETTINGS
    (fun t => { t with local_initial_window_size := a.initial_window_size })
    (fun y => by apply keepx_of_eq <;> rfl)
  have r4 := fun x => keepx_WithUrgency x a.send_max_frame_size_update .SEND_SETTINGS
    (fun t => { t with local_max_frame_size := a.max_frame_size })
    (fun y => by apply keepx_of_eq <;> rfl)
  have r5 := fun x => keepx_WithUrgency x a.preferred_rx_crypto_frame_size_update .SEND_SETTINGS
    (fun t => { t with local_preferred_receive_crypto_message_size :=
                 a.preferred_rx_crypto_frame_size })
    (fun y => by apply keepx_of_eq <;> rfl)
  split
  · exact keepx_trans (keepx_trans (keepx_trans r1 (r2 _)) (r3 _)) (keepx_trans (r4 _) (r5 _))
  · exact keepx_trans (keepx_trans (keepx_trans r1 (r2 _)) (r3 _)) (r4 _)

theorem keepx_set_stream_sched (t : T) (s : Nat) (st : grpc_chttp2_stream) (c : Nat)
    (h1 : st.read_closed = (t.streams s).read_closed)
    (h2 : st.published_metadata_0 = (t.streams s).published_metadata_0)
    (h3 : st.published_metadata_1 = (t.streams s).published_metadata_1) :
    KeepX none t (null_then_sched_closure (set_stream t s st) c) :=
  keepx_trans (keepx_set_stream_eq t s st h1 h2 h3) (keepx_null_then_sched_closure _ _)

theorem keepx_maybe_complete_recv_initial_metadata (t : T) (s : Nat) :
    KeepX none t (grpc_chttp2_maybe_complete_recv_initial_metadata t s) := by
  simp only [grpc_chttp2_maybe_complete_recv_initial_metadata]
  repeat' split
  all_goals first
    | exact keepx_refl _ t
    | (refine keepx_set_stream_sched _ s _ _ ?_ ?_ ?_ <;> rfl)

theorem keepx_recv_message_drain (t : T) (s : Nat) :
    KeepX none t (recv_message_drain t s).1 := by
  simp only [recv_message_drain]
  repeat' split
  all_goals first
    | exact keepx_refl _ t
    | (refine keepx_set_stream_eq t s _ ?_ ?_ ?_ <;> rfl)

theorem keepx_maybe_complete_recv_message (t : T) (s : Nat) :
    KeepX none t (grpc_chttp2_maybe_complete_recv_message t s) := by
  simp only [grpc_chttp2_maybe_complete_recv_message]
  split
  · exact keepx_refl _ t
  · refine keepx_trans ?_ (keepx_act_on_flowctl_action _ _ _)
    refine keepx_trans (keepx_recv_message_drain t s) ?_
    repeat' split
    all_goals first
      | exact keepx_refl _ _
      | (refine keepx_set_stream_sched _ s _ _ ?_ ?_ ?_ <;> rfl)

theorem keepx_maybe_complete_recv_trailing_metadata (t : T) (s : Nat) :
    KeepX none t (grpc_chttp2_maybe_complete_recv_trailing_metadata t s) := by
  simp only [grpc_chttp2_maybe_complete_recv_trailing_metadata]
  refine keepx_trans (keepx_maybe_complete_recv_message t s) ?_
  repeat' split
  all_goals first
    | exact keepx_refl _ _
    | (refine keepx_set_stream_eq _ s _ ?_ ?_ ?_ <;> rfl)
    | (refine keepx_set_stream_sched _ s _ _ ?_ ?_ ?_ <;> rfl)

theorem keepx_flush_write_list (l : List (Int × Nat)) (e : Status) (t : T) :
    KeepX none t (flush_write_list t l e) := by
  unfold flush_write_list
  induction l generalizing t with
  | nil => exact keepx_refl _ t
  | cons cb l ih =>
    simp only [List.foldl_cons]
    exact keepx_trans (keepx_complete_closure_step t _ e _) (ih _)

theorem keepx_fail_pending_writes (t : T) (s : Nat) (e : Status) :
    KeepX none t (grpc_chttp2_fail_pending_writes t s e) := by
  simp only [grpc_chttp2_fail_pending_writes]
  refine keepx_trans ?_ (keepx_flush_write_list _ _ _)
  refine keepx_trans ?_ (keepx_set_stream_eq _ s _ rfl rfl rfl)
  refine keepx_trans ?_ (keepx_flush_write_list _ _ _)
  refine keepx_trans ?_ (keepx_set_stream_eq _ s _ rfl rfl rfl)
  refine keepx_trans ?_ (keepx_complete_closure_step _ _ _ _)
  refine keepx_trans ?_ (keepx_set_stream_eq _ s _ rfl rfl rfl)
  refine keepx_trans ?_ (keepx_complete_closure_step _ _ _ _)
  refine keepx_trans ?_ (keepx_set_stream_eq _ s _ rfl rfl rfl)
  refine keepx_trans ?_ (keepx_complete_closure_step _ _ _ _)
  exact keepx_set_stream_eq _ s _ rfl rfl rfl

theorem keepx_fake_status (t : T) (s : Nat) (e : Status) :
    KeepX none t (grpc_chttp2_fake_status t s e) := by
  simp only [grpc_chttp2_fake_status]
  repeat' split
  all_goals first
    | (refine keepx_set_stream_eq _ s _ ?_ ?_ ?_ <;> rfl)
    | (refine keepx_trans ?_ (keepx_maybe_complete_recv_trailing_metadata _ _)
       refine keepx_set_stream _ s _ ?_
       refine ⟨id, ?_, fun h => Or.inl h⟩
       intro _ h
       cases h)

theorem keepx_add_rst_stream (t : T) (id code : Nat) :
    KeepX none t (grpc_chttp2_add_rst_stream_to_next_write t id code) := by
  apply keepx_of_eq <;> rfl

theorem keepx_close_from_api_emit {t t1 : T} {a : Bool} {b c : Nat} {d : String}
    (h : close_from_api_emit t a b c d = some t1) : KeepX none t t1 := by
  unfold close_from_api_emit at h
  simp only [Option.bind_eq_bind, Option.bind_eq_some] at h
  obtain ⟨_, _, _, _, _, _, h⟩ := h
  split at h
  · simp only [Option.bind_eq_some] at h
    obtain ⟨_, _, _, _, h⟩ := h
    simp only [Option.some.injEq] at h
    subst h
    refine keepx_trans ?_ (keepx_initiate_write _ _)
    refine keepx_trans ?_ (keepx_add_rst_stream _ _ _)
    split
    · apply keepx_of_eq <;> rfl
    · apply keepx_of_eq <;> rfl
  · cases h

theorem keepx_run_tarpit_fn {t t1 : T} {fn : TarpitFn} (h : run_tarpit_fn t fn = some t1) :
    KeepX none t t1 := by
  cases fn with
  | rst_stream id e =>
    simp only [run_tarpit_fn, Option.some.injEq] at h
    subst h
    exact keepx_trans (keepx_add_rst_stream _ _ _) (keepx_initiate_write _ _)
  | close_from_api a b c d => exact keepx_close_from_api_emit h

theorem keepx_MaybeTarpit {t t1 : T} {tarpit : Bool} {fn : TarpitFn}
    (h : MaybeTarpit t tarpit fn = some t1) : KeepX none t t1 := by
  unfold MaybeTarpit at h
  split at h
  · exact keepx_run_tarpit_fn h
  · simp only [Option.some.injEq] at h
    subst h
    apply keepx_of_eq <;> rfl

theorem keepx_mark_stream_closed_reads (t : T) (s : Nat) (cr : Bool) (e : Status) :
    KeepX (some s) t (mark_stream_closed_reads t s cr e) := by
  unfold mark_stream_closed_reads
  split
  · exact keepx_set_stream_ex t s _ rfl rfl
  · exact keepx_refl _ t

theorem mark_stream_closed_reads_same (t : T) (s : Nat) (cr : Bool) (e : Status)
    (h : (cr && !(t.streams s).read_closed) = false) : mark_stream_closed_reads t s cr e = t := by
  unfold mark_stream_closed_reads
  rw [if_neg]
  intro hx
  rw [hx.1, hx.2] at h
  cases h

theorem keepx_mark_stream_closed_writes (t : T) (s : Nat) (cw : Bool) (e : Status) :
    KeepX none t (mark_stream_closed_writes t s cw e) := by
  unfold mark_stream_closed_writes
  split
  · refine keepx_trans ?_ (keepx_fail_pending_writes _ _ _)
    refine keepx_set_stream_eq t s _ ?_ ?_ ?_ <;> rfl
  · exact keepx_refl _ t

theorem publish_slots (st : grpc_chttp2_stream) :
    (if (if st.published_metadata_0 = .NOT_PUBLISHED
            then { st with published_metadata_0 := .PUBLISHED_AT_CLOSE }
            else st).published_metadata_1 = .NOT_PUBLISHED
        then { (if st.published_metadata_0 = .NOT_PUBLISHED
            then { st with published_metadata_0 := .PUBLISHED_AT_CLOSE }
            else st) with published_metadata_1 := .PUBLISHED_AT_CLOSE }
        else (if st.published_metadata_0 = .NOT_PUBLISHED
            then { st with published_metadata_0 := .PUBLISHED_AT_CLOSE }
            else st)).published
      ∧ (if (if st.published_metadata_0 = .NOT_PUBLISHED
            then { st with published_metadata_0 := .PUBLISHED_AT_CLOSE }
            else st).published_metadata_1 = .NOT_PUBLISHED
        then { (if st.published_metadata_0 = .NOT_PUBLISHED
            then { st with published_metadata_0 := .PUBLISHED_AT_CLOSE }
            else st) with published_metadata_1 := .PUBLISHED_AT_CLOSE }
        else (if st.published_metadata_0 = .NOT_PUBLISHED
            then { st with published_metadata_0 := .PUBLISHED_AT_CLOSE }
            else st)).read_closed = st.read_closed := by
  by_cases h0 : st.published_metadata_0 = .NOT_PUBLISHED
  · rw [if_pos h0]
    by_cases h1 : st.published_metadata_1 = .NOT_PUBLISHED
    · rw [if_pos (show ({ st with published_metadata_0 := .PUBLISHED_AT_CLOSE } :
        grpc_chttp2_stream).published_metadata_1 = .NOT_PUBLISHED from h1)]
      exact ⟨⟨(fun h => by cases h), (fun h => by cases h)⟩, rfl⟩
    · rw [if_neg (show ¬ ({ st with published_metadata_0 := .PUBLISHED_AT_CLOSE } :
        grpc_chttp2_stream).published_metadata_1 = .NOT_PUBLISHED from h1)]
      exact ⟨⟨(fun h => by cases h), h1⟩, rfl⟩
  · rw [if_neg h0]
    by_cases h1 : st.published_metadata_1 = .NOT_PUBLISHED
    · rw [if_pos h1]
      exact ⟨⟨h0, (fun h => by cases h)⟩, rfl⟩
    · rw [if_neg h1]
      exact ⟨⟨h0, h1⟩, rfl⟩

theorem keepx_mark_stream_closed_publish (t : T) (s : Nat) :
    KeepX none t (mark_stream_closed_publish t s)
      ∧ ((mark_stream_closed_publish t s).streams s).published := by
  unfold mark_stream_closed_publish
  simp only
  have k1 := keepx_maybe_complete_recv_initial_metadata
  have k2 := keepx_maybe_complete_recv_message
  have hp := publish_slots
  obtain ⟨hp1, hp2⟩ := hp (t.streams s)
  generalize (if (if (t.streams s).published_metadata_0 = .NOT_PUBLISHED
            then { (t.streams s) with published_metadata_0 := .PUBLISHED_AT_CLOSE }
            else (t.streams s)).published_metadata_1 = .NOT_PUBLISHED
        then { (if (t.streams s).published_metadata_0 = .NOT_PUBLISHED
            then { (t.streams s) with published_metadata_0 := .PUBLISHED_AT_CLOSE }
            else (t.streams s)) with published_metadata_1 := .PUBLISHED_AT_CLOSE }
        else (if (t.streams s).published_metadata_0 = .NOT_PUBLISHED
            then { (t.streams s) with published_metadata_0 := .PUBLISHED_AT_CLOSE }
            else (t.streams s))) = st1 at hp1 hp2
  have k0 : KeepX none t (set_stream t s st1) :=
    keepx_set_stream t s st1 ⟨fun _ => hp1.1, fun _ => hp1.2, fun h => Or.inl (hp2 ▸ h)⟩
  have h0 : ((set_stream t s st1).streams s).published := by
    rw [set_stream_streams, if_pos rfl]; exact hp1
  have ka := k1 (set_stream t s st1) s
  have kb := k2 (grpc_chttp2_maybe_complete_recv_initial_metadata (set_stream t s st1) s) s
  refine ⟨keepx_trans k0 (keepx_trans ka kb), ?_⟩
  exact ⟨kb.pub0 s (ka.pub0 s h0.1), kb.pub1 s (ka.pub1 s h0.2)⟩

theorem keepx_list_remove_waiting (t : T) (s : Nat) :
    KeepX none t (grpc_chttp2_list_remove_waiting_for_concurrency t s) := by
  apply keepx_of_eq <;> rfl

theorem keepx_list_add_waiting (t : T) (s : Nat) :
    KeepX none t (grpc_chttp2_list_add_waiting_for_concurrency t s) := by
  apply keepx_of_eq <;> rfl

/-- Closing a stream: its reads are closed only with its slots published. -/
theorem keepx_mark_stream_closed {remove : RemoveStream} (hr : RemoveKeep remove) {t t1 : T}
    {s : Nat} {cr cw : Bool} {e : Status}
    (h : grpc_chttp2_mark_stream_closed remove t s cr cw e = some t1) : KeepX none t t1 := by
  unfold grpc_chttp2_mark_stream_closed at h
  split at h
  · simp only [Option.some.injEq] at h
    subst h
    refine keepx_trans ?_ (keepx_maybe_complete_recv_trailing_metadata _ _)
    split
    · exact keepx_fake_status _ _ _
    · exact keepx_refl _ _
  · simp only [Option.map_eq_some'] at h
    obtain ⟨t3, h3, h⟩ := h
    have ka := keepx_mark_stream_closed_reads t s cr e
    have ksame := mark_stream_closed_reads_same t s cr e
    have kb := keepx_mark_stream_closed_writes (mark_stream_closed_reads t s cr e) s cw e
    generalize hcr : (cr && !(t.streams s).read_closed) = closed_read at h ksame
    generalize mark_stream_closed_reads t s cr e = ta at ka ksame kb h3 h
    generalize mark_stream_closed_writes ta s cw e = t2 at kb h3 h
    have k3 : KeepX none t2 t3 := by
      split at h3
      · simp only [Option.map_eq_some'] at h3
        obtain ⟨t4, h4, h3⟩ := h3
        have k4 : KeepX none t2 t4 := by
          split at h4
          · exact hr _ _ _ _ h4
          · simp only [Option.some.injEq] at h4
            subst h4
            exact keepx_list_remove_waiting _ _
        refine keepx_trans k4 ?_
        subst h3
        split
        · exact keepx_fake_status _ _ _
        · exact keepx_refl _ _
      · simp only [Option.some.injEq] at h3
        subst h3
        exact keepx_refl _ _
    cases closed_read with
    | false =>
      have : ta = t := ksame rfl
      subst this
      refine keepx_trans (keepx_trans kb k3) ?_
      subst h
      simp only [Bool.false_eq_true, if_false]
      split
      · exact keepx_maybe_complete_recv_trailing_metadata _ _
      · exact keepx_refl _ _
    | true =>
      obtain ⟨kp, hp⟩ := keepx_mark_stream_closed_publish t3 s
      have kx : KeepX (some s) t (mark_stream_closed_publish t3 s) :=
        keepx_trans ka (keepx_weaken _ (keepx_trans (keepx_trans kb k3) kp))
      subst h
      simp only [if_true]
      split
      · have kt := keepx_maybe_complete_recv_trailing_metadata (mark_stream_closed_publish t3 s) s
        exact keepx_upgrade (keepx_trans kx (keepx_weaken _ kt))
          ⟨kt.pub0 s hp.1, kt.pub1 s hp.2⟩
      · exact keepx_upgrade kx hp

/-! ## The frame `KeepX` on the close path -/

theorem keepx_close_from_api {remove : RemoveStream} (hr : RemoveKeep remove) {t t1 : T}
    {s : Nat} {e : Status} {tarpit : Bool}
    (h : close_from_api remove t s e tarpit = some t1) : KeepX none t t1 := by
  unfold close_from_api at h
  simp only at h
  split at h
  · simp only [Option.bind_eq_some] at h
    obtain ⟨t2, h2, h3⟩ := h
    exact keepx_trans (keepx_mark_stream_closed hr h2) (keepx_MaybeTarpit h3)
  · exact absurd h (by simp)

theorem keepx_cancel_stream {remove : RemoveStream} (hr : RemoveKeep remove) {t t1 : T}
    {s : Nat} {e : Status} {tarpit : Bool}
    (h : grpc_chttp2_cancel_stream remove t s e tarpit = some t1) : KeepX none t t1 := by
  unfold grpc_chttp2_cancel_stream at h
  split at h
  · exact keepx_close_from_api hr h
  · have h0 : KeepX none t (if e.ok = false ∧ (t.streams s).seen_error = false then
        set_stream t s { (t.streams s) with seen_error := true } else t) := by
      split
      · refine keepx_set_stream_eq t s _ ?_ ?_ ?_ <;> rfl
      · exact keepx_refl _ t
    simp only at h
    generalize (if e.ok = false ∧ (t.streams s).seen_error = false then
        set_stream t s { (t.streams s) with seen_error := true } else t) = t0 at h h0
    refine keepx_trans h0 ?_
    split at h
    · simp only [Option.bind_eq_some] at h
      obtain ⟨t2, h2, h3⟩ := h
      exact keepx_trans (keepx_mark_stream_closed hr h2) (keepx_MaybeTarpit h3)
    · exact keepx_mark_stream_closed hr h

theorem keepx_pop_waiting (t : T) (s : Nat) (rest : List Nat) (st : grpc_chttp2_stream)
    (h1 : st.read_closed = (t.streams s).read_closed)
    (h2 : st.published_metadata_0 = (t.streams s).published_metadata_0)
    (h3 : st.published_metadata_1 = (t.streams s).published_metadata_1) :
    KeepX none t (set_stream { t with waiting_for_concurrency := rest } s st) := by
  have k1 : KeepX none t { t with waiting_for_concurrency := rest } := by
    apply keepx_of_eq <;> rfl
  exact keepx_trans k1 (keepx_set_stream_eq _ s st h1 h2 h3)

theorem keepx_cancel_waiting_loop {remove : RemoveStream} (hr : RemoveKeep remove) {e : Status}
    {tarpit : Bool} : ∀ (n : Nat) (t t1 : T),
      cancel_waiting_loop remove e tarpit n t = some t1 → KeepX none t t1
  | 0, t, t1, h => by
    unfold cancel_waiting_loop at h
    split at h
    · simp only [Option.some.injEq] at h; subst h; exact keepx_refl _ _
    · exact absurd h (by simp)
  | n + 1, t, t1, h => by
    unfold cancel_waiting_loop at h
    split at h
    · simp only [Option.some.injEq] at h; subst h; exact keepx_refl _ _
    · next s rest hl =>
      simp only [Option.bind_eq_some] at h
      obtain ⟨t2, h2, h3⟩ := h
      have p1 := keepx_pop_waiting t s rest
        { (t.streams s) with trailing_network_state := some .kNotSentOnWire } rfl rfl rfl
      have p2 := keepx_cancel_stream hr h2
      exact keepx_trans (keepx_trans p1 p2) (keepx_cancel_waiting_loop hr n t2 t1 h3)

theorem keepx_cancel_unstarted_streams {remove : RemoveStream} (hr : RemoveKeep remove)
    {t t1 : T} {e : Status} {tarpit : Bool}
    (h : cancel_unstarted_streams remove t e tarpit = some t1) : KeepX none t t1 :=
  keepx_cancel_waiting_loop hr _ t t1 h

theorem keepx_cancel_streams_loop {remove : RemoveStream} (hr : RemoveKeep remove)
    {e : Status} : ∀ (l : List Nat) (t t1 : T),
      cancel_streams_loop remove e l t = some t1 → KeepX none t t1
  | [], t, t1, h => by
    simp only [cancel_streams_loop, Option.some.injEq] at h
    subst h
    exact keepx_refl _ _
  | s :: l, t, t1, h => by
    simp only [cancel_streams_loop, Option.bind_eq_some] at h
    obtain ⟨t2, h2, h3⟩ := h
    exact keepx_trans (keepx_cancel_stream hr h2) (keepx_cancel_streams_loop hr l t2 t1 h3)

theorem keepx_end_all_the_calls {remove : RemoveStream} (hr : RemoveKeep remove) {t t1 : T}
    {e : Status} (h : end_all_the_calls remove t e = some t1) : KeepX none t t1 := by
  unfold end_all_the_calls at h
  simp only [Option.bind_eq_some] at h
  obtain ⟨t2, h2, h3⟩ := h
  exact keepx_trans (keepx_cancel_unstarted_streams hr h2)
    (keepx_cancel_streams_loop hr _ t2 t1 h3)

theorem keepx_assign_stream_id (t : T) (s : Nat) : KeepX none t (assign_stream_id t s) := by
  have h : KeepX none (set_stream t s { (t.streams s) with id := t.next_stream_id })
      (assign_stream_id t s) := by
    apply keepx_of_eq <;> rfl
  refine keepx_trans ?_ h
  refine keepx_set_stream_eq t s _ ?_ ?_ ?_ <;> rfl

theorem keepx_start_stream (t : T) (s : Nat) : KeepX none t (start_stream t s) := by
  unfold start_stream
  exact keepx_trans (keepx_trans (keepx_trans (keepx_assign_stream_id t s)
    (keepx_post_destructive_reclaimer _)) (keepx_mark_stream_writable _ s))
    (keepx_initiate_write _ _)

theorem keepx_start_streams_loop : ∀ (n : Nat) (t t1 : T),
    start_streams_loop n t = some t1 → KeepX none t t1
  | 0, t, t1, h => by
    unfold start_streams_loop at h
    split at h
    · exact absurd h (by simp)
    · simp only [Option.some.injEq] at h; subst h; exact keepx_refl _ _
  | n + 1, t, t1, h => by
    unfold start_streams_loop at h
    split at h
    · split at h
      · simp only [Option.some.injEq] at h; subst h; exact keepx_refl _ _
      · next s rest hl =>
        split at h
        · have k1 : KeepX none t { t with waiting_for_concurrency := rest } := by
            apply keepx_of_eq <;> rfl
          refine keepx_trans (keepx_trans k1 (keepx_start_stream _ s)) ?_
          exact keepx_start_streams_loop n _ t1 h
        · exact absurd h (by simp)
    · simp only [Option.some.injEq] at h; subst h; exact keepx_refl _ _

theorem keepx_maybe_start_some_streams {remove : RemoveStream} (hr : RemoveKeep remove)
    {t t1 : T} (h : maybe_start_some_streams remove t = some t1) : KeepX none t t1 := by
  unfold maybe_start_some_streams at h
  split at h
  · exact keepx_cancel_unstarted_streams hr h
  · simp only [Option.bind_eq_some] at h
    obtain ⟨t2, h2, h3⟩ := h
    have p2 := keepx_start_streams_loop _ t t2 h2
    split at h3
    · exact keepx_trans p2 (keepx_cancel_waiting_loop hr _ t2 t1 h3)
    · simp only [Option.some.injEq] at h3; subst h3; exact p2

theorem keepx_cancel_pings (t : T) (e : Status) : KeepX none t (cancel_pings t e) := by
  apply keepx_of_eq <;> rfl

theorem keepx_close_transport_notify (t : T) (e : Status) :
    KeepX none t (close_transport_notify t e) := by
  have k1 : ∀ x : T, KeepX none x { x with notify_on_receive_settings := none } :=
    fun x => by apply keepx_of_eq <;> rfl
  have k2 : ∀ x : T, KeepX none x { x with notify_on_close := none } :=
    fun x => by apply keepx_of_eq <;> rfl
  exact keepx_trans (keepx_trans (k1 t) (keepx_exec_ctx_run _ _ _))
    (keepx_trans (k2 _) (keepx_exec_ctx_run _ _ _))

theorem keepx_close_transport_defer (t : T) (e : Status) :
    KeepX none t (close_transport_defer t e) := by
  apply keepx_of_eq <;> rfl

theorem keepx_close_transport_now (t : T) (e : Status) (hi : t.write_state = .IDLE) :
    KeepX none t (close_transport_now t e) :=
  keepx_at_idle hi rfl rfl rfl rfl

theorem keepx_close_transport_locked {remove : RemoveStream} (hr : RemoveKeep remove)
    {t t1 : T} {e : Status} (h : close_transport_locked remove t e = some t1) :
    KeepX none t t1 := by
  unfold close_transport_locked at h
  simp only [Option.bind_eq_some] at h
  obtain ⟨t2, h2, h3⟩ := h
  refine keepx_trans (keepx_trans (keepx_end_all_the_calls hr h2) (keepx_cancel_pings t2 e)) ?_
  split at h3
  · generalize (if (!e.has_clear_grpc_status) = true then
      grpc_error_set_rpc_status e GRPC_STATUS_UNAVAILABLE else e) = e2 at h3
    split at h3
    · simp only [Option.some.injEq] at h3; subst h3
      exact keepx_close_transport_defer _ _
    · next hs =>
      split at h3
      · exact absurd h3 (by simp)
      · simp only [Option.some.injEq] at h3; subst h3
        have hs1 : (cancel_pings t2 e).write_state = .IDLE := by
          by_contra hx; exact hs hx
        exact keepx_trans (keepx_close_transport_now _ e2 hs1) (keepx_close_transport_notify _ _)
  · simp only [Option.some.injEq] at h3; subst h3
    exact keepx_close_transport_notify _ _

theorem keepx_remove_stream_from_lists (t : T) (s : Nat) :
    KeepX none t (remove_stream_from_lists t s) := by
  apply keepx_of_eq <;> rfl

theorem keepx_remove_stream_maybe_close {remove : RemoveStream} (hr : RemoveKeep remove)
    {t t1 : T} {e : Status} (h : remove_stream_maybe_close remove t e = some t1) :
    KeepX none t t1 := by
  unfold remove_stream_maybe_close at h
  split at h
  · simp only at h
    split at h
    · exact keepx_trans (keepx_post_benign_reclaimer t) (keepx_close_transport_locked hr h)
    · simp only [Option.some.injEq] at h; subst h
      exact keepx_post_benign_reclaimer t
  · simp only [Option.some.injEq] at h; subst h
    exact keepx_refl _ _

theorem keepx_extract (t : T) (m : List (Nat × Nat)) (inc : Option Nat) :
    KeepX none t { t with stream_map := m, incoming_stream := inc } := by
  apply keepx_of_eq <;> rfl

theorem remove_stream_body_keep {remove : RemoveStream} (hr : RemoveKeep remove) :
    RemoveKeep (remove_stream_body remove) := by
  intro t id error t1 h
  unfold remove_stream_body at h
  split at h
  · exact absurd h (by simp)
  · next s hl =>
    simp only [Option.bind_eq_some] at h
    obtain ⟨t3, h3, h4⟩ := h
    have k2 := keepx_extract t (t.stream_map.filter (fun e => e.1 ≠ id))
      (if t.incoming_stream = some s then none else t.incoming_stream)
    exact keepx_trans (keepx_trans k2 (keepx_remove_stream_maybe_close hr h3))
      (keepx_trans (keepx_remove_stream_from_lists t3 s) (keepx_maybe_start_some_streams hr h4))

theorem remove_stream_fuel_keep : ∀ n : Nat, RemoveKeep (remove_stream_fuel n)
  | 0 => by
    intro t id error t1 h
    exact absurd h (by simp [remove_stream_fuel])
  | n + 1 => remove_stream_body_keep (remove_stream_fuel_keep n)

/-! ## The frame `KeepX` on the handlers -/

theorem keepx_send_ping_locked (t : T) (a b : Option Closure) :
    KeepX none t (send_ping_locked t a b) := by
  unfold send_ping_locked
  split
  · exact keepx_trans (keepx_exec_ctx_run _ _ _) (keepx_exec_ctx_run _ _ _)
  · apply keepx_of_eq <;> rfl

theorem keepx_GracefulGoaway_Start (t : T) : KeepX none t (GracefulGoaway_Start t) := by
  unfold GracefulGoaway_Start
  refine keepx_trans (keepx_trans ?_ (keepx_send_ping_locked _ _ _)) (keepx_initiate_write _ _)
  apply keepx_of_eq <;> rfl

theorem keepx_MaybeSendFinalGoawayLocked (t : T) :
    KeepX none t (GracefulGoaway_MaybeSendFinalGoawayLocked t) := by
  unfold GracefulGoaway_MaybeSendFinalGoawayLocked
  split
  · exact keepx_refl _ t
  · split
    · exact keepx_refl _ t
    · refine keepx_trans ?_ (keepx_initiate_write _ _)
      apply keepx_of_eq <;> rfl

theorem keepx_send_goaway (t : T) (e : Status) (imm : Bool) :
    KeepX none t (send_goaway t e imm) := by
  unfold send_goaway
  refine keepx_trans ?_ (keepx_initiate_write _ _)
  split
  · split
    · exact keepx_GracefulGoaway_Start t
    · exact keepx_refl _ t
  · split
    · apply keepx_of_eq <;> rfl
    · exact keepx_refl _ t

theorem keepx_exceeded_ping_strikes {remove : RemoveStream} (hr : RemoveKeep remove)
    {t t1 : T} (h : grpc_chttp2_exceeded_ping_strikes remove t = some t1) : KeepX none t t1 :=
  keepx_trans (keepx_send_goaway _ _ _) (keepx_close_transport_locked hr h)

theorem keepx_keepalive_timeout {remove : RemoveStream} (hr : RemoveKeep remove)
    {t t1 : T} (h : grpc_chttp2_keepalive_timeout remove t = some t1) : KeepX none t t1 :=
  keepx_trans (keepx_send_goaway _ _ _) (keepx_close_transport_locked hr h)

theorem keepx_ping_timeout {remove : RemoveStream} (hr : RemoveKeep remove)
    {t t1 : T} (h : grpc_chttp2_ping_timeout remove t = some t1) : KeepX none t t1 :=
  keepx_trans (keepx_send_goaway _ _ _) (keepx_close_transport_locked hr h)

theorem keepx_settings_timeout {remove : RemoveStream} (hr : RemoveKeep remove)
    {t t1 : T} (h : grpc_chttp2_settings_timeout remove t = some t1) : KeepX none t t1 :=
  keepx_trans (keepx_send_goaway _ _ _) (keepx_close_transport_locked hr h)

theorem keepx_destroy_transport_locked {remove : RemoveStream} (hr : RemoveKeep remove)
    {t t1 : T} (h : destroy_transport_locked remove t = some t1) : KeepX none t t1 := by
  have k1 : KeepX none t { t with destroying := true } := by
    apply keepx_of_eq <;> rfl
  exact keepx_trans k1 (keepx_close_transport_locked hr h)

theorem keepx_perform_transport_op_locked {remove : RemoveStream} (hr : RemoveKeep remove)
    {t t1 : T} {op : grpc_transport_op}
    (h : perform_transport_op_locked remove t op = some t1) : KeepX none t t1 := by
  unfold perform_transport_op_locked at h
  simp only [Option.map_eq_some'] at h
  obtain ⟨t3, h3, rfl⟩ := h
  have k1 : KeepX none t (if op.goaway_error.ok = false then send_goaway t op.goaway_error false
      else t) := by
    split
    · exact keepx_send_goaway _ _ _
    · exact keepx_refl _ t
  generalize (if op.goaway_error.ok = false then send_goaway t op.goaway_error false
      else t) = ta at k1 h3
  have k2 : KeepX none ta (if op.send_ping_on_initiate.isSome ∨ op.send_ping_on_ack.isSome then
      grpc_chttp2_initiate_write
        (send_ping_locked ta (op.send_ping_on_initiate.map Closure.app)
          (op.send_ping_on_ack.map Closure.app)) .APPLICATION_PING
    else ta) := by
    split
    · exact keepx_trans (keepx_send_ping_locked _ _ _) (keepx_initiate_write _ _)
    · exact keepx_refl _ ta
  generalize (if op.send_ping_on_initiate.isSome ∨ op.send_ping_on_ack.isSome then
      grpc_chttp2_initiate_write
        (send_ping_locked ta (op.send_ping_on_initiate.map Closure.app)
          (op.send_ping_on_ack.map Closure.app)) .APPLICATION_PING
    else ta) = tb at k2 h3
  refine keepx_trans (keepx_trans k1 k2) (keepx_trans ?_ (keepx_exec_ctx_run _ _ _))
  split at h3
  · exact keepx_trans (keepx_send_goaway _ _ _) (keepx_close_transport_locked hr h3)
  · simp only [Option.some.injEq] at h3; subst h3
    exact keepx_refl _ _

theorem keepx_cancel_unseen_loop {remove : RemoveStream} (hr : RemoveKeep remove) :
    ∀ (l : List Nat) (t t1 : T), cancel_unseen_loop remove l t = some t1 → KeepX none t t1
  | [], t, t1, h => by
    simp only [cancel_unseen_loop, Option.some.injEq] at h
    subst h
    exact keepx_refl _ _
  | s :: l, t, t1, h => by
    simp only [cancel_unseen_loop, Option.bind_eq_some] at h
    obtain ⟨t2, h2, h3⟩ := h
    have p1 : KeepX none t (set_stream t s
        { (t.streams s) with trailing_network_state := some .kNotSeenByServer }) :=
      keepx_set_stream_eq t s _ rfl rfl rfl
    exact keepx_trans (keepx_trans p1 (keepx_cancel_stream hr h2))
      (keepx_cancel_unseen_loop hr l t2 t1 h3)

theorem keepx_set_goaway_error (t : T) (e : Status) :
    KeepX none t { t with goaway_error := e } := by
  apply keepx_of_eq <;> rfl

theorem keepx_add_incoming_goaway {remove : RemoveStream} (hr : RemoveKeep remove) {t t1 : T}
    {a b : Nat} {c : String} {d : Bool}
    (h : grpc_chttp2_add_incoming_goaway remove t a b c d = some t1) : KeepX none t t1 := by
  unfold grpc_chttp2_add_incoming_goaway at h
  simp only [Option.map_eq_some'] at h
  obtain ⟨t3, h3, rfl⟩ := h
  have m1 := keepx_set_goaway_error t (grpc_error_set_rpc_status
      (grpc_error_set_http2_error
        (.Error ("GOAWAY received; Error code: " ++ toString a ++ "; Debug Text: " ++ c)
          none none []) a) GRPC_STATUS_UNAVAILABLE)
  generalize ({ t with goaway_error := _ } : T) = t0 at m1 h3
  have m3 : KeepX none t0 t3 := by
    split at h3
    · simp only [Option.bind_eq_some] at h3
      obtain ⟨t2, h2, h4⟩ := h3
      exact keepx_trans (keepx_cancel_unstarted_streams hr h2)
        (keepx_cancel_unseen_loop hr _ t2 t3 h4)
    · simp only [Option.some.injEq] at h3; subst h3
      exact keepx_refl _ _
  refine keepx_trans (keepx_trans m1 m3) ?_
  split
  · exact keepx_connectivity_state_set _ _
  · exact keepx_refl _ _

theorem keepx_benign_reclaimer_locked (t : T) (e : Status) :
    KeepX none t (benign_reclaimer_locked t e) := by
  unfold benign_reclaimer_locked
  have k1 : ∀ x : T, KeepX none x { x with benign_reclaimer_registered := false } :=
    fun x => by apply keepx_of_eq <;> rfl
  refine keepx_trans ?_ (k1 _)
  split
  · exact keepx_send_goaway _ _ _
  · exact keepx_refl _ t

theorem keepx_destructive_reclaimer_locked {remove : RemoveStream} (hr : RemoveKeep remove)
    {t t1 : T} {e : Status} (h : destructive_reclaimer_locked remove t e = some t1) :
    KeepX none t t1 := by
  unfold destructive_reclaimer_locked at h
  have k1 : KeepX none t { t with destructive_reclaimer_registered := false } := by
    apply keepx_of_eq <;> rfl
  simp only at h
  split at h
  · simp only [Option.some.injEq] at h; subst h
    exact k1
  · split at h
    · simp only [Option.map_eq_some'] at h
      obtain ⟨t2, h2, rfl⟩ := h
      refine keepx_trans (keepx_trans k1 (keepx_cancel_stream hr h2)) ?_
      split
      · exact keepx_post_destructive_reclaimer _
      · exact keepx_refl _ _
    · simp only [Option.some.injEq] at h; subst h
      exact k1

theorem keepx_send_keepalive_ping_locked (t : T) :
    KeepX none t (send_keepalive_ping_locked t) := by
  unfold send_keepalive_ping_locked
  split
  · exact keepx_exec_ctx_run _ _ _
  · apply keepx_of_eq <;> rfl

theorem keepx_init_keepalive_ping_locked {t t1 : T}
    (h : init_keepalive_ping_locked t = some t1) : KeepX none t t1 := by
  unfold init_keepalive_ping_locked at h
  split at h
  · exact absurd h (by simp)
  · split at h
    · exact absurd h (by simp)
    · simp only at h
      split at h
      · simp only [Option.some.injEq] at h; subst h
        apply keepx_of_eq <;> rfl
      · split at h
        · simp only [Option.some.injEq] at h; subst h
          refine keepx_trans (keepx_trans ?_ (keepx_send_keepalive_ping_locked _))
            (keepx_initiate_write _ _)
          apply keepx_of_eq <;> rfl
        · simp only [Option.some.injEq] at h; subst h
          apply keepx_of_eq <;> rfl

theorem keepx_finish_keepalive_ping_locked {t t1 : T} {e : Status}
    (h : finish_keepalive_ping_locked t e = some t1) : KeepX none t t1 := by
  unfold finish_keepalive_ping_locked at h
  split at h
  · split at h
    · simp only at h
      split at h
      · exact absurd h (by simp)
      · simp only [Option.some.injEq] at h; subst h
        apply keepx_of_eq <;> rfl
    · simp only [Option.some.injEq] at h; subst h
      exact keepx_refl _ _
  · simp only [Option.some.injEq] at h; subst h
    exact keepx_refl _ _

theorem keepx_tarpit_timer_fired {t t1 : T} {i : Nat} (h : tarpit_timer_fired t i = some t1) :
    KeepX none t t1 := by
  unfold tarpit_timer_fired at h
  split at h
  · exact absurd h (by simp)
  · next fn _ =>
    have k1 : KeepX none t { t with tarpit_timers := t.tarpit_timers.eraseIdx i } := by
      apply keepx_of_eq <;> rfl
    simp only at h
    split at h
    · simp only [Option.some.injEq] at h; subst h
      exact k1
    · exact keepx_trans k1 (keepx_run_tarpit_fn h)

theorem keepx_parser_stream_input (t : T) (s : Nat) (f : Nat) (d : DeframeResult)
    (a : FlowControlAction) : KeepX none t (parser_stream_input t s f d a) := by
  unfold parser_stream_input
  refine keepx_set_stream_eq t s _ ?_ ?_ ?_ <;> rfl

theorem keepx_peer_settings (t : T) (n : Nat) :
    KeepX none t { t with peer_max_concurrent_streams := n } := by
  apply keepx_of_eq <;> rfl

/-! ## The frame `KeepX` on the stream operations -/

theorem keepx_or_may_cover_write (t : T) (c : Nat) : KeepX none t (or_may_cover_write t c) := by
  apply keepx_of_eq <;> rfl

theorem keepx_add_closure_barrier (t : T) (c : Nat) :
    KeepX none t (add_closure_barrier t c) := by
  apply keepx_of_eq <;> rfl

theorem keepx_perform_stream_op_init_barrier (t : T) (op : grpc_transport_stream_op_batch) :
    KeepX none t (perform_stream_op_init_barrier t op) := by
  unfold perform_stream_op_init_barrier
  split
  · apply keepx_of_eq <;> rfl
  · exact keepx_refl _ t

theorem keepx_send_initial_metadata_record (t : T) (s : Nat)
    (op : grpc_transport_stream_op_batch) (c : Nat) :
    KeepX none t (send_initial_metadata_record t s op c) := by
  simp only [send_initial_metadata_record]
  have a := keepx_trans (keepx_or_may_cover_write t c) (keepx_add_closure_barrier _ c)
  generalize add_closure_barrier _ c = t2 at a ⊢
  have b := keepx_trans a (keepx_set_stream_eq t2 s { (t2.streams s) with
      send_initial_metadata_finished := some c, send_initial_metadata := true } rfl rfl rfl)
  generalize set_stream t2 s _ = t3 at b ⊢
  split
  · exact keepx_trans b (keepx_set_stream_eq _ s _ rfl rfl rfl)
  · exact b

theorem keepx_send_initial_metadata_after_close (t : T) (s : Nat) :
    KeepX none t (send_initial_metadata_after_close t s) := by
  simp only [send_initial_metadata_after_close]
  refine keepx_trans ?_ (keepx_complete_closure_step _ _ _ _)
  refine keepx_set_stream_eq _ s _ ?_ ?_ ?_ <;> rfl

theorem keepx_send_message_record (t : T) (s c : Nat) :
    KeepX none t (send_message_record t s c) := by
  simp only [send_message_record]
  have a := keepx_trans (keepx_or_may_cover_write t c) (keepx_add_closure_barrier _ c)
  generalize add_closure_barrier _ c = t2 at a ⊢
  exact keepx_trans a (keepx_set_stream_eq t2 s _ rfl rfl rfl)

theorem keepx_send_message_after_close (t : T) (s c : Nat) :
    KeepX none t (send_message_after_close t s c) := by
  simp only [send_message_after_close]
  refine keepx_trans ?_ (keepx_complete_closure_step _ _ _ _)
  refine keepx_set_stream_eq _ s _ ?_ ?_ ?_ <;> rfl

theorem keepx_send_message_buffer (t : T) (s : Nat) (op : grpc_transport_stream_op_batch) :
    KeepX none t (send_message_buffer t s op) := by
  simp only [send_message_buffer]
  refine keepx_set_stream_eq _ s _ ?_ ?_ ?_ <;> rfl

theorem keepx_send_message_notify (t : T) (s : Nat) (op : grpc_transport_stream_op_batch)
    (c : Nat) : KeepX none t (send_message_notify t s op c) := by
  simp only [send_message_notify]
  split
  · refine keepx_trans ?_ (keepx_complete_closure_step _ _ _ _)
    refine keepx_set_stream_eq _ s _ ?_ ?_ ?_ <;> rfl
  · split
    · refine keepx_set_stream_eq _ s _ ?_ ?_ ?_ <;> rfl
    · refine keepx_set_stream_eq _ s _ ?_ ?_ ?_ <;> rfl

theorem keepx_send_message_kick (t : T) (s : Nat) : KeepX none t (send_message_kick t s) := by
  unfold send_message_kick
  split
  · exact keepx_trans (keepx_mark_stream_writable _ _) (keepx_initiate_write _ _)
  · exact keepx_refl _ t

theorem keepx_perform_stream_op_send_message {t t1 : T} {s : Nat}
    {op : grpc_transport_stream_op_batch}
    (h : perform_stream_op_send_message t s op = some t1) : KeepX none t t1 := by
  unfold perform_stream_op_send_message at h
  split at h
  · exact absurd h (by simp)
  · next c _ =>
    have a := keepx_send_message_record t s c
    simp only at h
    generalize send_message_record t s c = t2 at a h
    split at h
    · simp only [Option.some.injEq] at h; subst h
      exact keepx_trans a (keepx_send_message_after_close _ _ _)
    · simp only [Option.some.injEq] at h; subst h
      exact keepx_trans (keepx_trans (keepx_trans a (keepx_send_message_buffer _ _ _))
        (keepx_send_message_notify _ _ _ _)) (keepx_send_message_kick _ _)

theorem keepx_perform_stream_op_send_trailing_metadata {t t1 : T} {s : Nat}
    {op : grpc_transport_stream_op_batch}
    (h : perform_stream_op_send_trailing_metadata t s op = some t1) : KeepX none t t1 := by
  unfold perform_stream_op_send_trailing_metadata at h
  split at h
  · exact absurd h (by simp)
  · next c _ =>
    split at h
    · exact absurd h (by simp)
    · simp only at h
      have a := keepx_trans (keepx_or_may_cover_write t c) (keepx_add_closure_barrier _ c)
      generalize add_closure_barrier _ c = t2 at a h
      have b := keepx_trans a (keepx_set_stream_eq t2 s { (t2.streams s) with
        send_trailing_metadata_finished := some c, send_trailing_metadata := true,
        write_buffering := false } rfl rfl rfl)
      generalize set_stream t2 s _ = t3 at b h
      have d : KeepX none t (if op.send_trailing_metadata_non_ok_status = true then
          set_stream t3 s { (t3.streams s) with seen_error := true } else t3) := by
        split
        · exact keepx_trans b (keepx_set_stream_eq _ s _ rfl rfl rfl)
        · exact b
      generalize (if op.send_trailing_metadata_non_ok_status = true then
          set_stream t3 s { (t3.streams s) with seen_error := true } else t3) = t4 at d h
      split at h
      · simp only [Option.some.injEq] at h; subst h
        refine keepx_trans d ?_
        refine keepx_trans ?_ (keepx_complete_closure_step _ _ _ _)
        refine keepx_set_stream_eq _ s _ ?_ ?_ ?_ <;> rfl
      · split at h
        · simp only [Option.some.injEq] at h; subst h
          exact keepx_trans d
            (keepx_trans (keepx_mark_stream_writable _ _) (keepx_initiate_write _ _))
        · simp only [Option.some.injEq] at h; subst h
          exact d

theorem keepx_perform_stream_op_recv_initial_metadata {t t1 : T} {s : Nat}
    {op : grpc_transport_stream_op_batch}
    (h : perform_stream_op_recv_initial_metadata t s op = some t1) : KeepX none t t1 := by
  unfold perform_stream_op_recv_initial_metadata at h
  split at h
  · exact absurd h (by simp)
  · simp only [Option.some.injEq] at h; subst h
    refine keepx_trans ?_ (keepx_maybe_complete_recv_initial_metadata _ _)
    refine keepx_set_stream_eq _ s _ ?_ ?_ ?_ <;> (split <;> rfl)

theorem keepx_perform_stream_op_recv_message {t t1 : T} {s : Nat}
    {op : grpc_transport_stream_op_batch}
    (h : perform_stream_op_recv_message t s op = some t1) : KeepX none t t1 := by
  unfold perform_stream_op_recv_message at h
  split at h
  · exact absurd h (by simp)
  · simp only [Option.some.injEq] at h; subst h
    refine keepx_trans ?_ (keepx_maybe_complete_recv_trailing_metadata _ _)
    refine keepx_set_stream_eq _ s _ ?_ ?_ ?_ <;> rfl

theorem keepx_perform_stream_op_recv_trailing_metadata {t t1 : T} {s : Nat}
    {op : grpc_transport_stream_op_batch}
    (h : perform_stream_op_recv_trailing_metadata t s op = some t1) : KeepX none t t1 := by
  unfold perform_stream_op_recv_trailing_metadata at h
  split at h
  · exact absurd h (by simp)
  · split at h
    · exact absurd h (by simp)
    · simp only [Option.some.injEq] at h; subst h
      refine keepx_trans ?_ (keepx_maybe_complete_recv_trailing_metadata _ _)
      refine keepx_set_stream_eq _ s _ ?_ ?_ ?_ <;> rfl

theorem keepx_send_initial_metadata_start {remove : RemoveStream} (hr : RemoveKeep remove)
    {t t1 : T} {s : Nat} {op : grpc_transport_stream_op_batch}
    (h : send_initial_metadata_start remove t s op = some t1) : KeepX none t t1 := by
  unfold send_initial_metadata_start at h
  split at h
  · split at h
    · split at h
      · exact keepx_trans (keepx_list_add_waiting t s) (keepx_maybe_start_some_streams hr h)
      · exact absurd h (by simp)
    · have p1 : KeepX none t (set_stream t s
          { (t.streams s) with trailing_network_state := some .kNotSentOnWire }) :=
        keepx_set_stream_eq t s _ rfl rfl rfl
      exact keepx_trans p1 (keepx_cancel_stream hr h)
  · split at h
    · simp only at h
      split at h
      · simp only [Option.some.injEq] at h; subst h
        exact keepx_trans (keepx_mark_stream_writable _ _) (keepx_initiate_write _ _)
      · simp only [Option.some.injEq] at h; subst h
        exact keepx_mark_stream_writable _ _
    · exact absurd h (by simp)

theorem keepx_perform_stream_op_send_initial_metadata {remove : RemoveStream}
    (hr : RemoveKeep remove) {t t1 : T} {s : Nat} {op : grpc_transport_stream_op_batch}
    (h : perform_stream_op_send_initial_metadata remove t s op = some t1) :
    KeepX none t t1 := by
  unfold perform_stream_op_send_initial_metadata at h
  split at h
  · exact absurd h (by simp)
  · next c _ =>
    split at h
    · exact absurd h (by simp)
    · have a := keepx_send_initial_metadata_record t s op c
      simp only at h
      generalize send_initial_metadata_record t s op c = t2 at a h
      split at h
      · exact keepx_trans a (keepx_send_initial_metadata_start hr h)
      · simp only [Option.some.injEq] at h; subst h
        exact keepx_trans a (keepx_send_initial_metadata_after_close _ _)

theorem keepx_if {t t1 : T} {c : Bool} {o : Option T}
    (ho : ∀ x, o = some x → KeepX none t x)
    (h : (if c = true then o else some t) = some t1) : KeepX none t t1 := by
  split at h
  · exact ho t1 h
  · simp only [Option.some.injEq] at h; subst h
    exact keepx_refl _ t

theorem keepx_perform_stream_op_locked {remove : RemoveStream} (hr : RemoveKeep remove)
    {t t1 : T} {s : Nat} {op : grpc_transport_stream_op_batch}
    (h : perform_stream_op_locked remove t s op = some t1) : KeepX none t t1 := by
  unfold perform_stream_op_locked at h
  simp only [Option.bind_eq_some, Option.map_eq_some'] at h
  obtain ⟨t2, h2, t3, h3, t4, h4, t5, h5, t6, h6, t7, h7, t8, h8, rfl⟩ := h
  have a := keepx_perform_stream_op_init_barrier t op
  generalize perform_stream_op_init_barrier t op = t0 at a h2
  have m2 := keepx_if (fun x hx => keepx_cancel_stream hr hx) h2
  have m3 := keepx_if (fun x hx => keepx_perform_stream_op_send_initial_metadata hr hx) h3
  have m4 := keepx_if (fun x hx => keepx_perform_stream_op_send_message hx) h4
  have m5 := keepx_if (fun x hx => keepx_perform_stream_op_send_trailing_metadata hx) h5
  have m6 := keepx_if (fun x hx => keepx_perform_stream_op_recv_initial_metadata hx) h6
  have m7 := keepx_if (fun x hx => keepx_perform_stream_op_recv_message hx) h7
  have m8 := keepx_if (fun x hx => keepx_perform_stream_op_recv_trailing_metadata hx) h8
  exact keepx_trans (keepx_trans (keepx_trans (keepx_trans a m2) (keepx_trans m3 m4))
    (keepx_trans (keepx_trans m5 m6) (keepx_trans m7 m8)))
    (keepx_complete_closure_step _ _ _ _)

/-! ## The frame `KeepW` on the write path -/

theorem keepw_refl (t : T) : KeepW t t :=
  ⟨rfl, rfl, rfl, fun _ h => h, fun _ h => h, fun _ h => Or.inl h⟩

theorem keepw_trans {a b c : T} (h1 : KeepW a b) (h2 : KeepW b c) : KeepW a c where
  paused := h2.paused.trans h1.paused
  reads := h2.reads.trans h1.reads
  allocated := h2.allocated.trans h1.allocated
  pub0 := fun r h => h2.pub0 r (h1.pub0 r h)
  pub1 := fun r h => h2.pub1 r (h1.pub1 r h)
  closed := fun r h => by
    rcases h2.closed r h with h3 | h3
    · rcases h1.closed r h3 with h4 | h4
      · exact Or.inl h4
      · exact Or.inr ⟨h2.pub0 r h4.1, h2.pub1 r h4.2⟩
    · exact Or.inr h3

theorem keepw_of_keepx {t t1 : T} (h : KeepX none t t1) : KeepW t t1 :=
  ⟨h.paused, h.reads, h.allocated, h.pub0, h.pub1, fun r => h.closed r (by simp)⟩

/-- A state that agrees with `t` on the streams and on the read loop. -/
theorem keepw_of_eq {t t1 : T} (h1 : t1.streams = t.streams)
    (h2 : t1.streams_allocated = t.streams_allocated)
    (h3 : t1.reading_paused_on_pending_induced_frames
      = t.reading_paused_on_pending_induced_frames)
    (h4 : t1.endpoint_reads_in_flight = t.endpoint_reads_in_flight) : KeepW t t1 where
  paused := h3
  reads := h4
  allocated := h2
  pub0 := fun r h => by rw [h1]; exact h
  pub1 := fun r h => by rw [h1]; exact h
  closed := fun r h => by rw [h1] at h; exact Or.inl h

theorem keepw_pubinv {t t1 : T} (h : KeepW t t1) (hp : PubInv t) : PubInv t1 := by
  intro r hr hc
  rw [h.allocated] at hr
  rcases h.closed r hc with h1 | h1
  · exact ⟨h.pub0 r (hp r hr h1).1, h.pub1 r (hp r hr h1).2⟩
  · exact h1

theorem keepw_run_closure_list (t : T) : KeepW t (run_closure_list t) := by
  apply keepw_of_eq <;> rfl

theorem keepw_set_write_state {remove : RemoveStream} (hr : RemoveKeep remove) {t t1 : T}
    {st : grpc_chttp2_write_state} (h : set_write_state remove t st = some t1) :
    KeepW t t1 := by
  unfold set_write_state at h
  have k1 : KeepW t { t with write_state := st } := by
    apply keepw_of_eq <;> rfl
  simp only at h
  split at h
  · split at h
    · refine keepw_trans (keepw_trans k1 (keepw_run_closure_list _)) ?_
      refine keepw_trans ?_ (keepw_of_keepx (keepx_close_transport_locked hr h))
      apply keepw_of_eq <;> rfl
    · simp only [Option.some.injEq] at h; subst h
      exact keepw_trans k1 (keepw_run_closure_list _)
  · simp only [Option.some.injEq] at h; subst h
    exact k1

theorem keepw_write_action_end_error {remove : RemoveStream} (hr : RemoveKeep remove)
    {t : T} {e : Status} {tc : T × Bool} (h : write_action_end_error remove t e = some tc) :
    KeepW t tc.1 := by
  unfold write_action_end_error at h
  split at h
  · simp only [Option.map_eq_some'] at h
    obtain ⟨t2, h2, rfl⟩ := h
    exact keepw_of_keepx (keepx_close_transport_locked hr h2)
  · simp only [Option.some.injEq] at h; subst h
    exact keepw_refl _

theorem keepw_write_action_end_goaway {remove : RemoveStream} (hr : RemoveKeep remove)
    {t : T} {c : Bool} {tc : T × Bool} (h : write_action_end_goaway remove t c = some tc) :
    KeepW t tc.1 := by
  unfold write_action_end_goaway at h
  have k1 : KeepW t { t with sent_goaway_state := .FINAL_GOAWAY_SENT } := by
    apply keepw_of_eq <;> rfl
  split at h
  · simp only at h
    split at h
    · simp only [Option.map_eq_some'] at h
      obtain ⟨t2, h2, rfl⟩ := h
      exact keepw_trans k1 (keepw_of_keepx (keepx_close_transport_locked hr h2))
    · simp only [Option.some.injEq] at h; subst h
      exact k1
  · simp only [Option.some.injEq] at h; subst h
    exact keepw_refl _

theorem keepw_write_action_end_switch {remove : RemoveStream} (hr : RemoveKeep remove)
    {t t1 : T} {c : Bool} (h : write_action_end_switch remove t c = some t1) :
    KeepW t t1 := by
  unfold write_action_end_switch at h
  split at h
  · exact absurd h (by simp)
  · exact keepw_set_write_state hr h
  · simp only [Option.map_eq_some'] at h
    obtain ⟨t2, h2, rfl⟩ := h
    refine keepw_trans (keepw_set_write_state hr h2) ?_
    have k2 : ∀ x : T, KeepW x { x with finally_write_action_begin :=
        x.finally_write_action_begin + 1 } := fun x => by apply keepw_of_eq <;> rfl
    refine keepw_trans ?_ (k2 _)
    split
    · exact keepw_run_closure_list _
    · exact keepw_refl _

theorem keepw_write_action_end_body {remove : RemoveStream} (hr : RemoveKeep remove)
    {t t1 : T} {e : Status} (h : write_action_end_body remove t e = some t1) :
    KeepW t t1 := by
  unfold write_action_end_body at h
  simp only [Option.bind_eq_some] at h
  obtain ⟨tc, h1, tc2, h2, h3⟩ := h
  exact keepw_trans (keepw_trans (keepw_write_action_end_error hr h1)
    (keepw_write_action_end_goaway hr h2)) (keepw_write_action_end_switch hr h3)

theorem keepw_write_action_end_locked {remove : RemoveStream} (hr : RemoveKeep remove)
    {t t1 : T} {e : Status} (h : write_action_end_locked remove t e = some t1) :
    KeepW t t1 := by
  unfold write_action_end_locked at h
  refine keepw_trans ?_ (keepw_write_action_end_body hr h)
  apply keepw_of_eq <;> rfl

/-! ## `write_action_begin_locked`, as a function -/

/-- What the gather step answers: output is produced on an open transport with
something queued or gathered. -/
theorem write_action_begin_gather_writing (t : T) (g p : Bool) :
    (write_action_begin_gather t g p).2.writing
      = (t.closed_with_error.ok && (!t.qbuf.isEmpty || g)) := by
  unfold write_action_begin_gather grpc_chttp2_begin_write
  cases h : t.closed_with_error.ok
  · simp
  · simp

theorem write_action_begin_gather_open (t : T) (g p : Bool)
    (ho : t.closed_with_error.ok = true) :
    write_action_begin_gather t g p
      = ({ t with qbuf := [], num_pending_induced_frames := 0, writable := [] },
         { writing := !t.qbuf.isEmpty || g, partial_write := p }) := by
  unfold write_action_begin_gather grpc_chttp2_begin_write
  rw [if_neg (by rw [ho]; simp)]

theorem write_action_begin_gather_closed (t : T) (g p : Bool)
    (hc : t.closed_with_error.ok = false) :
    write_action_begin_gather t g p = (t, { writing := false, partial_write := false }) := by
  unfold write_action_begin_gather
  rw [if_pos hc]

/-- The gather step produced output: the write state is set, one endpoint
write is issued, and a paused read loop resumes with one endpoint read. -/
theorem write_action_begin_write_writing (remove : RemoveStream) (t : T) (g p : Bool)
    (ho : t.closed_with_error.ok = true) (hw : (!t.qbuf.isEmpty || g) = true) :
    write_action_begin_write remove t g p
      = some (if t.reading_paused_on_pending_induced_frames = true then
          { t with qbuf := [], num_pending_induced_frames := 0, writable := [],
                   write_state := if p = true then .WRITING_WITH_MORE else .WRITING,
                   endpoint_writes_in_flight := t.endpoint_writes_in_flight + 1,
                   reading_paused_on_pending_induced_frames := false,
                   endpoint_reads_in_flight := t.endpoint_reads_in_flight + 1 }
        else
          { t with qbuf := [], num_pending_induced_frames := 0, writable := [],
                   write_state := if p = true then .WRITING_WITH_MORE else .WRITING,
                   endpoint_writes_in_flight := t.endpoint_writes_in_flight + 1 }) := by
  unfold write_action_begin_write
  simp only [write_action_begin_gather_open t g p ho, hw, if_true]
  rw [set_write_state_of_ne_IDLE _ _ _ (by cases p <;> simp)]
  simp only [Option.some_bind, write_action_begin_resume_read, write_action]
  cases hp : t.reading_paused_on_pending_induced_frames
  · simp
  · simp [continue_read_action_locked]

/-- The gather step produced nothing: the write state is set to IDLE. -/
theorem write_action_begin_write_nothing (remove : RemoveStream) (t : T) (g p : Bool)
    (hn : (t.closed_with_error.ok && (!t.qbuf.isEmpty || g)) = false) :
    write_action_begin_write remove t g p
      = set_write_state remove (write_action_begin_gather t g p).1 .IDLE := by
  unfold write_action_begin_write
  simp only
  rw [write_action_begin_gather_writing, hn]
  simp

theorem keepw_write_action_begin_gather (t : T) (g p : Bool) :
    KeepW t (write_action_begin_gather t g p).1 := by
  unfold write_action_begin_gather grpc_chttp2_begin_write
  split
  · exact keepw_refl _
  · apply keepw_of_eq <;> rfl

/-! ## One step of the transport and the frames -/

theorem InitStream_frame (t : T) (sd : Option Nat) :
    (InitStream t sd).reading_paused_on_pending_induced_frames
        = t.reading_paused_on_pending_induced_frames
      ∧ (InitStream t sd).endpoint_reads_in_flight = t.endpoint_reads_in_flight
      ∧ (InitStream t sd).streams_allocated = t.streams_allocated + 1
      ∧ (∀ r, r ≠ t.streams_allocated → (InitStream t sd).streams r = t.streams r)
      ∧ ((InitStream t sd).streams t.streams_allocated).read_closed = false := by
  cases sd with
  | none =>
    simp only [InitStream]
    refine ⟨rfl, rfl, rfl, fun r hr => ?_, ?_⟩
    · exact set_stream_streams_ne _ _ hr
    · rw [set_stream_streams, if_pos rfl]
  | some id =>
    simp only [InitStream, post_destructive_reclaimer]
    split
    · refine ⟨rfl, rfl, rfl, fun r hr => ?_, ?_⟩
      · show (set_stream _ _ _).streams r = _
        rw [set_stream_streams_ne _ _ hr]
        exact set_stream_streams_ne _ _ hr
      · show ((set_stream _ _ _).streams _).read_closed = false
        rw [set_stream_streams, if_pos rfl]
        show ((set_stream _ _ _).streams _).read_closed = false
        rw [set_stream_streams, if_pos rfl]
    · refine ⟨rfl, rfl, rfl, fun r hr => ?_, ?_⟩
      · show (set_stream _ _ _).streams r = _
        rw [set_stream_streams_ne _ _ hr]
        exact set_stream_streams_ne _ _ hr
      · show ((set_stream _ _ _).streams _).read_closed = false
        rw [set_stream_streams, if_pos rfl]
        show ((set_stream _ _ _).streams _).read_closed = false
        rw [set_stream_streams, if_pos rfl]

theorem parsing_accept_stream_frame {t t1 : T} {id : Nat}
    (h : parsing_accept_stream t id = some t1) :
    t1.reading_paused_on_pending_induced_frames = t.reading_paused_on_pending_induced_frames
      ∧ t1.endpoint_reads_in_flight = t.endpoint_reads_in_flight
      ∧ t1.streams_allocated = t.streams_allocated + 1
      ∧ (∀ r, r ≠ t.streams_allocated → t1.streams r = t.streams r)
      ∧ (t1.streams t.streams_allocated).read_closed = false := by
  unfold parsing_accept_stream at h
  split at h
  · simp only [Option.some.injEq] at h; subst h
    exact InitStream_frame { t with last_new_stream_id := id } (some id)
  · exact absurd h (by simp)

/-- Every handler other than the constructors of streams and the two write
actions keeps the frame `KeepX`. -/
theorem keepx_step (fuel : Nat) {op : Op} {t t1 : T} (h : step fuel op t = some t1)
    (h1 : op ≠ .init_stream) (h2 : ∀ id, op ≠ .accept_stream id)
    (h3 : ∀ g p, op ≠ .write_action_begin g p) (h4 : ∀ e, op ≠ .write_action_end e) :
    KeepX none t t1 := by
  have hr := remove_stream_fuel_keep fuel
  cases op with
  | init_stream => exact absurd rfl h1
  | accept_stream id => exact absurd rfl (h2 id)
  | perform_stream_op s op =>
    simp only [step] at h
    split at h
    · exact keepx_perform_stream_op_locked hr h
    · exact absurd h (by simp)
  | perform_transport_op op => exact keepx_perform_transport_op_locked hr h
  | initiate_write reason =>
    simp only [step, Option.some.injEq] at h; subst h
    exact keepx_initiate_write _ _
  | write_action_begin g p => exact absurd rfl (h3 g p)
  | write_action_end e => exact absurd rfl (h4 e)
  | graceful_goaway_ping_ack =>
    simp only [step, Option.some.injEq] at h; subst h
    exact keepx_MaybeSendFinalGoawayLocked t
  | mark_stream_closed s cr cw e =>
    simp only [step] at h
    split at h
    · exact keepx_mark_stream_closed hr h
    · exact absurd h (by simp)
  | cancel_stream s e tarpit =>
    simp only [step] at h
    split at h
    · exact keepx_cancel_stream hr h
    · exact absurd h (by simp)
  | add_incoming_goaway a b c d => exact keepx_add_incoming_goaway hr h
  | peer_settings n =>
    simp only [step, Option.some.injEq] at h; subst h
    exact keepx_peer_settings t n
  | close_transport e => exact keepx_close_transport_locked hr h
  | send_goaway e imm =>
    simp only [step, Option.some.injEq] at h; subst h
    exact keepx_send_goaway t e imm
  | keepalive_timeout => exact keepx_keepalive_timeout hr h
  | ping_timeout => exact keepx_ping_timeout hr h
  | settings_timeout => exact keepx_settings_timeout hr h
  | exceeded_ping_strikes => exact keepx_exceeded_ping_strikes hr h
  | destroy_transport => exact keepx_destroy_transport_locked hr h
  | tarpit_timer i => exact keepx_tarpit_timer_fired h
  | stream_input s n d f =>
    simp only [step] at h
    split at h
    · simp only [Option.some.injEq] at h; subst h
      exact keepx_parser_stream_input t s n d f
    · exact absurd h (by simp)
  | benign_reclaimer e =>
    simp only [step, Option.some.injEq] at h; subst h
    exact keepx_benign_reclaimer_locked t e
  | destructive_reclaimer e => exact keepx_destructive_reclaimer_locked hr h
  | init_keepalive_ping => exact keepx_init_keepalive_ping_locked h
  | finish_keepalive_ping e => exact keepx_finish_keepalive_ping_locked h

/-- The state `write_action_begin_locked` leaves, as far as the streams go. -/
theorem write_action_begin_locked_streams {remove : RemoveStream} (hr : RemoveKeep remove)
    {t t1 : T} {g p : Bool} (h : write_action_begin_locked remove t g p = some t1) :
    ∃ t2, KeepW t t2 ∧ t1.streams = t2.streams
      ∧ t1.streams_allocated = t2.streams_allocated := by
  have key : ∀ t0 : T, KeepW t t0 → write_action_begin_write remove t0 g p = some t1 →
      ∃ t2, KeepW t t2 ∧ t1.streams = t2.streams
        ∧ t1.streams_allocated = t2.streams_allocated := by
    intro t0 k0 h
    cases hn : (t0.closed_with_error.ok && (!t0.qbuf.isEmpty || g))
    · rw [write_action_begin_write_nothing remove t0 g p hn] at h
      exact ⟨t1, keepw_trans k0 (keepw_trans (keepw_write_action_begin_gather t0 g p)
        (keepw_set_write_state hr h)), rfl, rfl⟩
    · rw [Bool.and_eq_true] at hn
      rw [write_action_begin_write_writing remove t0 g p hn.1 hn.2] at h
      simp only [Option.some.injEq] at h
      subst h
      refine ⟨t0, k0, ?_, ?_⟩
      · split <;> rfl
      · split <;> rfl
  unfold write_action_begin_locked at h
  simp only at h
  split at h
  · exact absurd h (by simp)
  · exact key _ (by apply keepw_of_eq <;> rfl) h

/-- The published slots of the stream objects are kept by every step, and with
them the invariant `PubInv`. -/
theorem step_pub (fuel : Nat) {op : Op} {t t1 : T} (h : step fuel op t = some t1) :
    (∀ r, r < t.streams_allocated →
        ((t.streams r).published_metadata_0 ≠ .NOT_PUBLISHED →
          (t1.streams r).published_metadata_0 ≠ .NOT_PUBLISHED)
        ∧ ((t.streams r).published_metadata_1 ≠ .NOT_PUBLISHED →
          (t1.streams r).published_metadata_1 ≠ .NOT_PUBLISHED))
      ∧ (PubInv t → PubInv t1) := by
  have hr := remove_stream_fuel_keep fuel
  have fromW : ∀ {x : T}, KeepW t x → x.streams = t1.streams →
      x.streams_allocated = t1.streams_allocated →
      (∀ r, r < t.streams_allocated →
        ((t.streams r).published_metadata_0 ≠ .NOT_PUBLISHED →
          (t1.streams r).published_metadata_0 ≠ .NOT_PUBLISHED)
        ∧ ((t.streams r).published_metadata_1 ≠ .NOT_PUBLISHED →
          (t1.streams r).published_metadata_1 ≠ .NOT_PUBLISHED))
      ∧ (PubInv t → PubInv t1) := by
    intro x k hs ha
    refine ⟨fun r _ => ⟨fun h0 => hs ▸ k.pub0 r h0, fun h0 => hs ▸ k.pub1 r h0⟩, fun hp => ?_⟩
    have hx := keepw_pubinv k hp
    intro r hr1 hc
    rw [← ha] at hr1
    rw [← hs] at hc ⊢
    exact hx r hr1 hc
  have fromInit : t1.streams_allocated = t.streams_allocated + 1 →
      (∀ r, r ≠ t.streams_allocated → t1.streams r = t.streams r) →
      (t1.streams t.streams_allocated).read_closed = false →
      (∀ r, r < t.streams_allocated →
        ((t.streams r).published_metadata_0 ≠ .NOT_PUBLISHED →
          (t1.streams r).published_metadata_0 ≠ .NOT_PUBLISHED)
        ∧ ((t.streams r).published_metadata_1 ≠ .NOT_PUBLISHED →
          (t1.streams r).published_metadata_1 ≠ .NOT_PUBLISHED))
      ∧ (PubInv t → PubInv t1) := by
    intro ha hs hn
    refine ⟨fun r hr1 => ?_, fun hp r hr1 hc => ?_⟩
    · rw [hs r (Nat.ne_of_lt hr1)]
      exact ⟨id, id⟩
    · by_cases he : r = t.streams_allocated
      · subst he
        rw [hn] at hc
        cases hc
      · rw [hs r he] at hc ⊢
        exact hp r (by omega) hc
  by_cases c1 : op = .init_stream
  · subst c1
    simp only [step, Option.some.injEq] at h; subst h
    obtain ⟨-, -, a, b, c⟩ := InitStream_frame t none
    exact fromInit a b c
  by_cases c2 : ∃ id, op = .accept_stream id
  · obtain ⟨id, rfl⟩ := c2
    obtain ⟨-, -, a, b, c⟩ := parsing_accept_stream_frame h
    exact fromInit a b c
  by_cases c3 : ∃ g p, op = .write_action_begin g p
  · obtain ⟨g, p, rfl⟩ := c3
    simp only [step] at h
    split at h
    · obtain ⟨t2, k, hs, ha⟩ := write_action_begin_locked_streams hr h
      exact fromW k hs.symm ha.symm
    · exact absurd h (by simp)
  by_cases c4 : ∃ e, op = .write_action_end e
  · obtain ⟨e, rfl⟩ := c4
    simp only [step] at h
    split at h
    · exact fromW (keepw_write_action_end_locked hr h) rfl rfl
    · exact absurd h (by simp)
  exact fromW (keepw_of_keepx (keepx_step fuel h c1 (fun id hx => c2 ⟨id, hx⟩)
    (fun g p hx => c3 ⟨g, p, hx⟩) (fun e hx => c4 ⟨e, hx⟩))) rfl rfl

theorem keepx_init_keepalive_pings_if_enabled_locked (t : T) (b : Bool) :
    KeepX none t (init_keepalive_pings_if_enabled_locked t b) := by
  unfold init_keepalive_pings_if_enabled_locked
  split
  · apply keepx_of_eq <;> rfl
  · apply keepx_of_eq <;> rfl

theorem create_transport_pubinv (ca : ChannelArgs) (ic : Bool) :
    PubInv (grpc_create_chttp2_transport ca ic) := by
  have hs := (read_channel_args_frame
    { is_client := ic, next_stream_id := if ic then 1 else 2 } ca ic).2.2.2.2.2.1
  have h0 : PubInv
      (read_channel_args { is_client := ic, next_stream_id := if ic then 1 else 2 } ca ic) := by
    intro r _ hc
    rw [hs] at hc
    cases hc
  have k : KeepX none
      (read_channel_args { is_client := ic, next_stream_id := if ic then 1 else 2 } ca ic)
      (grpc_create_chttp2_transport ca ic) := by
    unfold grpc_create_chttp2_transport
    simp only
    exact keepx_trans (keepx_trans (keepx_init_keepalive_pings_if_enabled_locked _ _)
      (keepx_initiate_write _ _)) (keepx_post_benign_reclaimer _)
  exact keepw_pubinv (keepw_of_keepx k) h0

/-- On every reachable state, a stream object whose reads are closed has both
slots of `published_metadata` past NOT_PUBLISHED. -/
theorem reachable_pubinv {fuel : Nat} {ca : ChannelArgs} {ic : Bool} {t : T}
    (h : Reachable fuel ca ic t) : PubInv t := by
  induction h with
  | init => exact create_transport_pubinv ca ic
  | step t t1 op _ hs ih => exact (step_pub fuel hs).2 ih

/-- Only `write_action_begin_locked` touches the pause of the read loop and
issues an endpoint read, among the handlers of `step`. -/
theorem step_reads (fuel : Nat) {op : Op} {t t1 : T} (h : step fuel op t = some t1)
    (h3 : ∀ g p, op ≠ .write_action_begin g p) :
    t1.reading_paused_on_pending_induced_frames = t.reading_paused_on_pending_induced_frames
      ∧ t1.endpoint_reads_in_flight = t.endpoint_reads_in_flight := by
  have hr := remove_stream_fuel_keep fuel
  by_cases c1 : op = .init_stream
  · subst c1
    simp only [step, Option.some.injEq] at h; subst h
    exact ⟨(InitStream_frame t none).1, (InitStream_frame t none).2.1⟩
  by_cases c2 : ∃ id, op = .accept_stream id
  · obtain ⟨id, rfl⟩ := c2
    exact ⟨(parsing_accept_stream_frame h).1, (parsing_accept_stream_frame h).2.1⟩
  by_cases c4 : ∃ e, op = .write_action_end e
  · obtain ⟨e, rfl⟩ := c4
    simp only [step] at h
    split at h
    · have k := keepw_write_action_end_locked hr h
      exact ⟨k.paused, k.reads⟩
    · exact absurd h (by simp)
  have k := keepx_step fuel h c1 (fun id hx => c2 ⟨id, hx⟩) h3 (fun e hx => c4 ⟨e, hx⟩)
  exact ⟨k.paused, k.reads⟩

/-! ## The read loop -/

theorem initiate_write_num_pending (t : T) (reason : grpc_chttp2_initiate_write_reason) :
    (grpc_chttp2_initiate_write t reason).num_pending_induced_frames
        = t.num_pending_induced_frames
      ∧ (grpc_chttp2_initiate_write t reason).writable = t.writable
      ∧ (grpc_chttp2_initiate_write t reason).stalled_by_stream = t.stalled_by_stream
      ∧ (grpc_chttp2_initiate_write t reason).initial_window_update = t.initial_window_update
      ∧ (grpc_chttp2_initiate_write t reason).keepalive_state = t.keepalive_state := by
  unfold grpc_chttp2_initiate_write
  cases t.write_state <;> exact ⟨rfl, rfl, rfl, rfl, rfl⟩

theorem mark_stream_writable_open (t : T) (s : Nat) (ho : t.closed_with_error.ok = true) :
    s ∈ (grpc_chttp2_mark_stream_writable t s).writable
      ∧ (∀ r, r ∈ t.writable → r ∈ (grpc_chttp2_mark_stream_writable t s).writable)
      ∧ (grpc_chttp2_mark_stream_writable t s).closed_with_error = t.closed_with_error
      ∧ (grpc_chttp2_mark_stream_writable t s).num_pending_induced_frames
          = t.num_pending_induced_frames
      ∧ (grpc_chttp2_mark_stream_writable t s).stalled_by_stream = t.stalled_by_stream
      ∧ (grpc_chttp2_mark_stream_writable t s).initial_window_update = t.initial_window_update
      ∧ (grpc_chttp2_mark_stream_writable t s).keepalive_state = t.keepalive_state := by
  have key : s ∈ (stream_list_add t.writable s).1
      ∧ (∀ r, r ∈ t.writable → r ∈ (stream_list_add t.writable s).1)
      ∧ ((stream_list_add t.writable s).2 = false → s ∈ t.writable) := by
    unfold stream_list_add
    by_cases hm : s ∈ t.writable
    · rw [if_pos hm]
      exact ⟨hm, fun _ h => h, fun _ => hm⟩
    · rw [if_neg hm]
      exact ⟨List.mem_append_right _ (List.mem_singleton_self s),
        fun _ h => List.mem_append_left _ h, (fun h => by cases h)⟩
  unfold grpc_chttp2_mark_stream_writable
  split
  · exact ⟨key.1, key.2.1, rfl, rfl, rfl, rfl, rfl⟩
  · next h =>
    have h2 : (stream_list_add t.writable s).2 = false := by
      rw [ho] at h
      simpa using h
    exact ⟨key.2.2 h2, fun _ h => h, rfl, rfl, rfl, rfl, rfl⟩

theorem keepx_unstall_streams : ∀ (l : List Nat) (t : T), KeepX none t (unstall_streams l t)
  | [], t => keepx_refl _ t
  | s :: rest, t => by
    simp only [unstall_streams]
    have k1 : KeepX none t { t with stalled_by_stream := rest } := by
      apply keepx_of_eq <;> rfl
    exact keepx_trans (keepx_trans (keepx_trans k1 (keepx_mark_stream_writable _ s))
      (keepx_initiate_write _ _)) (keepx_unstall_streams rest _)

theorem keepx_unstall_busy (l : List Nat) (t : T) (h : t.write_state ≠ .IDLE) :
    (unstall_streams l t).write_state ≠ .IDLE :=
  ((keepx_unstall_streams l t).busy h).1

theorem keepx_read_action_window_update (t : T) :
    KeepX none t (read_action_window_update t) := by
  unfold read_action_window_update
  have k1 : ∀ x : T, KeepX none x { x with initial_window_update := 0 } :=
    fun x => by apply keepx_of_eq <;> rfl
  split
  · refine keepx_trans ?_ (k1 _)
    split
    · exact keepx_unstall_streams _ t
    · exact keepx_refl _ t
  · exact keepx_refl _ t

/-- The loop that unstalls the streams, on an open transport: the list is
emptied, every stream popped is on the writable list, and a write is
initiated for each. -/
theorem unstall_streams_spec : ∀ (l : List Nat) (t : T), t.closed_with_error.ok = true →
    t.stalled_by_stream = l →
    (unstall_streams l t).stalled_by_stream = []
      ∧ (∀ s, s ∈ l → s ∈ (unstall_streams l t).writable)
      ∧ (∀ r, r ∈ t.writable → r ∈ (unstall_streams l t).writable)
      ∧ (l ≠ [] → (unstall_streams l t).write_state ≠ .IDLE)
      ∧ (unstall_streams l t).closed_with_error = t.closed_with_error
      ∧ (unstall_streams l t).num_pending_induced_frames = t.num_pending_induced_frames
      ∧ (unstall_streams l t).initial_window_update = t.initial_window_update
      ∧ (unstall_streams l t).keepalive_state = t.keepalive_state
  | [], t, _, hl => by
    exact ⟨hl, (fun _ h => by cases h), fun _ h => h, fun h => absurd rfl h, rfl, rfl, rfl, rfl⟩
  | s :: rest, t, ho, _ => by
    simp only [unstall_streams]
    have m := mark_stream_writable_open { t with stalled_by_stream := rest } s ho
    have i := initiate_write_num_pending
      (grpc_chttp2_mark_stream_writable { t with stalled_by_stream := rest } s)
      .FLOW_CONTROL_UNSTALLED_BY_SETTING
    have f := initiate_write_fields
      (grpc_chttp2_mark_stream_writable { t with stalled_by_stream := rest } s)
      .FLOW_CONTROL_UNSTALLED_BY_SETTING
    have n := initiate_write_ne_IDLE
      (grpc_chttp2_mark_stream_writable { t with stalled_by_stream := rest } s)
      .FLOW_CONTROL_UNSTALLED_BY_SETTING
    have k := keepx_unstall_busy rest _ n
    generalize grpc_chttp2_initiate_write
      (grpc_chttp2_mark_stream_writable { t with stalled_by_stream := rest } s)
      .FLOW_CONTROL_UNSTALLED_BY_SETTING = t2 at i f n k
    generalize grpc_chttp2_mark_stream_writable { t with stalled_by_stream := rest } s
      = t1 at m i f
    have ho2 : t2.closed_with_error.ok = true := by
      rw [f.2.2.2.2.1, m.2.2.1]; exact ho
    have ih := unstall_streams_spec rest t2 ho2 (by rw [i.2.2.1, m.2.2.2.2.1])
    refine ⟨ih.1, ?_, ?_, fun _ => k, ?_, ?_, ?_, ?_⟩
    · intro r hr
      rcases List.mem_cons.mp hr with h1 | h1
      · subst h1
        exact ih.2.2.1 r (by rw [i.2.1]; exact m.1)
      · exact ih.2.1 r h1
    · intro r hr
      exact ih.2.2.1 r (by rw [i.2.1]; exact m.2.1 r hr)
    · rw [ih.2.2.2.2.1, f.2.2.2.2.1, m.2.2.1]
    · rw [ih.2.2.2.2.2.1, i.1, m.2.2.2.1]
    · rw [ih.2.2.2.2.2.2.1, i.2.2.2.1, m.2.2.2.2.2.1]
    · rw [ih.2.2.2.2.2.2.2, i.2.2.2.2, m.2.2.2.2.2.2]

/-! ## The close of the transport with no stream left, as a function -/

theorem end_all_the_calls_nothing (remove : RemoveStream) (t : T) (e : Status)
    (hm : t.stream_map = []) (hw : t.waiting_for_concurrency = []) :
    end_all_the_calls remove t e = some t := by
  have h1 : ∀ x : Status, cancel_unstarted_streams remove t x false = some t := by
    intro x
    unfold cancel_unstarted_streams
    rw [hw]
    show cancel_waiting_loop remove x false 0 t = some t
    unfold cancel_waiting_loop
    rw [if_pos hw]
  unfold end_all_the_calls
  simp only
  rw [h1]
  simp only [Option.some_bind]
  rw [hm]
  rfl

theorem close_transport_notify_fields (t : T) (e : Status) :
    (close_transport_notify t e).write_state = t.write_state
      ∧ (close_transport_notify t e).closed_with_error = t.closed_with_error
      ∧ (close_transport_notify t e).ep_destroyed = t.ep_destroyed
      ∧ (close_transport_notify t e).connectivity_state = t.connectivity_state
      ∧ (close_transport_notify t e).close_transport_on_writes_finished
          = t.close_transport_on_writes_finished
      ∧ (close_transport_notify t e).finally_write_action_begin = t.finally_write_action_begin
      ∧ (close_transport_notify t e).endpoint_writes_in_flight = t.endpoint_writes_in_flight
      ∧ (close_transport_notify t e).run_after_write = t.run_after_write := by
  have h1 : ∀ (x : T) (c : Option Closure) (s : Status),
      (exec_ctx_run x c s).write_state = x.write_state
      ∧ (exec_ctx_run x c s).closed_with_error = x.closed_with_error
      ∧ (exec_ctx_run x c s).ep_destroyed = x.ep_destroyed
      ∧ (exec_ctx_run x c s).connectivity_state = x.connectivity_state
      ∧ (exec_ctx_run x c s).close_transport_on_writes_finished
          = x.close_transport_on_writes_finished
      ∧ (exec_ctx_run x c s).finally_write_action_begin = x.finally_write_action_begin
      ∧ (exec_ctx_run x c s).endpoint_writes_in_flight = x.endpoint_writes_in_flight
      ∧ (exec_ctx_run x c s).run_after_write = x.run_after_write := by
    intro x c s
    cases c <;> exact ⟨rfl, rfl, rfl, rfl, rfl, rfl, rfl, rfl⟩
  unfold close_transport_notify
  simp only
  have a := h1 { t with notify_on_receive_settings := none }
    (t.notify_on_receive_settings.map Closure.app) e
  generalize exec_ctx_run { t with notify_on_receive_settings := none }
    (t.notify_on_receive_settings.map Closure.app) e = t2 at a ⊢
  have b := h1 { t2 with notify_on_close := none } (t2.notify_on_close.map Closure.app) e
  exact ⟨b.1.trans a.1, b.2.1.trans a.2.1, b.2.2.1.trans a.2.2.1,
    b.2.2.2.1.trans a.2.2.2.1, b.2.2.2.2.1.trans a.2.2.2.2.1,
    b.2.2.2.2.2.1.trans a.2.2.2.2.2.1, b.2.2.2.2.2.2.1.trans a.2.2.2.2.2.2.1,
    b.2.2.2.2.2.2.2.trans a.2.2.2.2.2.2.2⟩

/-- The close of a transport with no stream, requested while a write is in
progress: it is deferred. -/
theorem close_transport_locked_deferred (remove : RemoveStream) (t : T) (e : Status)
    (hm : t.stream_map = []) (hw : t.waiting_for_concurrency = [])
    (hc : t.closed_with_error.ok = true) (hs : t.write_state ≠ .IDLE) :
    close_transport_locked remove t e
      = some (close_transport_defer (cancel_pings t e)
          (if !e.has_clear_grpc_status then grpc_error_set_rpc_status e GRPC_STATUS_UNAVAILABLE
           else e)) := by
  unfold close_transport_locked
  rw [end_all_the_calls_nothing remove t e hm hw]
  simp only [Option.some_bind]
  rw [if_pos (show (cancel_pings t e).closed_with_error.ok = true from hc),
    if_pos (show (cancel_pings t e).write_state ≠ .IDLE from hs)]

/-- The close of an idle transport with no stream: it is closed now. -/
theorem close_transport_locked_closes (remove : RemoveStream) (t : T) (e : Status)
    (hm : t.stream_map = []) (hw : t.waiting_for_concurrency = [])
    (hc : t.closed_with_error.ok = true) (hs : t.write_state = .IDLE) (he : e.ok = false) :
    close_transport_locked remove t e
      = some (close_transport_notify (close_transport_now (cancel_pings t e)
          (if !e.has_clear_grpc_status then grpc_error_set_rpc_status e GRPC_STATUS_UNAVAILABLE
           else e))
          (if !e.has_clear_grpc_status then grpc_error_set_rpc_status e GRPC_STATUS_UNAVAILABLE
           else e)) := by
  have he2 : (if (!e.has_clear_grpc_status) = true then
      grpc_error_set_rpc_status e GRPC_STATUS_UNAVAILABLE else e).ok = false := by
    split
    · rw [set_rpc_status_ok]; exact he
    · exact he
  unfold close_transport_locked
  rw [end_all_the_calls_nothing remove t e hm hw]
  simp only [Option.some_bind]
  rw [if_pos (show (cancel_pings t e).closed_with_error.ok = true from hc),
    if_neg (show ¬ (cancel_pings t e).write_state ≠ .IDLE from fun h => h hs),
    if_neg (by rw [he2]; simp)]

theorem close_error_children (e : Status) :
    (if (!e.has_clear_grpc_status) = true then
      grpc_error_set_rpc_status e GRPC_STATUS_UNAVAILABLE else e).children = e.children
    ∧ (if (!e.has_clear_grpc_status) = true then
      grpc_error_set_rpc_status e GRPC_STATUS_UNAVAILABLE else e).ok = e.ok := by
  split
  · cases e <;> exact ⟨rfl, rfl⟩
  · exact ⟨rfl, rfl⟩

/-- The pending error of a deferred close has the error of the close as a
child. -/
theorem close_transport_defer_child (t : T) (e : Status) (he : e.ok = false) :
    (close_transport_defer t e).close_transport_on_writes_finished.ok = false
      ∧ e ∈ (close_transport_defer t e).close_transport_on_writes_finished.children
      ∧ (t.close_transport_on_writes_finished.ok = true →
          (close_transport_defer t e).close_transport_on_writes_finished.children = [e]) := by
  have key : ∀ p : Status, p.ok = false →
      (grpc_error_add_child p e).ok = false ∧ e ∈ (grpc_error_add_child p e).children
        ∧ (grpc_error_add_child p e).children = p.children ++ [e] := by
    intro p hp
    cases p with
    | OkStatus => cases hp
    | Error m r h c =>
      unfold grpc_error_add_child
      simp only
      rw [if_neg (by rw [he]; simp)]
      exact ⟨rfl, List.mem_append_right _ (List.mem_singleton_self e), rfl⟩
  unfold close_transport_defer
  simp only
  by_cases hp : t.close_transport_on_writes_finished.ok = true
  · rw [if_pos hp]
    have k := key (GRPC_ERROR_CREATE "Delayed close due to in-progress write") rfl
    exact ⟨k.1, k.2.1, fun _ => k.2.2⟩
  · rw [if_neg hp]
    have k := key t.close_transport_on_writes_finished (by simpa using hp)
    exact ⟨k.1, k.2.1, fun h => absurd h hp⟩

/-- The call `set_write_state(IDLE)` with no close pending. -/
theorem set_write_state_IDLE_eq (remove : RemoveStream) (t : T)
    (hp : t.close_transport_on_writes_finished.ok = true) :
    set_write_state remove t .IDLE = some (run_closure_list { t with write_state := .IDLE }) := by
  unfold set_write_state
  rw [if_pos rfl]
  simp only
  rw [if_neg (show ¬ (run_closure_list { t with write_state := .IDLE }
    ).close_transport_on_writes_finished.ok = false from by
      show ¬ t.close_transport_on_writes_finished.ok = false
      rw [hp]; simp)]

/-- The call `set_write_state(IDLE)` with a close pending on a transport with
no stream: the pending error is cleared and the transport is closed with it. -/
theorem set_write_state_IDLE_closes (remove : RemoveStream) (t : T)
    (hm : t.stream_map = []) (hw : t.waiting_for_concurrency = [])
    (hc : t.closed_with_error.ok = true)
    (hp : t.close_transport_on_writes_finished.ok = false) :
    ∃ t1, set_write_state remove t .IDLE = some t1
      ∧ t1.write_state = .IDLE
      ∧ t1.closed_with_error
          = (if !t.close_transport_on_writes_finished.has_clear_grpc_status then
              grpc_error_set_rpc_status t.close_transport_on_writes_finished
                GRPC_STATUS_UNAVAILABLE
             else t.close_transport_on_writes_finished)
      ∧ t1.closed_with_error.ok = false
      ∧ t1.ep_destroyed = true
      ∧ t1.connectivity_state = .SHUTDOWN
      ∧ t1.close_transport_on_writes_finished = .OkStatus
      ∧ t1.run_after_write = []
      ∧ t1.finally_write_action_begin = t.finally_write_action_begin
      ∧ t1.endpoint_writes_in_flight = t.endpoint_writes_in_flight := by
  have hx := close_transport_locked_closes remove
    { run_closure_list { t with write_state := .IDLE } with
        close_transport_on_writes_finished := .OkStatus }
    t.close_transport_on_writes_finished hm hw hc rfl hp
  have f := close_transport_notify_fields
    (close_transport_now (cancel_pings
      { run_closure_list { t with write_state := .IDLE } with
        close_transport_on_writes_finished := .OkStatus } t.close_transport_on_writes_finished)
      (if !t.close_transport_on_writes_finished.has_clear_grpc_status then
        grpc_error_set_rpc_status t.close_transport_on_writes_finished GRPC_STATUS_UNAVAILABLE
       else t.close_transport_on_writes_finished))
    (if !t.close_transport_on_writes_finished.has_clear_grpc_status then
        grpc_error_set_rpc_status t.close_transport_on_writes_finished GRPC_STATUS_UNAVAILABLE
       else t.close_transport_on_writes_finished)
  refine ⟨_, ?_, f.1, f.2.1, ?_, f.2.2.1, f.2.2.2.1, f.2.2.2.2.1, f.2.2.2.2.2.2.2,
    f.2.2.2.2.2.1, f.2.2.2.2.2.2.1⟩
  · unfold set_write_state
    rw [if_pos rfl]
    simp only
    rw [if_pos (show (run_closure_list { t with write_state := .IDLE }
      ).close_transport_on_writes_finished.ok = false from hp)]
    exact hx
  · rw [f.2.1]
    exact (close_error_children t.close_transport_on_writes_finished).2.trans hp

/-! # The claims on the write path, the read loop, GOAWAY and the timers -/

/-! ## C21: the pause of the read loop -/

theorem read_action_window_update_fields (t : T) (ho : t.closed_with_error.ok = true) :
    (read_action_window_update t).closed_with_error = t.closed_with_error
      ∧ (read_action_window_update t).num_pending_induced_frames
          = t.num_pending_induced_frames
      ∧ (read_action_window_update t).reading_paused_on_pending_induced_frames
          = t.reading_paused_on_pending_induced_frames
      ∧ (read_action_window_update t).endpoint_reads_in_flight = t.endpoint_reads_in_flight := by
  have k := keepx_read_action_window_update t
  refine ⟨?_, ?_, k.paused, k.reads⟩
  · unfold read_action_window_update
    split
    · split
      · exact (unstall_streams_spec t.stalled_by_stream t ho rfl).2.2.2.2.1
      · rfl
    · rfl
  · unfold read_action_window_update
    split
    · split
      · exact (unstall_streams_spec t.stalled_by_stream t ho rfl).2.2.2.2.2.1
      · rfl
    · rfl

/-- The end of a read turn on an open transport, without an error: the loop
pauses when too many induced frames are pending and issues one endpoint read
otherwise. -/
theorem read_action_end_open (remove : RemoveStream) (t : T) (error : Status) (cancelled : Bool)
    (ho : t.closed_with_error.ok = true) (he : error.ok = true) :
    ∃ t1, read_action_end remove t error cancelled = some t1
      ∧ t1.closed_with_error = t.closed_with_error
      ∧ t1.num_pending_induced_frames = t.num_pending_induced_frames
      ∧ (DEFAULT_MAX_PENDING_INDUCED_FRAMES ≤ t.num_pending_induced_frames →
          t1.reading_paused_on_pending_induced_frames = true
            ∧ t1.endpoint_reads_in_flight = t.endpoint_reads_in_flight)
      ∧ (t.num_pending_induced_frames < DEFAULT_MAX_PENDING_INDUCED_FRAMES →
          t1.reading_paused_on_pending_induced_frames
              = t.reading_paused_on_pending_induced_frames
            ∧ t1.endpoint_reads_in_flight = t.endpoint_reads_in_flight + 1) := by
  have key : ∀ x : T, x.closed_with_error = t.closed_with_error →
      x.num_pending_induced_frames = t.num_pending_induced_frames →
      x.reading_paused_on_pending_induced_frames = t.reading_paused_on_pending_induced_frames →
      x.endpoint_reads_in_flight = t.endpoint_reads_in_flight →
      ∃ t1, (if x.num_pending_induced_frames ≥ DEFAULT_MAX_PENDING_INDUCED_FRAMES then
          some { x with reading_paused_on_pending_induced_frames := true }
        else some (continue_read_action_locked x)) = some t1
      ∧ t1.closed_with_error = t.closed_with_error
      ∧ t1.num_pending_induced_frames = t.num_pending_induced_frames
      ∧ (DEFAULT_MAX_PENDING_INDUCED_FRAMES ≤ t.num_pending_induced_frames →
          t1.reading_paused_on_pending_induced_frames = true
            ∧ t1.endpoint_reads_in_flight = t.endpoint_reads_in_flight)
      ∧ (t.num_pending_induced_frames < DEFAULT_MAX_PENDING_INDUCED_FRAMES →
          t1.reading_paused_on_pending_induced_frames
              = t.reading_paused_on_pending_induced_frames
            ∧ t1.endpoint_reads_in_flight = t.endpoint_reads_in_flight + 1) := by
    intro x h1 h2 h3 h4
    by_cases hc : x.num_pending_induced_frames ≥ DEFAULT_MAX_PENDING_INDUCED_FRAMES
    · rw [if_pos hc]
      refine ⟨_, rfl, h1, h2, fun _ => ⟨rfl, h4⟩, fun hlt => ?_⟩
      rw [h2] at hc
      omega
    · rw [if_neg hc]
      refine ⟨_, rfl, h1, h2, fun hge => ?_, fun _ => ⟨h3, ?_⟩⟩
      · rw [h2] at hc
        exact absurd hge hc
      · show x.endpoint_reads_in_flight + 1 = _
        rw [h4]
  unfold read_action_end
  simp only
  rw [if_neg (show ¬ (error.ok = true ∧ t.closed_with_error.ok = false) from
    fun h => by rw [ho] at h; exact absurd h.2 (by decide))]
  rw [if_neg (show ¬ (error.ok = false) from by rw [he]; decide), if_pos ho]
  split
  · unfold maybe_reset_keepalive_ping_timer_locked
    split
    · exact key _ rfl rfl rfl rfl
    · exact key _ rfl rfl rfl rfl
  · exact key _ rfl rfl rfl rfl

theorem write_action_begin_gather_finally (t : T) (g p : Bool) (n : Nat) :
    (write_action_begin_gather { t with finally_write_action_begin := n } g p).2.writing
      = (write_action_begin_gather t g p).2.writing := by
  rw [write_action_begin_gather_writing, write_action_begin_gather_writing]

/-- What `write_action_begin_locked` does to the read loop. -/
theorem write_action_begin_locked_reads {remove : RemoveStream} (hr : RemoveKeep remove)
    {t t1 : T} {g p : Bool} (h : write_action_begin_locked remove t g p = some t1) :
    ((write_action_begin_gather t g p).2.writing = false →
        t1.reading_paused_on_pending_induced_frames
            = t.reading_paused_on_pending_induced_frames
          ∧ t1.endpoint_reads_in_flight = t.endpoint_reads_in_flight)
      ∧ ((write_action_begin_gather t g p).2.writing = true →
          t.reading_paused_on_pending_induced_frames = true →
          t1.reading_paused_on_pending_induced_frames = false
            ∧ t1.endpoint_reads_in_flight = t.endpoint_reads_in_flight + 1
            ∧ t1.num_pending_induced_frames = 0
            ∧ t1.endpoint_writes_in_flight = t.endpoint_writes_in_flight + 1)
      ∧ ((write_action_begin_gather t g p).2.writing = true →
          t.reading_paused_on_pending_induced_frames = false →
          t1.reading_paused_on_pending_induced_frames = false
            ∧ t1.endpoint_reads_in_flight = t.endpoint_reads_in_flight) := by
  have key : ∀ t0 : T, t0.closed_with_error = t.closed_with_error → t0.qbuf = t.qbuf →
      t0.reading_paused_on_pending_induced_frames = t.reading_paused_on_pending_induced_frames →
      t0.endpoint_reads_in_flight = t.endpoint_reads_in_flight →
      t0.endpoint_writes_in_flight = t.endpoint_writes_in_flight →
      write_action_begin_write remove t0 g p = some t1 →
      ((write_action_begin_gather t g p).2.writing = false →
        t1.reading_paused_on_pending_induced_frames
            = t.reading_paused_on_pending_induced_frames
          ∧ t1.endpoint_reads_in_flight = t.endpoint_reads_in_flight)
      ∧ ((write_action_begin_gather t g p).2.writing = true →
          t.reading_paused_on_pending_induced_frames = true →
          t1.reading_paused_on_pending_induced_frames = false
            ∧ t1.endpoint_reads_in_flight = t.endpoint_reads_in_flight + 1
            ∧ t1.num_pending_induced_frames = 0
            ∧ t1.endpoint_writes_in_flight = t.endpoint_writes_in_flight + 1)
      ∧ ((write_action_begin_gather t g p).2.writing = true →
          t.reading_paused_on_pending_induced_frames = false →
          t1.reading_paused_on_pending_induced_frames = false
            ∧ t1.endpoint_reads_in_flight = t.endpoint_reads_in_flight) := by
    intro t0 e1 e2 e3 e4 e5 h
    rw [write_action_begin_gather_writing, ← e1, ← e2]
    cases hn : (t0.closed_with_error.ok && (!t0.qbuf.isEmpty || g))
    · rw [write_action_begin_write_nothing remove t0 g p hn] at h
      have k := keepw_trans (keepw_write_action_begin_gather t0 g p) (keepw_set_write_state hr h)
      exact ⟨fun _ => ⟨k.paused.trans e3, k.reads.trans e4⟩, (fun hx => by cases hx),
        (fun hx => by cases hx)⟩
    · rw [Bool.and_eq_true] at hn
      rw [write_action_begin_write_writing remove t0 g p hn.1 hn.2] at h
      simp only [Option.some.injEq] at h
      subst h
      refine ⟨(fun hx => by cases hx), fun _ hp => ?_, fun _ hp => ?_⟩
      · rw [if_pos (e3.trans hp)]
        exact ⟨rfl, by show t0.endpoint_reads_in_flight + 1 = _; rw [e4], rfl,
          by show t0.endpoint_writes_in_flight + 1 = _; rw [e5]⟩
      · rw [if_neg (by rw [e3, hp]; simp)]
        exact ⟨e3.trans hp, e4⟩
  unfold write_action_begin_locked at h
  simp only at h
  split at h
  · exact absurd h (by simp)
  · refine key _ ?_ ?_ ?_ ?_ ?_ h <;> rfl

/-- The gather step produced output: `write_action_begin_locked` returns. -/
theorem write_action_begin_locked_writing_total (remove : RemoveStream) (t : T) (g p : Bool)
    (hs : t.write_state ≠ .IDLE) (hw : (write_action_begin_gather t g p).2.writing = true) :
    ∃ t1, write_action_begin_locked remove t g p = some t1 := by
  rw [write_action_begin_gather_writing, Bool.and_eq_true] at hw
  unfold write_action_begin_locked
  simp only
  rw [if_neg hs]
  exact ⟨_, write_action_begin_write_writing remove _ g p hw.1 hw.2⟩

/-- A read turn never clears the pause flag. -/
theorem read_action_parse_loop_paused {remove : RemoveStream} (hr : RemoveKeep remove)
    {t t1 : T} {error : Status} {turn : ParseTurn}
    (h : read_action_parse_loop_locked remove t error turn = some t1)
    (hp : t.reading_paused_on_pending_induced_frames = true) :
    t1.reading_paused_on_pending_induced_frames = true := by
  have fin : ∀ (x : T) (e : Status) (c : Bool),
      x.reading_paused_on_pending_induced_frames = true →
      read_action_end remove x e c = some t1 →
      t1.reading_paused_on_pending_induced_frames = true := by
    intro x e c hx h
    have hk : (if x.keepalive_state = .WAITING then
        maybe_reset_keepalive_ping_timer_locked x c else x
        ).reading_paused_on_pending_induced_frames = true := by
      split
      · unfold maybe_reset_keepalive_ping_timer_locked
        split
        · exact hx
        · exact hx
      · exact hx
    unfold read_action_end at h
    simp only at h
    generalize (if e.ok = true ∧ x.closed_with_error.ok = false then
      GRPC_ERROR_CREATE_REFERENCING "Transport closed" [x.closed_with_error] else e) = e2 at h
    by_cases h1 : e2.ok = false
    · rw [if_pos h1] at h
      exact (keepx_close_transport_locked hr h).paused.trans hx
    · rw [if_neg h1] at h
      by_cases h2 : x.closed_with_error.ok = true
      · rw [if_pos h2] at h
        generalize (if x.keepalive_state = .WAITING then
          maybe_reset_keepalive_ping_timer_locked x c else x) = y at h hk
        by_cases h3 : y.num_pending_induced_frames ≥ DEFAULT_MAX_PENDING_INDUCED_FRAMES
        · rw [if_pos h3] at h
          simp only [Option.some.injEq] at h
          subst h
          rfl
        · rw [if_neg h3] at h
          simp only [Option.some.injEq] at h
          subst h
          exact hk
      · rw [if_neg h2] at h
        simp only [Option.some.injEq] at h
        subst h
        exact hx
  unfold read_action_parse_loop_locked at h
  split at h
  · split at h
    · simp only [Option.some.injEq] at h; subst h
      exact hp
    · exact fin _ _ _ ((keepx_read_action_window_update t).paused.trans hp) h
  · exact fin _ _ _ hp h

/-- C21: (1) at the end of a read turn of `read_action_parse_loop_locked` on an
open transport, with no error of the endpoint or of the parser and no partial
read, the turn returns, the transport stays open, and the read loop pauses
(the pause flag is set and no endpoint read is issued) if and only if
`num_pending_induced_frames` has reached DEFAULT_MAX_PENDING_INDUCED_FRAMES,
which is 10000; otherwise exactly one endpoint read is issued and the flag is
left as it was.  (2) A read turn never clears the pause flag, and no handler
of `step` other than `write_action_begin_locked` changes the flag or issues an
endpoint read.
(3) `write_action_begin_locked` leaves the read loop alone when it starts no
write; when it starts one on a paused transport it clears the flag and issues
exactly one endpoint read, `num_pending_induced_frames` being 0 then, and one
endpoint write; (4) and it returns whenever it starts a write. -/
theorem C21_read_loop_pause (fuel : Nat) (t : T) (error : Status) (turn : ParseTurn)
    (g p : Bool) :
    (t.closed_with_error.ok = true → error.ok = true → turn.parse_error.ok = true →
      turn.partial_read = false →
      ∃ t1, read_action_parse_loop_locked (remove_stream_fuel fuel) t error turn = some t1
        ∧ t1.closed_with_error.ok = true
        ∧ ((t1.reading_paused_on_pending_induced_frames = true
              ∧ t1.endpoint_reads_in_flight = t.endpoint_reads_in_flight)
            ↔ DEFAULT_MAX_PENDING_INDUCED_FRAMES ≤ t.num_pending_induced_frames)
        ∧ (t.num_pending_induced_frames < DEFAULT_MAX_PENDING_INDUCED_FRAMES →
            t1.reading_paused_on_pending_induced_frames
                = t.reading_paused_on_pending_induced_frames
              ∧ t1.endpoint_reads_in_flight = t.endpoint_reads_in_flight + 1))
    ∧ DEFAULT_MAX_PENDING_INDUCED_FRAMES = 10000
    ∧ (∀ t1, read_action_parse_loop_locked (remove_stream_fuel fuel) t error turn = some t1 →
        t.reading_paused_on_pending_induced_frames = true →
        t1.reading_paused_on_pending_induced_frames = true)
    ∧ (∀ op t1, (∀ a b, op ≠ .write_action_begin a b) → step fuel op t = some t1 →
        t1.reading_paused_on_pending_induced_frames
            = t.reading_paused_on_pending_induced_frames
          ∧ t1.endpoint_reads_in_flight = t.endpoint_reads_in_flight)
    ∧ (∀ t1, step fuel (.write_action_begin g p) t = some t1 →
        ((write_action_begin_gather t g p).2.writing = false →
          t1.reading_paused_on_pending_induced_frames
              = t.reading_paused_on_pending_induced_frames
            ∧ t1.endpoint_reads_in_flight = t.endpoint_reads_in_flight)
        ∧ ((write_action_begin_gather t g p).2.writing = true →
            t.reading_paused_on_pending_induced_frames = true →
            t1.reading_paused_on_pending_induced_frames = false
              ∧ t1.endpoint_reads_in_flight = t.endpoint_reads_in_flight + 1
              ∧ t1.num_pending_induced_frames = 0
              ∧ t1.endpoint_writes_in_flight = t.endpoint_writes_in_flight + 1)
        ∧ ((write_action_begin_gather t g p).2.writing = true →
            t.reading_paused_on_pending_induced_frames = false →
            t1.reading_paused_on_pending_induced_frames = false
              ∧ t1.endpoint_reads_in_flight = t.endpoint_reads_in_flight))
    ∧ (0 < t.finally_write_action_begin → t.write_state ≠ .IDLE →
        (write_action_begin_gather t g p).2.writing = true →
        ∃ t1, step fuel (.write_action_begin g p) t = some t1) := by
  refine ⟨?_, rfl, fun t1 h1 hp =>
    read_action_parse_loop_paused (remove_stream_fuel_keep fuel) h1 hp, ?_, ?_, ?_⟩
  · intro ho he hp hn
    have f := read_action_window_update_fields t ho
    have ho2 : (read_action_window_update t).closed_with_error.ok = true := by
      rw [f.1]; exact ho
    obtain ⟨t1, h1, a, b, c, d⟩ := read_action_end_open (remove_stream_fuel fuel)
      (read_action_window_update t) error turn.timer_cancelled ho2 he
    refine ⟨t1, ?_, ?_, ?_, ?_⟩
    · unfold read_action_parse_loop_locked
      rw [if_pos ho, if_neg (by rw [hn]; simp), if_neg (by rw [hp]; simp)]
      exact h1
    · rw [a, f.1]; exact ho
    · rw [f.2.1] at c d
      rw [f.2.2.2] at c d
      constructor
      · intro hx
        by_contra hlt
        have := (d (by omega)).2
        omega
      · intro hge
        exact c hge
    · intro hlt
      rw [f.2.1] at d
      rw [f.2.2.1, f.2.2.2] at d
      exact d hlt
  · intro op t1 hne hs
    exact step_reads fuel hs hne
  · intro t1 hs
    simp only [step] at hs
    split at hs
    · exact write_action_begin_locked_reads (remove_stream_fuel_keep fuel) hs
    · exact absurd hs (by simp)
  · intro hf hs hw
    simp only [step]
    rw [if_pos hf]
    exact write_action_begin_locked_writing_total _ t g p hs hw

/-- Witness of C21: a read turn on the client with 10000 induced frames
pending pauses the read loop and issues no read; the write that begins next
resumes it with one endpoint read. -/
theorem C21_read_loop_pause_witness :
    flooded_client.num_pending_induced_frames = 10000
      ∧ (∃ t1, read_action_parse_loop_locked (remove_stream_fuel 1) flooded_client .OkStatus {}
            = some t1
          ∧ t1.reading_paused_on_pending_induced_frames = true
          ∧ t1.endpoint_reads_in_flight = flooded_client.endpoint_reads_in_flight)
      ∧ paused_client.reading_paused_on_pending_induced_frames = true
      ∧ (∃ t1, step 1 (.write_action_begin true false) paused_client = some t1
          ∧ t1.reading_paused_on_pending_induced_frames = false
          ∧ t1.endpoint_reads_in_flight = paused_client.endpoint_reads_in_flight + 1
          ∧ t1.num_pending_induced_frames = 0) := by
  have hn : flooded_client.num_pending_induced_frames = 10000 := by decide!
  have hp : paused_client.reading_paused_on_pending_induced_frames = true := by decide!
  obtain ⟨t1, h1, -, h2, -⟩ :=
    (C21_read_loop_pause 1 flooded_client .OkStatus {} true false).1 (by decide!) rfl rfl rfl
  have h3 := h2.mpr (by rw [hn]; decide)
  have hw : (write_action_begin_gather paused_client true false).2.writing = true := by
    decide!
  have c := C21_read_loop_pause 1 paused_client .OkStatus {} true false
  obtain ⟨t2, e1⟩ := c.2.2.2.2.2 (by decide!) (by decide!) hw
  have d := (c.2.2.2.2.1 t2 e1).2.1 hw hp
  exact ⟨hn, ⟨t1, h1, h3.1, h3.2⟩, hp, ⟨t2, e1, d.1, d.2.1, d.2.2.1⟩⟩

/-- C22: `grpc_chttp2_initiate_write`, for every reason.  From IDLE the result
is the state with `write_state` WRITING and one more `write_action_begin_locked`
on the finally queue of the combiner, nothing else changed; from WRITING it is
the state with `write_state` WRITING_WITH_MORE, nothing else changed, so nothing
is scheduled; from WRITING_WITH_MORE it is the state itself.  The two calls of
`set_write_state` it makes only assign the state, and the resulting state is
never IDLE. -/
theorem C22_initiate_write_table (remove : RemoveStream) (t : T)
    (reason : grpc_chttp2_initiate_write_reason) :
    (t.write_state = .IDLE →
      set_write_state remove t .WRITING = some { t with write_state := .WRITING }
        ∧ grpc_chttp2_initiate_write t reason
            = { t with write_state := .WRITING,
                       finally_write_action_begin := t.finally_write_action_begin + 1 })
      ∧ (t.write_state = .WRITING →
          set_write_state remove t .WRITING_WITH_MORE
              = some { t with write_state := .WRITING_WITH_MORE }
            ∧ grpc_chttp2_initiate_write t reason = { t with write_state := .WRITING_WITH_MORE })
      ∧ (t.write_state = .WRITING_WITH_MORE → grpc_chttp2_initiate_write t reason = t)
      ∧ (grpc_chttp2_initiate_write t reason).write_state ≠ .IDLE := by
  refine ⟨?_, ?_, ?_, initiate_write_ne_IDLE t reason⟩
  · intro h
    refine ⟨set_write_state_of_ne_IDLE remove t _ (by decide), ?_⟩
    unfold grpc_chttp2_initiate_write
    rw [h]
  · intro h
    refine ⟨set_write_state_of_ne_IDLE remove t _ (by decide), ?_⟩
    unfold grpc_chttp2_initiate_write
    rw [h]
  · intro h
    unfold grpc_chttp2_initiate_write
    rw [h]

/-- Witness of C22: a write initiated on an idle client, and a second one while
the first is pending. -/
theorem C22_initiate_write_table_witness :
    idle_client.write_state = .IDLE
      ∧ (grpc_chttp2_initiate_write idle_client .APPLICATION_PING).write_state = .WRITING
      ∧ (grpc_chttp2_initiate_write idle_client .APPLICATION_PING).finally_write_action_begin
          = idle_client.finally_write_action_begin + 1
      ∧ (grpc_chttp2_initiate_write
          (grpc_chttp2_initiate_write idle_client .APPLICATION_PING) .SEND_MESSAGE).write_state
          = .WRITING_WITH_MORE
      ∧ (grpc_chttp2_initiate_write
          (grpc_chttp2_initiate_write idle_client .APPLICATION_PING)
            .SEND_MESSAGE).finally_write_action_begin
          = idle_client.finally_write_action_begin + 1 := by
  have h0 : idle_client.write_state = .IDLE := by decide!
  have a := ((C22_initiate_write_table (remove_stream_fuel 1) idle_client .APPLICATION_PING).1
    h0).2
  have h1 : (grpc_chttp2_initiate_write idle_client .APPLICATION_PING).write_state = .WRITING := by
    rw [a]
  have b := ((C22_initiate_write_table (remove_stream_fuel 1)
    (grpc_chttp2_initiate_write idle_client .APPLICATION_PING) .SEND_MESSAGE).2.1 h1).2
  refine ⟨h0, h1, by rw [a], by rw [b], ?_⟩
  rw [b, a]

/-! ## C23: `write_action_end_locked` -/

/-- The block of the final GOAWAY of `write_action_end_locked` when it has no
transport to close: the state is left alone, but for the GOAWAY state. -/
theorem write_action_end_goaway_skip (remove : RemoveStream) (t : T) (c : Bool)
    (h : t.sent_goaway_state ≠ .FINAL_GOAWAY_SEND_SCHEDULED ∨ t.stream_map ≠ []) :
    ∃ x c1, write_action_end_goaway remove t c = some (x, c1)
      ∧ (t.sent_goaway_state ≠ .FINAL_GOAWAY_SEND_SCHEDULED → x = t ∧ c1 = c)
      ∧ x.write_state = t.write_state
      ∧ x.close_transport_on_writes_finished = t.close_transport_on_writes_finished
      ∧ x.run_after_write = t.run_after_write
      ∧ x.exec_ctx = t.exec_ctx
      ∧ x.closure_error = t.closure_error
      ∧ x.finally_write_action_begin = t.finally_write_action_begin
      ∧ x.endpoint_writes_in_flight = t.endpoint_writes_in_flight := by
  unfold write_action_end_goaway
  by_cases hs : t.sent_goaway_state = .FINAL_GOAWAY_SEND_SCHEDULED
  · rw [if_pos hs]
    simp only
    have hm : t.stream_map ≠ [] := by
      rcases h with h | h
      · exact absurd hs h
      · exact h
    have he : ¬ (t.stream_map.isEmpty = true) := by
      intro hx
      exact hm (List.isEmpty_iff.mp hx)
    rw [if_neg he]
    exact ⟨_, _, rfl, fun hx => absurd hs hx, rfl, rfl, rfl, rfl, rfl, rfl, rfl⟩
  · rw [if_neg hs]
    exact ⟨_, _, rfl, fun _ => ⟨rfl, rfl⟩, rfl, rfl, rfl, rfl, rfl, rfl, rfl⟩

/-- The `switch` of `write_action_end_locked` from WRITING with no close
pending. -/
theorem write_action_end_switch_writing (remove : RemoveStream) (x : T) (c : Bool)
    (hs : x.write_state = .WRITING) (hp : x.close_transport_on_writes_finished.ok = true) :
    write_action_end_switch remove x c
      = some (run_closure_list { x with write_state := .IDLE }) := by
  unfold write_action_end_switch
  rw [hs]
  exact set_write_state_IDLE_eq remove x hp

/-- The `switch` of `write_action_end_locked` from WRITING_WITH_MORE. -/
theorem write_action_end_switch_more (remove : RemoveStream) (x : T) (c : Bool)
    (hs : x.write_state = .WRITING_WITH_MORE) :
    ∃ t1, write_action_end_switch remove x c = some t1
      ∧ t1.write_state = .WRITING
      ∧ t1.finally_write_action_begin = x.finally_write_action_begin + 1
      ∧ t1.endpoint_writes_in_flight = x.endpoint_writes_in_flight
      ∧ t1.closed_with_error = x.closed_with_error
      ∧ t1.close_transport_on_writes_finished = x.close_transport_on_writes_finished
      ∧ (c = false → t1.run_after_write = []
          ∧ t1.exec_ctx = x.exec_ctx
              ++ x.run_after_write.map (fun a => (Closure.app a, x.closure_error a)))
      ∧ (c = true → t1.run_after_write = x.run_after_write ∧ t1.exec_ctx = x.exec_ctx) := by
  unfold write_action_end_switch
  rw [hs]
  simp only
  rw [set_write_state_of_ne_IDLE _ _ _ (by decide)]
  simp only [Option.map_some']
  cases c
  · exact ⟨_, rfl, rfl, rfl, rfl, rfl, rfl, fun _ => ⟨rfl, rfl⟩, (fun hx => by cases hx)⟩
  · exact ⟨_, rfl, rfl, rfl, rfl, rfl, rfl, (fun hx => by cases hx), fun _ => ⟨rfl, rfl⟩⟩

/-- A failed write: `write_action_end_locked` requests the close of the
transport with the error of the endpoint, and goes on from the state that call
left. -/
theorem write_action_end_locked_failed (remove : RemoveStream) (t : T) (error : Status)
    (he : error.ok = false) :
    write_action_end_locked remove t error
      = (close_transport_locked remove
          { t with endpoint_writes_in_flight := t.endpoint_writes_in_flight - 1 } error).bind
          (fun t2 => (write_action_end_goaway remove t2 true).bind
            (fun tc => write_action_end_switch remove tc.1 tc.2)) := by
  unfold write_action_end_locked write_action_end_body write_action_end_error
  rw [if_pos he]
  cases close_transport_locked remove
    { t with endpoint_writes_in_flight := t.endpoint_writes_in_flight - 1 } error <;> rfl

theorem write_action_end_locked_ok (remove : RemoveStream) (t : T) (error : Status)
    (he : error.ok = true) :
    write_action_end_locked remove t error
      = (write_action_end_goaway remove
          { t with endpoint_writes_in_flight := t.endpoint_writes_in_flight - 1 } false).bind
          (fun tc => write_action_end_switch remove tc.1 tc.2) := by
  unfold write_action_end_locked write_action_end_body write_action_end_error
  rw [if_neg (by rw [he]; simp)]
  rfl

/-- C23, counterexample: on a client with one stream started and a write in
flight (write state WRITING), a failed write makes `write_action_end_locked`
request the close of the transport; the close cancels the stream, the
RST_STREAM it queues initiates a write (WRITING_WITH_MORE), the close is
deferred, and the switch then moves WRITING_WITH_MORE to WRITING and schedules
another `write_action_begin_locked`: the write state ends as WRITING, not
IDLE. -/
theorem C23_counterexample :
    writing_stream_client.write_state = .WRITING
      ∧ writing_stream_client.endpoint_writes_in_flight = 1
      ∧ (write_action_end_locked (remove_stream_fuel 1) writing_stream_client
          (GRPC_ERROR_CREATE "broken pipe")).map
          (fun t => (t.write_state, t.finally_write_action_begin, t.closed_with_error.ok,
            t.close_transport_on_writes_finished.ok))
        = some (.WRITING, 1, true, false) := by
  decide!

/-- C23, amended: `write_action_end_locked` runs as the completion of an
endpoint write on a reachable state, so with a write state other than IDLE.
(1) On a successful write, with no close pending and no final GOAWAY to
complete on a transport without streams, it returns; from WRITING the write
state becomes IDLE and `run_after_write` is drained into the closures to run;
from WRITING_WITH_MORE it becomes WRITING and exactly one further
`write_action_begin_locked` is scheduled.  (2) On a failed write it first calls
`close_transport_locked` with the error of the endpoint, and then makes the
transition from the write state that call left.  (3) With no stream open or
waiting, on an open transport with no close pending and no final GOAWAY
scheduled, that is the entry state: from WRITING the write state becomes IDLE,
where the deferred close runs and closes the transport with an error whose
child is the error of the endpoint (given the status UNAVAILABLE when it has no
clear status); from WRITING_WITH_MORE it becomes WRITING, one further
`write_action_begin_locked` is scheduled and the close stays pending with that
child. -/
theorem C23_write_action_end (fuel : Nat) (ca : ChannelArgs) (ic : Bool) (t : T)
    (hr : Reachable fuel ca ic t) (hf : 0 < t.endpoint_writes_in_flight) (error : Status) :
    t.write_state ≠ .IDLE
      ∧ (error.ok = true → t.close_transport_on_writes_finished.ok = true →
          (t.sent_goaway_state ≠ .FINAL_GOAWAY_SEND_SCHEDULED ∨ t.stream_map ≠ []) →
          (t.write_state = .WRITING →
            ∃ t1, write_action_end_locked (remove_stream_fuel fuel) t error = some t1
              ∧ t1.write_state = .IDLE
              ∧ t1.run_after_write = []
              ∧ t1.exec_ctx = t.exec_ctx
                  ++ t.run_after_write.map (fun a => (Closure.app a, t.closure_error a))
              ∧ t1.finally_write_action_begin = t.finally_write_action_begin
              ∧ t1.endpoint_writes_in_flight = t.endpoint_writes_in_flight - 1)
          ∧ (t.write_state = .WRITING_WITH_MORE →
            ∃ t1, write_action_end_locked (remove_stream_fuel fuel) t error = some t1
              ∧ t1.write_state = .WRITING
              ∧ t1.finally_write_action_begin = t.finally_write_action_begin + 1
              ∧ t1.endpoint_writes_in_flight = t.endpoint_writes_in_flight - 1
              ∧ (t.sent_goaway_state ≠ .FINAL_GOAWAY_SEND_SCHEDULED →
                  t1.run_after_write = []
                    ∧ t1.exec_ctx = t.exec_ctx
                        ++ t.run_after_write.map (fun a => (Closure.app a, t.closure_error a)))))
      ∧ (error.ok = false →
          write_action_end_locked (remove_stream_fuel fuel) t error
            = (close_transport_locked (remove_stream_fuel fuel)
                { t with endpoint_writes_in_flight := t.endpoint_writes_in_flight - 1 }
                error).bind
                (fun t2 => (write_action_end_goaway (remove_stream_fuel fuel) t2 true).bind
                  (fun tc => write_action_end_switch (remove_stream_fuel fuel) tc.1 tc.2)))
      ∧ (error.ok = false → t.stream_map = [] → t.waiting_for_concurrency = [] →
          t.closed_with_error.ok = true → t.close_transport_on_writes_finished.ok = true →
          t.sent_goaway_state ≠ .FINAL_GOAWAY_SEND_SCHEDULED →
          (t.write_state = .WRITING →
            ∃ t1, write_action_end_locked (remove_stream_fuel fuel) t error = some t1
              ∧ t1.write_state = .IDLE
              ∧ t1.closed_with_error.ok = false
              ∧ t1.closed_with_error.children
                  = [if !error.has_clear_grpc_status then
                      grpc_error_set_rpc_status error GRPC_STATUS_UNAVAILABLE else error]
              ∧ t1.ep_destroyed = true
              ∧ t1.connectivity_state = .SHUTDOWN)
          ∧ (t.write_state = .WRITING_WITH_MORE →
            ∃ t1, write_action_end_locked (remove_stream_fuel fuel) t error = some t1
              ∧ t1.write_state = .WRITING
              ∧ t1.finally_write_action_begin = t.finally_write_action_begin + 1
              ∧ t1.closed_with_error.ok = true
              ∧ t1.close_transport_on_writes_finished.ok = false
              ∧ t1.close_transport_on_writes_finished.children
                  = [if !error.has_clear_grpc_status then
                      grpc_error_set_rpc_status error GRPC_STATUS_UNAVAILABLE else error])) := by
  have hi := reachable_inv hr
  have hne : t.write_state ≠ .IDLE := by
    intro hx
    have := (hi.1.idle hx).2
    omega
  refine ⟨hne, ?_, fun he => write_action_end_locked_failed _ t error he, ?_⟩
  · intro he hp hg
    obtain ⟨x, c1, h1, h2, h3, h4, h5, h6, h7, h8, h9⟩ :=
      write_action_end_goaway_skip (remove_stream_fuel fuel)
        { t with endpoint_writes_in_flight := t.endpoint_writes_in_flight - 1 } false hg
    rw [write_action_end_locked_ok _ t error he, h1]
    simp only [Option.some_bind]
    constructor
    · intro hs
      rw [write_action_end_switch_writing _ x c1 (h3.trans hs) (by rw [h4]; exact hp)]
      exact ⟨_, rfl, rfl, rfl, by
        show x.exec_ctx ++ x.run_after_write.map (fun a => (Closure.app a, x.closure_error a))
          = _
        rw [h5, h6, h7], h8, h9⟩
    · intro hs
      obtain ⟨t1, e1, e2, e3, e4, -, -, e7, -⟩ :=
        write_action_end_switch_more (remove_stream_fuel fuel) x c1 (h3.trans hs)
      refine ⟨t1, e1, e2, e3.trans (by rw [h8]), e4.trans h9, fun hn => ?_⟩
      obtain ⟨hx, hc⟩ := h2 hn
      have e8 := e7 hc
      rw [hx] at e8
      exact e8
  · intro he hm hw hc hp hg
    have hd := close_transport_locked_deferred (remove_stream_fuel fuel)
      { t with endpoint_writes_in_flight := t.endpoint_writes_in_flight - 1 } error hm hw hc hne
    have he2 := (close_error_children error).2.trans he
    have ch := close_transport_defer_child
      (cancel_pings { t with endpoint_writes_in_flight := t.endpoint_writes_in_flight - 1 }
        error)
      (if !error.has_clear_grpc_status then
        grpc_error_set_rpc_status error GRPC_STATUS_UNAVAILABLE else error) he2
    have key : ∀ t2 : T, t2.write_state = t.write_state → t2.stream_map = [] →
        t2.waiting_for_concurrency = [] → t2.closed_with_error.ok = true →
        t2.sent_goaway_state ≠ .FINAL_GOAWAY_SEND_SCHEDULED →
        t2.finally_write_action_begin = t.finally_write_action_begin →
        t2.close_transport_on_writes_finished.ok = false →
        t2.close_transport_on_writes_finished.children
          = [if !error.has_clear_grpc_status then
              grpc_error_set_rpc_status error GRPC_STATUS_UNAVAILABLE else error] →
        (t.write_state = .WRITING →
            ∃ t1, (write_action_end_goaway (remove_stream_fuel fuel) t2 true).bind
                (fun tc => write_action_end_switch (remove_stream_fuel fuel) tc.1 tc.2) = some t1
              ∧ t1.write_state = .IDLE
              ∧ t1.closed_with_error.ok = false
              ∧ t1.closed_with_error.children
                  = [if !error.has_clear_grpc_status then
                      grpc_error_set_rpc_status error GRPC_STATUS_UNAVAILABLE else error]
              ∧ t1.ep_destroyed = true
              ∧ t1.connectivity_state = .SHUTDOWN)
          ∧ (t.write_state = .WRITING_WITH_MORE →
            ∃ t1, (write_action_end_goaway (remove_stream_fuel fuel) t2 true).bind
                (fun tc => write_action_end_switch (remove_stream_fuel fuel) tc.1 tc.2) = some t1
              ∧ t1.write_state = .WRITING
              ∧ t1.finally_write_action_begin = t.finally_write_action_begin + 1
              ∧ t1.closed_with_error.ok = true
              ∧ t1.close_transport_on_writes_finished.ok = false
              ∧ t1.close_transport_on_writes_finished.children
                  = [if !error.has_clear_grpc_status then
                      grpc_error_set_rpc_status error GRPC_STATUS_UNAVAILABLE else error]) := by
      intro t2 a1 a2 a3 a4 a5 a6 a7 a8
      have hgo : write_action_end_goaway (remove_stream_fuel fuel) t2 true = some (t2, true) := by
        unfold write_action_end_goaway
        rw [if_neg a5]
      rw [hgo]
      simp only [Option.some_bind]
      constructor
      · intro hs
        obtain ⟨t1, b1, b2, b3, b4, b5, b6, -⟩ :=
          set_write_state_IDLE_closes (remove_stream_fuel fuel) t2 a2 a3 a4 a7
        refine ⟨t1, ?_, b2, b4, ?_, b5, b6⟩
        · unfold write_action_end_switch
          rw [a1.trans hs]
          exact b1
        · rw [b3, (close_error_children _).1]
          exact a8
      · intro hs
        obtain ⟨t1, e1, e2, e3, -, e5, e6, -⟩ :=
          write_action_end_switch_more (remove_stream_fuel fuel) t2 true (a1.trans hs)
        refine ⟨t1, e1, e2, e3.trans (by rw [a6]), ?_, ?_, ?_⟩
        · rw [e5]; exact a4
        · rw [e6]; exact a7
        · rw [e6]; exact a8
    rw [write_action_end_locked_failed _ t error he, hd]
    simp only [Option.some_bind]
    exact key _ rfl hm hw hc hg rfl ch.1 (ch.2.2 hp)

/-- Witness of C23: the first write of a new client transport completes: on
success the write state becomes IDLE; on failure the transport is closed. -/
theorem C23_write_action_end_witness :
    0 < writing_client.endpoint_writes_in_flight
      ∧ writing_client.write_state = .WRITING
      ∧ (∃ t1, write_action_end_locked (remove_stream_fuel 1) writing_client .OkStatus = some t1
          ∧ t1.write_state = .IDLE)
      ∧ (∃ t1, write_action_end_locked (remove_stream_fuel 1) writing_client
            (GRPC_ERROR_CREATE "broken pipe") = some t1
          ∧ t1.write_state = .IDLE ∧ t1.closed_with_error.ok = false
          ∧ t1.ep_destroyed = true) := by
  have hf : 0 < writing_client.endpoint_writes_in_flight := by decide!
  have hs : writing_client.write_state = .WRITING := by decide!
  have a := C23_write_action_end 1 {} true writing_client
    (reachable_exec_state _ _ Reachable.init) hf .OkStatus
  have b := C23_write_action_end 1 {} true writing_client
    (reachable_exec_state _ _ Reachable.init) hf (GRPC_ERROR_CREATE "broken pipe")
  have h3 : writing_client.close_transport_on_writes_finished.ok = true := by decide!
  have h4 : writing_client.sent_goaway_state ≠ .FINAL_GOAWAY_SEND_SCHEDULED := by decide!
  obtain ⟨t1, e1, e2, -⟩ := (a.2.1 rfl h3 (Or.inl h4)).1 hs
  obtain ⟨t2, f1, f2, f3, -, f5, -⟩ :=
    (b.2.2.2 rfl (by decide!) (by decide!) (by decide!) h3 h4).1 hs
  exact ⟨hf, hs, ⟨t1, e1, e2⟩, ⟨t2, f1, f2, f3, f5⟩⟩

/-! ## C24: `write_action_begin_locked` -/

/-- The call `set_write_state(IDLE)` issues no endpoint write. -/
theorem set_write_state_IDLE_in_flight {remove : RemoveStream} (hr : RemoveOK remove)
    {t t1 : T} (hw : WFb t) (h0 : t.finally_write_action_begin = 0)
    (h1 : t.endpoint_writes_in_flight = 0)
    (h : set_write_state remove t .IDLE = some t1) :
    t1.endpoint_writes_in_flight = t.endpoint_writes_in_flight := by
  unfold set_write_state at h
  rw [if_pos rfl] at h
  simp only at h
  split at h
  · have w2 : WFb { run_closure_list { t with write_state := .IDLE } with
        close_transport_on_writes_finished := .OkStatus } := by
      apply wfb_core hw <;> first | rfl | skip
      · intro _; exact ⟨h0, h1⟩
      · intro hx; exact absurd rfl hx
      · intro hx; exact absurd hx (by simp [ok_OkStatus])
    exact (close_transport_locked_pc hr w2 h).1.rel.in_flight
  · simp only [Option.some.injEq] at h; subst h
    rfl

/-- The state the gather step of `write_action_begin_locked` leaves. -/
theorem wfb_begin_gather {t : T} (hw : WFb t) (hne : t.write_state ≠ .IDLE)
    (hf : 0 < t.finally_write_action_begin) (g p : Bool) :
    WFb (write_action_begin_gather
        { t with finally_write_action_begin := t.finally_write_action_begin - 1 } g p).1
      ∧ (write_action_begin_gather
        { t with finally_write_action_begin := t.finally_write_action_begin - 1 } g p
          ).1.finally_write_action_begin = 0
      ∧ (write_action_begin_gather
        { t with finally_write_action_begin := t.finally_write_action_begin - 1 } g p
          ).1.endpoint_writes_in_flight = t.endpoint_writes_in_flight
      ∧ (write_action_begin_gather
        { t with finally_write_action_begin := t.finally_write_action_begin - 1 } g p
          ).1.close_transport_on_writes_finished = t.close_transport_on_writes_finished := by
  have hbz := hw.busy hne
  obtain ⟨q, n, w, hq⟩ := gather_eq
    { t with finally_write_action_begin := t.finally_write_action_begin - 1 } g p
  rw [hq]
  refine ⟨?_, ?_, rfl, rfl⟩
  · apply wfb_core hw <;> first | rfl | skip
    · intro hx; exact absurd hx hne
    · intro _
      show t.finally_write_action_begin - 1 + t.endpoint_writes_in_flight ≤ 1
      omega
    · exact hw.pending
  · show t.finally_write_action_begin - 1 = 0
    omega

/-- C24, counterexample: on a new client transport (write state WRITING, one
`write_action_begin_locked` scheduled), the gather routine producing output
and answering that more is left (`partial`), `write_action_begin_locked` hands
the output to one endpoint write and leaves the write state WRITING_WITH_MORE,
not WRITING. -/
theorem C24_counterexample :
    (grpc_create_chttp2_transport {} true).write_state = .WRITING
      ∧ (grpc_create_chttp2_transport {} true).finally_write_action_begin = 1
      ∧ (write_action_begin_gather (grpc_create_chttp2_transport {} true) true true).2.writing
          = true
      ∧ (write_action_begin_locked (remove_stream_fuel 1)
          (grpc_create_chttp2_transport {} true) true true).map
          (fun t => (t.write_state, t.endpoint_writes_in_flight))
        = some (.WRITING_WITH_MORE, 1) := by
  decide!

/-- C24, amended: `write_action_begin_locked` runs from the finally queue on a
reachable state, so with a write state other than IDLE.  The gather step
produces output exactly when the transport is open and `qbuf` is not empty or
the gather routine gathered something.  If it produces nothing (in particular
on a closed transport), no endpoint write is issued, and the write state
becomes IDLE when no close is pending, which is the case on a closed transport
(a pending close runs at that point and may initiate a write again).  If it
produces output, the call returns, the output is handed to exactly one endpoint
write, `qbuf` is empty, and the write state becomes WRITING_WITH_MORE when the
gather routine answers that more is left, and WRITING otherwise. -/
theorem C24_write_action_begin (fuel : Nat) (ca : ChannelArgs) (ic : Bool) (t : T)
    (hr : Reachable fuel ca ic t) (hf : 0 < t.finally_write_action_begin) (g p : Bool) :
    t.write_state ≠ .IDLE
      ∧ (write_action_begin_gather t g p).2.writing
          = (t.closed_with_error.ok && (!t.qbuf.isEmpty || g))
      ∧ ((write_action_begin_gather t g p).2.writing = false →
          (∀ t1, write_action_begin_locked (remove_stream_fuel fuel) t g p = some t1 →
            t1.endpoint_writes_in_flight = t.endpoint_writes_in_flight)
          ∧ (t.close_transport_on_writes_finished.ok = true →
              ∃ t1, write_action_begin_locked (remove_stream_fuel fuel) t g p = some t1
                ∧ t1.write_state = .IDLE
                ∧ t1.endpoint_writes_in_flight = t.endpoint_writes_in_flight)
          ∧ (t.closed_with_error.ok = false →
              t.close_transport_on_writes_finished.ok = true))
      ∧ ((write_action_begin_gather t g p).2.writing = true →
          ∃ t1, write_action_begin_locked (remove_stream_fuel fuel) t g p = some t1
            ∧ t1.endpoint_writes_in_flight = t.endpoint_writes_in_flight + 1
            ∧ t1.write_state = (if p = true then .WRITING_WITH_MORE else .WRITING)
            ∧ t1.qbuf = []) := by
  have hi := reachable_inv hr
  have hne : t.write_state ≠ .IDLE := by
    intro hx
    have := (hi.1.idle hx).1
    omega
  have hbz := hi.1.busy hne
  have hfl : t.endpoint_writes_in_flight = 0 := by omega
  have unf : write_action_begin_locked (remove_stream_fuel fuel) t g p
      = write_action_begin_write (remove_stream_fuel fuel)
          { t with finally_write_action_begin := t.finally_write_action_begin - 1 } g p := by
    unfold write_action_begin_locked
    simp only
    rw [if_neg hne]
  refine ⟨hne, write_action_begin_gather_writing t g p, ?_, ?_⟩
  · intro hn
    rw [write_action_begin_gather_writing] at hn
    have eqn := write_action_begin_write_nothing (remove_stream_fuel fuel)
      { t with finally_write_action_begin := t.finally_write_action_begin - 1 } g p hn
    have wg := wfb_begin_gather hi.1 hne hf g p
    refine ⟨?_, ?_, ?_⟩
    · intro t1 h1
      rw [unf, eqn] at h1
      have e := set_write_state_IDLE_in_flight (remove_stream_fuel_ok fuel) wg.1 wg.2.1
        (by rw [wg.2.2.1]; exact hfl) h1
      exact e.trans wg.2.2.1
    · intro hp
      rw [unf, eqn, set_write_state_IDLE_eq _ _ (by rw [wg.2.2.2]; exact hp)]
      exact ⟨_, rfl, rfl, wg.2.2.1⟩
    · intro hc
      cases hp : t.close_transport_on_writes_finished.ok
      · have := (hi.1.pending hp).2
        rw [hc] at this
        cases this
      · rfl
  · intro hw
    rw [write_action_begin_gather_writing, Bool.and_eq_true] at hw
    have e := write_action_begin_write_writing (remove_stream_fuel fuel)
      { t with finally_write_action_begin := t.finally_write_action_begin - 1 } g p hw.1 hw.2
    rw [unf, e]
    refine ⟨_, rfl, ?_, ?_, ?_⟩
    · split <;> rfl
    · split <;> rfl
    · split <;> rfl

/-- Witness of C24: the first write of a new client transport, the gather
routine producing output with nothing left. -/
theorem C24_write_action_begin_witness :
    0 < (grpc_create_chttp2_transport {} true).finally_write_action_begin
      ∧ ∃ t1, write_action_begin_locked (remove_stream_fuel 1)
            (grpc_create_chttp2_transport {} true) true false = some t1
          ∧ t1.endpoint_writes_in_flight = 1
          ∧ t1.write_state = .WRITING := by
  have hf : 0 < (grpc_create_chttp2_transport {} true).finally_write_action_begin := by decide!
  have c := C24_write_action_begin 1 {} true (grpc_create_chttp2_transport {} true)
    Reachable.init hf true false
  obtain ⟨t1, h1, h2, h3, -⟩ := c.2.2.2 (by decide!)
  refine ⟨hf, t1, h1, ?_, h3⟩
  rw [h2]
  decide!

/-! ## C25: a close requested while a write is in progress -/

theorem InitStream_busy (t : T) (sd : Option Nat) :
    (InitStream t sd).write_state = t.write_state
      ∧ (InitStream t sd).closed_with_error = t.closed_with_error
      ∧ (InitStream t sd).ep_destroyed = t.ep_destroyed := by
  cases sd with
  | none => exact ⟨rfl, rfl, rfl⟩
  | some id =>
    simp only [InitStream, post_destructive_reclaimer]
    split <;> exact ⟨rfl, rfl, rfl⟩

/-- While a write is in progress, no handler other than the two write actions
moves the write state to IDLE, closes the transport or destroys the
endpoint. -/
theorem step_busy (fuel : Nat) {op : Op} {t t1 : T} (h : step fuel op t = some t1)
    (h3 : ∀ g p, op ≠ .write_action_begin g p) (h4 : ∀ e, op ≠ .write_action_end e)
    (hs : t.write_state ≠ .IDLE) :
    t1.write_state ≠ .IDLE ∧ t1.closed_with_error = t.closed_with_error
      ∧ t1.ep_destroyed = t.ep_destroyed := by
  by_cases c1 : op = .init_stream
  · subst c1
    simp only [step, Option.some.injEq] at h; subst h
    obtain ⟨a, b, c⟩ := InitStream_busy t none
    exact ⟨by rw [a]; exact hs, b, c⟩
  by_cases c2 : ∃ id, op = .accept_stream id
  · obtain ⟨id, rfl⟩ := c2
    simp only [step] at h
    unfold parsing_accept_stream at h
    split at h
    · simp only [Option.some.injEq] at h; subst h
      obtain ⟨a, b, c⟩ := InitStream_busy { t with last_new_stream_id := id } (some id)
      exact ⟨by rw [a]; exact hs, b, c⟩
    · exact absurd h (by simp)
  exact (keepx_step fuel h c1 (fun id hx => c2 ⟨id, hx⟩) h3 h4).busy hs

/-- The close of the transport assigns `closed_with_error` only with the write
state IDLE. -/
theorem close_transport_locked_sets_at_idle {remove : RemoveStream} {x t2 t1 : T}
    {err : Status} (h2 : end_all_the_calls remove x err = some t2)
    (h1 : close_transport_locked remove x err = some t1)
    (ho : t2.closed_with_error.ok = true) (hn : t1.closed_with_error.ok = false) :
    t2.write_state = .IDLE ∧ t1.write_state = .IDLE := by
  unfold close_transport_locked at h1
  rw [h2] at h1
  simp only [Option.some_bind] at h1
  rw [if_pos (show (cancel_pings t2 err).closed_with_error.ok = true from ho)] at h1
  by_cases hs : (cancel_pings t2 err).write_state ≠ .IDLE
  · rw [if_pos hs] at h1
    simp only [Option.some.injEq] at h1
    subst h1
    have : t2.closed_with_error.ok = false := hn
    rw [ho] at this
    cases this
  · rw [if_neg hs] at h1
    have hs2 : t2.write_state = .IDLE := by
      by_contra hx
      exact hs hx
    generalize (if (!err.has_clear_grpc_status) = true then
      grpc_error_set_rpc_status err GRPC_STATUS_UNAVAILABLE else err) = e2 at h1
    by_cases he2 : e2.ok = true
    · rw [if_pos he2] at h1
      exact absurd h1 (by simp)
    · rw [if_neg he2] at h1
      simp only [Option.some.injEq] at h1
      subst h1
      exact ⟨hs2, (close_transport_notify_fields _ _).1.trans hs2⟩

/-- A close requested while a write is in progress is deferred. -/
theorem close_transport_locked_busy {remove : RemoveStream} (hr : RemoveKeep remove)
    {t t1 : T} {e : Status} (h : close_transport_locked remove t e = some t1)
    (hs : t.write_state ≠ .IDLE) (hc : t.closed_with_error.ok = true) (he : e.ok = false) :
    t1.closed_with_error = t.closed_with_error ∧ t1.ep_destroyed = t.ep_destroyed
      ∧ t1.write_state ≠ .IDLE
      ∧ t1.close_transport_on_writes_finished.ok = false
      ∧ (if !e.has_clear_grpc_status then grpc_error_set_rpc_status e GRPC_STATUS_UNAVAILABLE
          else e) ∈ t1.close_transport_on_writes_finished.children := by
  have k := (keepx_close_transport_locked hr h).busy hs
  unfold close_transport_locked at h
  simp only [Option.bind_eq_some] at h
  obtain ⟨t2, h2, h3⟩ := h
  have k2 := (keepx_end_all_the_calls hr h2).busy hs
  have he2 := (close_error_children e).2.trans he
  rw [if_pos (show (cancel_pings t2 e).closed_with_error.ok = true from by
    show t2.closed_with_error.ok = true
    rw [k2.2.1]; exact hc),
    if_pos (show (cancel_pings t2 e).write_state ≠ .IDLE from k2.1)] at h3
  simp only [Option.some.injEq] at h3
  subst h3
  have ch := close_transport_defer_child (cancel_pings t2 e)
    (if !e.has_clear_grpc_status then grpc_error_set_rpc_status e GRPC_STATUS_UNAVAILABLE
     else e) he2
  exact ⟨k.2.1, k.2.2, k.1, ch.1, ch.2.1⟩

theorem close_transport_locked_total (n : Nat) (t : T) (e : Status) (hw : WFb t)
    (hs : t.write_state ≠ .IDLE)
    (hok : t.is_client = true ∨ (grpc_error_get_grpc_status e < 100
      ∧ e.message.utf8ByteSize ≤ UINT32_MODULUS - 1)) :
    ∃ t1, close_transport_locked (remove_stream_fuel (n + 1)) t e = some t1 := by
  obtain ⟨t2, h2⟩ := end_all_the_calls_total n t e hw hok
  have k2 := (keepx_end_all_the_calls (remove_stream_fuel_keep (n + 1)) h2).busy hs
  unfold close_transport_locked
  rw [h2]
  simp only [Option.some_bind]
  split
  · rw [if_pos (show (cancel_pings t2 e).write_state ≠ .IDLE from k2.1)]
    exact ⟨_, rfl⟩
  · exact ⟨_, rfl⟩

/-- C25, counterexample: on the client whose close was deferred behind its
first write and that admitted a stream afterwards, the next call
`set_write_state(IDLE)` (directly, or through the completion of the write in
flight) clears the pending error and runs the close, but cancelling the stream
initiates a write, so the close is deferred again: the transport is not
closed, the endpoint is not destroyed and a close is pending once more. -/
theorem C25_counterexample :
    deferred_close_client.close_transport_on_writes_finished.ok = false
      ∧ deferred_close_client.closed_with_error.ok = true
      ∧ deferred_close_client.write_state = .WRITING
      ∧ (set_write_state (remove_stream_fuel 1) deferred_close_client .IDLE).map
          (fun t => (t.closed_with_error.ok, t.ep_destroyed,
            t.close_transport_on_writes_finished.ok, t.write_state))
        = some (true, false, false, .WRITING)
      ∧ (step 1 (.write_action_end .OkStatus) deferred_close_client).map
          (fun t => (t.closed_with_error.ok, t.ep_destroyed,
            t.close_transport_on_writes_finished.ok, t.write_state))
        = some (true, false, false, .WRITING) := by
  decide!

/-- C25, amended: on a reachable state with a write in progress (write state
other than IDLE) and `closed_with_error` OK, a close requested with a non-OK
error `e` is deferred: (1) when `close_transport_locked` returns,
`closed_with_error` and the endpoint are as before, the write state is still
not IDLE, and `close_transport_on_writes_finished` is non-OK with `e` (given
the status UNAVAILABLE when it has no clear status) among its children; and it
returns, with fuel for the nested calls, on a client, or on a server when the
grpc-status of `e` is below 100 and its message fits 32 bits.  (2) While a
write is in progress, no handler other than the two write actions moves the
write state to IDLE, changes `closed_with_error` or destroys the endpoint.
(3) At a call `set_write_state(IDLE)` with a close pending on an open transport
with no stream open or waiting, the pending error is cleared and the transport
is closed with it: `closed_with_error` becomes non-OK, the endpoint is
destroyed, the connectivity state is SHUTDOWN and the write state is IDLE.
(4) Whenever a call of `close_transport_locked` sets `closed_with_error` (it was
OK after `end_all_the_calls`, and is not on return), the write state is IDLE
then and on return. -/
theorem C25_close_deferred (fuel : Nat) (ca : ChannelArgs) (ic : Bool) (t : T)
    (hr : Reachable fuel ca ic t) (e : Status)
    (hs : t.write_state ≠ .IDLE) (hc : t.closed_with_error.ok = true) (he : e.ok = false) :
    (∀ n t1, close_transport_locked (remove_stream_fuel n) t e = some t1 →
        t1.closed_with_error = t.closed_with_error ∧ t1.ep_destroyed = t.ep_destroyed
          ∧ t1.write_state ≠ .IDLE
          ∧ t1.close_transport_on_writes_finished.ok = false
          ∧ (if !e.has_clear_grpc_status then
              grpc_error_set_rpc_status e GRPC_STATUS_UNAVAILABLE else e)
              ∈ t1.close_transport_on_writes_finished.children)
      ∧ (∀ n, (t.is_client = true ∨ (grpc_error_get_grpc_status e < 100
            ∧ e.message.utf8ByteSize ≤ UINT32_MODULUS - 1)) →
          ∃ t1, close_transport_locked (remove_stream_fuel (n + 1)) t e = some t1)
      ∧ (∀ op t1, (∀ g p, op ≠ .write_action_begin g p) → (∀ x, op ≠ .write_action_end x) →
          step fuel op t = some t1 →
          t1.write_state ≠ .IDLE ∧ t1.closed_with_error = t.closed_with_error
            ∧ t1.ep_destroyed = t.ep_destroyed)
      ∧ (∀ (n : Nat) (x : T), x.stream_map = [] → x.waiting_for_concurrency = [] →
          x.closed_with_error.ok = true → x.close_transport_on_writes_finished.ok = false →
          ∃ t1, set_write_state (remove_stream_fuel n) x .IDLE = some t1
            ∧ t1.close_transport_on_writes_finished = .OkStatus
            ∧ t1.closed_with_error.ok = false
            ∧ t1.closed_with_error
                = (if !x.close_transport_on_writes_finished.has_clear_grpc_status then
                    grpc_error_set_rpc_status x.close_transport_on_writes_finished
                      GRPC_STATUS_UNAVAILABLE
                   else x.close_transport_on_writes_finished)
            ∧ t1.ep_destroyed = true
            ∧ t1.connectivity_state = .SHUTDOWN
            ∧ t1.write_state = .IDLE)
      ∧ (∀ (n : Nat) (x t2 t1 : T) (err : Status),
          end_all_the_calls (remove_stream_fuel n) x err = some t2 →
          close_transport_locked (remove_stream_fuel n) x err = some t1 →
          t2.closed_with_error.ok = true → t1.closed_with_error.ok = false →
          t2.write_state = .IDLE ∧ t1.write_state = .IDLE) := by
  have hi := reachable_inv hr
  refine ⟨?_, ?_, ?_, ?_, ?_⟩
  · intro n t1 h1
    exact close_transport_locked_busy (remove_stream_fuel_keep n) h1 hs hc he
  · intro n hok
    exact close_transport_locked_total n t e hi.1 hs hok
  · intro op t1 h3 h4 hst
    exact step_busy fuel hst h3 h4 hs
  · intro n x hm hw hxc hxp
    obtain ⟨t1, b1, b2, b3, b4, b5, b6, b7, -⟩ :=
      set_write_state_IDLE_closes (remove_stream_fuel n) x hm hw hxc hxp
    exact ⟨t1, b1, b7, b4, b3, b5, b6, b2⟩
  · intro n x t2 t1 err h2 h1 ho hn
    exact close_transport_locked_sets_at_idle h2 h1 ho hn

/-- Witness of C25: the close of a client requested while its first write is in
flight is deferred; the write state IDLE then closes the transport. -/
theorem C25_close_deferred_witness :
    writing_client.write_state = .WRITING
      ∧ (∃ t1, close_transport_locked (remove_stream_fuel 1) writing_client
            (GRPC_ERROR_CREATE "x") = some t1
          ∧ t1.closed_with_error.ok = true
          ∧ t1.close_transport_on_writes_finished.ok = false)
      ∧ (∃ t1, set_write_state (remove_stream_fuel 1) deferred_close_no_stream_client .IDLE
            = some t1
          ∧ t1.closed_with_error.ok = false ∧ t1.ep_destroyed = true
          ∧ t1.connectivity_state = .SHUTDOWN ∧ t1.write_state = .IDLE) := by
  have hs : writing_client.write_state = .WRITING := by decide!
  have h2 : writing_client.closed_with_error.ok = true := by decide!
  have c := C25_close_deferred 1 {} true writing_client
    (reachable_exec_state _ _ Reachable.init) (GRPC_ERROR_CREATE "x")
    (by rw [hs]; decide) h2 rfl
  obtain ⟨t1, e1⟩ := c.2.1 0 (Or.inl (by decide!))
  have e2 := c.1 1 t1 e1
  obtain ⟨t2, f1, -, f3, -, f5, f6, f7⟩ := c.2.2.2.1 1 deferred_close_no_stream_client
    (by decide!) (by decide!) (by decide!) (by decide!)
  exact ⟨hs, ⟨t1, e1, by rw [e2.1]; exact h2, e2.2.2.2.1⟩, ⟨t2, f1, f3, f5, f6, f7⟩⟩

/-- A call of `send_goaway` that asks for a graceful shutdown once a GOAWAY was
started changes neither the GOAWAY state nor the queue. -/
theorem send_goaway_graceful_again (t : T) (e : Status) (imm : Bool)
    (hc : t.is_client = false) (he : grpc_error_get_http2_error e = GRPC_HTTP2_NO_ERROR)
    (hi : imm = false) (hs : t.sent_goaway_state ≠ .NO_GOAWAY_SEND) :
    (send_goaway t e imm).sent_goaway_state = t.sent_goaway_state
      ∧ (send_goaway t e imm).qbuf = t.qbuf := by
  have hg : t.is_client = false ∧ grpc_error_get_http2_error e = GRPC_HTTP2_NO_ERROR
      ∧ imm = false := ⟨hc, he, hi⟩
  unfold send_goaway
  simp only
  rw [if_pos hg, if_neg hs]
  exact ⟨(initiate_write_frame t _).2.1, (initiate_write_frame t _).1⟩

/-- A call of `send_goaway` that does not ask for a graceful shutdown, before
a final GOAWAY was scheduled: one GOAWAY is queued. -/
theorem send_goaway_final_new (t : T) (e : Status) (imm : Bool)
    (hg : ¬ (t.is_client = false ∧ grpc_error_get_http2_error e = GRPC_HTTP2_NO_ERROR
      ∧ imm = false))
    (hs : t.sent_goaway_state = .NO_GOAWAY_SEND ∨ t.sent_goaway_state = .GRACEFUL_GOAWAY) :
    (send_goaway t e imm).sent_goaway_state = .FINAL_GOAWAY_SEND_SCHEDULED
      ∧ (send_goaway t e imm).qbuf
          = t.qbuf ++ [.goaway t.last_new_stream_id
              (grpc_error_get_http2_error e % UINT32_MODULUS) e.message] := by
  unfold send_goaway
  simp only
  rw [if_neg hg, if_pos hs]
  refine ⟨(initiate_write_frame _ _).2.1, ?_⟩
  rw [(initiate_write_frame _ _).1]
  rfl

/-- A call of `send_goaway` that does not ask for a graceful shutdown, once a
final GOAWAY was scheduled or sent: nothing is queued. -/
theorem send_goaway_final_swallowed (t : T) (e : Status) (imm : Bool)
    (hg : ¬ (t.is_client = false ∧ grpc_error_get_http2_error e = GRPC_HTTP2_NO_ERROR
      ∧ imm = false))
    (hs : t.sent_goaway_state = .FINAL_GOAWAY_SEND_SCHEDULED
      ∨ t.sent_goaway_state = .FINAL_GOAWAY_SENT) :
    (send_goaway t e imm).sent_goaway_state = t.sent_goaway_state
      ∧ (send_goaway t e imm).qbuf = t.qbuf := by
  have hn : ¬ (t.sent_goaway_state = .NO_GOAWAY_SEND
      ∨ t.sent_goaway_state = .GRACEFUL_GOAWAY) := by
    rcases hs with h | h <;> rw [h] <;> decide
  unfold send_goaway
  simp only
  rw [if_neg hg, if_neg hn]
  exact ⟨(initiate_write_frame t _).2.1, (initiate_write_frame t _).1⟩

theorem send_goaway_ne_IDLE (t : T) (e : Status) (imm : Bool) :
    (send_goaway t e imm).write_state ≠ .IDLE := by
  unfold send_goaway
  exact initiate_write_ne_IDLE _ _

/-- C26, refuted as written: the second call of `send_goaway` on a server that
started a graceful shutdown, again with a NO_ERROR error and without the
immediate hint, is a call after a GOAWAY was started with the state GRACEFUL;
it leaves the state GRACEFUL and appends nothing. -/
theorem C26_counterexample :
    graceful_server.is_client = false
      ∧ grpc_error_get_http2_error no_error_goaway = GRPC_HTTP2_NO_ERROR
      ∧ graceful_server.sent_goaway_state = .GRACEFUL_GOAWAY
      ∧ (send_goaway graceful_server no_error_goaway false).sent_goaway_state = .GRACEFUL_GOAWAY
      ∧ (send_goaway graceful_server no_error_goaway false).qbuf = graceful_server.qbuf := by
  have h1 : graceful_server.is_client = false := by decide!
  have h2 : grpc_error_get_http2_error no_error_goaway = GRPC_HTTP2_NO_ERROR := by decide!
  have h3 : graceful_server.sent_goaway_state = .GRACEFUL_GOAWAY := by decide!
  have h := send_goaway_graceful_again graceful_server no_error_goaway false h1 h2 rfl
    (by rw [h3]; decide)
  exact ⟨h1, h2, h3, h.1.trans h3, h.2⟩

/-- C26, amended: `send_goaway` with an error `e` and the hint `imm`.  When the
call does not ask for a graceful shutdown (the transport is a client, or the
HTTP/2 code of `e` is not NO_ERROR, or `imm` is set): from NONE or GRACEFUL the
state becomes FINAL_SCHEDULED and one GOAWAY with the current
`last_new_stream_id`, the HTTP/2 code of `e` and its message is appended to
`qbuf`; from FINAL_SCHEDULED or FINAL_SENT the state and `qbuf` are unchanged.
When it asks for a graceful shutdown (server, NO_ERROR, no hint) and a GOAWAY
was already started, whatever its state, the state and `qbuf` are unchanged.
In every case a write is initiated: `write_state` is not IDLE on return. -/
theorem C26_send_goaway_final (t : T) (e : Status) (imm : Bool) :
    (¬ (t.is_client = false ∧ grpc_error_get_http2_error e = GRPC_HTTP2_NO_ERROR
          ∧ imm = false) →
      ((t.sent_goaway_state = .NO_GOAWAY_SEND ∨ t.sent_goaway_state = .GRACEFUL_GOAWAY) →
        (send_goaway t e imm).sent_goaway_state = .FINAL_GOAWAY_SEND_SCHEDULED
          ∧ (send_goaway t e imm).qbuf
              = t.qbuf ++ [.goaway t.last_new_stream_id
                  (grpc_error_get_http2_error e % UINT32_MODULUS) e.message])
        ∧ ((t.sent_goaway_state = .FINAL_GOAWAY_SEND_SCHEDULED
            ∨ t.sent_goaway_state = .FINAL_GOAWAY_SENT) →
          (send_goaway t e imm).sent_goaway_state = t.sent_goaway_state
            ∧ (send_goaway t e imm).qbuf = t.qbuf))
      ∧ (t.is_client = false → grpc_error_get_http2_error e = GRPC_HTTP2_NO_ERROR →
          imm = false → t.sent_goaway_state ≠ .NO_GOAWAY_SEND →
          (send_goaway t e imm).sent_goaway_state = t.sent_goaway_state
            ∧ (send_goaway t e imm).qbuf = t.qbuf)
      ∧ (send_goaway t e imm).write_state ≠ .IDLE := by
  refine ⟨fun hg => ⟨send_goaway_final_new t e imm hg, send_goaway_final_swallowed t e imm hg⟩,
    ?_, send_goaway_ne_IDLE t e imm⟩
  intro hc he hi hs
  exact send_goaway_graceful_again t e imm hc he hi hs

/-- Witness of C26: a client that sends a GOAWAY with the immediate hint, and
then a second one. -/
theorem C26_send_goaway_final_witness :
    idle_client.sent_goaway_state = .NO_GOAWAY_SEND
      ∧ (send_goaway idle_client (GRPC_ERROR_CREATE "bye") true).sent_goaway_state
          = .FINAL_GOAWAY_SEND_SCHEDULED
      ∧ (send_goaway idle_client (GRPC_ERROR_CREATE "bye") true).qbuf
          = idle_client.qbuf ++ [.goaway 0 2 "bye"]
      ∧ (send_goaway (send_goaway idle_client (GRPC_ERROR_CREATE "bye") true)
          (GRPC_ERROR_CREATE "again") true).qbuf
          = (send_goaway idle_client (GRPC_ERROR_CREATE "bye") true).qbuf := by
  have h0 : idle_client.sent_goaway_state = .NO_GOAWAY_SEND := by decide!
  have hc : idle_client.is_client = true := by decide!
  have a := ((C26_send_goaway_final idle_client (GRPC_ERROR_CREATE "bye") true).1
    (by intro h; rw [hc] at h; exact absurd h.1 (by decide))).1 (Or.inl h0)
  have hc2 : (send_goaway idle_client (GRPC_ERROR_CREATE "bye") true).is_client = true := by
    decide!
  have b := ((C26_send_goaway_final (send_goaway idle_client (GRPC_ERROR_CREATE "bye") true)
    (GRPC_ERROR_CREATE "again") true).1
    (by intro h; rw [hc2] at h; exact absurd h.1 (by decide))).2 (Or.inl a.1)
  refine ⟨h0, a.1, ?_, b.2⟩
  rw [a.2]
  decide!

/-! ## C27: the initial window update of the read loop -/

/-- C27, counterexample: on an open client whose stream 0 is stalled by stream
flow control and whose `initial_window_update` is -1 (not zero), a parse turn
of `read_action_parse_loop_locked` resets `initial_window_update` to 0 but
leaves the stream on the stalled list, does not put it on the writable list
and initiates no write (the write state stays WRITING). -/
theorem C27_counterexample :
    stalled_window_lowered_client.closed_with_error.ok = true
      ∧ stalled_window_lowered_client.initial_window_update = -1
      ∧ stalled_window_lowered_client.stalled_by_stream = [0]
      ∧ stalled_window_lowered_client.writable = []
      ∧ stalled_window_lowered_client.write_state = .WRITING
      ∧ (read_action_parse_loop_locked (remove_stream_fuel 1) stalled_window_lowered_client
          .OkStatus {}).map
          (fun t => (t.stalled_by_stream, t.writable, t.write_state, t.initial_window_update))
        = some ([0], [], .WRITING, 0) := by
  decide!

/-- C27, amended: a parse turn of `read_action_parse_loop_locked` on an open
transport that does not stop on a partial read runs the block of
`initial_window_update` and then the end of the turn.  In that block, if
`initial_window_update` is positive every stream of the list stalled by stream
flow control is popped and is on the writable list afterwards, one write is
initiated for each stream popped (none when the list was empty, the state then
changing only in `initial_window_update`), and `initial_window_update` is reset
to 0; if it is negative it is reset to 0 and nothing else changes: no stream is
moved and no write is initiated; if it is 0 nothing changes. -/
theorem C27_window_update_unstalls (remove : RemoveStream) (t : T) (error : Status)
    (turn : ParseTurn) (ho : t.closed_with_error.ok = true)
    (hn : turn.partial_read = false) :
    read_action_parse_loop_locked remove t error turn
        = read_action_end remove (read_action_window_update t)
            (if turn.parse_error.ok = false then
              GRPC_ERROR_CREATE_REFERENCING "Failed parsing HTTP/2"
                [error, turn.parse_error, turn.http_error]
             else error) turn.timer_cancelled
      ∧ (0 < t.initial_window_update →
          (read_action_window_update t).stalled_by_stream = []
            ∧ (∀ s, s ∈ t.stalled_by_stream → s ∈ (read_action_window_update t).writable)
            ∧ (∀ r, r ∈ t.writable → r ∈ (read_action_window_update t).writable)
            ∧ (t.stalled_by_stream ≠ [] → (read_action_window_update t).write_state ≠ .IDLE)
            ∧ (t.stalled_by_stream = [] →
                read_action_window_update t = { t with initial_window_update := 0 })
            ∧ (read_action_window_update t).initial_window_update = 0)
      ∧ (t.initial_window_update < 0 →
          read_action_window_update t = { t with initial_window_update := 0 })
      ∧ (t.initial_window_update = 0 → read_action_window_update t = t) := by
  refine ⟨?_, ?_, ?_, ?_⟩
  · unfold read_action_parse_loop_locked
    rw [if_pos ho, if_neg (by rw [hn]; simp)]
  · intro hp
    have hne : t.initial_window_update ≠ 0 := by omega
    have hgt : t.initial_window_update > 0 := hp
    have sp := unstall_streams_spec t.stalled_by_stream t ho rfl
    have hr : read_action_window_update t
        = { unstall_streams t.stalled_by_stream t with initial_window_update := 0 } := by
      unfold read_action_window_update
      rw [if_pos hne]
      simp only [if_pos hgt]
    rw [hr]
    refine ⟨sp.1, sp.2.1, sp.2.2.1, sp.2.2.2.1, ?_, rfl⟩
    intro he
    have hu : unstall_streams t.stalled_by_stream t = t := by
      rw [he]
      rfl
    rw [hu]
  · intro hl
    have hne : t.initial_window_update ≠ 0 := by omega
    have hgt : ¬ t.initial_window_update > 0 := by omega
    unfold read_action_window_update
    rw [if_pos hne]
    simp only [if_neg hgt]
  · intro hz
    unfold read_action_window_update
    rw [if_neg (by rw [hz]; simp)]

/-- Witness of C27: the client whose stalled stream sees its window raised by
one byte: the stream leaves the stalled list for the writable list and a write
is initiated. -/
theorem C27_window_update_unstalls_witness :
    stalled_window_raised_client.closed_with_error.ok = true
      ∧ stalled_window_raised_client.stalled_by_stream = [0]
      ∧ (read_action_window_update stalled_window_raised_client).stalled_by_stream = []
      ∧ 0 ∈ (read_action_window_update stalled_window_raised_client).writable
      ∧ (read_action_window_update stalled_window_raised_client).write_state ≠ .IDLE
      ∧ (read_action_window_update stalled_window_raised_client).initial_window_update = 0 := by
  have ho : stalled_window_raised_client.closed_with_error.ok = true := by decide!
  have hp : 0 < stalled_window_raised_client.initial_window_update := by decide!
  have hs : stalled_window_raised_client.stalled_by_stream = [0] := by decide!
  have c := (C27_window_update_unstalls (remove_stream_fuel 1) stalled_window_raised_client
    .OkStatus {} ho rfl).2.1 hp
  exact ⟨ho, hs, c.1, c.2.1 0 (by rw [hs]; exact List.mem_singleton_self 0),
    c.2.2.2.1 (by rw [hs]; simp), c.2.2.2.2.2⟩

/-- C28: `init_keepalive_ping_locked` returns exactly when `keepalive_state` is
WAITING and the timer is armed (its two checks).  When it returns: if the
transport is destroying or closed the state becomes DYING and no ping is
requested, nothing is queued for the ack and the write state is untouched;
otherwise, if `keepalive_permit_without_calls` is set or `stream_map` is not
empty, the state becomes PINGING, a ping is requested with the closure
`finish_keepalive_ping` waiting for its ack, and a write is initiated;
otherwise the state stays WAITING, no ping is requested and the timer is armed
again.  The state never becomes DISABLED.  `finish_keepalive_ping_locked`
changes the state only from PINGING to WAITING, on an OK result, and then arms
the timer. -/
theorem C28_keepalive_timer (t : T) (e : Status) :
    ((∃ t1, init_keepalive_ping_locked t = some t1)
        ↔ (t.keepalive_state = .WAITING ∧ t.keepalive_ping_timer_armed = true))
      ∧ (∀ t1, init_keepalive_ping_locked t = some t1 →
          ((t.destroying = true ∨ t.closed_with_error.ok = false) →
            t1.keepalive_state = .DYING ∧ t1.ping_requested = t.ping_requested
              ∧ t1.ping_on_ack = t.ping_on_ack ∧ t1.exec_ctx = t.exec_ctx
              ∧ t1.write_state = t.write_state)
          ∧ (t.destroying = false → t.closed_with_error.ok = true →
              (t.keepalive_permit_without_calls = true ∨ t.stream_map ≠ []) →
              t1.keepalive_state = .PINGING ∧ t1.ping_requested = true
                ∧ t1.ping_on_ack = t.ping_on_ack ++ [.finish_keepalive_ping]
                ∧ t1.write_state ≠ .IDLE)
          ∧ (t.destroying = false → t.closed_with_error.ok = true →
              t.keepalive_permit_without_calls = false → t.stream_map = [] →
              t1.keepalive_state = .WAITING ∧ t1.ping_requested = t.ping_requested
                ∧ t1.ping_on_ack = t.ping_on_ack ∧ t1.write_state = t.write_state
                ∧ t1.keepalive_ping_timer_armed = true)
          ∧ t1.keepalive_state ≠ .DISABLED)
      ∧ (∀ t1, finish_keepalive_ping_locked t e = some t1 →
          (t1.keepalive_state ≠ t.keepalive_state →
            t.keepalive_state = .PINGING ∧ t1.keepalive_state = .WAITING ∧ e.ok = true
              ∧ t1.keepalive_ping_timer_armed = true)
          ∧ (t.keepalive_state = .PINGING → e.ok = true → t1.keepalive_state = .WAITING)) := by
  refine ⟨?_, ?_, ?_⟩
  · constructor
    · rintro ⟨t1, h⟩
      unfold init_keepalive_ping_locked at h
      split at h
      · cases h
      · next hs =>
        split at h
        · cases h
        · next ha =>
          refine ⟨not_not.mp hs, ?_⟩
          cases hb : t.keepalive_ping_timer_armed
          · exact absurd hb ha
          · rfl
    · rintro ⟨hs, ha⟩
      unfold init_keepalive_ping_locked
      rw [if_neg (not_not.mpr hs), if_neg (by rw [ha]; decide)]
      simp only
      split
      · exact ⟨_, rfl⟩
      · split
        · exact ⟨_, rfl⟩
        · exact ⟨_, rfl⟩
  · intro t1 h
    unfold init_keepalive_ping_locked at h
    split at h
    · cases h
    · next hs =>
      split at h
      · cases h
      · simp only at h
        split at h
        · next hd =>
          simp only [Option.some.injEq] at h
          subst h
          refine ⟨fun _ => ⟨rfl, rfl, rfl, rfl, rfl⟩, ?_, ?_, by simp⟩
          · intro h1 h2
            rcases hd with hd | hd
            · rw [h1] at hd; cases hd
            · rw [h2] at hd; cases hd
          · intro h1 h2
            rcases hd with hd | hd
            · rw [h1] at hd; cases hd
            · rw [h2] at hd; cases hd
        · next hd =>
          have hd1 : t.destroying = false := by
            cases hx : t.destroying
            · rfl
            · exact absurd (Or.inl hx) hd
          have hd2 : t.closed_with_error.ok = true := by
            cases hx : t.closed_with_error.ok
            · exact absurd (Or.inr hx) hd
            · rfl
          split at h
          · next hp =>
            simp only [Option.some.injEq] at h
            subst h
            have hsend : send_keepalive_ping_locked
                { t with keepalive_ping_timer_armed := false, keepalive_state := .PINGING }
                = { t with keepalive_ping_timer_armed := false, keepalive_state := .PINGING,
                           ping_requested := true,
                           ping_on_ack := t.ping_on_ack ++ [.finish_keepalive_ping] } := by
              unfold send_keepalive_ping_locked
              rw [if_neg (by
                show ¬ t.closed_with_error.ok = false
                rw [hd2]; decide)]
            rw [hsend]
            have f := initiate_write_frame
              { t with keepalive_ping_timer_armed := false, keepalive_state := .PINGING,
                       ping_requested := true,
                       ping_on_ack := t.ping_on_ack ++ [.finish_keepalive_ping] } .KEEPALIVE_PING
            have hk : (grpc_chttp2_initiate_write
                { t with keepalive_ping_timer_armed := false, keepalive_state := .PINGING,
                         ping_requested := true,
                         ping_on_ack := t.ping_on_ack ++ [.finish_keepalive_ping] }
                .KEEPALIVE_PING).keepalive_state = .PINGING := by
              unfold grpc_chttp2_initiate_write
              split <;> rfl
            refine ⟨?_, ?_, ?_, by rw [hk]; decide⟩
            · intro hx
              rcases hx with hx | hx
              · rw [hd1] at hx; cases hx
              · rw [hd2] at hx; cases hx
            · intro _ _ _
              exact ⟨hk, f.2.2.1, f.2.2.2.1, f.2.2.2.2.1⟩
            · intro _ _ h3 h4
              rcases hp with hp | hp
              · rw [h3] at hp; cases hp
              · exact absurd hp (by
                  show ¬ (t.stream_map.isEmpty = false)
                  rw [h4]; decide)
          · next hp =>
            simp only [Option.some.injEq] at h
            subst h
            have hw : t.keepalive_state = .WAITING := not_not.mp hs
            refine ⟨?_, ?_, ?_, ?_⟩
            · intro hx
              rcases hx with hx | hx
              · rw [hd1] at hx; cases hx
              · rw [hd2] at hx; cases hx
            · intro _ _ h3
              exfalso
              apply hp
              rcases h3 with h3 | h3
              · exact Or.inl h3
              · right
                show t.stream_map.isEmpty = false
                cases hm : t.stream_map
                · exact absurd hm h3
                · rfl
            · intro _ _ _ _
              exact ⟨hw, rfl, rfl, rfl, rfl⟩
            · show t.keepalive_state ≠ .DISABLED
              rw [hw]; decide
  · intro t1 h
    unfold finish_keepalive_ping_locked at h
    split at h
    · next hp =>
      split at h
      · next he =>
        simp only at h
        split at h
        · cases h
        · simp only [Option.some.injEq] at h
          subst h
          exact ⟨fun _ => ⟨hp, rfl, he, rfl⟩, fun _ _ => rfl⟩
      · next he =>
        simp only [Option.some.injEq] at h
        subst h
        exact ⟨fun hx => absurd rfl hx, fun _ h2 => absurd h2 he⟩
    · next hp =>
      simp only [Option.some.injEq] at h
      subst h
      exact ⟨fun hx => absurd rfl hx, fun h1 _ => absurd h1 hp⟩

/-- Witness of C28: the keepalive timer fires on a client without streams,
once with pings permitted without calls and once without. -/
theorem C28_keepalive_timer_witness :
    keepalive_client.keepalive_state = .WAITING
      ∧ keepalive_client.stream_map = []
      ∧ (∃ t1, init_keepalive_ping_locked keepalive_client = some t1
          ∧ t1.keepalive_state = .WAITING ∧ t1.keepalive_ping_timer_armed = true)
      ∧ (∃ t1, init_keepalive_ping_locked keepalive_permit_client = some t1
          ∧ t1.keepalive_state = .PINGING ∧ t1.ping_requested = true
          ∧ t1.write_state ≠ .IDLE) := by
  have c := C28_keepalive_timer keepalive_client .OkStatus
  have d := C28_keepalive_timer keepalive_permit_client .OkStatus
  obtain ⟨t1, h1⟩ := c.1.mpr ⟨by decide!, by decide!⟩
  obtain ⟨t2, h2⟩ := d.1.mpr ⟨by decide!, by decide!⟩
  have a := (c.2.1 t1 h1).2.2.1 (by decide!) (by decide!) (by decide!) (by decide!)
  have b := (d.2.1 t2 h2).2.1 (by decide!) (by decide!) (Or.inl (by decide!))
  exact ⟨by decide!, by decide!, ⟨t1, h1, a.1, a.2.2.2.2⟩, ⟨t2, h2, b.1, b.2.1, b.2.2.2⟩⟩

/-- C29, refuted as written: on a client without streams whose final GOAWAY is
scheduled, the benign reclaimer run with an OK error queues no GOAWAY:
`send_goaway` swallows the call. -/
theorem C29_counterexample :
    goaway_scheduled_client.stream_map = []
      ∧ goaway_scheduled_client.sent_goaway_state = .FINAL_GOAWAY_SEND_SCHEDULED
      ∧ (benign_reclaimer_locked goaway_scheduled_client .OkStatus).qbuf
          = goaway_scheduled_client.qbuf
      ∧ goaway_scheduled_client.qbuf = [.goaway 0 2 "bye"] := by
  refine ⟨by decide!, by decide!, ?_, by decide!⟩
  have hg : ¬ (goaway_scheduled_client.is_client = false
      ∧ grpc_error_get_http2_error
          (grpc_error_set_http2_error (GRPC_ERROR_CREATE "Buffers full")
            GRPC_HTTP2_ENHANCE_YOUR_CALM) = GRPC_HTTP2_NO_ERROR
      ∧ true = false) := fun h => absurd h.2.2 (by decide)
  have h := send_goaway_final_swallowed goaway_scheduled_client
    (grpc_error_set_http2_error (GRPC_ERROR_CREATE "Buffers full") GRPC_HTTP2_ENHANCE_YOUR_CALM)
    true hg (Or.inl (by decide!))
  unfold benign_reclaimer_locked
  rw [if_pos ⟨rfl, by decide!⟩]
  exact h.2

/-- C29, amended: `benign_reclaimer_locked` with an OK error.  If `stream_map`
is empty it calls `send_goaway` with the HTTP/2 error ENHANCE_YOUR_CALM, the
text "Buffers full" and the immediate hint: when no final GOAWAY was scheduled
or sent yet, the state becomes FINAL_SCHEDULED and one GOAWAY with the current
`last_new_stream_id`, the code ENHANCE_YOUR_CALM and the text "Buffers full" is
appended to `qbuf`; when one was, the state and `qbuf` are unchanged; either
way a write is initiated and `closed_with_error` and
`close_transport_on_writes_finished` are unchanged.  If `stream_map` is not
empty, `sent_goaway_state`, `qbuf` and `write_state` are unchanged.  In both
cases `benign_reclaimer_registered` is false afterwards. -/
theorem C29_benign_reclaimer (t : T) :
    (t.stream_map = [] →
      ((t.sent_goaway_state = .NO_GOAWAY_SEND ∨ t.sent_goaway_state = .GRACEFUL_GOAWAY) →
        (benign_reclaimer_locked t .OkStatus).sent_goaway_state = .FINAL_GOAWAY_SEND_SCHEDULED
          ∧ (benign_reclaimer_locked t .OkStatus).qbuf
              = t.qbuf ++ [.goaway t.last_new_stream_id GRPC_HTTP2_ENHANCE_YOUR_CALM
                  "Buffers full"])
        ∧ ((t.sent_goaway_state = .FINAL_GOAWAY_SEND_SCHEDULED
            ∨ t.sent_goaway_state = .FINAL_GOAWAY_SENT) →
          (benign_reclaimer_locked t .OkStatus).sent_goaway_state = t.sent_goaway_state
            ∧ (benign_reclaimer_locked t .OkStatus).qbuf = t.qbuf)
        ∧ (benign_reclaimer_locked t .OkStatus).write_state ≠ .IDLE
        ∧ (benign_reclaimer_locked t .OkStatus).closed_with_error = t.closed_with_error
        ∧ (benign_reclaimer_locked t .OkStatus).close_transport_on_writes_finished
            = t.close_transport_on_writes_finished)
      ∧ (t.stream_map ≠ [] →
          (benign_reclaimer_locked t .OkStatus).sent_goaway_state = t.sent_goaway_state
            ∧ (benign_reclaimer_locked t .OkStatus).qbuf = t.qbuf
            ∧ (benign_reclaimer_locked t .OkStatus).write_state = t.write_state)
      ∧ (benign_reclaimer_locked t .OkStatus).benign_reclaimer_registered = false := by
  have hg : ¬ (t.is_client = false
      ∧ grpc_error_get_http2_error
          (grpc_error_set_http2_error (GRPC_ERROR_CREATE "Buffers full")
            GRPC_HTTP2_ENHANCE_YOUR_CALM) = GRPC_HTTP2_NO_ERROR
      ∧ true = false) := fun h => absurd h.2.2 (by decide)
  refine ⟨?_, ?_, rfl⟩
  · intro hm
    have hu : benign_reclaimer_locked t .OkStatus
        = { send_goaway t (grpc_error_set_http2_error (GRPC_ERROR_CREATE "Buffers full")
              GRPC_HTTP2_ENHANCE_YOUR_CALM) true with benign_reclaimer_registered := false } := by
      unfold benign_reclaimer_locked
      rw [if_pos ⟨rfl, by rw [hm]; rfl⟩]
    rw [hu]
    have tr := toprel_send_goaway t (grpc_error_set_http2_error (GRPC_ERROR_CREATE "Buffers full")
      GRPC_HTTP2_ENHANCE_YOUR_CALM) true
    refine ⟨?_, ?_, send_goaway_ne_IDLE _ _ _, tr.closed_with_error, tr.close_pending⟩
    · intro hs
      exact send_goaway_final_new t _ true hg hs
    · intro hs
      exact send_goaway_final_swallowed t _ true hg hs
  · intro hm
    have hu : benign_reclaimer_locked t .OkStatus
        = { t with benign_reclaimer_registered := false } := by
      unfold benign_reclaimer_locked
      rw [if_neg (by
        intro h
        apply hm
        have := h.2
        cases hx : t.stream_map
        · rfl
        · rw [hx] at this; cases this)]
    rw [hu]
    exact ⟨rfl, rfl, rfl⟩

/-- Witness of C29: the benign reclaimer runs on an idle client without
streams. -/
theorem C29_benign_reclaimer_witness :
    idle_client.stream_map = []
      ∧ idle_client.sent_goaway_state = .NO_GOAWAY_SEND
      ∧ (benign_reclaimer_locked idle_client .OkStatus).sent_goaway_state
          = .FINAL_GOAWAY_SEND_SCHEDULED
      ∧ (benign_reclaimer_locked idle_client .OkStatus).qbuf
          = idle_client.qbuf ++ [.goaway 0 11 "Buffers full"]
      ∧ (benign_reclaimer_locked idle_client .OkStatus).write_state ≠ .IDLE
      ∧ (benign_reclaimer_locked idle_client .OkStatus).closed_with_error.ok = true := by
  have hm : idle_client.stream_map = [] := by decide!
  have hs : idle_client.sent_goaway_state = .NO_GOAWAY_SEND := by decide!
  have c := (C29_benign_reclaimer idle_client).1 hm
  have a := c.1 (Or.inl hs)
  refine ⟨hm, hs, a.1, ?_, c.2.2.1, ?_⟩
  · rw [a.2]
    decide!
  · rw [c.2.2.2.1]
    decide!

/-! ## C30: the published slots of a stream whose reads are closed -/

theorem published_iff (st : grpc_chttp2_stream) :
    st.published ↔
      (st.published_metadata_0 = .PUBLISHED_FROM_WIRE
          ∨ st.published_metadata_0 = .SYNTHESIZED_FROM_FAKE
          ∨ st.published_metadata_0 = .PUBLISHED_AT_CLOSE)
        ∧ (st.published_metadata_1 = .PUBLISHED_FROM_WIRE
          ∨ st.published_metadata_1 = .SYNTHESIZED_FROM_FAKE
          ∨ st.published_metadata_1 = .PUBLISHED_AT_CLOSE) := by
  unfold grpc_chttp2_stream.published
  cases st.published_metadata_0 <;> cases st.published_metadata_1 <;> simp

/-- The scoped lambda of `grpc_chttp2_maybe_complete_recv_message` on a stream
whose reads are closed and whose `frame_storage` is empty: it reaches the
completion decision with no message. -/
theorem recv_message_drain_read_closed (x : T) (s : Nat)
    (hc : (x.streams s).read_closed = true) (hf : (x.streams s).frame_storage = 0) :
    ∃ st, recv_message_drain x s = (set_stream x s st, true, .OkStatus)
      ∧ st.recv_message_has_value = false
      ∧ st.published_metadata_1 = (x.streams s).published_metadata_1 := by
  unfold recv_message_drain
  simp only
  split
  · exact ⟨_, rfl, rfl, rfl⟩
  · rw [if_neg (show ¬ ((x.streams s).frame_storage ≠ 0) from by rw [hf]; simp)]
    exact ⟨_, rfl, rfl, rfl⟩

/-- With the second slot published, a closure latched on a stream whose reads
are closed is scheduled, not left latched. -/
theorem maybe_complete_recv_message_read_closed (x : T) (s c : Nat)
    (hc : (x.streams s).read_closed = true)
    (hl : (x.streams s).recv_message_ready = some c)
    (hf : (x.streams s).frame_storage = 0)
    (hp : (x.streams s).published_metadata_1 ≠ .NOT_PUBLISHED) :
    (grpc_chttp2_maybe_complete_recv_message x s).exec_ctx
        = x.exec_ctx ++ [(Closure.app c, Status.OkStatus)]
      ∧ ((grpc_chttp2_maybe_complete_recv_message x s).streams s).recv_message_ready = none
      ∧ ((grpc_chttp2_maybe_complete_recv_message x s).streams s).recv_message_has_value
          = false := by
  obtain ⟨st, hd, h1, h2⟩ := recv_message_drain_read_closed x s hc hf
  unfold grpc_chttp2_maybe_complete_recv_message
  rw [hl]
  simp only
  rw [(act_on_flowctl_action_frame _ _ _).1, (act_on_flowctl_action_frame _ _ _).2, hd]
  simp only [set_stream_streams_same, if_true]
  rw [if_neg (by rw [h1]; simp), if_pos (by rw [h2]; exact hp)]
  refine ⟨rfl, ?_, ?_⟩
  · show ((set_stream _ s _).streams s).recv_message_ready = none
    rw [set_stream_streams_same]
  · show ((set_stream _ s _).streams s).recv_message_has_value = false
    rw [set_stream_streams_same]
    split
    · exact h1
    · exact h1

/-- C30: on a reachable state `t`, (1) every stream object whose reads are
closed has both slots of `published_metadata` at PUBLISHED_FROM_WIRE,
SYNTHESIZED_FROM_FAKE or PUBLISHED_AT_CLOSE; (2) whenever
`grpc_chttp2_mark_stream_closed` returns with `read_closed` set on its stream,
both slots of that stream are at one of these three values, and the invariant
holds on the state it returns; (3) no handler resets a slot of a stream object
to NOT_PUBLISHED; (4) consequently `grpc_chttp2_maybe_complete_recv_message`,
called on a stream whose reads are closed with a closure latched as
`recv_message_ready` and `frame_storage` empty (the latch being written on the
stream as `perform_stream_op_locked` does, keeping the slots), schedules the
closure with OK, clears the latch and leaves the message slot without a
value. -/
theorem C30_published_at_read_close (fuel : Nat) (ca : ChannelArgs) (ic : Bool) (t : T)
    (h : Reachable fuel ca ic t) :
    (∀ r, r < t.streams_allocated → (t.streams r).read_closed = true →
      ((t.streams r).published_metadata_0 = .PUBLISHED_FROM_WIRE
          ∨ (t.streams r).published_metadata_0 = .SYNTHESIZED_FROM_FAKE
          ∨ (t.streams r).published_metadata_0 = .PUBLISHED_AT_CLOSE)
        ∧ ((t.streams r).published_metadata_1 = .PUBLISHED_FROM_WIRE
          ∨ (t.streams r).published_metadata_1 = .SYNTHESIZED_FROM_FAKE
          ∨ (t.streams r).published_metadata_1 = .PUBLISHED_AT_CLOSE))
    ∧ (∀ s cr cw e t1, s < t.streams_allocated →
        grpc_chttp2_mark_stream_closed (remove_stream_fuel fuel) t s cr cw e = some t1 →
        PubInv t1
          ∧ ((t1.streams s).read_closed = true →
            ((t1.streams s).published_metadata_0 = .PUBLISHED_FROM_WIRE
                ∨ (t1.streams s).published_metadata_0 = .SYNTHESIZED_FROM_FAKE
                ∨ (t1.streams s).published_metadata_0 = .PUBLISHED_AT_CLOSE)
              ∧ ((t1.streams s).published_metadata_1 = .PUBLISHED_FROM_WIRE
                ∨ (t1.streams s).published_metadata_1 = .SYNTHESIZED_FROM_FAKE
                ∨ (t1.streams s).published_metadata_1 = .PUBLISHED_AT_CLOSE)))
    ∧ (∀ op t1, step fuel op t = some t1 → ∀ r, r < t.streams_allocated →
        ((t.streams r).published_metadata_0 ≠ .NOT_PUBLISHED →
          (t1.streams r).published_metadata_0 ≠ .NOT_PUBLISHED)
        ∧ ((t.streams r).published_metadata_1 ≠ .NOT_PUBLISHED →
          (t1.streams r).published_metadata_1 ≠ .NOT_PUBLISHED))
    ∧ (∀ s c st, s < t.streams_allocated → (t.streams s).read_closed = true →
        st.read_closed = true → st.frame_storage = 0 → st.recv_message_ready = some c →
        st.published_metadata_1 = (t.streams s).published_metadata_1 →
        (grpc_chttp2_maybe_complete_recv_message (set_stream t s st) s).exec_ctx
            = t.exec_ctx ++ [(Closure.app c, Status.OkStatus)]
          ∧ ((grpc_chttp2_maybe_complete_recv_message (set_stream t s st) s).streams s
              ).recv_message_ready = none
          ∧ ((grpc_chttp2_maybe_complete_recv_message (set_stream t s st) s).streams s
              ).recv_message_has_value = false) := by
  have hp := reachable_pubinv h
  refine ⟨fun r hr hc => (published_iff _).mp (hp r hr hc), ?_, ?_, ?_⟩
  · intro s cr cw e t1 hs hm
    have k := keepw_of_keepx (keepx_mark_stream_closed (remove_stream_fuel_keep fuel) hm)
    have hp1 := keepw_pubinv k hp
    exact ⟨hp1, fun hc => (published_iff _).mp (hp1 s (k.allocated ▸ hs) hc)⟩
  · intro op t1 hst
    exact (step_pub fuel hst).1
  · intro s c st hs hc h1 h2 h3 h4
    have key := maybe_complete_recv_message_read_closed (set_stream t s st) s c
      (by rw [set_stream_streams_same]; exact h1)
      (by rw [set_stream_streams_same]; exact h3)
      (by rw [set_stream_streams_same]; exact h2)
      (by rw [set_stream_streams_same, h4]; exact (hp s hs hc).2)
    exact key

/-- Witness of C30: on the client whose stream was cancelled before it was
started, the reads of the stream are closed and its first slot is published;
a closure latched afterwards as `recv_message_ready` on the cancelled stream is
scheduled at once and the latch is cleared. -/
theorem C30_published_at_read_close_witness :
    (closed_client_cancelled_stream.streams 0).read_closed = true
      ∧ ((closed_client_cancelled_stream.streams 0).published_metadata_0 = .PUBLISHED_FROM_WIRE
          ∨ (closed_client_cancelled_stream.streams 0).published_metadata_0
              = .SYNTHESIZED_FROM_FAKE
          ∨ (closed_client_cancelled_stream.streams 0).published_metadata_0
              = .PUBLISHED_AT_CLOSE)
      ∧ (grpc_chttp2_maybe_complete_recv_message
          (set_stream closed_client_cancelled_stream 0
            { (closed_client_cancelled_stream.streams 0) with
                recv_message_ready := some 9, recv_message_has_value := true }) 0).exec_ctx
          = closed_client_cancelled_stream.exec_ctx ++ [(Closure.app 9, Status.OkStatus)]
      ∧ ((grpc_chttp2_maybe_complete_recv_message
          (set_stream closed_client_cancelled_stream 0
            { (closed_client_cancelled_stream.streams 0) with
                recv_message_ready := some 9, recv_message_has_value := true }) 0).streams 0
          ).recv_message_ready = none := by
  have c := C30_published_at_read_close 1 {} true closed_client_cancelled_stream
    (reachable_exec_state _ _ Reachable.init)
  have hs : 0 < closed_client_cancelled_stream.streams_allocated := by decide!
  have hc : (closed_client_cancelled_stream.streams 0).read_closed = true := by decide!
  have hf : (closed_client_cancelled_stream.streams 0).frame_storage = 0 := by decide!
  have latch : ∀ st0 : grpc_chttp2_stream, st0.read_closed = true → st0.frame_storage = 0 →
      ({ st0 with recv_message_ready := some 9, recv_message_has_value := true } :
          grpc_chttp2_stream).read_closed = true
        ∧ ({ st0 with recv_message_ready := some 9, recv_message_has_value := true } :
          grpc_chttp2_stream).frame_storage = 0
        ∧ ({ st0 with recv_message_ready := some 9, recv_message_has_value := true } :
          grpc_chttp2_stream).recv_message_ready = some 9
        ∧ ({ st0 with recv_message_ready := some 9, recv_message_has_value := true } :
          grpc_chttp2_stream).published_metadata_1 = st0.published_metadata_1 :=
    fun _ h1 h2 => ⟨h1, h2, rfl, rfl⟩
  have l := latch (closed_client_cancelled_stream.streams 0) hc hf
  have d := c.2.2.2 0 9 _ hs hc l.1 l.2.1 l.2.2.1 l.2.2.2
  exact ⟨hc, (c.1 0 hs hc).1, d.1, d.2.1⟩

/-! ## The close after the final GOAWAY -/

/-- C10, counterexample: a client with no stream scheduled its final GOAWAY and
its write left more to write; `write_action_end_locked` moves the state to
FINAL_GOAWAY_SENT with an empty map, and the close it requests at once is
deferred behind the write that goes on.  Two streams are admitted meanwhile.
At the next transition of the write state to IDLE (the call
`set_write_state(IDLE)`, directly or from `write_action_begin_locked` finding
nothing to write) the pending close is run, but cancelling the first stream
initiates a write, so the close that `remove_stream` requests for the last
stream and the pending close are both deferred again: the transport is not
closed. -/
theorem C10_counterexample :
    goaway_writing_more_client.sent_goaway_state = .FINAL_GOAWAY_SEND_SCHEDULED
      ∧ step 1 (.write_action_end .OkStatus) goaway_writing_more_client
          = some final_sent_writing_client
      ∧ (final_sent_writing_client.sent_goaway_state = .FINAL_GOAWAY_SENT
        ∧ final_sent_writing_client.stream_map = []
        ∧ final_sent_writing_client.close_transport_on_writes_finished.ok = false
        ∧ final_sent_writing_client.closed_with_error.ok = true
        ∧ final_sent_writing_client.write_state = .WRITING)
      ∧ (set_write_state (remove_stream_fuel 1) final_sent_streams_client .IDLE).map
          (fun t => (t.closed_with_error.ok, t.close_transport_on_writes_finished.ok,
            t.write_state, t.sent_goaway_state, t.stream_map.length))
        = some (true, false, .WRITING_WITH_MORE, .FINAL_GOAWAY_SENT, 0)
      ∧ (step 1 (.write_action_begin false false) final_sent_streams_client).map
          (fun t => (t.closed_with_error.ok, t.close_transport_on_writes_finished.ok,
            t.write_state, t.sent_goaway_state, t.stream_map.length))
        = some (true, false, .WRITING_WITH_MORE, .FINAL_GOAWAY_SENT, 0) :=
  ⟨by decide!, step_eq_exec_state (by decide!), by decide!, by decide!, by decide!⟩

/-- C10, amended: in every reachable state in which `sent_goaway_state` is
FINAL_GOAWAY_SENT and the stream map is empty, (1) the transport is closed
whenever `write_state` is IDLE; (2) a close was requested: the transport is
closed, or the close is recorded in `close_transport_on_writes_finished` behind
the write in progress; the states after `write_action_end_locked` moved to
FINAL_GOAWAY_SENT with an empty map, and after `remove_stream` emptied the map,
are such reachable states; (3) with no stream waiting either, the transition of
the write state to IDLE (the call `set_write_state(IDLE)`) returns and leaves the
transport closed and idle; (4) after any handler the state is still
FINAL_GOAWAY_SENT, and as long as the map is still empty then, (1) and (2) hold
again: the close has taken effect as soon as the write state is IDLE with the
map empty. -/
theorem C10_final_goaway_sent_closes (fuel : Nat) (ca : ChannelArgs) (ic : Bool) (t : T)
    (h : Reachable fuel ca ic t) (hs : t.sent_goaway_state = .FINAL_GOAWAY_SENT)
    (hm : t.stream_map = []) :
    (t.write_state = .IDLE → t.closed_with_error.ok = false)
      ∧ (t.closed_with_error.ok = false
        ∨ (t.close_transport_on_writes_finished.ok = false ∧ t.write_state ≠ .IDLE))
      ∧ (t.waiting_for_concurrency = [] → ∀ n, ∃ t1,
          set_write_state (remove_stream_fuel n) t .IDLE = some t1
            ∧ t1.write_state = .IDLE ∧ t1.closed_with_error.ok = false)
      ∧ (∀ op t1, step fuel op t = some t1 →
          t1.sent_goaway_state = .FINAL_GOAWAY_SENT
            ∧ (t1.stream_map = [] →
              (t1.write_state = .IDLE → t1.closed_with_error.ok = false)
                ∧ (t1.closed_with_error.ok = false
                  ∨ (t1.close_transport_on_writes_finished.ok = false
                    ∧ t1.write_state ≠ .IDLE)))) := by
  have key : ∀ x : T, Inv x → x.sent_goaway_state = .FINAL_GOAWAY_SENT → x.stream_map = [] →
      (x.write_state = .IDLE → x.closed_with_error.ok = false)
        ∧ (x.closed_with_error.ok = false
          ∨ (x.close_transport_on_writes_finished.ok = false ∧ x.write_state ≠ .IDLE)) := by
    intro x hi hxs hxm
    have k : x.closed_with_error.ok = false
        ∨ (x.close_transport_on_writes_finished.ok = false ∧ x.write_state ≠ .IDLE) := by
      rcases hi.2 hxs hxm with h1 | h1
      · exact Or.inl h1
      · exact Or.inr ⟨h1, (hi.1.pending h1).1⟩
    refine ⟨fun hidle => ?_, k⟩
    rcases k with h1 | h1
    · exact h1
    · exact absurd hidle h1.2
  have hi := reachable_inv h
  obtain ⟨k1, k2⟩ := key t hi hs hm
  refine ⟨k1, k2, ?_, ?_⟩
  · intro hw n
    by_cases hc : t.closed_with_error.ok = true
    · have hp : t.close_transport_on_writes_finished.ok = false := by
        rcases k2 with h1 | h1
        · rw [hc] at h1; cases h1
        · exact h1.1
      obtain ⟨t1, e1, e2, _, e4, _⟩ :=
        set_write_state_IDLE_closes (remove_stream_fuel n) t hm hw hc hp
      exact ⟨t1, e1, e2, e4⟩
    · have hc2 : t.closed_with_error.ok = false := by simpa using hc
      have hp : t.close_transport_on_writes_finished.ok = true := by
        cases hx : t.close_transport_on_writes_finished.ok with
        | true => rfl
        | false =>
          have := (hi.1.pending hx).2
          rw [hc2] at this
          cases this
      exact ⟨_, set_write_state_IDLE_eq (remove_stream_fuel n) t hp, rfl, hc2⟩
  · intro op t1 hstep
    obtain ⟨i1, r1⟩ := step_inv fuel hi hstep
    have hg := r1.go
    rw [hs] at hg
    have hs1 : t1.sent_goaway_state = .FINAL_GOAWAY_SENT := by
      rcases hg with (hg | hg) | hg
      · exact hg.symm
      · exact absurd hg.1 (by cases t1.sent_goaway_state <;> decide)
      · exact hg.2
    exact ⟨hs1, fun hm1 => key t1 i1 hs1 hm1⟩

/-- C10 amended, at two clients that sent their final GOAWAY with no stream:
the one that is idle is closed; on the one whose write goes on the close is
pending, and the transition of the write state to IDLE closes the transport. -/
theorem C10_final_goaway_sent_closes_witness :
    (goaway_sent_client.sent_goaway_state = .FINAL_GOAWAY_SENT
        ∧ goaway_sent_client.stream_map = []
        ∧ goaway_sent_client.write_state = .IDLE
        ∧ goaway_sent_client.closed_with_error.ok = false)
      ∧ final_sent_writing_client.sent_goaway_state = .FINAL_GOAWAY_SENT
      ∧ final_sent_writing_client.stream_map = []
      ∧ final_sent_writing_client.waiting_for_concurrency = []
      ∧ final_sent_writing_client.closed_with_error.ok = true
      ∧ ∃ t1, set_write_state (remove_stream_fuel 1) final_sent_writing_client .IDLE = some t1
          ∧ t1.write_state = .IDLE ∧ t1.closed_with_error.ok = false :=
  ⟨⟨by decide!, by decide!, by decide!,
      (C10_final_goaway_sent_closes 1 {} true goaway_sent_client
        (reachable_exec_state _ _ Reachable.init) (by decide!) (by decide!)).1 (by decide!)⟩,
    by decide!, by decide!, by decide!, by decide!,
    (C10_final_goaway_sent_closes 1 {} true final_sent_writing_client
      (reachable_exec_state _ _ (reachable_exec_state _ _ Reachable.init))
      (by decide!) (by decide!)).2.2.1 (by decide!) 1⟩

end Chttp2
